import Mathlib

/-!
SIndex: site index, height and age conversions.

A shallow embedding of the numeric core of the SIndex library (`age2age.c`,
`si2ht.c`, `siy2bh.c`, `si2age.c`, `fizcheck.c` and the curve enumeration of
`sindxdll.c`) together with theorems about it.

Conventions of the embedding:

* `double` values are elements of an arbitrary linearly ordered field `α` with a
  floor function (for instance `ℚ` or `ℝ`): arithmetic is exact, rounding error,
  infinities and NaN are not represented.
* `short int` arguments (curve index, age type) are integers `ℤ`.
* The C math library (`exp`, `log`, `pow`, `sqrt`) is a parameter, the structure
  `Extern`; theorems hold for every implementation of it unless they name the
  real-number instance `Extern.real`.
* Run-time recursion and `do ... while (1)` loops consume fuel: a function that
  recurses or loops takes a `fuel : ℕ` and returns `none` when the fuel is
  exhausted, `some v` when the C function returns `v`.
* Where a statement holds in exact arithmetic only, the part "Rounded arithmetic"
  gives the code concerned a second time with every literal and operation rounded
  (`binary64`: IEEE 754 double precision, round to nearest, ties to even), and a
  theorem shows the difference.
-/

namespace SIndex

/-! ## Constants of `sindex.h` -/

section Constants

variable {α : Type} [LinearOrderedField α]

/-- Age type: total age. -/
@[simp] def SI_AT_TOTAL : ℤ := 0
/-- Age type: breast-height age. -/
@[simp] def SI_AT_BREAST : ℤ := 1

/-- Site index estimation type: iterate. -/
@[simp] def SI_EST_ITERATE : ℤ := 0
/-- Site index estimation type: direct. -/
@[simp] def SI_EST_DIRECT : ℤ := 1

/-- Error code, returned in place of a height, age or site index. -/
def SI_ERR_LT13 : α := -1
def SI_ERR_GI_MIN : α := -2
def SI_ERR_GI_MAX : α := -3
def SI_ERR_NO_ANS : α := -4
def SI_ERR_CURVE : α := -5
def SI_ERR_CLASS : α := -6
def SI_ERR_FIZ : α := -7
def SI_ERR_CODE : α := -8
def SI_ERR_GI_TOT : α := -9
def SI_ERR_SPEC : α := -10
def SI_ERR_AGE_TYPE : α := -11
def SI_ERR_ESTAB : α := -12

end Constants

/-! ### Curve indices -/

@[simp] def SI_ACB_HUANGAC : ℤ := 97
@[simp] def SI_ACB_HUANG : ℤ := 0
@[simp] def SI_ACT_THROWERAC : ℤ := 103
@[simp] def SI_ACT_THROWER : ℤ := 1
@[simp] def SI_AT_CHEN : ℤ := 74
@[simp] def SI_AT_CIESZEWSKI : ℤ := 3
@[simp] def SI_AT_GOUDIE : ℤ := 4
@[simp] def SI_AT_HUANG : ℤ := 2
@[simp] def SI_AT_NIGH : ℤ := 92
@[simp] def SI_BA_DILUCCA : ℤ := 5
@[simp] def SI_BA_KURUCZ82AC : ℤ := 102
@[simp] def SI_BA_KURUCZ82 : ℤ := 8
@[simp] def SI_BA_KURUCZ86 : ℤ := 7
@[simp] def SI_BA_NIGHGI : ℤ := 117
@[simp] def SI_BA_NIGH : ℤ := 118
@[simp] def SI_BL_CHENAC : ℤ := 93
@[simp] def SI_BL_CHEN : ℤ := 73
@[simp] def SI_BL_KURUCZ82 : ℤ := 10
@[simp] def SI_BL_THROWERGI : ℤ := 9
@[simp] def SI_BP_CURTISAC : ℤ := 94
@[simp] def SI_BP_CURTIS : ℤ := 78
@[simp] def SI_CWC_BARKER : ℤ := 12
@[simp] def SI_CWC_KURUCZAC : ℤ := 101
@[simp] def SI_CWC_KURUCZ : ℤ := 11
@[simp] def SI_CWC_NIGH : ℤ := 122
@[simp] def SI_CWI_NIGH : ℤ := 77
@[simp] def SI_CWI_NIGHGI : ℤ := 84
@[simp] def SI_DR_HARRING : ℤ := 14
@[simp] def SI_DR_NIGH : ℤ := 13
@[simp] def SI_EP_NIGH : ℤ := 116
@[simp] def SI_FDC_BRUCEAC : ℤ := 100
@[simp] def SI_FDC_BRUCE : ℤ := 16
@[simp] def SI_FDC_BRUCENIGH : ℤ := 89
@[simp] def SI_FDC_COCHRAN : ℤ := 17
@[simp] def SI_FDC_KING : ℤ := 18
@[simp] def SI_FDC_NIGHGI : ℤ := 15
@[simp] def SI_FDC_NIGHTA : ℤ := 88
@[simp] def SI_FDI_HUANG_NAT : ℤ := 21
@[simp] def SI_FDI_HUANG_PLA : ℤ := 20
@[simp] def SI_FDI_MILNER : ℤ := 22
@[simp] def SI_FDI_MONS_DF : ℤ := 26
@[simp] def SI_FDI_MONS_GF : ℤ := 27
@[simp] def SI_FDI_MONS_SAF : ℤ := 30
@[simp] def SI_FDI_MONS_WH : ℤ := 29
@[simp] def SI_FDI_MONS_WRC : ℤ := 28
@[simp] def SI_FDI_NIGHGI : ℤ := 19
@[simp] def SI_FDI_THROWERAC : ℤ := 96
@[simp] def SI_FDI_THROWER : ℤ := 23
@[simp] def SI_FDI_VDP_MONT : ℤ := 24
@[simp] def SI_FDI_VDP_WASH : ℤ := 25
@[simp] def SI_HM_MEANSAC : ℤ := 95
@[simp] def SI_HM_MEANS : ℤ := 86
@[simp] def SI_HWC_BARKER : ℤ := 33
@[simp] def SI_HWC_FARR : ℤ := 32
@[simp] def SI_HWC_NIGHGI : ℤ := 31
@[simp] def SI_HWC_NIGHGI99 : ℤ := 79
@[simp] def SI_HWC_WILEYAC : ℤ := 99
@[simp] def SI_HWC_WILEY : ℤ := 34
@[simp] def SI_HWC_WILEY_BC : ℤ := 35
@[simp] def SI_HWC_WILEY_MB : ℤ := 36
@[simp] def SI_HWI_NIGH : ℤ := 37
@[simp] def SI_HWI_NIGHGI : ℤ := 38
@[simp] def SI_LW_MILNER : ℤ := 39
@[simp] def SI_LW_NIGH : ℤ := 90
@[simp] def SI_LW_NIGHGI : ℤ := 82
@[simp] def SI_PJ_HUANG : ℤ := 113
@[simp] def SI_PJ_HUANGAC : ℤ := 114
@[simp] def SI_PLI_CIESZEWSKI : ℤ := 47
@[simp] def SI_PLI_DEMPSTER : ℤ := 50
@[simp] def SI_PLI_GOUDIE_DRY : ℤ := 48
@[simp] def SI_PLI_GOUDIE_WET : ℤ := 49
@[simp] def SI_PLI_HUANG_NAT : ℤ := 44
@[simp] def SI_PLI_HUANG_PLA : ℤ := 43
@[simp] def SI_PLI_MILNER : ℤ := 46
@[simp] def SI_PLI_NIGH : ℤ := 123
@[simp] def SI_PLI_NIGHGI97 : ℤ := 42
@[simp] def SI_PLI_NIGHTA98 : ℤ := 41
@[simp] def SI_PLI_THROWER : ℤ := 45
@[simp] def SI_PLI_THROWNIGH : ℤ := 40
@[simp] def SI_PL_CHEN : ℤ := 76
@[simp] def SI_PW_CURTISAC : ℤ := 98
@[simp] def SI_PW_CURTIS : ℤ := 51
@[simp] def SI_PY_HANNAC : ℤ := 104
@[simp] def SI_PY_HANN : ℤ := 53
@[simp] def SI_PY_MILNER : ℤ := 52
@[simp] def SI_PY_NIGH : ℤ := 107
@[simp] def SI_PY_NIGHGI : ℤ := 108
@[simp] def SI_SB_CIESZEWSKI : ℤ := 55
@[simp] def SI_SB_DEMPSTER : ℤ := 57
@[simp] def SI_SB_HUANG : ℤ := 54
@[simp] def SI_SB_KER : ℤ := 56
@[simp] def SI_SB_NIGH : ℤ := 91
@[simp] def SI_SE_CHENAC : ℤ := 105
@[simp] def SI_SE_CHEN : ℤ := 87
@[simp] def SI_SE_NIGHGI : ℤ := 120
@[simp] def SI_SE_NIGH : ℤ := 121
@[simp] def SI_SS_BARKER : ℤ := 62
@[simp] def SI_SS_FARR : ℤ := 61
@[simp] def SI_SS_GOUDIE : ℤ := 60
@[simp] def SI_SS_NIGH : ℤ := 59
@[simp] def SI_SS_NIGHGI : ℤ := 58
@[simp] def SI_SS_NIGHGI99 : ℤ := 80
@[simp] def SI_SW_CIESZEWSKI : ℤ := 67
@[simp] def SI_SW_DEMPSTER : ℤ := 72
@[simp] def SI_SW_GOUDIE_NAT : ℤ := 71
@[simp] def SI_SW_GOUDIE_NATAC : ℤ := 106
@[simp] def SI_SW_GOUDIE_PLA : ℤ := 70
@[simp] def SI_SW_GOUDIE_PLAAC : ℤ := 112
@[simp] def SI_SW_GOUDNIGH : ℤ := 85
@[simp] def SI_SW_HU_GARCIA : ℤ := 119
@[simp] def SI_SW_HUANG_NAT : ℤ := 65
@[simp] def SI_SW_HUANG_PLA : ℤ := 64
@[simp] def SI_SW_KER_NAT : ℤ := 69
@[simp] def SI_SW_KER_PLA : ℤ := 68
@[simp] def SI_SW_NIGHGI : ℤ := 63
@[simp] def SI_SW_NIGHGI99 : ℤ := 81
@[simp] def SI_SW_NIGHGI2004 : ℤ := 115
@[simp] def SI_SW_NIGHTA : ℤ := 83
@[simp] def SI_SW_THROWER : ℤ := 66
@[simp] def SI_BB_KER : ℤ := 6
@[simp] def SI_DR_CHEN : ℤ := 75
@[simp] def SI_PLI_NIGHTA2004 : ℤ := 109
@[simp] def SI_SE_NIGHTA : ℤ := 110
@[simp] def SI_SW_NIGHTA2004 : ℤ := 111

/-! ## `age2age.c` -/

section AgeToAge

variable {α : Type} [LinearOrderedField α]

/-- The function `age_to_age` of `age2age.c`: converts an age of type `age1_type`
into an age of type `age2_type`.  The first branch is the list of `case` labels
of the `switch`, the second one its `default:`; both `break` to the final
`return SI_ERR_AGE_TYPE`. -/
def age_to_age (cu_index : ℤ) (age1 : α) (age1_type age2_type : ℤ) (y2bh : α) : α :=
  if cu_index = SI_ACB_HUANGAC ∨
     cu_index = SI_ACT_THROWERAC ∨
     cu_index = SI_AT_NIGH ∨
     cu_index = SI_BA_KURUCZ82AC ∨
     cu_index = SI_BA_NIGH ∨
     cu_index = SI_BL_CHENAC ∨
     cu_index = SI_BP_CURTISAC ∨
     cu_index = SI_CWC_KURUCZAC ∨
     cu_index = SI_CWI_NIGH ∨
     cu_index = SI_DR_NIGH ∨
     cu_index = SI_EP_NIGH ∨
     cu_index = SI_FDC_BRUCENIGH ∨
     cu_index = SI_FDC_BRUCEAC ∨
     cu_index = SI_FDC_NIGHTA ∨
     cu_index = SI_FDI_THROWERAC ∨
     cu_index = SI_HM_MEANSAC ∨
     cu_index = SI_HWC_WILEYAC ∨
     cu_index = SI_HWI_NIGH ∨
     cu_index = SI_LW_NIGH ∨
     cu_index = SI_PJ_HUANG ∨
     cu_index = SI_PJ_HUANGAC ∨
     cu_index = SI_PLI_NIGHTA2004 ∨
     cu_index = SI_PLI_NIGHTA98 ∨
     cu_index = SI_PLI_THROWNIGH ∨
     cu_index = SI_PLI_THROWER ∨
     cu_index = SI_PW_CURTISAC ∨
     cu_index = SI_PY_HANNAC ∨
     cu_index = SI_PY_NIGH ∨
     cu_index = SI_SB_NIGH ∨
     cu_index = SI_SE_CHENAC ∨
     cu_index = SI_SE_NIGHTA ∨
     cu_index = SI_SW_GOUDIE_NATAC ∨
     cu_index = SI_SW_GOUDIE_PLAAC ∨
     cu_index = SI_SW_GOUDNIGH ∨
     cu_index = SI_SW_NIGHTA2004 ∨
     cu_index = SI_SW_NIGHTA ∨
     cu_index = SI_SS_NIGH then
    if age1_type = SI_AT_BREAST then
      if age2_type = SI_AT_TOTAL then
        -- convert to total age
        let rvalue := age1 + y2bh - 0.5
        if rvalue < 0 then 0 else rvalue
      else SI_ERR_AGE_TYPE
    else if age1_type = SI_AT_TOTAL then
      if age2_type = SI_AT_BREAST then
        -- convert to breast-height age
        let rvalue := age1 - y2bh + 0.5
        if rvalue < 0 then 0 else rvalue
      else SI_ERR_AGE_TYPE
    else SI_ERR_AGE_TYPE
  else
    if age1_type = SI_AT_BREAST then
      if age2_type = SI_AT_TOTAL then
        -- convert to total age
        let rvalue := age1 + y2bh
        if rvalue < 0 then 0 else rvalue
      else SI_ERR_AGE_TYPE
    else if age1_type = SI_AT_TOTAL then
      if age2_type = SI_AT_BREAST then
        -- convert to breast-height age
        let rvalue := age1 - y2bh
        if rvalue < 0 then 0 else rvalue
      else SI_ERR_AGE_TYPE
    else SI_ERR_AGE_TYPE

/-- Reference list for the specification of the age-type converter: the curve
families whose fitted origin is offset by half a year (`SI_ACB_HUANGAC` ...
`SI_SS_NIGH`). -/
def half_year_offset_curves : List ℤ :=
  [SI_ACB_HUANGAC, SI_ACT_THROWERAC, SI_AT_NIGH, SI_BA_KURUCZ82AC,
   SI_BA_NIGH, SI_BL_CHENAC, SI_BP_CURTISAC, SI_CWC_KURUCZAC,
   SI_CWI_NIGH, SI_DR_NIGH, SI_EP_NIGH, SI_FDC_BRUCENIGH,
   SI_FDC_BRUCEAC, SI_FDC_NIGHTA, SI_FDI_THROWERAC, SI_HM_MEANSAC,
   SI_HWC_WILEYAC, SI_HWI_NIGH, SI_LW_NIGH, SI_PJ_HUANG,
   SI_PJ_HUANGAC, SI_PLI_NIGHTA2004, SI_PLI_NIGHTA98, SI_PLI_THROWNIGH,
   SI_PLI_THROWER, SI_PW_CURTISAC, SI_PY_HANNAC, SI_PY_NIGH,
   SI_SB_NIGH, SI_SE_CHENAC, SI_SE_NIGHTA, SI_SW_GOUDIE_NATAC,
   SI_SW_GOUDIE_PLAAC, SI_SW_GOUDNIGH, SI_SW_NIGHTA2004, SI_SW_NIGHTA,
   SI_SS_NIGH]

/-- Reference offset of the specification: `y2bh - 0.5` for the special-cased
curves, `y2bh` otherwise. -/
def age_offset_ref (cu_index : ℤ) (y2bh : α) : α :=
  if cu_index ∈ half_year_offset_curves then y2bh - 0.5 else y2bh

end AgeToAge

/-! ## `si2ht.c` -/

section IndexToHeight

variable {α : Type} [LinearOrderedField α] [FloorRing α]

/-- Functions that `si2ht.c` calls and that are defined outside the sources at
hand: `exp`, `log`, `pow` and `sqrt` of the C math library, and
`height_to_index` (declared in `sindex.h`, defined in `ht2si.c`).  They are
parameters of the embedding. -/
structure Extern (α : Type) where
  exp : α → α
  log : α → α
  pow : α → α → α
  sqrt : α → α
  height_to_index : ℤ → α → ℤ → α → ℤ → α

/-- The macro `PPOW(x,y)`: `(((x) <= 0.0) ? 0.0 : pow (x, y))`. -/
def PPOW (M : Extern α) (x y : α) : α :=
  if x ≤ 0.0 then 0.0 else M.pow x y

/-- The macro `LLOG(x)`: `(((x) <= 0.0) ? log (.00001) : log (x))`. -/
def LLOG (M : Extern α) (x : α) : α :=
  if x ≤ 0.0 then M.log 0.00001 else M.log x

/-- The conversion `(int) x` of a `double`: the fractional part is discarded
(truncation toward zero).  The C conversion is undefined when the truncated value
is not representable as an `int`; the embedding is the mathematical truncation. -/
def c_int (x : α) : ℤ :=
  if 0 ≤ x then ⌊x⌋ else ⌈x⌉

/-- The function `hu_garcia_h` of `si2ht.c`. -/
def hu_garcia_h (M : Extern α) (q bhage : α) : α :=
  let a := 283.9 * M.pow q 0.5137
  let height := a * M.pow (1 - (1 - M.pow (1.3 / a) 0.5829) * M.exp (-q * (bhage - 0.5))) 1.71556
  height

/-- One run of the `do ... while (1)` loop of `hu_garcia_q`, started with the
values `q`, `step` and `diff` of the locals (`lastdiff` is overwritten before it
is read); each iteration takes one unit of fuel. -/
def hu_garcia_q_loop (M : Extern α) (site_index bhage : α) : ℕ → α → α → α → Option α
  | 0, _, _, _ => none
  | fuel + 1, q, step, diff =>
    let h := hu_garcia_h M q bhage
    let lastdiff := diff
    let diff := site_index - h
    if diff > 0.0000001 then
      let step := if lastdiff < 0 then step / 2.0 else step
      let q := q + step
      if step < 0.0000001 then some q
      else hu_garcia_q_loop M site_index bhage fuel q step diff
    else if diff < -0.0000001 then
      let step := if lastdiff > 0 then step / 2.0 else step
      let q := q - step
      let q := if q ≤ 0 then 0.0000001 else q
      if step < 0.0000001 then some q
      else hu_garcia_q_loop M site_index bhage fuel q step diff
    else some q

/-- The function `hu_garcia_q` of `si2ht.c`: `q = 0.02`, `step = 0.01`,
`lastdiff = 0`, `diff = 0`, then the loop. -/
def hu_garcia_q (M : Extern α) (fuel : ℕ) (site_index bhage : α) : Option α :=
  hu_garcia_q_loop M site_index bhage fuel 0.02 0.01 0

/-- One run of the `do ... while (1)` loop of `gi_si2ht`, started with the values
`si2ht` and `step` of the locals; each iteration takes one unit of fuel. -/
def gi_si2ht_loop (M : Extern α) (cu_index : ℤ) (age site_index : α) : ℕ → α → α → Option α
  | 0, _, _ => none
  | fuel + 1, si2ht, step =>
    let test_site := M.height_to_index cu_index age SI_AT_BREAST si2ht SI_EST_DIRECT
    if test_site < 0 then
      -- error
      some test_site
    else if test_site - site_index > 0.01 ∨ test_site - site_index < -0.01 then
      -- not close enough
      let step :=
        if test_site > site_index then
          if step > 0 then (-step) / 2.0 else step
        else
          if step < 0 then (-step) / 2.0 else step
      let si2ht := si2ht + step
      -- check for lack of convergence, so we're not here forever
      if step < 0.00001 ∧ step > -0.00001 then
        -- we have a value, but perhaps not too accurate
        some si2ht
      else if si2ht > 999.0 then some SI_ERR_NO_ANS
      else if si2ht < 1.3 then
        -- site index must be at least 1.3
        let si2ht := if step > 0 then si2ht + step else si2ht - step
        let step := step / 2.0
        gi_si2ht_loop M cu_index age site_index fuel si2ht step
      else gi_si2ht_loop M cu_index age site_index fuel si2ht step
    else
      -- done
      some si2ht

/-- The function `gi_si2ht` of `si2ht.c`. -/
def gi_si2ht (M : Extern α) (fuel : ℕ) (cu_index : ℤ) (age site_index : α) : Option α :=
  -- breast height age must be at least 1/2 a year
  if age < 0.5 then some SI_ERR_GI_MIN
  else
    -- initial guess
    let si2ht := site_index
    let si2ht := if si2ht < 1.3 then 1.3 else si2ht
    let step := si2ht / 2
    gi_si2ht_loop M cu_index age site_index fuel si2ht step

/-! ### The arms of the `switch (cu_index)` of `index_to_height`

One definition per `case` block, in the order of the source.  Local variables are
rebound by `let` at each assignment.  An arm that calls `index_to_height` again
takes the recursive call as `self` and returns an `Option`. -/

/-- Arm `case SI_FDC_COCHRAN:` of the `switch` of `index_to_height` (si2ht.c line 252). -/
def si2ht_FDC_COCHRAN (M : Extern α) (tage bhage site_index y2bh : α) : α :=
  if bhage > 0.0 then
    let site_index := site_index / 0.3048
    let x1 := M.log bhage
    let x1 := M.exp (-0.37496 + 1.36164 * x1 - 0.00243434 * PPOW M x1 4)
    let x2 := -0.2828 + 1.87947 * PPOW M (1 - M.exp (-0.022399 * bhage)) 0.966998
    let height := 4.5 + x1 - x2 * (79.97 - (site_index - 4.5))
    height * 0.3048
  else
    tage * tage * 1.37 / y2bh / y2bh

/-- Arm `case SI_FDC_KING:` of the `switch` of `index_to_height` (si2ht.c line 273). -/
def si2ht_FDC_KING (tage bhage site_index y2bh : α) : α :=
  if bhage > 0.0 then
    let site_index := site_index / 0.3048
    let x1 := 2500 / (site_index - 4.5)
    let x2 := -0.954038 + 0.109757 * x1
    let x3 := 0.0558178 + 0.00792236 * x1
    let x4 := -0.000733819 + 0.000197693 * x1
    let height := 4.5 + bhage * bhage / (x2 + x3 * bhage + x4 * bhage * bhage)
    let height :=
      if bhage < 5 then
        height + (0.22 * bhage)
      else
        height
    let height :=
      if bhage >= 5 ∧ bhage < 10 then
        height + (2.2 - 0.22 * bhage)
      else
        height
    height * 0.3048
  else
    tage * tage * 1.37 / y2bh / y2bh

/-- Arm `case SI_HWC_FARR:` of the `switch` of `index_to_height` (si2ht.c line 302). -/
def si2ht_HWC_FARR (M : Extern α) (tage bhage site_index y2bh : α) : α :=
  if bhage > 0.0 then
    let site_index := site_index / 0.3048
    let x1 := M.log bhage
    let x2 := 0.3621734 + 1.149181 * x1 - 0.005617852 * PPOW M x1 3.0 - 7.267547e-6 * PPOW M x1 7.0 + 1.708195e-16 * PPOW M x1 22.0 - 2.482794e-22 * PPOW M x1 30.0
    let x3 := -2.146617 - 0.109007 * x1 + 0.0994030 * PPOW M x1 3.0 - 0.003853396 * PPOW M x1 5.0 + 1.193933e-8 * PPOW M x1 12.0 - 9.486544e-20 * PPOW M x1 27.0 + 1.431925e-26 * PPOW M x1 36.0
    let height := 4.5 + M.exp x2 - M.exp x3 * (83.20 - (site_index - 4.5))
    height * 0.3048
  else
    tage * tage * 1.37 / y2bh / y2bh

/-- Arm `case SI_HWC_BARKER:` of the `switch` of `index_to_height` (si2ht.c line 336). -/
def si2ht_HWC_BARKER (M : Extern α) (tage site_index : α) : α :=
  let si50t := -10.45 + 1.30049 * site_index - 0.0022 * site_index * site_index
  M.exp 4.35753 * PPOW M (si50t / M.exp 4.35753) (PPOW M (50.0 / tage) 0.756313)

/-- Arm `case SI_HM_MEANS:` of the `switch` of `index_to_height` (si2ht.c line 351). -/
def si2ht_HM_MEANS (M : Extern α) (tage bhage site_index y2bh : α) : α :=
  if bhage > 0.0 then
    let site_index := -1.73 + 3.149 * PPOW M site_index 0.8279
    1.37 + (22.87 + 0.9502 * (site_index - 1.37)) * PPOW M (1 - M.exp (-0.0020647 * PPOW M (site_index - 1.37) 0.5 * bhage)) (1.3656 + 2.046 / (site_index - 1.37))
  else
    tage * tage * 1.37 / y2bh / y2bh

/-- Arm `case SI_HM_MEANSAC:` of the `switch` of `index_to_height` (si2ht.c line 367). -/
def si2ht_HM_MEANSAC (M : Extern α) (tage bhage site_index y2bh : α) : α :=
  if bhage > 0.5 then
    let site_index := -1.73 + 3.149 * PPOW M site_index 0.8279
    1.37 + (22.87 + 0.9502 * (site_index - 1.37)) * PPOW M (1 - M.exp (-0.0020647 * PPOW M (site_index - 1.37) 0.5 * (bhage - 0.5))) (1.3656 + 2.046 / (site_index - 1.37))
  else
    tage * tage * 1.37 / y2bh / y2bh

/-- Arm `case SI_HWC_WILEY:`,
`case SI_HWC_WILEY_BC:`,
`case SI_HWC_WILEY_MB:`
of the `switch` of `index_to_height` (si2ht.c line 391). -/
def si2ht_WILEY (self : ℤ → α → ℤ → α → α → α → Option α) (cu_index : ℤ)
    (tage bhage site_index y2bh pi : α) : Option α :=
  if bhage > 0.0 then
    if site_index > 60 + 1.667 * bhage then
      let x1 := (site_index - 60) / 1.667 + 0.1
      (self cu_index x1 SI_AT_BREAST site_index y2bh pi).bind fun x2 =>
      let height := 1.37 + (x2 - 1.37) * bhage / x1
      some height
    else
      let site_index := site_index / 0.3048
      let x1 := 2500 / (site_index - 4.5)
      let x2 := -1.7307 + 0.1394 * x1
      let x3 := -0.0616 + 0.0137 * x1
      let x4 := 0.00192428 + 0.00007024 * x1
      let height := 4.5 + bhage * bhage / (x2 + x3 * bhage + x4 * bhage * bhage)
      let height :=
        if bhage < 5 then
          height + (0.3 * bhage)
        else
          if bhage < 10 then
            height + (3.0 - 0.3 * bhage)
          else
            height
      let height := height * 0.3048
      let height :=
        if cu_index = SI_HWC_WILEY_BC then
          let x1 := -1.34105 + 0.0009 * bhage * height
          if x1 > 0.0 then
            height - x1
          else
            height
        else
          height
      if cu_index = SI_HWC_WILEY_MB then
        let x1 := 0.0972129 + 0.000419315 * bhage * height
        some (height - x1)
      else
        some height
  else
    some (tage * tage * 1.37 / y2bh / y2bh)

/-- Arm `case SI_HWC_WILEYAC:` of the `switch` of `index_to_height` (si2ht.c line 461). -/
def si2ht_HWC_WILEYAC (M : Extern α) (self : ℤ → α → ℤ → α → α → α → Option α)
    (cu_index : ℤ) (tage bhage site_index y2bh pi : α) : Option α :=
  if bhage >= pi then
    if site_index > 60 + 1.667 * (bhage - pi) then
      let x1 := (site_index - 60) / 1.667 + 0.1 + pi
      (self cu_index x1 SI_AT_BREAST site_index y2bh pi).bind fun x2 =>
      let height := 1.37 + (x2 - 1.37) * (bhage - pi) / x1
      some height
    else
      let site_index := site_index / 0.3048
      let x1 := M.pow (49 + (1 - pi)) 2.0 / (site_index - 4.5)
      let x2 := -1.7307 + 0.1394 * x1
      let x3 := -0.0616 + 0.0137 * x1
      let x4 := 0.00195078 + 0.00007446 * x1
      let x5 := bhage - pi
      let height := 4.5 + x5 * x5 / (x2 + x3 * x5 + x4 * x5 * x5)
      let height :=
        if x5 < 5 then
          height + (0.3 * x5)
        else
          if x5 < 10 then
            height + (3.0 - 0.3 * x5)
          else
            height
      some (height * 0.3048)
  else
    some (tage * tage * 1.37 / y2bh / y2bh)

/-- Arm `case SI_BP_CURTIS:` of the `switch` of `index_to_height` (si2ht.c line 500). -/
def si2ht_BP_CURTIS (M : Extern α) (tage bhage site_index y2bh : α) : α :=
  if bhage > 0.0 then
    let site_index := site_index / 0.3048
    let x1 := M.log (site_index - 4.5) + 1.649871 * (M.log bhage - M.log 50.0) + 0.147245 * M.pow (M.log bhage - M.log 50.0) 2.0
    let x2 := 1.0 + 0.164927 * (M.log bhage - M.log 50.0) + 0.052467 * M.pow (M.log bhage - M.log 50.0) 2.0
    let height := 4.5 + M.exp (x1 / x2)
    height * 0.3048
  else
    tage * tage * 1.37 / y2bh / y2bh

/-- Arm `case SI_BP_CURTISAC:` of the `switch` of `index_to_height` (si2ht.c line 521). -/
def si2ht_BP_CURTISAC (M : Extern α) (tage bhage site_index y2bh : α) : α :=
  if bhage > 0.5 then
    let site_index := site_index / 0.3048
    let x1 := M.log (site_index - 4.5) + 1.649871 * (M.log (bhage - 0.5) - M.log 49.5) + 0.147245 * M.pow (M.log (bhage - 0.5) - M.log 49.5) 2.0
    let x2 := 1.0 + 0.164927 * (M.log (bhage - 0.5) - M.log 49.5) + 0.052467 * M.pow (M.log (bhage - 0.5) - M.log 49.5) 2.0
    let height := 4.5 + M.exp (x1 / x2)
    height * 0.3048
  else
    tage * tage * 1.37 / y2bh / y2bh

/-- Arm `case SI_SW_GOUDNIGH:` of the `switch` of `index_to_height` (si2ht.c line 542). -/
def si2ht_SW_GOUDNIGH (M : Extern α) (tage bhage site_index y2bh : α) : α :=
  if site_index < 19.5 then
    if bhage > 0.5 then
      let x1 := (1.0 + M.exp (9.7936 - 1.2866 * LLOG M (site_index - 1.3) - 1.4661 * M.log 49.5)) / (1.0 + M.exp (9.7936 - 1.2866 * LLOG M (site_index - 1.3) - 1.4661 * M.log (bhage - 0.5)))
      1.3 + (site_index - 1.3) * x1
    else
      tage * tage * 1.3 / y2bh / y2bh
  else
    if tage < y2bh - 0.5 then
      (-0.01666 + 0.001722 * site_index) * PPOW M tage 1.858 * PPOW M 0.9982 tage
    else
      if tage > y2bh + 2 - 0.5 then
        let x1 := (1.0 + M.exp (9.7936 - 1.2866 * LLOG M (site_index - 1.3) - 1.4661 * M.log 49.5)) / (1.0 + M.exp (9.7936 - 1.2866 * LLOG M (site_index - 1.3) - 1.4661 * M.log (bhage - 0.5)))
        1.3 + (site_index - 1.3) * x1
      else
        let x4 := (-0.01666 + 0.001722 * site_index) * PPOW M (y2bh - 0.5) 1.858 * PPOW M 0.9982 (y2bh - 0.5)
        let x1 := (1.0 + M.exp (9.7936 - 1.2866 * LLOG M (site_index - 1.3) - 1.4661 * M.log 49.5)) / (1.0 + M.exp (9.7936 - 1.2866 * LLOG M (site_index - 1.3) - 1.4661 * M.log (2 - 0.5)))
        let x5 := 1.3 + (site_index - 1.3) * x1
        x4 + (x5 - x4) * bhage / 2.0

/-- Arm `case SI_PLI_THROWNIGH:` of the `switch` of `index_to_height` (si2ht.c line 595). -/
def si2ht_PLI_THROWNIGH (M : Extern α) (tage bhage site_index y2bh : α) : α :=
  if site_index < 18.5 then
    if bhage > 0.5 then
      let x1 := (1.0 + M.exp (7.6298 - 0.8940 * LLOG M (site_index - 1.3) - 1.3563 * M.log 49.5)) / (1.0 + M.exp (7.6298 - 0.8940 * LLOG M (site_index - 1.3) - 1.3563 * M.log (bhage - 0.5)))
      1.3 + (site_index - 1.3) * x1
    else
      1.3 * M.pow (tage / y2bh) 1.8
  else
    if tage < y2bh - 0.5 then
      (-0.03993 + 0.004828 * site_index) * PPOW M tage 1.902 * PPOW M 0.9645 tage
    else
      if tage > y2bh + 2 - 0.5 then
        let x1 := (1.0 + M.exp (7.6298 - 0.8940 * LLOG M (site_index - 1.3) - 1.3563 * M.log 49.5)) / (1.0 + M.exp (7.6298 - 0.8940 * LLOG M (site_index - 1.3) - 1.3563 * M.log (bhage - 0.5)))
        1.3 + (site_index - 1.3) * x1
      else
        let x4 := (-0.03993 + 0.004828 * site_index) * PPOW M (y2bh - 0.5) 1.902 * PPOW M 0.9645 (y2bh - 0.5)
        let x1 := (1.0 + M.exp (7.6298 - 0.8940 * LLOG M (site_index - 1.3) - 1.3563 * M.log 49.5)) / (1.0 + M.exp (7.6298 - 0.8940 * LLOG M (site_index - 1.3) - 1.3563 * M.log (2 - 0.5)))
        let x5 := 1.3 + (site_index - 1.3) * x1
        x4 + (x5 - x4) * bhage / 2.0

/-- Arm `case SI_PLI_THROWER:` of the `switch` of `index_to_height` (si2ht.c line 649). -/
def si2ht_PLI_THROWER (M : Extern α) (tage bhage site_index y2bh pi : α) : α :=
  if bhage > pi then
    let x1 := (1.0 + M.exp (7.6298 - 0.8940 * LLOG M (site_index - 1.3) - 1.3563 * M.log (50 - pi))) / (1.0 + M.exp (7.6298 - 0.8940 * LLOG M (site_index - 1.3) - 1.3563 * M.log (bhage - pi)))
    1.3 + (site_index - 1.3) * x1
  else
    1.3 * M.pow (tage / y2bh) (1.77 - 0.1028 * y2bh) * M.pow 1.179 (tage - y2bh)

/-- Arm `case SI_PLI_NIGHTA2004:` of the `switch` of `index_to_height` (si2ht.c line 668). -/
def si2ht_PLI_NIGHTA2004 (M : Extern α) (tage y2bh : α) : α :=
  if tage <= 15 then
    1.3 * M.pow (tage / y2bh) (1.77 - 0.1028 * y2bh) * M.pow 1.179 (tage - y2bh)
  else
    SI_ERR_NO_ANS

/-- Arm `case SI_PLI_NIGHTA98:` of the `switch` of `index_to_height` (si2ht.c line 679). -/
def si2ht_PLI_NIGHTA98 (M : Extern α) (tage site_index : α) : α :=
  if tage <= 15 then
    (-0.03993 + 0.004828 * site_index) * PPOW M tage 1.902 * PPOW M 0.9645 tage
  else
    SI_ERR_NO_ANS

/-- Arm `case SI_SW_NIGHTA2004:` of the `switch` of `index_to_height` (si2ht.c line 691). -/
def si2ht_SW_NIGHTA2004 (M : Extern α) (tage y2bh : α) : α :=
  if tage <= 20 then
    1.3 * M.pow (tage / y2bh) (1.628 - 0.05991 * y2bh) * M.pow 1.127 (tage - y2bh)
  else
    SI_ERR_NO_ANS

/-- Arm `case SI_SW_NIGHTA:` of the `switch` of `index_to_height` (si2ht.c line 702). -/
def si2ht_SW_NIGHTA (M : Extern α) (tage site_index : α) : α :=
  if tage <= 20 ∧ site_index >= 14.2 then
    (-0.01666 + 0.001722 * site_index) * PPOW M tage 1.858 * PPOW M 0.9982 tage
  else
    SI_ERR_NO_ANS

/-- Arm `case SI_FDC_NIGHTA:` of the `switch` of `index_to_height` (si2ht.c line 714). -/
def si2ht_FDC_NIGHTA (M : Extern α) (tage site_index : α) : α :=
  if tage <= 25 then
    (-0.002355 + 0.0003156 * site_index) * PPOW M tage 2.861 * PPOW M 0.9337 tage
  else
    SI_ERR_NO_ANS

/-- Arm `case SI_SE_NIGH:` of the `switch` of `index_to_height` (si2ht.c line 726). -/
def si2ht_SE_NIGH (M : Extern α) (tage bhage site_index y2bh : α) : α :=
  if bhage > 0.5 then
    let x1 := 0.5 * ((M.log (site_index - 1.3) - 1.71635) + M.sqrt (M.pow (M.log (site_index - 1.3) - 1.71635) 2.0 + 45.3824))
    1.3 + M.exp x1 * M.pow (1 - M.exp (-0.00955 * (bhage - 0.5))) (-1.758 + 11.6209 / x1)
  else
    tage * tage * 1.3 / y2bh / y2bh

/-- Arm `case SI_SE_NIGHTA:` of the `switch` of `index_to_height` (si2ht.c line 740). -/
def si2ht_SE_NIGHTA (M : Extern α) (tage y2bh : α) : α :=
  if tage <= 20 then
    1.3 * M.pow (tage / y2bh) (1.628 - 0.05991 * y2bh) * M.pow 1.127 (tage - y2bh)
  else
    SI_ERR_NO_ANS

/-- Arm `case SI_FDC_BRUCE:` of the `switch` of `index_to_height` (si2ht.c line 751). -/
def si2ht_FDC_BRUCE (M : Extern α) (tage bhage : α) (age_type : ℤ) (site_index : α) : α :=
  let y2bh := 13.25 - site_index / 6.096
  let x1 := site_index / 30.48
  let x2 := -0.477762 + x1 * (-0.894427 + x1 * (0.793548 - x1 * 0.171666))
  let x3 := PPOW M (50.0 + y2bh) x2
  let x4 := M.log (1.372 / site_index) / (PPOW M y2bh x2 - x3)
  if age_type = SI_AT_TOTAL then
    site_index * M.exp (x4 * (PPOW M tage x2 - x3))
  else
    site_index * M.exp (x4 * (PPOW M (bhage + y2bh) x2 - x3))

/-- Arm `case SI_FDC_BRUCEAC:` of the `switch` of `index_to_height` (si2ht.c line 771). -/
def si2ht_FDC_BRUCEAC (M : Extern α) (tage bhage : α) (age_type : ℤ) (site_index pi : α) : α :=
  let y2bh := 13.25 - site_index / 6.096
  let x1 := site_index / 30.48
  let x2 := -0.477762 + x1 * (-0.894427 + x1 * (0.793548 - x1 * 0.171666))
  let x3 := PPOW M (49 + (1 - pi) + y2bh) x2
  let x4 := M.log (1.372 / site_index) / (PPOW M y2bh x2 - x3)
  if age_type = SI_AT_TOTAL then
    site_index * M.exp (x4 * (PPOW M tage x2 - x3))
  else
    site_index * M.exp (x4 * (PPOW M (bhage + y2bh - pi) x2 - x3))

/-- Arm `case SI_FDC_BRUCENIGH:` of the `switch` of `index_to_height` (si2ht.c line 791). -/
def si2ht_FDC_BRUCENIGH (M : Extern α) (tage site_index : α) : α :=
  let y2bh := 13.25 - site_index / 6.096
  if tage < 50 then
    let x1 := site_index / 30.48
    let x2 := -0.477762 + x1 * (-0.894427 + x1 * (0.793548 - x1 * 0.171666))
    let x3 := PPOW M (50.0 + y2bh - 0.5) x2
    let x4 := M.log (1.372 / site_index) / (PPOW M (y2bh - 0.5) x2 - x3)
    let height := site_index * M.exp (x4 * (PPOW M 50 x2 - x3))
    let x4 := PPOW M (height * PPOW M 50 (-2.037) / (-0.0123 + 0.00158 * site_index)) (1.0 / 50)
    (-0.0123 + 0.00158 * site_index) * PPOW M tage 2.037 * PPOW M x4 tage
  else
    let x1 := site_index / 30.48
    let x2 := -0.477762 + x1 * (-0.894427 + x1 * (0.793548 - x1 * 0.171666))
    let x3 := PPOW M (50.0 + y2bh - 0.5) x2
    let x4 := M.log (1.372 / site_index) / (PPOW M (y2bh - 0.5) x2 - x3)
    site_index * M.exp (x4 * (PPOW M tage x2 - x3))

/-- Arm `case SI_PLI_MILNER:` of the `switch` of `index_to_height` (si2ht.c line 822). -/
def si2ht_PLI_MILNER (M : Extern α) (tage bhage site_index y2bh : α) : α :=
  if bhage > 0.0 then
    let site_index := site_index / 0.3048
    let x1 := 96.93 * PPOW M (1 - M.exp (-0.01955 * bhage)) 1.216
    let x2 := 1.41 * PPOW M (1 - M.exp (-0.02656 * bhage)) 1.297
    let height := 4.5 + x1 + x2 * (site_index - 59.6)
    height * 0.3048
  else
    tage * tage * 1.37 / y2bh / y2bh

/-- Arm `case SI_PLI_CIESZEWSKI:`,
`case SI_SW_CIESZEWSKI:`,
`case SI_SB_CIESZEWSKI:`,
`case SI_AT_CIESZEWSKI:`
of the `switch` of `index_to_height` (si2ht.c line 843). -/
def si2ht_CIESZEWSKI (M : Extern α) (cu_index : ℤ) (tage bhage site_index y2bh : α) : α :=
  if bhage > 0.0 then
    let x1 : α :=
      if cu_index = SI_PLI_CIESZEWSKI then 0.20372424
      else if cu_index = SI_SW_CIESZEWSKI then 0.3235139
      else if cu_index = SI_SB_CIESZEWSKI then 0.1992266
      else if cu_index = SI_AT_CIESZEWSKI then 0.2644606
      else 0
    let x2 : α :=
      if cu_index = SI_PLI_CIESZEWSKI then 97.37473618
      else if cu_index = SI_SW_CIESZEWSKI then 260.9162652
      else if cu_index = SI_SB_CIESZEWSKI then 114.8730018
      else if cu_index = SI_AT_CIESZEWSKI then 117.3695371
      else 0
    let x3 := 20 * x2 / (PPOW M 50.0 (1 + x1))
    let x4 := site_index - 1.3 + M.sqrt ((site_index - 1.3 - x3) * (site_index - 1.3 - x3) + 80 * x2 * (site_index - 1.3) * PPOW M 50.0 (-(1 + x1)))
    1.3 + (x4 + x3) / (2 + 80 * x2 * PPOW M bhage (-(1 + x1)) / (x4 - x3))
  else
    tage * tage * 1.3 / y2bh / y2bh

/-- Arm `case SI_PLI_GOUDIE_WET:`,
`case SI_PLI_GOUDIE_DRY:`,
`case SI_PLI_DEMPSTER:`,
`case SI_SW_GOUDIE_PLA:`,
`case SI_SW_GOUDIE_NAT:`,
`case SI_SW_DEMPSTER:`,
`case SI_SB_DEMPSTER:`,
`case SI_SS_GOUDIE:`,
`case SI_FDI_THROWER:`,
`case SI_AT_GOUDIE:`
of the `switch` of `index_to_height` (si2ht.c line 925). -/
def si2ht_GOUDIE (M : Extern α) (cu_index : ℤ) (tage bhage site_index y2bh : α) : α :=
  if bhage > 0.0 then
    let x1 : α :=
      if cu_index = SI_PLI_GOUDIE_DRY then -1.00726
      else if cu_index = SI_PLI_GOUDIE_WET then -0.935
      else if cu_index = SI_PLI_DEMPSTER then -0.9576
      else if cu_index = SI_SW_GOUDIE_PLA then -1.2866
      else if cu_index = SI_SW_GOUDIE_NAT then -1.2866
      else if cu_index = SI_SW_DEMPSTER then -1.2240
      else if cu_index = SI_SB_DEMPSTER then -1.3154
      else if cu_index = SI_SS_GOUDIE then -1.5282
      else if cu_index = SI_FDI_THROWER then -0.237724692
      else if cu_index = SI_AT_GOUDIE then -0.618
      else 0
    let x2 : α :=
      if cu_index = SI_PLI_GOUDIE_DRY then 7.81498
      else if cu_index = SI_PLI_GOUDIE_WET then 7.81498
      else if cu_index = SI_PLI_DEMPSTER then 7.4871
      else if cu_index = SI_SW_GOUDIE_PLA then 9.7936
      else if cu_index = SI_SW_GOUDIE_NAT then 9.7936
      else if cu_index = SI_SW_DEMPSTER then 9.6183
      else if cu_index = SI_SB_DEMPSTER then 8.5594
      else if cu_index = SI_SS_GOUDIE then 11.0605
      else if cu_index = SI_FDI_THROWER then 5.780089777
      else if cu_index = SI_AT_GOUDIE then 6.879
      else 0
    let x3 : α :=
      if cu_index = SI_PLI_GOUDIE_DRY then -1.28517
      else if cu_index = SI_PLI_GOUDIE_WET then -1.28517
      else if cu_index = SI_PLI_DEMPSTER then -1.2036
      else if cu_index = SI_SW_GOUDIE_PLA then -1.4661
      else if cu_index = SI_SW_GOUDIE_NAT then -1.4661
      else if cu_index = SI_SW_DEMPSTER then -1.4627
      else if cu_index = SI_SB_DEMPSTER then -1.1484
      else if cu_index = SI_SS_GOUDIE then -1.5108
      else if cu_index = SI_FDI_THROWER then -1.150039266
      else if cu_index = SI_AT_GOUDIE then -1.32
      else 0
    let x1 := (1.0 + M.exp (x2 + x1 * LLOG M (site_index - 1.3) + x3 * M.log 50.0)) / (1.0 + M.exp (x2 + x1 * LLOG M (site_index - 1.3) + x3 * M.log bhage))
    1.3 + (site_index - 1.3) * x1
  else
    tage * tage * 1.3 / y2bh / y2bh

/-- Arm `case SI_SW_GOUDIE_NATAC:` of the `switch` of `index_to_height` (si2ht.c line 1180). -/
def si2ht_SW_GOUDIE_NATAC (M : Extern α) (tage bhage site_index y2bh pi : α) : α :=
  if bhage > pi then
    let x1 : α := -1.2866
    let x2 : α := 9.7936
    let x3 : α := -1.4661
    let x1 := (1.0 + M.exp (x2 + x1 * LLOG M (site_index - 1.3) + x3 * M.log (50 - pi))) / (1.0 + M.exp (x2 + x1 * LLOG M (site_index - 1.3) + x3 * M.log (bhage - pi)))
    1.3 + (site_index - 1.3) * x1
  else
    1.3 * M.pow (tage / y2bh) (1.628 - 0.05991 * y2bh) * M.pow 1.127 (tage - y2bh)

/-- Arm `case SI_SW_GOUDIE_PLAAC:` of the `switch` of `index_to_height` (si2ht.c line 1198). -/
def si2ht_SW_GOUDIE_PLAAC (M : Extern α) (tage bhage site_index y2bh pi : α) : α :=
  if bhage > pi then
    let x1 : α := -1.2866
    let x2 : α := 9.7936
    let x3 : α := -1.4661
    let x1 := (1.0 + M.exp (x2 + x1 * LLOG M (site_index - 1.3) + x3 * M.log (50 - pi))) / (1.0 + M.exp (x2 + x1 * LLOG M (site_index - 1.3) + x3 * M.log (bhage - pi)))
    1.3 + (site_index - 1.3) * x1
  else
    1.3 * M.pow (tage / y2bh) (1.628 - 0.05991 * y2bh) * M.pow 1.127 (tage - y2bh)

/-- Arm `case SI_FDI_THROWERAC:` of the `switch` of `index_to_height` (si2ht.c line 1216). -/
def si2ht_FDI_THROWERAC (M : Extern α) (tage bhage site_index y2bh : α) : α :=
  if bhage > 0.5 then
    let x1 : α := -0.237724692
    let x2 : α := 5.780089777
    let x3 : α := -1.150039266
    let x1 := (1.0 + M.exp (x2 + x1 * LLOG M (site_index - 1.3) + x3 * M.log 49.5)) / (1.0 + M.exp (x2 + x1 * LLOG M (site_index - 1.3) + x3 * M.log (bhage - 0.5)))
    1.3 + (site_index - 1.3) * x1
  else
    tage * tage * 1.3 / y2bh / y2bh

/-- Arm `case SI_SS_NIGH:` of the `switch` of `index_to_height` (si2ht.c line 1233). -/
def si2ht_SS_NIGH (M : Extern α) (tage bhage site_index y2bh : α) : α :=
  if bhage > 0.5 then
    let x1 : α := 8.947
    let x2 : α := -1.357
    let x3 : α := -1.013
    let x1 := (1.0 + M.exp (x1 + x2 * M.log 49.5 + x3 * LLOG M (site_index - 1.3))) / (1.0 + M.exp (x1 + x2 * M.log (bhage - 0.5) + x3 * LLOG M (site_index - 1.3)))
    1.3 + (site_index - 1.3) * x1
  else
    tage * tage * 1.3 / y2bh / y2bh

/-- Arm `case SI_PLI_NIGH:` of the `switch` of `index_to_height` (si2ht.c line 1250). -/
def si2ht_PLI_NIGH (M : Extern α) (tage bhage site_index y2bh : α) : α :=
  if bhage > 0.5 then
    let x1 := 0.39374 + 2.2169 * site_index - 0.047173 * site_index * site_index + 0.0006062 * site_index * site_index * site_index
    1.3 + x1 * M.pow (1.0 - M.exp ((-0.009737 - 0.0003742 * x1) * (bhage - 0.5))) (1.5521 - 0.01308 * x1)
  else
    tage * tage * 1.3 / y2bh / y2bh

/-- Arm `case SI_BA_NIGH:` of the `switch` of `index_to_height` (si2ht.c line 1262). -/
def si2ht_BA_NIGH (M : Extern α) (tage bhage site_index y2bh : α) : α :=
  if bhage > 0.5 then
    let x5 := M.pow (site_index - 1.3) 3.0 / 49.5
    let x4 := x5 + M.pow (x5 * x5 + 16692000.0 * M.pow (site_index - 1.3) 3.0 / 299891.0) 0.5
    let x2 := (8346000.0 + x4 * 6058.412) * M.pow (bhage - 0.5) 3.232
    let x3 := (8346000.0 + x4 * M.pow (bhage - 0.5) 2.232) * 299891.0
    1.3 + (site_index - 1.3) * M.pow (x2 / x3) (1 / 3.0)
  else
    tage * tage * 1.3 / y2bh / y2bh

/-- Arm `case SI_EP_NIGH:` of the `switch` of `index_to_height` (si2ht.c line 1277). -/
def si2ht_EP_NIGH (M : Extern α) (tage bhage site_index y2bh : α) : α :=
  if bhage > 0.5 then
    let x1 : α := 9.604
    let x2 : α := -1.113
    let x3 : α := -1.849
    let x1 := (1.0 + M.exp (x1 + x2 * M.log 49.5 + x3 * LLOG M (site_index - 1.3))) / (1.0 + M.exp (x1 + x2 * M.log (bhage - 0.5) + x3 * LLOG M (site_index - 1.3)))
    1.3 + (site_index - 1.3) * x1
  else
    tage * tage * 1.3 / y2bh / y2bh

/-- Arm `case SI_CWI_NIGH:` of the `switch` of `index_to_height` (si2ht.c line 1294). -/
def si2ht_CWI_NIGH (M : Extern α) (tage bhage site_index y2bh : α) : α :=
  if bhage > 0.5 then
    let x1 : α := 9.474
    let x2 : α := -1.340
    let x3 : α := -1.244
    let x1 := (1.0 + M.exp (x1 + x2 * M.log 49.5 + x3 * LLOG M (site_index - 1.3))) / (1.0 + M.exp (x1 + x2 * M.log (bhage - 0.5) + x3 * LLOG M (site_index - 1.3)))
    1.3 + (site_index - 1.3) * x1
  else
    tage * tage * 1.3 / y2bh / y2bh

/-- Arm `case SI_HWI_NIGH:` of the `switch` of `index_to_height` (si2ht.c line 1311). -/
def si2ht_HWI_NIGH (M : Extern α) (tage bhage site_index y2bh : α) : α :=
  if bhage > 0.5 then
    let x1 : α := 8.998
    let x2 : α := -1.434
    let x3 : α := -1.051
    let x1 := (1.0 + M.exp (x1 + x2 * M.log 49.5 + x3 * LLOG M (site_index - 1.3))) / (1.0 + M.exp (x1 + x2 * M.log (bhage - 0.5) + x3 * LLOG M (site_index - 1.3)))
    1.3 + (site_index - 1.3) * x1
  else
    tage * tage * 1.3 / y2bh / y2bh

/-- Arm `case SI_PY_NIGH:` of the `switch` of `index_to_height` (si2ht.c line 1328). -/
def si2ht_PY_NIGH (M : Extern α) (tage bhage site_index y2bh : α) : α :=
  if bhage > 0.5 then
    let x1 : α := 8.519
    let x2 : α := -1.385
    let x3 : α := -0.8498
    let x1 := (1.0 + M.exp (x1 + x2 * M.log 49.5 + x3 * LLOG M (site_index - 1.3))) / (1.0 + M.exp (x1 + x2 * M.log (bhage - 0.5) + x3 * LLOG M (site_index - 1.3)))
    1.3 + (site_index - 1.3) * x1
  else
    (1.3 * M.pow tage 1.137 * M.pow 1.016 tage) / (M.pow y2bh 1.137 * M.pow 1.016 y2bh)

/-- Arm `case SI_ACT_THROWER:` of the `switch` of `index_to_height` (si2ht.c line 1348). -/
def si2ht_ACT_THROWER (M : Extern α) (tage bhage site_index y2bh : α) : α :=
  if bhage > 0.0 then
    let x1 : α := -1.3481
    let x2 : α := 10.3861
    let x3 : α := -1.6555
    let x1 := (1.0 + M.exp (x2 + x3 * LLOG M (site_index - 1.3) + x1 * M.log 50.0)) / (1.0 + M.exp (x2 + x3 * LLOG M (site_index - 1.3) + x1 * M.log bhage))
    1.3 + (site_index - 1.3) * x1
  else
    tage * tage * 1.3 / y2bh / y2bh

/-- Arm `case SI_ACT_THROWERAC:` of the `switch` of `index_to_height` (si2ht.c line 1375). -/
def si2ht_ACT_THROWERAC (M : Extern α) (tage bhage site_index y2bh : α) : α :=
  if bhage > 0.5 then
    let x1 : α := -1.3481
    let x2 : α := 10.3861
    let x3 : α := -1.6555
    let x1 := (1.0 + M.exp (x2 + x3 * LLOG M (site_index - 1.3) + x1 * M.log 49.5)) / (1.0 + M.exp (x2 + x3 * M.log (site_index - 1.3) + x1 * M.log (bhage - 0.5)))
    1.3 + (site_index - 1.3) * x1
  else
    tage * tage * 1.3 / y2bh / y2bh

/-- Arm `case SI_SB_KER:` of the `switch` of `index_to_height` (si2ht.c line 1393). -/
def si2ht_SB_KER (M : Extern α) (tage bhage site_index y2bh : α) : α :=
  if bhage > 0.0 then
    let x2 : α := 0.01741
    let x3 : α := 8.7428
    let x4 : α := -0.7346
    let x1 := PPOW M (1 - M.exp (-x2 * bhage)) (x3 * PPOW M site_index x4)
    let x2 := PPOW M (1 - M.exp (-x2 * 50)) (x3 * PPOW M site_index x4)
    1.3 + (site_index - 1.3) * x1 / x2
  else
    tage * tage * 1.3 / y2bh / y2bh

/-- Arm `case SI_SW_KER_PLA:`,
`case SI_SW_KER_NAT:`
of the `switch` of `index_to_height` (si2ht.c line 1411). -/
def si2ht_SW_KER (M : Extern α) (tage bhage site_index y2bh : α) : α :=
  if bhage > 0.0 then
    let x2 : α := 0.02081
    let x3 : α := 11.1515
    let x4 : α := -0.7518
    let x1 := PPOW M (1 - M.exp (-x2 * bhage)) (x3 * PPOW M site_index x4)
    let x2 := PPOW M (1 - M.exp (-x2 * 50)) (x3 * PPOW M site_index x4)
    1.3 + (site_index - 1.3) * x1 / x2
  else
    tage * tage * 1.3 / y2bh / y2bh

/-- Arm `case SI_SW_THROWER:` of the `switch` of `index_to_height` (si2ht.c line 1436). -/
def si2ht_SW_THROWER (M : Extern α) (tage bhage site_index y2bh : α) : α :=
  if bhage > 0.5 then
    let x1 := (1.0 + M.exp (10.1654 - 1.4002 * LLOG M (site_index - 1.3) - 1.4482 * M.log (50.0 - 0.5))) / (1.0 + M.exp (10.1654 - 1.4002 * LLOG M (site_index - 1.3) - 1.4482 * M.log (bhage - 0.5)))
    1.3 + (site_index - 1.3) * x1
  else
    tage * tage * 1.3 / y2bh / y2bh

/-- Arm `case SI_SW_HU_GARCIA:` of the `switch` of `index_to_height` (si2ht.c line 1452). -/
def si2ht_SW_HU_GARCIA (M : Extern α) (fuel : ℕ) (tage bhage site_index y2bh : α) : Option α :=
  if bhage > 0.5 then
    (hu_garcia_q M fuel site_index 50.0).bind fun q =>
    some (hu_garcia_h M q bhage)
  else
    some (tage * tage * 1.3 / y2bh / y2bh)

/-- Arm `case SI_SS_FARR:` of the `switch` of `index_to_height` (si2ht.c line 1466). -/
def si2ht_SS_FARR (M : Extern α) (tage bhage site_index y2bh : α) : α :=
  if bhage > 0.0 then
    let site_index := site_index / 0.3048
    let x3 := LLOG M bhage
    let x1 := -0.20505 + 1.449615 * x3 - 0.01780992 * PPOW M x3 3.0 + 6.519748e-5 * PPOW M x3 5.0 - 1.095593e-23 * PPOW M x3 30.0
    let x2 := -5.61188 + 2.418604 * x3 - 0.259311 * PPOW M x3 2.0 + 1.351445e-4 * PPOW M x3 5.0 - 1.701139e-12 * PPOW M x3 16.0 + 7.964197e-27 * PPOW M x3 36.0
    let height := 4.5 + M.exp x1 - M.exp x2 * (86.43 - (site_index - 4.5))
    height * 0.3048
  else
    tage * tage * 1.37 / y2bh / y2bh

/-- Arm `case SI_PW_CURTIS:` of the `switch` of `index_to_height` (si2ht.c line 1498). -/
def si2ht_PW_CURTIS (M : Extern α) (tage bhage site_index y2bh : α) : α :=
  if bhage > 0.0 then
    let site_index := site_index / 0.3048
    let x1 := 1.0 - M.exp (-(M.exp (-9.975053 + (1.747353 - 0.38583) * M.log bhage + 1.119438 * M.log site_index)))
    let x2 := 1.0 - M.exp (-(M.exp (-9.975053 + 1.747353 * M.log 50.0 - 0.38583 * M.log bhage + 1.119438 * M.log site_index)))
    let height := 4.5 + (site_index - 4.5) * x1 / x2
    height * 0.3048
  else
    tage * tage * 1.37 / y2bh / y2bh

/-- Arm `case SI_PW_CURTISAC:` of the `switch` of `index_to_height` (si2ht.c line 1521). -/
def si2ht_PW_CURTISAC (M : Extern α) (tage bhage site_index y2bh : α) : α :=
  if bhage > 0.5 then
    let site_index := site_index / 0.3048
    let x1 := 1.0 - M.exp (-(M.exp (-9.975053 + (1.747353 - 0.38583) * M.log (bhage - 0.5) + 1.119438 * M.log site_index)))
    let x2 := 1.0 - M.exp (-(M.exp (-9.975053 + 1.747353 * M.log 49.5 - 0.38583 * M.log (bhage - 0.5) + 1.119438 * M.log site_index)))
    let height := 4.5 + (site_index - 4.5) * x1 / x2
    height * 0.3048
  else
    tage * tage * 1.37 / y2bh / y2bh

/-- Arm `case SI_SS_BARKER:` of the `switch` of `index_to_height` (si2ht.c line 1544). -/
def si2ht_SS_BARKER (M : Extern α) (tage site_index : α) : α :=
  let si50t := -10.59 + 1.24 * site_index - 0.001 * site_index * site_index
  M.exp 4.39751 * PPOW M (si50t / M.exp 4.39751) (PPOW M (50.0 / tage) 0.792329)

/-- Arm `case SI_CWC_BARKER:` of the `switch` of `index_to_height` (si2ht.c line 1559). -/
def si2ht_CWC_BARKER (M : Extern α) (tage site_index : α) : α :=
  let si50t := -5.85 + 1.12 * site_index
  M.exp 4.56128 * PPOW M (si50t / M.exp 4.56128) (PPOW M (50.0 / tage) 0.584627)

/-- Arm `case SI_CWC_KURUCZ:` of the `switch` of `index_to_height` (si2ht.c line 1576). -/
def si2ht_CWC_KURUCZ (self : ℤ → α → ℤ → α → α → α → Option α) (cu_index : ℤ)
    (tage bhage site_index y2bh pi : α) : Option α :=
  if bhage > 0.0 then
    if site_index > 43 + 1.667 * bhage then
      let x1 := (site_index - 43) / 1.667 + 0.1
      (self cu_index x1 SI_AT_BREAST site_index y2bh pi).bind fun x2 =>
      let height := 1.3 + (x2 - 1.3) * bhage / x1
      some height
    else
      let x1 :=
        if site_index <= 1.3 then
          99999.0
        else
          2500.0 / (site_index - 1.3)
      let x2 := -3.11785 + 0.05027 * x1
      let x3 := -0.02465 + 0.01411 * x1
      let x4 := 0.00174 + 0.000097667 * x1
      let height := 1.3 + bhage * bhage / (x2 + x3 * bhage + x4 * bhage * bhage)
      if bhage > 50.0 then
        let bhage :=
          if bhage > 200 then
            200
          else
            bhage
        some (height - (-0.02379545 * height + 0.000475909 * bhage * height))
      else
        some height
  else
    some (tage * tage * 1.3 / y2bh / y2bh)

/-- Arm `case SI_CWC_KURUCZAC:` of the `switch` of `index_to_height` (si2ht.c line 1632). -/
def si2ht_CWC_KURUCZAC (self : ℤ → α → ℤ → α → α → α → Option α) (cu_index : ℤ)
    (tage bhage site_index y2bh pi : α) : Option α :=
  if bhage >= 0.5 then
    if site_index > 43 + 1.667 * (bhage - 0.5) then
      let x1 := (site_index - 43) / 1.667 + 0.1 + 0.5
      (self cu_index x1 SI_AT_BREAST site_index y2bh pi).bind fun x2 =>
      let height := 1.3 + (x2 - 1.3) * (bhage - 0.5) / x1
      some height
    else
      let x1 :=
        if site_index <= 1.3 then
          99999.0
        else
          2450.25 / (site_index - 1.3)
      let x2 := -3.11785 + 0.05027 * x1
      let x3 := -0.02465 + 0.01411 * x1
      let x4 := 0.00177044 + 0.000102554 * x1
      let x5 := bhage - 0.5
      let height := 1.3 + x5 * x5 / (x2 + x3 * x5 + x4 * x5 * x5)
      if bhage > 50.0 then
        let bhage :=
          if bhage > 200 then
            200
          else
            bhage
        some (height - (-0.02379545 * height + 0.000475909 * bhage * height))
      else
        some height
  else
    some (tage * tage * 1.3 / y2bh / y2bh)

/-- Arm `case SI_CWC_NIGH:` of the `switch` of `index_to_height` (si2ht.c line 1679). -/
def si2ht_CWC_NIGH (M : Extern α) (tage bhage site_index y2bh : α) : α :=
  if bhage > 0.5 then
    let x1 := -3.004284755 + 2.5332489439 * site_index - 0.019027688 * site_index * site_index + 0.0000992968 * M.pow site_index 3.0
    1.3 + x1 * M.pow (1 - M.exp (-0.01449 * (bhage - 0.5))) (1.4026 - 0.005781 * x1)
  else
    tage * tage * 1.3 / y2bh / y2bh

/-- Arm `case SI_BA_DILUCCA:` of the `switch` of `index_to_height` (si2ht.c line 1691). -/
def si2ht_BA_DILUCCA (M : Extern α) (tage bhage site_index y2bh : α) : α :=
  if bhage > 0.0 then
    let x1 := 1 + M.exp (8.377148582 - 1.27351813 * M.log 50.0 - 0.975226632 * M.log site_index)
    let x2 := 1 + M.exp (8.377148582 - 1.27351813 * M.log bhage - 0.975226632 * M.log site_index)
    1.3 + (site_index - 1.3) * x1 / x2
  else
    tage * tage * 1.3 / y2bh / y2bh

/-- Arm `case SI_BB_KER:` of the `switch` of `index_to_height` (si2ht.c line 1706). -/
def si2ht_BB_KER (M : Extern α) (tage bhage site_index y2bh : α) : α :=
  if bhage > 0.0 then
    let x2 : α := 0.01373
    let x3 : α := 6.1299
    let x4 : α := -0.6157
    let x1 := PPOW M (1 - M.exp (-x2 * bhage)) (x3 * PPOW M site_index x4)
    let x2 := PPOW M (1 - M.exp (-x2 * 50)) (x3 * PPOW M site_index x4)
    1.3 + (site_index - 1.3) * x1 / x2
  else
    tage * tage * 1.3 / y2bh / y2bh

/-- Arm `case SI_BA_KURUCZ86:` of the `switch` of `index_to_height` (si2ht.c line 1722). -/
def si2ht_BA_KURUCZ86 (M : Extern α) (tage bhage site_index y2bh : α) : α :=
  if bhage > 0.0 then
    let x1 := (site_index - 1.3) * PPOW M (1.0 - M.exp (-0.01303 * bhage)) 1.024971
    let height := 1.3 + x1 / 0.470011
    if bhage <= 50.0 then
      height - (4 * 0.4 * bhage * (50 - bhage) / 2500)
    else
      height
  else
    tage * tage * 1.3 / y2bh / y2bh

/-- Arm `case SI_BA_KURUCZ82:`,
`case SI_BL_KURUCZ82:`
of the `switch` of `index_to_height` (si2ht.c line 1740). -/
def si2ht_BA_KURUCZ82 (self : ℤ → α → ℤ → α → α → α → Option α) (cu_index : ℤ)
    (tage bhage site_index y2bh pi : α) : Option α :=
  if bhage > 0.0 then
    if site_index > 60 + 1.667 * bhage then
      let x1 := (site_index - 60) / 1.667 + 0.1
      (self cu_index x1 SI_AT_BREAST site_index y2bh pi).bind fun x2 =>
      let height := 1.3 + (x2 - 1.3) * bhage / x1
      some height
    else
      let x1 :=
        if site_index <= 1.3 then
          99999.0
        else
          2500.0 / (site_index - 1.3)
      let x2 := -2.34655 + 0.0565 * x1
      let x3 := -0.42007 + 0.01687 * x1
      let x4 := 0.00934 + 0.00004 * x1
      let height := 1.3 + bhage * bhage / (x2 + x3 * bhage + x4 * bhage * bhage)
      if bhage < 50.0 ∧ bhage * height < 1695.3 then
        let x1 := 0.45773 - 0.00027 * bhage * height
        if x1 > 0.0 then
          some (height - x1)
        else
          some height
      else
        some height
  else
    let height := tage * tage * 1.3 / y2bh / y2bh
    let x1 := 0.45773 - 0.00027 * tage * height
    if x1 > 0.0 then
      some (height - x1)
    else
      some height

/-- Arm `case SI_BA_KURUCZ82AC:` of the `switch` of `index_to_height` (si2ht.c line 1795). -/
def si2ht_BA_KURUCZ82AC (self : ℤ → α → ℤ → α → α → α → Option α) (cu_index : ℤ)
    (tage bhage site_index y2bh pi : α) : Option α :=
  if bhage >= 0.5 then
    if site_index > 60 + 1.667 * (bhage - 0.5) then
      let x1 := (site_index - 60) / 1.667 + 0.1 + 0.5
      (self cu_index x1 SI_AT_BREAST site_index y2bh pi).bind fun x2 =>
      let height := 1.3 + (x2 - 1.3) * (bhage - 0.5) / x1
      some height
    else
      let x1 :=
        if site_index <= 1.3 then
          99999.0
        else
          2450.25 / (site_index - 1.3)
      let x2 := -2.09187 + 0.066925 * x1
      let x3 := -0.42007 + 0.01687 * x1
      let x4 := 0.00934 + 0.00004 * x1
      let x5 := bhage - 0.5
      let height := 1.3 + x5 * x5 / (x2 + x3 * x5 + x4 * x5 * x5)
      if bhage < 50.0 ∧ bhage * height < 1695.3 then
        let x1 := 0.45773 - 0.00027 * bhage * height
        if x1 > 0.0 then
          some (height - x1)
        else
          some height
      else
        some height
  else
    let height := tage * tage * 1.3 / y2bh / y2bh
    let x1 := 0.45773 - 0.00027 * tage * height
    if x1 > 0.0 then
      some (height - x1)
    else
      some height

/-- Arm `case SI_FDI_MILNER:` of the `switch` of `index_to_height` (si2ht.c line 1838). -/
def si2ht_FDI_MILNER (M : Extern α) (tage bhage site_index y2bh : α) : α :=
  if bhage > 0.0 then
    let site_index := site_index / 0.3048
    let x1 := 114.6 * PPOW M (1 - M.exp (-0.01462 * bhage)) 1.179
    let x2 := 1.703 * PPOW M (1 - M.exp (-0.02214 * bhage)) 1.321
    let height := 4.5 + x1 + x2 * (site_index - 57.3)
    height * 0.3048
  else
    tage * tage * 1.37 / y2bh / y2bh

/-- Arm `case SI_FDI_VDP_MONT:` of the `switch` of `index_to_height` (si2ht.c line 1857). -/
def si2ht_FDI_VDP_MONT (M : Extern α) (tage bhage site_index y2bh : α) : α :=
  if bhage > 0.0 then
    let site_index := site_index / 0.3048
    let height := 4.5 + (1.9965 * (site_index - 4.5) / (1 + M.exp (5.479 - 1.4016 * M.log bhage)))
    height * 0.3048
  else
    tage * tage * 1.37 / y2bh / y2bh

/-- Arm `case SI_FDI_VDP_WASH:` of the `switch` of `index_to_height` (si2ht.c line 1875). -/
def si2ht_FDI_VDP_WASH (M : Extern α) (tage bhage site_index y2bh : α) : α :=
  if bhage > 0.0 then
    let site_index := site_index / 0.3048
    let height := 4.5 + (1.79897 * (site_index - 4.5) / (1 + M.exp (6.0678 - 1.6085 * M.log bhage)))
    height * 0.3048
  else
    tage * tage * 1.37 / y2bh / y2bh

/-- Arm `case SI_FDI_MONS_DF:`,
`case SI_FDI_MONS_GF:`,
`case SI_FDI_MONS_WRC:`,
`case SI_FDI_MONS_WH:`,
`case SI_FDI_MONS_SAF:`
of the `switch` of `index_to_height` (si2ht.c line 1895). -/
def si2ht_MONSERUD (M : Extern α) (cu_index : ℤ) (tage bhage site_index y2bh : α) : α :=
  if bhage > 0.0 then
    let site_index := site_index / 0.3048
    let x1 : α :=
      if cu_index = SI_FDI_MONS_DF then 0.3197
      else if cu_index = SI_FDI_MONS_GF then 0.3488
      else if cu_index = SI_FDI_MONS_WRC then 0.3488
      else if cu_index = SI_FDI_MONS_WH then 0.3656
      else if cu_index = SI_FDI_MONS_SAF then 0.3656
      else 0
    let x2 : α :=
      if cu_index = SI_FDI_MONS_DF then 1.0232
      else if cu_index = SI_FDI_MONS_GF then 0.9779
      else if cu_index = SI_FDI_MONS_WRC then 0.9779
      else if cu_index = SI_FDI_MONS_WH then 0.9527
      else if cu_index = SI_FDI_MONS_SAF then 0.9527
      else 0
    let x3 := 1.0 + M.exp (9.7278 - 1.2934 * M.log bhage - x2 * LLOG M (site_index - 4.5))
    let height := 4.5 + 42.397 * PPOW M (site_index - 4.5) x1 / x3
    height * 0.3048
  else
    tage * tage * 1.37 / y2bh / y2bh

/-- Arm `case SI_DR_HARRING:` of the `switch` of `index_to_height` (si2ht.c line 1979). -/
def si2ht_DR_HARRING (M : Extern α) (self : ℤ → α → ℤ → α → α → α → Option α)
    (cu_index : ℤ) (tage site_index y2bh pi : α) : Option α :=
  if site_index > 45 + 2.5 * tage then
    let x1 := (site_index - 45) / 2.5 + 0.1
    (self cu_index x1 SI_AT_TOTAL site_index y2bh pi).bind fun x2 =>
    some (x2 * tage / x1)
  else
    let si20 := PPOW M site_index 1.5 / 8.0
    let x1 := 18.1622 + 0.7953 * si20
    let x2 := 0.00194 - 0.002441 * si20
    let x3 := si20 + x1 * PPOW M (1.0 - M.exp (x2 * tage)) 0.9198
    some (x3 - x1 * PPOW M (1.0 - M.exp (x2 * 20)) 0.9198)

/-- Arm `case SI_DR_NIGH:` of the `switch` of `index_to_height` (si2ht.c line 2002). -/
def si2ht_DR_NIGH (M : Extern α) (tage bhage site_index y2bh : α) : α :=
  if bhage > 0.5 then
    let si25 := 0.3094 + 0.7616 * site_index
    1.3 + (1.693 * (si25 - 1.3)) / (1 + M.exp (3.6 - 1.24 * M.log (bhage - 0.5)))
  else
    tage * tage * 1.3 / y2bh / y2bh

/-- Arm `case SI_PY_MILNER:` of the `switch` of `index_to_height` (si2ht.c line 2050). -/
def si2ht_PY_MILNER (M : Extern α) (tage bhage site_index y2bh : α) : α :=
  if bhage > 0.0 then
    let site_index := site_index / 0.3048
    let x1 := 121.4 * PPOW M (1 - M.exp (-0.01756 * bhage)) 1.483
    let x2 := 1.189 * PPOW M (1 - M.exp (-0.05799 * bhage)) 2.63
    let height := 4.5 + x1 + x2 * (site_index - 59.6)
    height * 0.3048
  else
    tage * tage * 1.37 / y2bh / y2bh

/-- Arm `case SI_PY_HANN:` of the `switch` of `index_to_height` (si2ht.c line 2069). -/
def si2ht_PY_HANN (M : Extern α) (tage bhage site_index y2bh : α) : α :=
  if bhage > 0.0 then
    let site_index := site_index / 0.3048
    let x1 := 1 - M.exp (-(M.exp (-6.54707 + 0.288169 * LLOG M (site_index - 4.5) + 1.21297 * M.log bhage)))
    let x2 := 1 - M.exp (-(M.exp (-6.54707 + 0.288169 * LLOG M (site_index - 4.5) + 1.21297 * M.log 50.0)))
    let height := 4.5 + (site_index - 4.5) * x1 / x2
    height * 0.3048
  else
    tage * tage * 1.37 / y2bh / y2bh

/-- Arm `case SI_PY_HANNAC:` of the `switch` of `index_to_height` (si2ht.c line 2088). -/
def si2ht_PY_HANNAC (M : Extern α) (tage bhage site_index y2bh : α) : α :=
  if bhage > 0.5 then
    let site_index := site_index / 0.3048
    let x1 := 1 - M.exp (-(M.exp (-6.54707 + 0.288169 * LLOG M (site_index - 4.5) + 1.21297 * M.log (bhage - 0.5))))
    let x2 := 1 - M.exp (-(M.exp (-6.54707 + 0.288169 * LLOG M (site_index - 4.5) + 1.21297 * M.log 49.5)))
    let height := 4.5 + (site_index - 4.5) * x1 / x2
    height * 0.3048
  else
    tage * tage * 1.37 / y2bh / y2bh

/-- Arm `case SI_LW_MILNER:` of the `switch` of `index_to_height` (si2ht.c line 2115). -/
def si2ht_LW_MILNER (M : Extern α) (tage bhage site_index y2bh : α) : α :=
  if bhage > 0.0 then
    let site_index := site_index / 0.3048
    let x1 := 127.8 * PPOW M (1 - M.exp (-0.01655 * bhage)) 1.196
    let x2 := 1.289 * PPOW M (1 - M.exp (-0.03211 * bhage)) 1.047
    let height := 4.5 + x1 + x2 * (site_index - 69.0)
    height * 0.3048
  else
    tage * tage * 1.37 / y2bh / y2bh

/-- Arm `case SI_LW_NIGH:` of the `switch` of `index_to_height` (si2ht.c line 2143). -/
def si2ht_LW_NIGH (M : Extern α) (tage bhage site_index y2bh : α) : α :=
  if bhage > 0.5 then
    let x1 := M.log (M.pow (site_index - 1.3) (1 - 0.8566) / 3.027) / M.log (1 - M.exp (-0.01588 * 49.5))
    1.3 + 3.027 * M.pow (site_index - 1.3) 0.8566 * M.pow (1 - M.exp (-0.01588 * (bhage - 0.5))) x1
  else
    tage * tage * 1.3 / y2bh / y2bh

/-- Arm `case SI_SB_NIGH:` of the `switch` of `index_to_height` (si2ht.c line 2156). -/
def si2ht_SB_NIGH (M : Extern α) (tage bhage site_index y2bh : α) : α :=
  if bhage > 0.5 then
    let x1 := 1 + M.exp (9.086 - 1.052 * M.log 49.5 - 1.55 * M.log (site_index - 1.3))
    let x2 := 1 + M.exp (9.086 - 1.052 * M.log (bhage - 0.5) - 1.55 * M.log (site_index - 1.3))
    1.3 + (site_index - 1.3) * x1 / x2
  else
    tage * tage * 1.3 / y2bh / y2bh

/-- Arm `case SI_AT_NIGH:` of the `switch` of `index_to_height` (si2ht.c line 2169). -/
def si2ht_AT_NIGH (M : Extern α) (tage bhage site_index y2bh : α) : α :=
  if bhage > 0.5 then
    let x1 := 1 + M.exp (7.423 - 1.15 * M.log 49.5 - 0.9614 * M.log (site_index - 1.3))
    let x2 := 1 + M.exp (7.423 - 1.15 * M.log (bhage - 0.5) - 0.9614 * M.log (site_index - 1.3))
    1.3 + (site_index - 1.3) * x1 / x2
  else
    M.pow (tage / y2bh) 1.5 * 1.3

/-- Arm `case SI_SW_HUANG_PLA:`,
`case SI_SW_HUANG_NAT:`,
`case SI_PLI_HUANG_PLA:`,
`case SI_PLI_HUANG_NAT:`,
`case SI_FDI_HUANG_PLA:`,
`case SI_FDI_HUANG_NAT:`,
`case SI_AT_HUANG:`,
`case SI_SB_HUANG:`,
`case SI_ACB_HUANG:`
of the `switch` of `index_to_height` (si2ht.c line 2200). -/
def si2ht_HUANG (M : Extern α) (cu_index : ℤ) (tage bhage site_index y2bh : α) : α :=
  if bhage > 0.0 then
    let x0 : α :=
      if cu_index = SI_SW_HUANG_PLA then 0.010168
      else if cu_index = SI_SW_HUANG_NAT then 0.010168
      else if cu_index = SI_PLI_HUANG_PLA then 0.026714
      else if cu_index = SI_PLI_HUANG_NAT then 0.026714
      else if cu_index = SI_FDI_HUANG_PLA then 0.007932
      else if cu_index = SI_FDI_HUANG_NAT then 0.007932
      else if cu_index = SI_AT_HUANG then 0.035930
      else if cu_index = SI_SB_HUANG then 0.011117
      else if cu_index = SI_ACB_HUANG then 0.041208
      else 0
    let x1 : α :=
      if cu_index = SI_SW_HUANG_PLA then 0.004801
      else if cu_index = SI_SW_HUANG_NAT then 0.004801
      else if cu_index = SI_PLI_HUANG_PLA then -0.314562
      else if cu_index = SI_PLI_HUANG_NAT then -0.314562
      else if cu_index = SI_FDI_HUANG_PLA then 0.011994
      else if cu_index = SI_FDI_HUANG_NAT then 0.011994
      else if cu_index = SI_AT_HUANG then -0.486239
      else if cu_index = SI_SB_HUANG then 0.030221
      else if cu_index = SI_ACB_HUANG then -0.559626
      else 0
    let x2 : α :=
      if cu_index = SI_SW_HUANG_PLA then 4.997735
      else if cu_index = SI_SW_HUANG_NAT then 4.997735
      else if cu_index = SI_PLI_HUANG_PLA then 1.033165
      else if cu_index = SI_PLI_HUANG_NAT then 1.033165
      else if cu_index = SI_FDI_HUANG_PLA then 7.053999
      else if cu_index = SI_FDI_HUANG_NAT then 7.053999
      else if cu_index = SI_AT_HUANG then 1.041916
      else if cu_index = SI_SB_HUANG then 1.010399
      else if cu_index = SI_ACB_HUANG then 1.038923
      else 0
    let x3 : α :=
      if cu_index = SI_SW_HUANG_PLA then 0.802776
      else if cu_index = SI_SW_HUANG_NAT then 0.802776
      else if cu_index = SI_PLI_HUANG_PLA then 0.799658
      else if cu_index = SI_PLI_HUANG_NAT then 0.799658
      else if cu_index = SI_FDI_HUANG_PLA then 0.617157
      else if cu_index = SI_FDI_HUANG_NAT then 0.617157
      else if cu_index = SI_AT_HUANG then 0.818283
      else if cu_index = SI_SB_HUANG then 0.573793
      else if cu_index = SI_ACB_HUANG then 0.832609
      else 0
    let x4 : α :=
      if cu_index = SI_SW_HUANG_PLA then -0.243297
      else if cu_index = SI_SW_HUANG_NAT then -0.243297
      else if cu_index = SI_PLI_HUANG_PLA then -0.439270
      else if cu_index = SI_PLI_HUANG_NAT then -0.439270
      else if cu_index = SI_FDI_HUANG_PLA then -0.365916
      else if cu_index = SI_FDI_HUANG_NAT then -0.365916
      else if cu_index = SI_AT_HUANG then -0.594641
      else if cu_index = SI_SB_HUANG then -0.328092
      else if cu_index = SI_ACB_HUANG then -0.627227
      else 0
    let x5 : α :=
      if cu_index = SI_SW_HUANG_PLA then 0.325438
      else if cu_index = SI_SW_HUANG_NAT then 0.325438
      else if cu_index = SI_PLI_HUANG_PLA then 0.401374
      else if cu_index = SI_PLI_HUANG_NAT then 0.401374
      else if cu_index = SI_FDI_HUANG_PLA then 0.405321
      else if cu_index = SI_FDI_HUANG_NAT then 0.405321
      else if cu_index = SI_AT_HUANG then 0.522558
      else if cu_index = SI_SB_HUANG then 0.387445
      else if cu_index = SI_ACB_HUANG then 0.526901
      else 0
    let age_huang : α :=
      if cu_index = SI_SW_HUANG_PLA then 50.0
      else if cu_index = SI_SW_HUANG_NAT then 50.0
      else if cu_index = SI_PLI_HUANG_PLA then 1
      else if cu_index = SI_PLI_HUANG_NAT then 1
      else if cu_index = SI_FDI_HUANG_PLA then 50.0
      else if cu_index = SI_FDI_HUANG_NAT then 50.0
      else if cu_index = SI_AT_HUANG then 1
      else if cu_index = SI_SB_HUANG then 1
      else if cu_index = SI_ACB_HUANG then 1
      else 0
    let x0 := -x0 * PPOW M (site_index - 1.3) x1 * M.pow x2 ((site_index - 1.3) / age_huang)
    let x0 := (1.0 - M.exp (x0 * bhage)) / (1 - M.exp (x0 * 50.0))
    let x1 := PPOW M (site_index - 1.3) x4
    let x2 := M.pow 50.0 x5
    1.3 + (site_index - 1.3) * PPOW M x0 (x3 * x1 * x2)
  else
    tage * tage * 1.3 / y2bh / y2bh

/-- Arm `case SI_ACB_HUANGAC:` of the `switch` of `index_to_height` (si2ht.c line 2437). -/
def si2ht_ACB_HUANGAC (M : Extern α) (tage bhage site_index y2bh : α) : α :=
  if bhage > 0.5 then
    let x0 : α := 0.041208
    let x1 : α := -0.559626
    let x2 : α := 1.038923
    let x3 : α := 0.832609
    let x4 : α := -0.627227
    let x5 : α := 0.526901
    let age_huang : α := 1
    let x0 := -x0 * PPOW M (site_index - 1.3) x1 * M.pow x2 ((site_index - 1.3) / age_huang)
    let x0 := (1.0 - M.exp (x0 * (bhage - 0.5))) / (1 - M.exp (x0 * 49.5))
    let x1 := PPOW M (site_index - 1.3) x4
    let x2 := M.pow 49.5 x5
    1.3 + (site_index - 1.3) * PPOW M x0 (x3 * x1 * x2)
  else
    tage * tage * 1.3 / y2bh / y2bh

/-- Arm `case SI_BL_CHEN:`,
`case SI_SE_CHEN:`,
`case SI_PL_CHEN:`,
`case SI_DR_CHEN:`
of the `switch` of `index_to_height` (si2ht.c line 2469). -/
def si2ht_CHEN (M : Extern α) (cu_index : ℤ) (tage bhage site_index y2bh : α) : α :=
  if bhage > 0.0 then
    let x1 : α :=
      if cu_index = SI_BL_CHEN then 9.523
      else if cu_index = SI_SE_CHEN then 8.6126
      else if cu_index = SI_PL_CHEN then 6.9603
      else if cu_index = SI_DR_CHEN then 6.6133
      else 0
    let x2 : α :=
      if cu_index = SI_BL_CHEN then -1.4945
      else if cu_index = SI_SE_CHEN then -1.5269
      else if cu_index = SI_PL_CHEN then -1.2875
      else if cu_index = SI_DR_CHEN then -1.0807
      else 0
    let x3 : α :=
      if cu_index = SI_BL_CHEN then -1.2159
      else if cu_index = SI_SE_CHEN then -0.7805
      else if cu_index = SI_PL_CHEN then -0.5904
      else if cu_index = SI_DR_CHEN then -1.0176
      else 0
    let x4 := (1.0 + M.exp (x1 + x2 * M.log 50.0 + x3 * LLOG M (site_index - 1.3))) / (1.0 + M.exp (x1 + x2 * M.log bhage + x3 * LLOG M (site_index - 1.3)))
    1.3 + (site_index - 1.3) * x4
  else
    tage * tage * 1.3 / y2bh / y2bh

/-- Arm `case SI_BL_CHENAC:` of the `switch` of `index_to_height` (si2ht.c line 2552). -/
def si2ht_BL_CHENAC (M : Extern α) (tage bhage site_index y2bh : α) : α :=
  if bhage > 0.5 then
    let x1 : α := 9.523
    let x2 : α := -1.4945
    let x3 : α := -1.2159
    let x4 := (1.0 + M.exp (x1 + x2 * M.log 49.5 + x3 * LLOG M (site_index - 1.3))) / (1.0 + M.exp (x1 + x2 * M.log (bhage - 0.5) + x3 * LLOG M (site_index - 1.3)))
    1.3 + (site_index - 1.3) * x4
  else
    tage * tage * 1.3 / y2bh / y2bh

/-- Arm `case SI_SE_CHENAC:` of the `switch` of `index_to_height` (si2ht.c line 2570). -/
def si2ht_SE_CHENAC (M : Extern α) (tage bhage site_index y2bh : α) : α :=
  if bhage > 0.5 then
    let x1 : α := 8.6126
    let x2 : α := -1.5269
    let x3 : α := -0.7805
    let x4 := (1.0 + M.exp (x1 + x2 * M.log 49.5 + x3 * LLOG M (site_index - 1.3))) / (1.0 + M.exp (x1 + x2 * M.log (bhage - 0.5) + x3 * LLOG M (site_index - 1.3)))
    1.3 + (site_index - 1.3) * x4
  else
    1.3 * M.pow (tage / y2bh) (1.628 - 0.05991 * y2bh) * M.pow 1.127 (tage - y2bh)

/-- Arm `case SI_AT_CHEN:` of the `switch` of `index_to_height` (si2ht.c line 2591). -/
def si2ht_AT_CHEN (M : Extern α) (tage bhage site_index y2bh : α) : α :=
  if bhage > 0.0 then
    let x1 := LLOG M (PPOW M (site_index - 1.3) (-0.076) / 1.418) / LLOG M (1 - M.exp (-0.017 * 50))
    1.3 + 1.418 * (PPOW M (site_index - 1.3) 1.076 * PPOW M (1 - M.exp (-0.017 * bhage)) x1)
  else
    tage * tage * 1.3 / y2bh / y2bh

/-- Arm `case SI_PJ_HUANG:` of the `switch` of `index_to_height` (si2ht.c line 2605). -/
def si2ht_PJ_HUANG (M : Extern α) (tage bhage site_index y2bh : α) : α :=
  if bhage > 0 then
    let x1 : α := 0.073456
    let x2 : α := 8.770517
    let x3 : α := -1.334706
    let x4 : α := 1.719841
    let x5 := (1.0 + x1 * (site_index - 1.3) + M.exp (x2 + x3 * M.log (50 + x4) - M.log (site_index - 1.3))) / (1.0 + x1 * (site_index - 1.3) + M.exp (x2 + x3 * M.log (bhage + x4) - M.log (site_index - 1.3)))
    1.3 + (site_index - 1.3) * x5
  else
    tage * tage * 1.3 / y2bh / y2bh

/-- Arm `case SI_PJ_HUANGAC:` of the `switch` of `index_to_height` (si2ht.c line 2624). -/
def si2ht_PJ_HUANGAC (M : Extern α) (tage bhage site_index y2bh : α) : α :=
  if bhage > 0.5 then
    let x1 : α := 0.073456
    let x2 : α := 8.770517
    let x3 : α := -1.334706
    let x4 : α := 1.719841
    let x5 := (1.0 + x1 * (site_index - 1.3) + M.exp (x2 + x3 * M.log (49.5 + x4) - M.log (site_index - 1.3))) / (1.0 + x1 * (site_index - 1.3) + M.exp (x2 + x3 * M.log (bhage - 0.5 + x4) - M.log (site_index - 1.3)))
    1.3 + (site_index - 1.3) * x5
  else
    tage * tage * 1.3 / y2bh / y2bh

/-- The `switch (cu_index)` of `index_to_height` followed by `return height`:
the `case` labels in the order of the source, then `default:`.  `self` is
`index_to_height` itself (for the arms that evaluate the curve at a safe age),
`fuel` bounds the loops of `hu_garcia_q` and `gi_si2ht`. -/
def index_to_height_switch (M : Extern α) (self : ℤ → α → ℤ → α → α → α → Option α) (fuel : ℕ)
    (cu_index : ℤ) (tage bhage : α) (age_type : ℤ) (site_index y2bh pi : α) : Option α :=
  if cu_index = SI_FDC_COCHRAN then
    some (si2ht_FDC_COCHRAN M tage bhage site_index y2bh)
  else if cu_index = SI_FDC_KING then
    some (si2ht_FDC_KING tage bhage site_index y2bh)
  else if cu_index = SI_HWC_FARR then
    some (si2ht_HWC_FARR M tage bhage site_index y2bh)
  else if cu_index = SI_HWC_BARKER then
    some (si2ht_HWC_BARKER M tage site_index)
  else if cu_index = SI_HM_MEANS then
    some (si2ht_HM_MEANS M tage bhage site_index y2bh)
  else if cu_index = SI_HM_MEANSAC then
    some (si2ht_HM_MEANSAC M tage bhage site_index y2bh)
  else if cu_index = SI_HWC_WILEY ∨ cu_index = SI_HWC_WILEY_BC ∨ cu_index = SI_HWC_WILEY_MB then
    si2ht_WILEY self cu_index tage bhage site_index y2bh pi
  else if cu_index = SI_HWC_WILEYAC then
    si2ht_HWC_WILEYAC M self cu_index tage bhage site_index y2bh pi
  else if cu_index = SI_BP_CURTIS then
    some (si2ht_BP_CURTIS M tage bhage site_index y2bh)
  else if cu_index = SI_BP_CURTISAC then
    some (si2ht_BP_CURTISAC M tage bhage site_index y2bh)
  else if cu_index = SI_SW_GOUDNIGH then
    some (si2ht_SW_GOUDNIGH M tage bhage site_index y2bh)
  else if cu_index = SI_PLI_THROWNIGH then
    some (si2ht_PLI_THROWNIGH M tage bhage site_index y2bh)
  else if cu_index = SI_PLI_THROWER then
    some (si2ht_PLI_THROWER M tage bhage site_index y2bh pi)
  else if cu_index = SI_PLI_NIGHTA2004 then
    some (si2ht_PLI_NIGHTA2004 M tage y2bh)
  else if cu_index = SI_PLI_NIGHTA98 then
    some (si2ht_PLI_NIGHTA98 M tage site_index)
  else if cu_index = SI_SW_NIGHTA2004 then
    some (si2ht_SW_NIGHTA2004 M tage y2bh)
  else if cu_index = SI_SW_NIGHTA then
    some (si2ht_SW_NIGHTA M tage site_index)
  else if cu_index = SI_FDC_NIGHTA then
    some (si2ht_FDC_NIGHTA M tage site_index)
  else if cu_index = SI_SE_NIGH then
    some (si2ht_SE_NIGH M tage bhage site_index y2bh)
  else if cu_index = SI_SE_NIGHTA then
    some (si2ht_SE_NIGHTA M tage y2bh)
  else if cu_index = SI_FDC_BRUCE then
    some (si2ht_FDC_BRUCE M tage bhage age_type site_index)
  else if cu_index = SI_FDC_BRUCEAC then
    some (si2ht_FDC_BRUCEAC M tage bhage age_type site_index pi)
  else if cu_index = SI_FDC_BRUCENIGH then
    some (si2ht_FDC_BRUCENIGH M tage site_index)
  else if cu_index = SI_PLI_MILNER then
    some (si2ht_PLI_MILNER M tage bhage site_index y2bh)
  else if cu_index = SI_PLI_CIESZEWSKI ∨ cu_index = SI_SW_CIESZEWSKI ∨
      cu_index = SI_SB_CIESZEWSKI ∨ cu_index = SI_AT_CIESZEWSKI then
    some (si2ht_CIESZEWSKI M cu_index tage bhage site_index y2bh)
  else if cu_index = SI_PLI_GOUDIE_WET ∨ cu_index = SI_PLI_GOUDIE_DRY ∨
      cu_index = SI_PLI_DEMPSTER ∨ cu_index = SI_SW_GOUDIE_PLA ∨
      cu_index = SI_SW_GOUDIE_NAT ∨ cu_index = SI_SW_DEMPSTER ∨ cu_index = SI_SB_DEMPSTER ∨
      cu_index = SI_SS_GOUDIE ∨ cu_index = SI_FDI_THROWER ∨ cu_index = SI_AT_GOUDIE then
    some (si2ht_GOUDIE M cu_index tage bhage site_index y2bh)
  else if cu_index = SI_SW_GOUDIE_NATAC then
    some (si2ht_SW_GOUDIE_NATAC M tage bhage site_index y2bh pi)
  else if cu_index = SI_SW_GOUDIE_PLAAC then
    some (si2ht_SW_GOUDIE_PLAAC M tage bhage site_index y2bh pi)
  else if cu_index = SI_FDI_THROWERAC then
    some (si2ht_FDI_THROWERAC M tage bhage site_index y2bh)
  else if cu_index = SI_SS_NIGH then
    some (si2ht_SS_NIGH M tage bhage site_index y2bh)
  else if cu_index = SI_PLI_NIGH then
    some (si2ht_PLI_NIGH M tage bhage site_index y2bh)
  else if cu_index = SI_BA_NIGH then
    some (si2ht_BA_NIGH M tage bhage site_index y2bh)
  else if cu_index = SI_EP_NIGH then
    some (si2ht_EP_NIGH M tage bhage site_index y2bh)
  else if cu_index = SI_CWI_NIGH then
    some (si2ht_CWI_NIGH M tage bhage site_index y2bh)
  else if cu_index = SI_HWI_NIGH then
    some (si2ht_HWI_NIGH M tage bhage site_index y2bh)
  else if cu_index = SI_PY_NIGH then
    some (si2ht_PY_NIGH M tage bhage site_index y2bh)
  else if cu_index = SI_ACT_THROWER then
    some (si2ht_ACT_THROWER M tage bhage site_index y2bh)
  else if cu_index = SI_ACT_THROWERAC then
    some (si2ht_ACT_THROWERAC M tage bhage site_index y2bh)
  else if cu_index = SI_SB_KER then
    some (si2ht_SB_KER M tage bhage site_index y2bh)
  else if cu_index = SI_SW_KER_PLA ∨ cu_index = SI_SW_KER_NAT then
    some (si2ht_SW_KER M tage bhage site_index y2bh)
  else if cu_index = SI_SW_THROWER then
    some (si2ht_SW_THROWER M tage bhage site_index y2bh)
  else if cu_index = SI_SW_HU_GARCIA then
    si2ht_SW_HU_GARCIA M fuel tage bhage site_index y2bh
  else if cu_index = SI_SS_FARR then
    some (si2ht_SS_FARR M tage bhage site_index y2bh)
  else if cu_index = SI_PW_CURTIS then
    some (si2ht_PW_CURTIS M tage bhage site_index y2bh)
  else if cu_index = SI_PW_CURTISAC then
    some (si2ht_PW_CURTISAC M tage bhage site_index y2bh)
  else if cu_index = SI_SS_BARKER then
    some (si2ht_SS_BARKER M tage site_index)
  else if cu_index = SI_CWC_BARKER then
    some (si2ht_CWC_BARKER M tage site_index)
  else if cu_index = SI_CWC_KURUCZ then
    si2ht_CWC_KURUCZ self cu_index tage bhage site_index y2bh pi
  else if cu_index = SI_CWC_KURUCZAC then
    si2ht_CWC_KURUCZAC self cu_index tage bhage site_index y2bh pi
  else if cu_index = SI_CWC_NIGH then
    some (si2ht_CWC_NIGH M tage bhage site_index y2bh)
  else if cu_index = SI_BA_DILUCCA then
    some (si2ht_BA_DILUCCA M tage bhage site_index y2bh)
  else if cu_index = SI_BB_KER then
    some (si2ht_BB_KER M tage bhage site_index y2bh)
  else if cu_index = SI_BA_KURUCZ86 then
    some (si2ht_BA_KURUCZ86 M tage bhage site_index y2bh)
  else if cu_index = SI_BA_KURUCZ82 ∨ cu_index = SI_BL_KURUCZ82 then
    si2ht_BA_KURUCZ82 self cu_index tage bhage site_index y2bh pi
  else if cu_index = SI_BA_KURUCZ82AC then
    si2ht_BA_KURUCZ82AC self cu_index tage bhage site_index y2bh pi
  else if cu_index = SI_FDI_MILNER then
    some (si2ht_FDI_MILNER M tage bhage site_index y2bh)
  else if cu_index = SI_FDI_VDP_MONT then
    some (si2ht_FDI_VDP_MONT M tage bhage site_index y2bh)
  else if cu_index = SI_FDI_VDP_WASH then
    some (si2ht_FDI_VDP_WASH M tage bhage site_index y2bh)
  else if cu_index = SI_FDI_MONS_DF ∨ cu_index = SI_FDI_MONS_GF ∨ cu_index = SI_FDI_MONS_WRC ∨
      cu_index = SI_FDI_MONS_WH ∨ cu_index = SI_FDI_MONS_SAF then
    some (si2ht_MONSERUD M cu_index tage bhage site_index y2bh)
  else if cu_index = SI_DR_HARRING then
    si2ht_DR_HARRING M self cu_index tage site_index y2bh pi
  else if cu_index = SI_DR_NIGH then
    some (si2ht_DR_NIGH M tage bhage site_index y2bh)
  else if cu_index = SI_PY_MILNER then
    some (si2ht_PY_MILNER M tage bhage site_index y2bh)
  else if cu_index = SI_PY_HANN then
    some (si2ht_PY_HANN M tage bhage site_index y2bh)
  else if cu_index = SI_PY_HANNAC then
    some (si2ht_PY_HANNAC M tage bhage site_index y2bh)
  else if cu_index = SI_LW_MILNER then
    some (si2ht_LW_MILNER M tage bhage site_index y2bh)
  else if cu_index = SI_LW_NIGH then
    some (si2ht_LW_NIGH M tage bhage site_index y2bh)
  else if cu_index = SI_SB_NIGH then
    some (si2ht_SB_NIGH M tage bhage site_index y2bh)
  else if cu_index = SI_AT_NIGH then
    some (si2ht_AT_NIGH M tage bhage site_index y2bh)
  else if cu_index = SI_SW_HUANG_PLA ∨ cu_index = SI_SW_HUANG_NAT ∨
      cu_index = SI_PLI_HUANG_PLA ∨ cu_index = SI_PLI_HUANG_NAT ∨
      cu_index = SI_FDI_HUANG_PLA ∨ cu_index = SI_FDI_HUANG_NAT ∨ cu_index = SI_AT_HUANG ∨
      cu_index = SI_SB_HUANG ∨ cu_index = SI_ACB_HUANG then
    some (si2ht_HUANG M cu_index tage bhage site_index y2bh)
  else if cu_index = SI_ACB_HUANGAC then
    some (si2ht_ACB_HUANGAC M tage bhage site_index y2bh)
  else if cu_index = SI_BL_CHEN ∨ cu_index = SI_SE_CHEN ∨ cu_index = SI_PL_CHEN ∨
      cu_index = SI_DR_CHEN then
    some (si2ht_CHEN M cu_index tage bhage site_index y2bh)
  else if cu_index = SI_BL_CHENAC then
    some (si2ht_BL_CHENAC M tage bhage site_index y2bh)
  else if cu_index = SI_SE_CHENAC then
    some (si2ht_SE_CHENAC M tage bhage site_index y2bh)
  else if cu_index = SI_AT_CHEN then
    some (si2ht_AT_CHEN M tage bhage site_index y2bh)
  else if cu_index = SI_PJ_HUANG then
    some (si2ht_PJ_HUANG M tage bhage site_index y2bh)
  else if cu_index = SI_PJ_HUANGAC then
    some (si2ht_PJ_HUANGAC M tage bhage site_index y2bh)
  else if cu_index = SI_BA_NIGHGI ∨ cu_index = SI_BL_THROWERGI ∨ cu_index = SI_PY_NIGHGI ∨
      cu_index = SI_CWI_NIGHGI ∨ cu_index = SI_FDC_NIGHGI ∨ cu_index = SI_FDI_NIGHGI ∨
      cu_index = SI_HWC_NIGHGI ∨ cu_index = SI_HWC_NIGHGI99 ∨ cu_index = SI_HWI_NIGHGI ∨
      cu_index = SI_LW_NIGHGI ∨ cu_index = SI_PLI_NIGHGI97 ∨ cu_index = SI_SE_NIGHGI ∨
      cu_index = SI_SS_NIGHGI ∨ cu_index = SI_SS_NIGHGI99 ∨ cu_index = SI_SW_NIGHGI ∨
      cu_index = SI_SW_NIGHGI99 ∨ cu_index = SI_SW_NIGHGI2004 then
    gi_si2ht M fuel cu_index bhage site_index
  else
    some SI_ERR_CURVE

/-- The body of `index_to_height` from `if (age_type == SI_AT_TOTAL)` on, that is
after the assignment `y2bh = ((int) y2bh) + 0.5`: the total and breast-height ages,
the two checks of the total age, and the `switch`. -/
def index_to_height_ages (M : Extern α) (self : ℤ → α → ℤ → α → α → α → Option α) (fuel : ℕ)
    (cu_index : ℤ) (iage : α) (age_type : ℤ) (site_index y2bh pi : α) : Option α :=
  let tage :=
    if age_type = SI_AT_TOTAL then iage
    else age_to_age cu_index iage SI_AT_BREAST SI_AT_TOTAL y2bh
  let bhage :=
    if age_type = SI_AT_TOTAL then age_to_age cu_index iage SI_AT_TOTAL SI_AT_BREAST y2bh
    else iage
  if tage < 0.0 then some SI_ERR_NO_ANS
  else if tage < 0.00001 then some 0.0
  else index_to_height_switch M self fuel cu_index tage bhage age_type site_index y2bh pi

/-- The body of `index_to_height`, with its recursive calls going to `self`. -/
def index_to_height_step (M : Extern α) (self : ℤ → α → ℤ → α → α → α → Option α) (fuel : ℕ)
    (cu_index : ℤ) (iage : α) (age_type : ℤ) (site_index y2bh pi : α) : Option α :=
  if site_index < 1.3 then some SI_ERR_LT13
  else
    -- should this line be removed?
    let y2bh := (c_int y2bh : α) + 0.5
    index_to_height_ages M self fuel cu_index iage age_type site_index y2bh pi

/-- The function `index_to_height` of `si2ht.c`.  `fuel` bounds the depth of the
recursion and the number of iterations of each loop; the result is `none` when
the fuel does not suffice and `some v` when the C function returns `v`. -/
def index_to_height (M : Extern α) : ℕ → ℤ → α → ℤ → α → α → α → Option α
  | 0 => index_to_height_step M (fun _ _ _ _ _ _ => none) 0
  | fuel + 1 => index_to_height_step M (index_to_height M fuel) (fuel + 1)

end IndexToHeight

/-! ## `siy2bh.c` -/

section YearsToBreastHeight

variable {α : Type} [LinearOrderedField α] [FloorRing α]

/-- The function `si_y2bh` of `siy2bh.c`: years to breast height from the curve
index and the site index.  The `case` labels are in the order of the source; a
`return` inside an arm is the value of the arm, an arm that ends in `break`
returns `y2bh`. -/
def si_y2bh (M : Extern α) (cu_index : ℤ) (site_index : α) : α :=
  if site_index < 1.3 then
    SI_ERR_LT13
  else if cu_index = SI_FDC_NIGHGI then
    SI_ERR_GI_TOT
  else if cu_index = SI_FDC_BRUCE then
    let y2bh := 13.25 - site_index / 6.096
    if y2bh < 1 then 1 else y2bh
  else if cu_index = SI_FDC_BRUCEAC then
    let y2bh := 13.25 - site_index / 6.096
    if y2bh < 1 then 1 else y2bh
  else if cu_index = SI_FDC_NIGHTA then
    if site_index <= 9.051 then SI_ERR_NO_ANS else 24.44 * M.pow (site_index - 9.051) (-0.394)
  else if cu_index = SI_FDC_BRUCENIGH then
    if site_index <= 15 then
      let y2bh := 13.25 - site_index / 6.096
      if y2bh < 1 then 1 else y2bh
    else
      36.5818 * M.pow (site_index - 6.6661) (-0.5526)
  else if cu_index = SI_FDC_COCHRAN then
    let y2bh := 13.25 - site_index / 6.096
    if y2bh < 1 then 1 else y2bh
  else if cu_index = SI_FDC_KING then
    let y2bh := 13.25 - site_index / 6.096
    if y2bh < 1 then 1 else y2bh
  else if cu_index = SI_HWC_FARR then
    let y2bh := 13.25 - site_index / 6.096
    if y2bh < 1 then 1 else y2bh
  else if cu_index = SI_HWC_BARKER then
    let y2bh := -5.2 + 410.00 / site_index
    if y2bh < 1 then 1 else y2bh
  else if cu_index = SI_HM_MEANS then
    let y2bh := 9.43 - site_index / 7.088
    if y2bh < 1 then 1 else y2bh
  else if cu_index = SI_HM_MEANSAC then
    let y2bh := 9.43 - site_index / 7.088
    if y2bh < 1 then 1 else y2bh
  else if cu_index = SI_HWI_NIGH then
    let y2bh := 446.6 * PPOW M site_index (-1.432)
    if y2bh < 1 then 1 else y2bh
  else if cu_index = SI_HWI_NIGHGI then
    SI_ERR_GI_TOT
  else if cu_index = SI_HWC_NIGHGI then
    SI_ERR_GI_TOT
  else if cu_index = SI_HWC_NIGHGI99 then
    SI_ERR_GI_TOT
  else if cu_index = SI_SS_NIGHGI99 then
    SI_ERR_GI_TOT
  else if cu_index = SI_SW_NIGHGI99 then
    SI_ERR_GI_TOT
  else if cu_index = SI_SW_NIGHGI2004 then
    SI_ERR_GI_TOT
  else if cu_index = SI_LW_NIGHGI then
    SI_ERR_GI_TOT
  else if cu_index = SI_HWC_WILEY then
    let y2bh := 9.43 - site_index / 7.088
    if y2bh < 1 then 1 else y2bh
  else if cu_index = SI_HWC_WILEYAC then
    let y2bh := 9.43 - site_index / 7.088
    if y2bh < 1 then 1 else y2bh
  else if cu_index = SI_HWC_WILEY_BC then
    let y2bh := 9.43 - site_index / 7.088
    if y2bh < 1 then 1 else y2bh
  else if cu_index = SI_HWC_WILEY_MB then
    let y2bh := 9.43 - site_index / 7.088
    if y2bh < 1 then 1 else y2bh
  else if cu_index = SI_PJ_HUANG then
    5 + 1.872138 + 49.555513 / site_index
  else if cu_index = SI_PJ_HUANGAC then
    5 + 1.872138 + 49.555513 / site_index
  else if cu_index = SI_PLI_NIGHGI97 then
    SI_ERR_GI_TOT
  else if cu_index = SI_PLI_HUANG_PLA then
    3.5 + 1.740006 + 58.83891 / site_index
  else if cu_index = SI_PLI_HUANG_NAT then
    5 + 1.740006 + 58.83891 / site_index
  else if cu_index = SI_PLI_NIGHTA2004 then
    if site_index < 9.5 then
      SI_ERR_NO_ANS
    else
      21.6623 * PPOW M (site_index - 9.05671) (-0.550762)
  else if cu_index = SI_PLI_NIGHTA98 then
    if site_index < 9.5 then
      SI_ERR_NO_ANS
    else
      21.6623 * PPOW M (site_index - 9.05671) (-0.550762)
  else if cu_index = SI_SW_GOUDNIGH then
    if site_index < 19.5 then
      let y2bh := 2.0 + 2.1578 + 110.76 / site_index
      if y2bh < 10.45 then 10.45 else y2bh
    else
      35.87 * PPOW M (site_index - 9.726) (-0.5409)
  else if cu_index = SI_SW_NIGHTA2004 then
    if site_index < 14.2 then
      2.0 + 2.1578 + 110.76 / site_index
    else
      35.87 * PPOW M (site_index - 9.726) (-0.5409)
  else if cu_index = SI_SW_HU_GARCIA then
    if site_index < 14.2 then
      2.0 + 2.1578 + 110.76 / site_index
    else
      35.87 * PPOW M (site_index - 9.726) (-0.5409)
  else if cu_index = SI_SW_NIGHTA then
    if site_index < 14.2 then
      2.0 + 2.1578 + 110.76 / site_index
    else
      35.87 * PPOW M (site_index - 9.726) (-0.5409)
  else if cu_index = SI_SE_NIGH then
    6.0 + 2.1578 + 110.76 / site_index
  else if cu_index = SI_SE_NIGHTA then
    if site_index < 14.2 then
      2.0 + 2.1578 + 110.76 / site_index
    else
      35.87 * PPOW M (site_index - 9.726) (-0.5409)
  else if cu_index = SI_SE_NIGHGI then
    SI_ERR_GI_TOT
  else if cu_index = SI_PLI_THROWNIGH then
    if site_index < 18.5 then
      2 + 0.55 + 69.4 / site_index
    else
      21.6623 * PPOW M (site_index - 9.05671) (-0.550762)
  else if cu_index = SI_PLI_NIGH then
    if site_index < 18.5 then
      2 + 0.55 + 69.4 / site_index
    else
      21.6623 * PPOW M (site_index - 9.05671) (-0.550762)
  else if cu_index = SI_PLI_THROWER then
    2 + 0.55 + 69.4 / site_index
  else if cu_index = SI_PLI_MILNER then
    2 + 3.6 + 42.64 / site_index
  else if cu_index = SI_PLI_CIESZEWSKI then
    2 + 3.6 + 42.64 / site_index
  else if cu_index = SI_PLI_GOUDIE_DRY then
    2 + 3.6 + 42.64 / site_index
  else if cu_index = SI_PLI_GOUDIE_WET then
    2 + 3.6 + 42.64 / site_index
  else if cu_index = SI_PLI_DEMPSTER then
    2 + 3.6 + 42.64 / site_index
  else if cu_index = SI_PL_CHEN then
    2 + 3.6 + 42.64 / site_index
  else if cu_index = SI_SE_CHEN then
    6.0 + 2.1578 + 110.76 / site_index
  else if cu_index = SI_SE_CHENAC then
    6.0 + 2.1578 + 110.76 / site_index
  else if cu_index = SI_SW_NIGHGI then
    SI_ERR_GI_TOT
  else if cu_index = SI_SW_HUANG_PLA then
    4.5 + 4.3473 + 59.908359 / site_index
  else if cu_index = SI_SW_HUANG_NAT then
    8 + 4.3473 + 59.908359 / site_index
  else if cu_index = SI_SW_THROWER then
    4 + 0.38 + 117.34 / site_index
  else if cu_index = SI_SW_KER_PLA then
    2.0 + 2.1578 + 110.76 / site_index
  else if cu_index = SI_SW_KER_NAT then
    6.0 + 2.1578 + 110.76 / site_index
  else if cu_index = SI_SW_GOUDIE_PLA then
    2.0 + 2.1578 + 110.76 / site_index
  else if cu_index = SI_SW_GOUDIE_NAT then
    6.0 + 2.1578 + 110.76 / site_index
  else if cu_index = SI_SW_GOUDIE_PLAAC then
    2.0 + 2.1578 + 110.76 / site_index
  else if cu_index = SI_SW_GOUDIE_NATAC then
    6.0 + 2.1578 + 110.76 / site_index
  else if cu_index = SI_SW_DEMPSTER then
    2.1578 + 110.76 / site_index
  else if cu_index = SI_SW_CIESZEWSKI then
    2.0 + 2.1578 + 110.76 / site_index
  else if cu_index = SI_SB_HUANG then
    8 + 2.288325 + 80.774008 / site_index
  else if cu_index = SI_SB_KER then
    7.0 + 4.0427 + 61.08 / site_index
  else if cu_index = SI_SB_DEMPSTER then
    7.0 + 4.0427 + 61.08 / site_index
  else if cu_index = SI_SB_NIGH then
    7.0 + 4.0427 + 61.08 / site_index
  else if cu_index = SI_SB_CIESZEWSKI then
    7.0 + 4.0427 + 61.08 / site_index
  else if cu_index = SI_SS_GOUDIE then
    let y2bh := 11.7 - site_index / 5.4054
    if y2bh < 1 then 1 else y2bh
  else if cu_index = SI_SS_NIGHGI then
    SI_ERR_GI_TOT
  else if cu_index = SI_SS_NIGH then
    let y2bh := 11.7 - site_index / 5.4054
    if y2bh < 1 then 1 else y2bh
  else if cu_index = SI_SS_FARR then
    let y2bh := 13.25 - site_index / 6.096
    if y2bh < 1 then 1 else y2bh
  else if cu_index = SI_SS_BARKER then
    let y2bh := -5.13 + 450.00 / site_index
    if y2bh < 1 then 1 else y2bh
  else if cu_index = SI_CWI_NIGHGI then
    SI_ERR_GI_TOT
  else if cu_index = SI_CWI_NIGH then
    let y2bh := 18.18 - 0.5526 * site_index
    if y2bh < 1 then 1 else y2bh
  else if cu_index = SI_CWC_KURUCZ then
    let y2bh := 13.25 - site_index / 6.096
    if y2bh < 1 then 1 else y2bh
  else if cu_index = SI_CWC_KURUCZAC then
    let y2bh := 13.25 - site_index / 6.096
    if y2bh < 1 then 1 else y2bh
  else if cu_index = SI_CWC_BARKER then
    let y2bh := -3.46 + 285.00 / site_index
    if y2bh < 1 then 1 else y2bh
  else if cu_index = SI_CWC_NIGH then
    let y2bh := 13.25 - site_index / 6.096
    if y2bh < 1 then 1 else y2bh
  else if cu_index = SI_BA_DILUCCA then
    let y2bh := 18.47373 - 0.4086 * site_index
    if y2bh < 5.0 then 5.0 else y2bh
  else if cu_index = SI_BB_KER then
    let y2bh := 18.47373 - site_index / 2.447
    if y2bh < 5.0 then 5.0 else y2bh
  else if cu_index = SI_BP_CURTIS then
    let y2bh := 18.47373 - 0.4086 * site_index
    if y2bh < 5.0 then 5.0 else y2bh
  else if cu_index = SI_BP_CURTISAC then
    let y2bh := 18.47373 - 0.4086 * site_index
    if y2bh < 5.0 then 5.0 else y2bh
  else if cu_index = SI_BA_NIGHGI then
    SI_ERR_GI_TOT
  else if cu_index = SI_BA_NIGH then
    let y2bh := 18.47373 - 0.4086 * site_index
    if y2bh < 5.0 then 5.0 else y2bh
  else if cu_index = SI_BA_KURUCZ86 then
    let y2bh := 18.47373 - 0.4086 * site_index
    if y2bh < 5.0 then 5.0 else y2bh
  else if cu_index = SI_BA_KURUCZ82 then
    let y2bh := 18.47373 - 0.4086 * site_index
    if y2bh < 5.0 then 5.0 else y2bh
  else if cu_index = SI_BA_KURUCZ82AC then
    let y2bh := 18.47373 - 0.4086 * site_index
    if y2bh < 5.0 then 5.0 else y2bh
  else if cu_index = SI_BL_CHEN then
    let y2bh := 42.25 - 10.66 * LLOG M site_index
    if y2bh < 5.0 then 5.0 else y2bh
  else if cu_index = SI_BL_CHENAC then
    let y2bh := 42.25 - 10.66 * LLOG M site_index
    if y2bh < 5.0 then 5.0 else y2bh
  else if cu_index = SI_BL_THROWERGI then
    SI_ERR_GI_TOT
  else if cu_index = SI_BL_KURUCZ82 then
    let y2bh := 42.25 - 10.66 * LLOG M site_index
    if y2bh < 5.0 then 5.0 else y2bh
  else if cu_index = SI_FDI_NIGHGI then
    SI_ERR_GI_TOT
  else if cu_index = SI_FDI_HUANG_PLA then
    6.5 + 5.276585 + 38.968242 / site_index
  else if cu_index = SI_FDI_HUANG_NAT then
    8 + 5.276585 + 38.968242 / site_index
  else if cu_index = SI_FDI_MILNER then
    4.0 + 99.0 / site_index
  else if cu_index = SI_FDI_THROWER then
    4.0 + 99.0 / site_index
  else if cu_index = SI_FDI_THROWERAC then
    4.0 + 99.0 / site_index
  else if cu_index = SI_FDI_VDP_MONT then
    4.0 + 99.0 / site_index
  else if cu_index = SI_FDI_VDP_WASH then
    4.0 + 99.0 / site_index
  else if cu_index = SI_FDI_MONS_DF then
    let y2bh := 16.0 - site_index / 3.0
    if y2bh < 8.0 then 8.0 else y2bh
  else if cu_index = SI_FDI_MONS_GF then
    let y2bh := 16.0 - site_index / 3.0
    if y2bh < 8.0 then 8.0 else y2bh
  else if cu_index = SI_FDI_MONS_WRC then
    let y2bh := 16.0 - site_index / 3.0
    if y2bh < 8.0 then 8.0 else y2bh
  else if cu_index = SI_FDI_MONS_WH then
    let y2bh := 16.0 - site_index / 3.0
    if y2bh < 8.0 then 8.0 else y2bh
  else if cu_index = SI_FDI_MONS_SAF then
    let y2bh := 16.0 - site_index / 3.0
    if y2bh < 8.0 then 8.0 else y2bh
  else if cu_index = SI_AT_NIGH then
    1.331 + 38.56 / site_index
  else if cu_index = SI_AT_CHEN then
    1.331 + 38.56 / site_index
  else if cu_index = SI_AT_HUANG then
    1 + 2.184066 + 50.788746 / site_index
  else if cu_index = SI_AT_GOUDIE then
    1.331 + 38.56 / site_index
  else if cu_index = SI_ACB_HUANG then
    let y2bh := 1 - 1.196472 + 104.124205 / site_index
    if y2bh < 1 then 1 else y2bh
  else if cu_index = SI_ACB_HUANGAC then
    let y2bh := 1 - 1.196472 + 104.124205 / site_index
    if y2bh < 1 then 1 else y2bh
  else if cu_index = SI_ACT_THROWER then
    2
  else if cu_index = SI_ACT_THROWERAC then
    2
  else if cu_index = SI_AT_CIESZEWSKI then
    1.331 + 38.56 / site_index
  else if cu_index = SI_DR_HARRING then
    let si20 := PPOW M site_index 1.5 / 8.0
    if si20 >= 15 then 1.0 else 2.0
  else if cu_index = SI_DR_CHEN then
    let si20 := PPOW M site_index 1.5 / 8.0
    if si20 >= 15 then 1.0 else 2.0
  else if cu_index = SI_DR_NIGH then
    let si25 := 0.3094 + 0.7616 * site_index
    if si25 <= 25 then 5.494 - 0.1789 * si25 else 1.0
  else if cu_index = SI_PY_NIGHGI then
    SI_ERR_GI_TOT
  else if cu_index = SI_PY_NIGH then
    36.35 * M.pow 0.9318 site_index
  else if cu_index = SI_PY_HANN then
    2 + 3.6 + 42.64 / site_index
  else if cu_index = SI_PY_HANNAC then
    2 + 3.6 + 42.64 / site_index
  else if cu_index = SI_PY_MILNER then
    2 + 3.6 + 42.64 / site_index
  else if cu_index = SI_LW_MILNER then
    3.36 + 87.18 / site_index
  else if cu_index = SI_LW_NIGH then
    3.36 + 87.18 / site_index
  else if cu_index = SI_EP_NIGH then
    1.331 + 38.56 / site_index
  else if cu_index = SI_PW_CURTIS then
    2.0 + 2.1578 + 110.76 / site_index
  else if cu_index = SI_PW_CURTISAC then
    2.0 + 2.1578 + 110.76 / site_index
  else
    SI_ERR_CURVE

/-- The function `si_y2bh05` of `siy2bh.c`: the answer of `si_y2bh` forced to the
steps 0.5, 1.5, 2.5, ... -/
def si_y2bh05 (M : Extern α) (cu_index : ℤ) (site_index : α) : α :=
  let y2bh := si_y2bh M cu_index site_index
  -- force answer to be in steps 0.5, 1.5, 2.5, etc.
  (c_int y2bh : α) + 0.5

end YearsToBreastHeight

/-! ## `si2age.c`

The file has its own `static` copies of `hu_garcia_q` and `hu_garcia_h`, identical
to those of `si2ht.c`; the embedding uses the definitions above for both. -/

section IndexToAge

variable {α : Type} [LinearOrderedField α] [FloorRing α]

/-- The constant `MAX_AGE` of `si2age.c`. -/
def MAX_AGE : α := 999.0

/-- The function `hu_garcia_bha` of `si2age.c`. -/
def hu_garcia_bha (M : Extern α) (q height : α) : α :=
  let a := 283.9 * M.pow q 0.5137
  let bhage := 0.5 - 1 / q * M.log ((1 - M.pow (height / a) 0.5829) / (1 - M.pow (1.3 / a) 0.5829))
  bhage

/-- The `do ... while (1)` loop of `iterate`, started with the values `si2age`,
`step` and `err_count` of the locals; the result is the value of `si2age` when the
loop is left.  Each iteration takes one unit of the loop fuel (the first
argument of type `ℕ` after `y2bh`); `fuel` is the fuel of the calls of
`index_to_height`. -/
def iterate_loop (M : Extern α) (fuel : ℕ) (cu_index : ℤ) (site_height site_index y2bh : α) :
    ℕ → α → α → ℤ → Option α
  | 0, _, _, _ => none
  | n + 1, si2age, step, err_count =>
    (index_to_height M fuel cu_index si2age SI_AT_TOTAL site_index y2bh 0.5).bind fun test_ht =>
    -- height > 999: test_ht = 1000, err_count++
    let err_count := if test_ht = SI_ERR_NO_ANS then err_count + 1 else err_count
    if test_ht = SI_ERR_NO_ANS ∧ err_count = 100 then
      some SI_ERR_NO_ANS
    else
      let test_ht := if test_ht = SI_ERR_NO_ANS then 1000 else test_ht
      -- see if we're close enough
      if test_ht - site_height > 0.005 ∨ test_ht - site_height < -0.005 then
        -- not close enough
        let step :=
          if test_ht > site_height then
            if step > 0 then (-step) / 2.0 else step
          else
            if step < 0 then (-step) / 2.0 else step
        let si2age := si2age + step
        -- check for lack of convergence, so we're not here forever
        if step < 0.00001 ∧ step > -0.00001 then
          -- we have a value, but perhaps not too accurate
          some si2age
        else if si2age > 999.0 then
          some SI_ERR_NO_ANS
        else
          iterate_loop M fuel cu_index site_height site_index y2bh n si2age step err_count
      else
        -- done
        some si2age

/-- The function `iterate` of `si2age.c`.  `fuel` bounds the number of iterations
of the loop and is the fuel of each call of `index_to_height`. -/
def iterate (M : Extern α) (fuel : ℕ) (cu_index : ℤ) (site_height : α) (age_type : ℤ)
    (site_index y2bh : α) : Option α :=
  -- initial guess
  let si2age : α := 25
  let step := si2age / 2
  -- do a preliminary test to catch some obvious errors
  (index_to_height M fuel cu_index si2age SI_AT_TOTAL site_index y2bh 0.5).bind fun test_ht =>
  if test_ht = SI_ERR_CURVE ∨ test_ht = SI_ERR_LT13 ∨ test_ht = SI_ERR_GI_MIN ∨
      test_ht = SI_ERR_GI_MAX ∨ test_ht = SI_ERR_GI_TOT then
    some test_ht
  else
    -- loop until real close, or other end condition
    (iterate_loop M fuel cu_index site_height site_index y2bh fuel si2age step 0).bind
      fun si2age =>
    if si2age >= 0 then
      if age_type = SI_AT_BREAST then
        some (age_to_age cu_index si2age SI_AT_TOTAL SI_AT_BREAST y2bh)
      else some si2age
    else some si2age

/-- The loop `for (age = 1; age < 100; age += 1)` of `gi_iterate`, started with the
values of `age`, `diff`, `mindiff` and `si2age`; the result is the triple of
`age`, `diff` and `si2age` when the loop is left.  The counter bounds the number of
tests of the loop condition: 100 suffice, for the ages 1, 2, ..., 100. -/
def gi_iterate_loop (M : Extern α) (cu_index : ℤ) (site_height site_index : α) :
    ℕ → α → α → α → α → α × α × α
  | 0, age, diff, _, si2age => (age, diff, si2age)
  | n + 1, age, diff, mindiff, si2age =>
    if age < 100 then
      let test_site := M.height_to_index cu_index age SI_AT_BREAST site_height SI_EST_DIRECT
      if test_site = SI_ERR_GI_MAX then
        (age, diff, si2age)
      else
        let diff := if test_site > site_index then test_site - site_index
          else site_index - test_site
        if diff < mindiff then
          gi_iterate_loop M cu_index site_height site_index n (age + 1) diff diff age
        else
          gi_iterate_loop M cu_index site_height site_index n (age + 1) diff mindiff si2age
    else (age, diff, si2age)

/-- The function `gi_iterate` of `si2age.c`. -/
def gi_iterate (M : Extern α) (cu_index : ℤ) (site_height : α) (age_type : ℤ)
    (site_index : α) : α :=
  if age_type = SI_AT_TOTAL then SI_ERR_GI_TOT
  else
    let r := gi_iterate_loop M cu_index site_height site_index 100 1 0 999 1
    let age := r.1
    let diff := r.2.1
    let si2age := r.2.2
    if si2age = 1 then
      -- right answer, or not low enough
      if diff > 1 then SI_ERR_NO_ANS else si2age
    else if si2age = age - 1 then
      -- right answer, or not high enough
      if diff > 1 then SI_ERR_NO_ANS else si2age
    else si2age

/-! ### The arms of the `switch (cu_index)` of `index_to_age` -/

/-- Arm `case SI_FDC_BRUCE:` of the `switch` of `index_to_age` (si2age.c line 129). -/
def si2age_FDC_BRUCE (M : Extern α) (site_height : α) (age_type : ℤ) (site_index : α) : α :=
  let y2bh := 13.25 - site_index / 6.096
  let x1 := site_index / 30.48
  let x2 := -0.477762 + x1 * (-0.894427 + x1 * (0.793548 - x1 * 0.171666))
  let x3 := PPOW M (50.0 + y2bh) x2
  let x4 := LLOG M (1.372 / site_index) / (PPOW M y2bh x2 - x3)
  let x1 := LLOG M (site_height / site_index) / x4 + x3
  if x1 < 0 then
    SI_ERR_NO_ANS
  else
    let age := PPOW M x1 (1 / x2)
    let age :=
      if age_type = SI_AT_BREAST then age - y2bh else age
    if age < 0.0 then
      0.0
    else
      if age > MAX_AGE then SI_ERR_NO_ANS else age

/-- Arm `case SI_SW_HU_GARCIA:` of the `switch` of `index_to_age` (si2age.c line 157). -/
def si2age_SW_HU_GARCIA (M : Extern α) (fuel : ℕ) (site_height : α) (age_type : ℤ)
    (site_index y2bh : α) : Option α :=
  (hu_garcia_q M fuel site_index 50.0).bind fun q =>
  let age := hu_garcia_bha M q site_height
  if age_type = SI_AT_TOTAL then some (age + y2bh) else some age

/-- Arm `case SI_HWC_WILEY:` of the `switch` of `index_to_age` (si2age.c line 172). -/
def si2age_WILEY (M : Extern α) (fuel : ℕ) (cu_index : ℤ) (site_height : α) (age_type : ℤ)
    (site_index y2bh : α) : Option α :=
  let age :=
    if site_height / 0.3048 < 4.5 then
      let age := y2bh * PPOW M (site_height / 1.37) 0.5
      let age := if age_type = SI_AT_BREAST then age - y2bh else age
      if age < 0.0 then 0.0 else age
    else
      let x1 := 2500 / (site_index / 0.3048 - 4.5)
      let x2 := -1.7307 + 0.1394 * x1
      let x3 := -0.0616 + 0.0137 * x1
      let x4 := 0.00192428 + 0.00007024 * x1
      let x1 := (4.5 - site_height / 0.3048)
      let a := 1 + x1 * x4
      let b := x1 * x3
      let c := x1 * x2
      let x1 := PPOW M (b * b - 4 * a * c) 0.5
      if x1 = 0.0 then SI_ERR_NO_ANS
      else
        let age := (-b + x1) / (2 * a)
        let age := if age_type = SI_AT_TOTAL then age + y2bh else age
        if age < 0 then SI_ERR_NO_ANS
        else if age > MAX_AGE then SI_ERR_NO_ANS
        else age
  if age < 10 ∧ age > 0 then
    iterate M fuel cu_index site_height age_type site_index y2bh
  else some age

/-- Arm `case SI_PLI_GOUDIE_DRY:`, `case SI_PLI_GOUDIE_WET:`, `case SI_SS_GOUDIE:`,
`case SI_SW_GOUDIE_PLA:`, `case SI_SW_GOUDIE_NAT:` of the `switch` of `index_to_age`
(si2age.c line 242). -/
def si2age_GOUDIE (M : Extern α) (cu_index : ℤ) (site_height : α) (age_type : ℤ)
    (site_index y2bh : α) : α :=
  if site_height < 1.3 then
    let age := y2bh * PPOW M (site_height / 1.3) 0.5
    let age :=
      if age_type = SI_AT_BREAST then age - y2bh else age
    if age < 0.0 then 0.0 else age
  else
    let x1 : α :=
      if cu_index = SI_PLI_GOUDIE_DRY then -1.00726
      else if cu_index = SI_PLI_GOUDIE_WET then -0.935
      else if cu_index = SI_SS_GOUDIE then -1.5282
      else if cu_index = SI_SW_GOUDIE_PLA then -1.2866
      else if cu_index = SI_SW_GOUDIE_NAT then -1.2866
      else 0
    let x2 : α :=
      if cu_index = SI_PLI_GOUDIE_DRY then 7.81498
      else if cu_index = SI_PLI_GOUDIE_WET then 7.81498
      else if cu_index = SI_SS_GOUDIE then 11.0605
      else if cu_index = SI_SW_GOUDIE_PLA then 9.7936
      else if cu_index = SI_SW_GOUDIE_NAT then 9.7936
      else 0
    let x3 : α :=
      if cu_index = SI_PLI_GOUDIE_DRY then -1.28517
      else if cu_index = SI_PLI_GOUDIE_WET then -1.28517
      else if cu_index = SI_SS_GOUDIE then -1.5108
      else if cu_index = SI_SW_GOUDIE_PLA then -1.4661
      else if cu_index = SI_SW_GOUDIE_NAT then -1.4661
      else 0
    let a := (site_index - 1.3) * (1 + M.exp (x2 + x1 * LLOG M (site_index - 1.3) + x3 * M.log 50.0))
    let b := x2 + x1 * LLOG M (site_index - 1.3)
    let age := M.exp ((LLOG M (a / (site_height - 1.3) - 1) - b) / x3)
    let age :=
      if age_type = SI_AT_TOTAL then age + y2bh else age
    if age < 0 then
      0
    else
      if age > MAX_AGE then SI_ERR_NO_ANS else age

/-- The `switch (cu_index)` of `index_to_age` followed by `return (age)`: the
`case` labels in the order of the source, then `default:`. -/
def index_to_age_switch (M : Extern α) (fuel : ℕ) (cu_index : ℤ) (site_height : α)
    (age_type : ℤ) (site_index y2bh : α) : Option α :=
  if cu_index = SI_FDC_BRUCE then
    some (si2age_FDC_BRUCE M site_height age_type site_index)
  else if cu_index = SI_SW_HU_GARCIA then
    si2age_SW_HU_GARCIA M fuel site_height age_type site_index y2bh
  else if cu_index = SI_HWC_WILEY then
    si2age_WILEY M fuel cu_index site_height age_type site_index y2bh
  else if cu_index = SI_PLI_GOUDIE_DRY ∨ cu_index = SI_PLI_GOUDIE_WET ∨
      cu_index = SI_SS_GOUDIE ∨ cu_index = SI_SW_GOUDIE_PLA ∨ cu_index = SI_SW_GOUDIE_NAT then
    some (si2age_GOUDIE M cu_index site_height age_type site_index y2bh)
  else if cu_index = SI_BL_THROWERGI then
    some (gi_iterate M cu_index site_height age_type site_index)
  else if cu_index = SI_CWI_NIGHGI then
    some (gi_iterate M cu_index site_height age_type site_index)
  else if cu_index = SI_FDC_NIGHGI then
    some (gi_iterate M cu_index site_height age_type site_index)
  else if cu_index = SI_FDI_NIGHGI then
    some (gi_iterate M cu_index site_height age_type site_index)
  else if cu_index = SI_HWC_NIGHGI then
    some (gi_iterate M cu_index site_height age_type site_index)
  else if cu_index = SI_HWC_NIGHGI99 then
    some (gi_iterate M cu_index site_height age_type site_index)
  else if cu_index = SI_HWI_NIGHGI then
    some (gi_iterate M cu_index site_height age_type site_index)
  else if cu_index = SI_LW_NIGHGI then
    some (gi_iterate M cu_index site_height age_type site_index)
  else if cu_index = SI_PLI_NIGHGI97 then
    some (gi_iterate M cu_index site_height age_type site_index)
  else if cu_index = SI_SS_NIGHGI then
    some (gi_iterate M cu_index site_height age_type site_index)
  else if cu_index = SI_SS_NIGHGI99 then
    some (gi_iterate M cu_index site_height age_type site_index)
  else if cu_index = SI_SW_NIGHGI then
    some (gi_iterate M cu_index site_height age_type site_index)
  else if cu_index = SI_SW_NIGHGI99 then
    some (gi_iterate M cu_index site_height age_type site_index)
  else
    iterate M fuel cu_index site_height age_type site_index y2bh

/-- The function `index_to_age` of `si2age.c`.  `fuel` bounds the loops and the
calls of `index_to_height`; the result is `none` when the fuel does not suffice
and `some v` when the C function returns `v`.  The two `return`s nested in
`if (site_height < 1.3)` are the first two branches; control falls through to the
check of the site index otherwise. -/
def index_to_age (M : Extern α) (fuel : ℕ) (cu_index : ℤ) (site_height : α) (age_type : ℤ)
    (site_index y2bh : α) : Option α :=
  if site_height < 1.3 ∧ age_type = SI_AT_BREAST then
    some SI_ERR_LT13
  else if site_height < 1.3 ∧ site_height ≤ 0.0001 then
    some 0
  else if site_index < 1.3 then
    some SI_ERR_LT13
  else
    index_to_age_switch M fuel cu_index site_height age_type site_index y2bh

end IndexToAge

/-! ## Auxiliary definitions for the statements -/

section Auxiliary

variable {α : Type} [LinearOrderedField α] [FloorRing α]

/-- The recursive call available to `index_to_height M fuel`: none when the fuel
is exhausted, `index_to_height` with one unit less otherwise. -/
def index_to_height_rec (M : Extern α) : ℕ → ℤ → α → ℤ → α → α → α → Option α
  | 0 => fun _ _ _ _ _ _ => none
  | fuel + 1 => index_to_height M fuel

/-- The curves of the `GOUDIE` arm of `index_to_height` (the Goudie logistic
family of the specification). -/
def goudie_family : List ℤ :=
  [SI_PLI_GOUDIE_DRY, SI_PLI_GOUDIE_WET, SI_PLI_DEMPSTER, SI_SW_GOUDIE_PLA, SI_SW_GOUDIE_NAT,
   SI_SW_DEMPSTER, SI_SB_DEMPSTER, SI_SS_GOUDIE, SI_FDI_THROWER, SI_AT_GOUDIE]

/-- An implementation of the external functions over `ℚ`, by crude rational
formulas; it serves to evaluate the embedding on concrete inputs. -/
def Extern.crude : Extern ℚ where
  exp := fun x => 1 + x
  log := fun x => x - 1
  pow := fun x y => x * y
  sqrt := fun x => (x + 1) / 2
  height_to_index := fun _ _ _ height _ => height

/-- The external functions over the real numbers: the functions of real analysis
that the C math library approximates (`pow` is the real power `x ^ y`).  As in
`Extern.crude`, `height_to_index` returns its height argument; no statement below
depends on it. -/
noncomputable def Extern.real : Extern ℝ where
  exp := Real.exp
  log := Real.log
  pow := fun x y => x ^ y
  sqrt := Real.sqrt
  height_to_index := fun _ _ _ height _ => height

/-- The unrounded years to breast height that the arms of `SI_FDC_BRUCE` force
(`y2bh = 13.25 - site_index / 6.096`). -/
def bruce_y2bh (site_index : α) : α :=
  13.25 - site_index / 6.096

/-- The exponent `x2` of the arms of `SI_FDC_BRUCE`. -/
def bruce_x2 (site_index : α) : α :=
  -0.477762 + site_index / 30.48 * (-0.894427 + site_index / 30.48 *
    (0.793548 - site_index / 30.48 * 0.171666))

/-- The total age `tage` that `index_to_height` derives from its age argument,
given the normalised `y2bh`. -/
def index_to_height_tage (cu_index : ℤ) (iage : α) (age_type : ℤ) (y2bh : α) : α :=
  if age_type = SI_AT_TOTAL then iage
  else age_to_age cu_index iage SI_AT_BREAST SI_AT_TOTAL y2bh

/-- The breast-height age `bhage` that `index_to_height` derives from its age
argument, given the normalised `y2bh`. -/
def index_to_height_bhage (cu_index : ℤ) (iage : α) (age_type : ℤ) (y2bh : α) : α :=
  if age_type = SI_AT_TOTAL then age_to_age cu_index iage SI_AT_TOTAL SI_AT_BREAST y2bh
  else iage

/-- The sixteen "AC" curve variants (origin corrected to breast-height age 0.5). -/
def ac_curves : List ℤ :=
  [SI_ACB_HUANGAC, SI_ACT_THROWERAC, SI_BA_KURUCZ82AC, SI_BL_CHENAC, SI_BP_CURTISAC,
   SI_CWC_KURUCZAC, SI_FDC_BRUCEAC, SI_FDI_THROWERAC, SI_HM_MEANSAC, SI_HWC_WILEYAC,
   SI_PJ_HUANGAC, SI_PW_CURTISAC, SI_PY_HANNAC, SI_SE_CHENAC, SI_SW_GOUDIE_NATAC,
   SI_SW_GOUDIE_PLAAC]

/-- The "AC" variants whose arm is `if (bhage > 0.5) ... else` quadratic ramp with
the constant 1.3. -/
def ac_ramp_curves_13 : List ℤ :=
  [SI_ACB_HUANGAC, SI_ACT_THROWERAC, SI_BL_CHENAC, SI_FDI_THROWERAC, SI_PJ_HUANGAC]

/-- The "AC" variants whose arm is `if (bhage > 0.5) ... else` quadratic ramp with
the constant 1.37. -/
def ac_ramp_curves_137 : List ℤ :=
  [SI_BP_CURTISAC, SI_HM_MEANSAC, SI_PW_CURTISAC, SI_PY_HANNAC]

/-- The logistic-ratio curves of the specification whose reference breast-height
age is 50: the Goudie family, `SI_ACT_THROWER`, the Chen family, `SI_BA_DILUCCA`,
`SI_PJ_HUANG` and the half-year-offset variants. -/
def logistic_ratio_curves : List ℤ :=
  goudie_family ++
  [SI_ACT_THROWER, SI_BL_CHEN, SI_SE_CHEN, SI_PL_CHEN, SI_BA_DILUCCA, SI_PJ_HUANG,
   SI_SS_NIGH, SI_CWI_NIGH, SI_HWI_NIGH, SI_EP_NIGH, SI_SB_NIGH, SI_AT_NIGH,
   SI_FDI_THROWERAC, SI_SW_THROWER]

/-- The Goudie curves that `index_to_age` inverts in closed form (the labels of its
`GOUDIE` arm). -/
def goudie_closed_form : List ℤ :=
  [SI_PLI_GOUDIE_DRY, SI_PLI_GOUDIE_WET, SI_SS_GOUDIE, SI_SW_GOUDIE_PLA, SI_SW_GOUDIE_NAT]

/-- The seventeen growth-intercept curves (the labels of the `GI_MODEL` arm of
`index_to_height`). -/
def gi_curves : List ℤ :=
  [SI_BA_NIGHGI, SI_BL_THROWERGI, SI_PY_NIGHGI, SI_CWI_NIGHGI, SI_FDC_NIGHGI, SI_FDI_NIGHGI,
   SI_HWC_NIGHGI, SI_HWC_NIGHGI99, SI_HWI_NIGHGI, SI_LW_NIGHGI, SI_PLI_NIGHGI97, SI_SE_NIGHGI,
   SI_SS_NIGHGI, SI_SS_NIGHGI99, SI_SW_NIGHGI, SI_SW_NIGHGI99, SI_SW_NIGHGI2004]

/-- The growth-intercept curves without a `case` label in `index_to_age`: they take
its `default:` arm. -/
def gi_curves_without_age_arm : List ℤ :=
  [SI_BA_NIGHGI, SI_PY_NIGHGI, SI_SE_NIGHGI, SI_SW_NIGHGI2004]

/-- The `case` labels of `si_y2bh`, in the order of the source. -/
def si_y2bh_labels : List ℤ :=
  [SI_FDC_NIGHGI, SI_FDC_BRUCE, SI_FDC_BRUCEAC, SI_FDC_NIGHTA, SI_FDC_BRUCENIGH,
   SI_FDC_COCHRAN, SI_FDC_KING, SI_HWC_FARR, SI_HWC_BARKER, SI_HM_MEANS, SI_HM_MEANSAC,
   SI_HWI_NIGH, SI_HWI_NIGHGI, SI_HWC_NIGHGI, SI_HWC_NIGHGI99, SI_SS_NIGHGI99, SI_SW_NIGHGI99,
   SI_SW_NIGHGI2004, SI_LW_NIGHGI, SI_HWC_WILEY, SI_HWC_WILEYAC, SI_HWC_WILEY_BC,
   SI_HWC_WILEY_MB, SI_PJ_HUANG, SI_PJ_HUANGAC, SI_PLI_NIGHGI97, SI_PLI_HUANG_PLA,
   SI_PLI_HUANG_NAT, SI_PLI_NIGHTA2004, SI_PLI_NIGHTA98, SI_SW_GOUDNIGH, SI_SW_NIGHTA2004,
   SI_SW_HU_GARCIA, SI_SW_NIGHTA, SI_SE_NIGH, SI_SE_NIGHTA, SI_SE_NIGHGI, SI_PLI_THROWNIGH,
   SI_PLI_NIGH, SI_PLI_THROWER, SI_PLI_MILNER, SI_PLI_CIESZEWSKI, SI_PLI_GOUDIE_DRY,
   SI_PLI_GOUDIE_WET, SI_PLI_DEMPSTER, SI_PL_CHEN, SI_SE_CHEN, SI_SE_CHENAC, SI_SW_NIGHGI,
   SI_SW_HUANG_PLA, SI_SW_HUANG_NAT, SI_SW_THROWER, SI_SW_KER_PLA, SI_SW_KER_NAT,
   SI_SW_GOUDIE_PLA, SI_SW_GOUDIE_NAT, SI_SW_GOUDIE_PLAAC, SI_SW_GOUDIE_NATAC, SI_SW_DEMPSTER,
   SI_SW_CIESZEWSKI, SI_SB_HUANG, SI_SB_KER, SI_SB_DEMPSTER, SI_SB_NIGH, SI_SB_CIESZEWSKI,
   SI_SS_GOUDIE, SI_SS_NIGHGI, SI_SS_NIGH, SI_SS_FARR, SI_SS_BARKER, SI_CWI_NIGHGI,
   SI_CWI_NIGH, SI_CWC_KURUCZ, SI_CWC_KURUCZAC, SI_CWC_BARKER, SI_CWC_NIGH, SI_BA_DILUCCA,
   SI_BB_KER, SI_BP_CURTIS, SI_BP_CURTISAC, SI_BA_NIGHGI, SI_BA_NIGH, SI_BA_KURUCZ86,
   SI_BA_KURUCZ82, SI_BA_KURUCZ82AC, SI_BL_CHEN, SI_BL_CHENAC, SI_BL_THROWERGI, SI_BL_KURUCZ82,
   SI_FDI_NIGHGI, SI_FDI_HUANG_PLA, SI_FDI_HUANG_NAT, SI_FDI_MILNER, SI_FDI_THROWER,
   SI_FDI_THROWERAC, SI_FDI_VDP_MONT, SI_FDI_VDP_WASH, SI_FDI_MONS_DF, SI_FDI_MONS_GF,
   SI_FDI_MONS_WRC, SI_FDI_MONS_WH, SI_FDI_MONS_SAF, SI_AT_NIGH, SI_AT_CHEN, SI_AT_HUANG,
   SI_AT_GOUDIE, SI_ACB_HUANG, SI_ACB_HUANGAC, SI_ACT_THROWER, SI_ACT_THROWERAC,
   SI_AT_CIESZEWSKI, SI_DR_HARRING, SI_DR_CHEN, SI_DR_NIGH, SI_PY_NIGHGI, SI_PY_NIGH,
   SI_PY_HANN, SI_PY_HANNAC, SI_PY_MILNER, SI_LW_MILNER, SI_LW_NIGH, SI_EP_NIGH, SI_PW_CURTIS,
   SI_PW_CURTISAC]

/-- The lower branch of the `SI_SW_GOUDNIGH` arm of `index_to_height` for a site
index of at least 19.5 (si2ht.c lines 562-563): Nigh's total-age curve. -/
def sw_goudnigh_nigh (M : Extern α) (tage site_index : α) : α :=
  (-0.01666 + 0.001722 * site_index) * PPOW M tage 1.858 * PPOW M 0.9982 tage

/-- The upper branch of the `SI_SW_GOUDNIGH` arm of `index_to_height` for a site
index of at least 19.5 (si2ht.c lines 568-573): Goudie's breast-height age curve. -/
def sw_goudnigh_goudie (M : Extern α) (bhage site_index : α) : α :=
  let x1 := (1.0 + M.exp (9.7936 - 1.2866 * LLOG M (site_index - 1.3) - 1.4661 * M.log 49.5)) / (1.0 + M.exp (9.7936 - 1.2866 * LLOG M (site_index - 1.3) - 1.4661 * M.log (bhage - 0.5)))
  1.3 + (site_index - 1.3) * x1

/-- The branch `if (tage < 50)` of the `SI_FDC_BRUCENIGH` arm of `index_to_height`
(si2ht.c lines 796-808), as a function of the total age: Bruce's height at age 50,
smoothed into the Nigh curve. -/
def brucenigh_below (M : Extern α) (tage site_index : α) : α :=
  let y2bh := 13.25 - site_index / 6.096
  let x1 := site_index / 30.48
  let x2 := -0.477762 + x1 * (-0.894427 + x1 * (0.793548 - x1 * 0.171666))
  let x3 := PPOW M (50.0 + y2bh - 0.5) x2
  let x4 := M.log (1.372 / site_index) / (PPOW M (y2bh - 0.5) x2 - x3)
  let height := site_index * M.exp (x4 * (PPOW M 50 x2 - x3))
  let x4 := PPOW M (height * PPOW M 50 (-2.037) / (-0.0123 + 0.00158 * site_index)) (1.0 / 50)
  (-0.0123 + 0.00158 * site_index) * PPOW M tage 2.037 * PPOW M x4 tage

/-- The curves whose arm of `index_to_height` calls `index_to_height` again, at a
safe age (high site index, low age). -/
def guarded_curves : List ℤ :=
  [SI_HWC_WILEY, SI_HWC_WILEY_BC, SI_HWC_WILEY_MB, SI_HWC_WILEYAC, SI_CWC_KURUCZ,
   SI_CWC_KURUCZAC, SI_BA_KURUCZ82, SI_BL_KURUCZ82, SI_BA_KURUCZ82AC, SI_DR_HARRING]

/-- The curve indices without a `case` label in the `switch` of
`Sindex_NextCurve`. -/
def next_curve_unlabelled : List ℤ :=
  [SI_BB_KER, SI_HWC_NIGHGI, SI_SS_NIGHGI, SI_SW_NIGHGI, SI_SW_DEMPSTER, SI_DR_CHEN,
   SI_SW_NIGHGI99, SI_FDC_BRUCENIGH, SI_PLI_NIGHTA2004, SI_SE_NIGHTA, SI_SW_NIGHTA2004]

/-- The condition under which the arm of a guarded curve calls `index_to_height`
again (high site index at a low age), as a function of the derived ages: the two
nested tests that open the arm (the single test for `SI_DR_HARRING`). -/
def guard_condition (cu_index : ℤ) (tage bhage site_index pi : α) : Prop :=
  if cu_index = SI_HWC_WILEY ∨ cu_index = SI_HWC_WILEY_BC ∨ cu_index = SI_HWC_WILEY_MB then
    bhage > 0.0 ∧ site_index > 60 + 1.667 * bhage
  else if cu_index = SI_HWC_WILEYAC then
    bhage >= pi ∧ site_index > 60 + 1.667 * (bhage - pi)
  else if cu_index = SI_CWC_KURUCZ then
    bhage > 0.0 ∧ site_index > 43 + 1.667 * bhage
  else if cu_index = SI_CWC_KURUCZAC then
    bhage >= 0.5 ∧ site_index > 43 + 1.667 * (bhage - 0.5)
  else if cu_index = SI_BA_KURUCZ82 ∨ cu_index = SI_BL_KURUCZ82 then
    bhage > 0.0 ∧ site_index > 60 + 1.667 * bhage
  else if cu_index = SI_BA_KURUCZ82AC then
    bhage >= 0.5 ∧ site_index > 60 + 1.667 * (bhage - 0.5)
  else if cu_index = SI_DR_HARRING then
    site_index > 45 + 2.5 * tage
  else False

/-- The safe age `x1` at which the arm of a guarded curve evaluates
`index_to_height` again. -/
def guard_safe_age (cu_index : ℤ) (site_index pi : α) : α :=
  if cu_index = SI_HWC_WILEY ∨ cu_index = SI_HWC_WILEY_BC ∨ cu_index = SI_HWC_WILEY_MB then
    (site_index - 60) / 1.667 + 0.1
  else if cu_index = SI_HWC_WILEYAC then
    (site_index - 60) / 1.667 + 0.1 + pi
  else if cu_index = SI_CWC_KURUCZ then
    (site_index - 43) / 1.667 + 0.1
  else if cu_index = SI_CWC_KURUCZAC then
    (site_index - 43) / 1.667 + 0.1 + 0.5
  else if cu_index = SI_BA_KURUCZ82 ∨ cu_index = SI_BL_KURUCZ82 then
    (site_index - 60) / 1.667 + 0.1
  else if cu_index = SI_BA_KURUCZ82AC then
    (site_index - 60) / 1.667 + 0.1 + 0.5
  else if cu_index = SI_DR_HARRING then
    (site_index - 45) / 2.5 + 0.1
  else 0

/-- The age type of the safe age: total age for `SI_DR_HARRING`, breast-height age
for the other guarded curves. -/
def guard_safe_age_type (cu_index : ℤ) : ℤ :=
  if cu_index = SI_DR_HARRING then SI_AT_TOTAL else SI_AT_BREAST

end Auxiliary

/-! ## Rounded arithmetic

The embedding above takes the C type `double` as an exact ordered field.  The
definitions of this part round: they are used to show where a statement that holds
in exact arithmetic fails in the arithmetic of `double`. -/

/-- Rounding of a rational number to the nearest integer, a tie going to the even
neighbour. -/
def round_even (x : ℚ) : ℤ :=
  if x - ⌊x⌋ < 1 / 2 then ⌊x⌋
  else if x - ⌊x⌋ > 1 / 2 then ⌊x⌋ + 1
  else if ⌊x⌋ % 2 = 0 then ⌊x⌋ else ⌊x⌋ + 1

/-- The value of the C type `double` (IEEE 754 binary64, rounding to nearest, ties
to even) that represents the rational number `x`: `x` rounded to 53 significant
binary digits.  The exponent is not bounded: overflow and subnormal numbers are not
modelled. -/
def binary64 (x : ℚ) : ℚ :=
  if x = 0 then 0
  else (round_even (x / 2 ^ (Int.log 2 |x| - 52)) : ℚ) * 2 ^ (Int.log 2 |x| - 52)

/-- The macro `LLOG(x)` in rounded arithmetic: its literals pass through the
rounding `r`. -/
def LLOG_rounded {α : Type} [LinearOrderedField α] (r : α → α) (M : Extern α) (x : α) : α :=
  if x ≤ r 0.0 then M.log (r 0.00001) else M.log x

/-- The arm of the Goudie family of the `switch` of `index_to_height` (the code
under `#ifdef GOUDIE`, si2ht.c line 1017) in rounded arithmetic: the arm
`si2ht_GOUDIE` with every literal and the result of
every arithmetic operation passed through the rounding `r`, in the order of
evaluation of the C expressions.  With `r = id` it is `si2ht_GOUDIE`; with
`r = binary64` it is the arithmetic of the C type `double`, each operation rounded
once. -/
def si2ht_GOUDIE_rounded {α : Type} [LinearOrderedField α] (r : α → α) (M : Extern α)
    (cu_index : ℤ) (tage bhage site_index y2bh : α) : α :=
  if bhage > r 0.0 then
    let x1 : α :=
      if cu_index = SI_PLI_GOUDIE_DRY then r (-1.00726)
      else if cu_index = SI_PLI_GOUDIE_WET then r (-0.935)
      else if cu_index = SI_PLI_DEMPSTER then r (-0.9576)
      else if cu_index = SI_SW_GOUDIE_PLA then r (-1.2866)
      else if cu_index = SI_SW_GOUDIE_NAT then r (-1.2866)
      else if cu_index = SI_SW_DEMPSTER then r (-1.2240)
      else if cu_index = SI_SB_DEMPSTER then r (-1.3154)
      else if cu_index = SI_SS_GOUDIE then r (-1.5282)
      else if cu_index = SI_FDI_THROWER then r (-0.237724692)
      else if cu_index = SI_AT_GOUDIE then r (-0.618)
      else 0
    let x2 : α :=
      if cu_index = SI_PLI_GOUDIE_DRY then r 7.81498
      else if cu_index = SI_PLI_GOUDIE_WET then r 7.81498
      else if cu_index = SI_PLI_DEMPSTER then r 7.4871
      else if cu_index = SI_SW_GOUDIE_PLA then r 9.7936
      else if cu_index = SI_SW_GOUDIE_NAT then r 9.7936
      else if cu_index = SI_SW_DEMPSTER then r 9.6183
      else if cu_index = SI_SB_DEMPSTER then r 8.5594
      else if cu_index = SI_SS_GOUDIE then r 11.0605
      else if cu_index = SI_FDI_THROWER then r 5.780089777
      else if cu_index = SI_AT_GOUDIE then r 6.879
      else 0
    let x3 : α :=
      if cu_index = SI_PLI_GOUDIE_DRY then r (-1.28517)
      else if cu_index = SI_PLI_GOUDIE_WET then r (-1.28517)
      else if cu_index = SI_PLI_DEMPSTER then r (-1.2036)
      else if cu_index = SI_SW_GOUDIE_PLA then r (-1.4661)
      else if cu_index = SI_SW_GOUDIE_NAT then r (-1.4661)
      else if cu_index = SI_SW_DEMPSTER then r (-1.4627)
      else if cu_index = SI_SB_DEMPSTER then r (-1.1484)
      else if cu_index = SI_SS_GOUDIE then r (-1.5108)
      else if cu_index = SI_FDI_THROWER then r (-1.150039266)
      else if cu_index = SI_AT_GOUDIE then r (-1.32)
      else 0
    let x1 := r (r (r 1.0 + M.exp (r (r (x2 + r (x1 * LLOG_rounded r M (r (site_index - r 1.3)))) + r (x3 * M.log (r 50.0))))) / r (r 1.0 + M.exp (r (r (x2 + r (x1 * LLOG_rounded r M (r (site_index - r 1.3)))) + r (x3 * M.log bhage)))))
    r (r 1.3 + r (r (site_index - r 1.3) * x1))
  else
    r (r (r (r (tage * tage) * r 1.3) / y2bh) / y2bh)

/-- The function `hu_garcia_h` of `si2ht.c` in rounded arithmetic: every literal and
the result of every arithmetic operation pass through the rounding `r` (the integer
constant 1 and the change of sign are exact). -/
def hu_garcia_h_rounded {α : Type} [LinearOrderedField α] (r : α → α) (M : Extern α)
    (q bhage : α) : α :=
  let a := r (r 283.9 * M.pow q (r 0.5137))
  let height := r (a * M.pow (r (1 - r (r (1 - M.pow (r (r 1.3 / a)) (r 0.5829))
    * M.exp (r (-q * r (bhage - r 0.5)))))) (r 1.71556))
  height

/-- The loop of `hu_garcia_q` in rounded arithmetic: `hu_garcia_q_loop` with every
literal and the result of every arithmetic operation passed through the rounding
`r`. -/
def hu_garcia_q_loop_rounded {α : Type} [LinearOrderedField α] (r : α → α) (M : Extern α)
    (site_index bhage : α) : ℕ → α → α → α → Option α
  | 0, _, _, _ => none
  | fuel + 1, q, step, diff =>
    let h := hu_garcia_h_rounded r M q bhage
    let lastdiff := diff
    let diff := r (site_index - h)
    if diff > r 0.0000001 then
      let step := if lastdiff < 0 then r (step / r 2.0) else step
      let q := r (q + step)
      if step < r 0.0000001 then some q
      else hu_garcia_q_loop_rounded r M site_index bhage fuel q step diff
    else if diff < r (-0.0000001) then
      let step := if lastdiff > 0 then r (step / r 2.0) else step
      let q := r (q - step)
      let q := if q ≤ 0 then r 0.0000001 else q
      if step < r 0.0000001 then some q
      else hu_garcia_q_loop_rounded r M site_index bhage fuel q step diff
    else some q

/-- Forest inventory zone class: unknown. -/
@[simp] def FIZ_UNKNOWN : ℤ := 0
/-- Forest inventory zone class: coast. -/
@[simp] def FIZ_COAST : ℤ := 1
/-- Forest inventory zone class: interior. -/
@[simp] def FIZ_INTERIOR : ℤ := 2

/-- The function `fiz_check` of `fizcheck.c`: the `switch (fiz)` with the labels
`'A'` ... `'C'` (coast), `'D'` ... `'L'` (interior) and `default:`. -/
def fiz_check (fiz : Char) : ℤ :=
  if fiz = 'A' ∨ fiz = 'B' ∨ fiz = 'C' then FIZ_COAST
  else if fiz = 'D' ∨ fiz = 'E' ∨ fiz = 'F' ∨ fiz = 'G' ∨ fiz = 'H' ∨ fiz = 'I' ∨
      fiz = 'J' ∨ fiz = 'K' ∨ fiz = 'L' then FIZ_INTERIOR
  else FIZ_UNKNOWN

/-! ## `sindxdll.c`: the enumeration of the curves of a species -/

/-- Number of species indices (`sindex.h`). -/
@[simp] def SI_MAX_SPECIES : ℤ := 144
/-- Number of curve indices (`sindex.h`). -/
@[simp] def SI_MAX_CURVES : ℤ := 124

/-! Species indices of `sindex.h` (those that own a curve). -/

@[simp] def SI_SPEC_ACB : ℤ := 4
@[simp] def SI_SPEC_ACT : ℤ := 5
@[simp] def SI_SPEC_AT : ℤ := 8
@[simp] def SI_SPEC_BA : ℤ := 11
@[simp] def SI_SPEC_BL : ℤ := 16
@[simp] def SI_SPEC_BP : ℤ := 18
@[simp] def SI_SPEC_CWC : ℤ := 23
@[simp] def SI_SPEC_CWI : ℤ := 24
@[simp] def SI_SPEC_DR : ℤ := 29
@[simp] def SI_SPEC_EP : ℤ := 34
@[simp] def SI_SPEC_FDC : ℤ := 40
@[simp] def SI_SPEC_FDI : ℤ := 41
@[simp] def SI_SPEC_HM : ℤ := 46
@[simp] def SI_SPEC_HWC : ℤ := 48
@[simp] def SI_SPEC_HWI : ℤ := 49
@[simp] def SI_SPEC_LW : ℤ := 64
@[simp] def SI_SPEC_PJ : ℤ := 86
@[simp] def SI_SPEC_PLI : ℤ := 89
@[simp] def SI_SPEC_PW : ℤ := 93
@[simp] def SI_SPEC_PY : ℤ := 95
@[simp] def SI_SPEC_SB : ℤ := 104
@[simp] def SI_SPEC_SE : ℤ := 105
@[simp] def SI_SPEC_SS : ℤ := 108
@[simp] def SI_SPEC_SW : ℤ := 109

/-- The error code `SI_ERR_NO_ANS` as a `short int`, the return type of the
`Sindex_` functions. -/
@[simp] def SI_ERR_NO_ANS_short : ℤ := -4
/-- The error code `SI_ERR_CURVE` as a `short int`. -/
@[simp] def SI_ERR_CURVE_short : ℤ := -5
/-- The error code `SI_ERR_SPEC` as a `short int`. -/
@[simp] def SI_ERR_SPEC_short : ℤ := -10

/-- The table `si_curve_intend` of `sindxdll.c`: entry `i` is the species that the
curve of index `i` is intended for. -/
def si_curve_intend : List ℤ :=
  [SI_SPEC_ACB, SI_SPEC_ACT, SI_SPEC_AT, SI_SPEC_AT, SI_SPEC_AT, SI_SPEC_BA, SI_SPEC_BA,
   SI_SPEC_BA, SI_SPEC_BA, SI_SPEC_BL, SI_SPEC_BL, SI_SPEC_CWC, SI_SPEC_CWC, SI_SPEC_DR,
   SI_SPEC_DR, SI_SPEC_FDC, SI_SPEC_FDC, SI_SPEC_FDC, SI_SPEC_FDC, SI_SPEC_FDI, SI_SPEC_FDI,
   SI_SPEC_FDI, SI_SPEC_FDI, SI_SPEC_FDI, SI_SPEC_FDI, SI_SPEC_FDI, SI_SPEC_FDI, SI_SPEC_FDI,
   SI_SPEC_FDI, SI_SPEC_FDI, SI_SPEC_FDI, SI_SPEC_HWC, SI_SPEC_HWC, SI_SPEC_HWC, SI_SPEC_HWC,
   SI_SPEC_HWC, SI_SPEC_HWC, SI_SPEC_HWI, SI_SPEC_HWI, SI_SPEC_LW, SI_SPEC_PLI, SI_SPEC_PLI,
   SI_SPEC_PLI, SI_SPEC_PLI, SI_SPEC_PLI, SI_SPEC_PLI, SI_SPEC_PLI, SI_SPEC_PLI, SI_SPEC_PLI,
   SI_SPEC_PLI, SI_SPEC_PLI, SI_SPEC_PW, SI_SPEC_PY, SI_SPEC_PY, SI_SPEC_SB, SI_SPEC_SB,
   SI_SPEC_SB, SI_SPEC_SB, SI_SPEC_SS, SI_SPEC_SS, SI_SPEC_SS, SI_SPEC_SS, SI_SPEC_SS,
   SI_SPEC_SW, SI_SPEC_SW, SI_SPEC_SW, SI_SPEC_SW, SI_SPEC_SW, SI_SPEC_SW, SI_SPEC_SW,
   SI_SPEC_SW, SI_SPEC_SW, SI_SPEC_SW, SI_SPEC_BL, SI_SPEC_AT, SI_SPEC_DR, SI_SPEC_PLI,
   SI_SPEC_CWI, SI_SPEC_BP, SI_SPEC_HWC, SI_SPEC_SS, SI_SPEC_SW, SI_SPEC_LW, SI_SPEC_SW,
   SI_SPEC_CWI, SI_SPEC_SW, SI_SPEC_HM, SI_SPEC_SE, SI_SPEC_FDC, SI_SPEC_FDC, SI_SPEC_LW,
   SI_SPEC_SB, SI_SPEC_AT, SI_SPEC_BL, SI_SPEC_BP, SI_SPEC_HM, SI_SPEC_FDI, SI_SPEC_ACB,
   SI_SPEC_PW, SI_SPEC_HWC, SI_SPEC_FDC, SI_SPEC_CWC, SI_SPEC_BA, SI_SPEC_ACT, SI_SPEC_PY,
   SI_SPEC_SE, SI_SPEC_SW, SI_SPEC_PY, SI_SPEC_PY, SI_SPEC_PLI, SI_SPEC_SE, SI_SPEC_SW,
   SI_SPEC_SW, SI_SPEC_PJ, SI_SPEC_PJ, SI_SPEC_SW, SI_SPEC_EP, SI_SPEC_BA, SI_SPEC_BA,
   SI_SPEC_SW, SI_SPEC_SE, SI_SPEC_SE, SI_SPEC_CWC, SI_SPEC_PLI]

/-- The function `Sindex_CurveToSpecies` of `sindxdll.c`. -/
def Sindex_CurveToSpecies (cu_index : ℤ) : ℤ :=
  if cu_index < 0 ∨ cu_index ≥ SI_MAX_CURVES then SI_ERR_CURVE_short
  else si_curve_intend.getD cu_index.toNat 0

/-- The function `Sindex_NextCurve` of `sindxdll.c`: the three checks, then the
`switch (cu_index)`, whose `case` labels are taken in the order of the source and
which has no `default:` (a curve index without a label is left as it is), then
`return cu_index`. -/
def Sindex_NextCurve (sp_index cu_index : ℤ) : ℤ :=
  if sp_index < 0 ∨ sp_index ≥ SI_MAX_SPECIES then SI_ERR_SPEC_short
  else if cu_index < 0 ∨ cu_index ≥ SI_MAX_CURVES then SI_ERR_CURVE_short
  else if si_curve_intend.getD cu_index.toNat 0 ≠ sp_index then SI_ERR_CURVE_short
  else
    if cu_index = SI_ACB_HUANGAC then SI_ACB_HUANG
    else if cu_index = SI_ACB_HUANG then SI_ERR_NO_ANS_short
    else if cu_index = SI_ACT_THROWERAC then SI_ACT_THROWER
    else if cu_index = SI_ACT_THROWER then SI_ERR_NO_ANS_short
    else if cu_index = SI_AT_NIGH then SI_AT_CHEN
    else if cu_index = SI_AT_CHEN then SI_AT_HUANG
    else if cu_index = SI_AT_HUANG then SI_AT_CIESZEWSKI
    else if cu_index = SI_AT_CIESZEWSKI then SI_AT_GOUDIE
    else if cu_index = SI_AT_GOUDIE then SI_ERR_NO_ANS_short
    else if cu_index = SI_BA_NIGHGI then SI_BA_NIGH
    else if cu_index = SI_BA_NIGH then SI_BA_KURUCZ82AC
    else if cu_index = SI_BA_KURUCZ82AC then SI_BA_DILUCCA
    else if cu_index = SI_BA_DILUCCA then SI_BA_KURUCZ86
    else if cu_index = SI_BA_KURUCZ86 then SI_BA_KURUCZ82
    else if cu_index = SI_BA_KURUCZ82 then SI_ERR_NO_ANS_short
    else if cu_index = SI_BL_CHENAC then SI_BL_CHEN
    else if cu_index = SI_BL_CHEN then SI_BL_THROWERGI
    else if cu_index = SI_BL_THROWERGI then SI_BL_KURUCZ82
    else if cu_index = SI_BL_KURUCZ82 then SI_ERR_NO_ANS_short
    else if cu_index = SI_BP_CURTISAC then SI_BP_CURTIS
    else if cu_index = SI_BP_CURTIS then SI_ERR_NO_ANS_short
    else if cu_index = SI_CWC_NIGH then SI_CWC_KURUCZAC
    else if cu_index = SI_CWC_KURUCZAC then SI_CWC_KURUCZ
    else if cu_index = SI_CWC_KURUCZ then SI_CWC_BARKER
    else if cu_index = SI_CWC_BARKER then SI_ERR_NO_ANS_short
    else if cu_index = SI_CWI_NIGH then SI_CWI_NIGHGI
    else if cu_index = SI_CWI_NIGHGI then SI_ERR_NO_ANS_short
    else if cu_index = SI_DR_NIGH then SI_DR_HARRING
    else if cu_index = SI_DR_HARRING then SI_ERR_NO_ANS_short
    else if cu_index = SI_EP_NIGH then SI_ERR_NO_ANS_short
    else if cu_index = SI_FDC_BRUCEAC then SI_FDC_NIGHTA
    else if cu_index = SI_FDC_NIGHTA then SI_FDC_NIGHGI
    else if cu_index = SI_FDC_NIGHGI then SI_FDC_BRUCE
    else if cu_index = SI_FDC_BRUCE then SI_FDC_COCHRAN
    else if cu_index = SI_FDC_COCHRAN then SI_FDC_KING
    else if cu_index = SI_FDC_KING then SI_ERR_NO_ANS_short
    else if cu_index = SI_FDI_THROWERAC then SI_FDI_NIGHGI
    else if cu_index = SI_FDI_NIGHGI then SI_FDI_HUANG_PLA
    else if cu_index = SI_FDI_HUANG_PLA then SI_FDI_HUANG_NAT
    else if cu_index = SI_FDI_HUANG_NAT then SI_FDI_MILNER
    else if cu_index = SI_FDI_MILNER then SI_FDI_THROWER
    else if cu_index = SI_FDI_THROWER then SI_FDI_VDP_MONT
    else if cu_index = SI_FDI_VDP_MONT then SI_FDI_VDP_WASH
    else if cu_index = SI_FDI_VDP_WASH then SI_FDI_MONS_DF
    else if cu_index = SI_FDI_MONS_DF then SI_FDI_MONS_GF
    else if cu_index = SI_FDI_MONS_GF then SI_FDI_MONS_WRC
    else if cu_index = SI_FDI_MONS_WRC then SI_FDI_MONS_WH
    else if cu_index = SI_FDI_MONS_WH then SI_FDI_MONS_SAF
    else if cu_index = SI_FDI_MONS_SAF then SI_ERR_NO_ANS_short
    else if cu_index = SI_HM_MEANSAC then SI_HM_MEANS
    else if cu_index = SI_HM_MEANS then SI_ERR_NO_ANS_short
    else if cu_index = SI_HWC_WILEYAC then SI_HWC_NIGHGI99
    else if cu_index = SI_HWC_NIGHGI99 then SI_HWC_FARR
    else if cu_index = SI_HWC_FARR then SI_HWC_BARKER
    else if cu_index = SI_HWC_BARKER then SI_HWC_WILEY
    else if cu_index = SI_HWC_WILEY then SI_HWC_WILEY_BC
    else if cu_index = SI_HWC_WILEY_BC then SI_HWC_WILEY_MB
    else if cu_index = SI_HWC_WILEY_MB then SI_ERR_NO_ANS_short
    else if cu_index = SI_HWI_NIGH then SI_HWI_NIGHGI
    else if cu_index = SI_HWI_NIGHGI then SI_ERR_NO_ANS_short
    else if cu_index = SI_LW_NIGH then SI_LW_NIGHGI
    else if cu_index = SI_LW_NIGHGI then SI_LW_MILNER
    else if cu_index = SI_LW_MILNER then SI_ERR_NO_ANS_short
    else if cu_index = SI_PJ_HUANG then SI_PJ_HUANGAC
    else if cu_index = SI_PJ_HUANGAC then SI_ERR_NO_ANS_short
    else if cu_index = SI_PL_CHEN then SI_PLI_THROWNIGH
    else if cu_index = SI_PLI_THROWNIGH then SI_PLI_NIGH
    else if cu_index = SI_PLI_NIGH then SI_PLI_NIGHTA98
    else if cu_index = SI_PLI_NIGHTA98 then SI_PLI_NIGHGI97
    else if cu_index = SI_PLI_NIGHGI97 then SI_PLI_HUANG_PLA
    else if cu_index = SI_PLI_HUANG_PLA then SI_PLI_HUANG_NAT
    else if cu_index = SI_PLI_HUANG_NAT then SI_PLI_THROWER
    else if cu_index = SI_PLI_THROWER then SI_PLI_MILNER
    else if cu_index = SI_PLI_MILNER then SI_PLI_CIESZEWSKI
    else if cu_index = SI_PLI_CIESZEWSKI then SI_PLI_GOUDIE_DRY
    else if cu_index = SI_PLI_GOUDIE_DRY then SI_PLI_GOUDIE_WET
    else if cu_index = SI_PLI_GOUDIE_WET then SI_PLI_DEMPSTER
    else if cu_index = SI_PLI_DEMPSTER then SI_ERR_NO_ANS_short
    else if cu_index = SI_PW_CURTISAC then SI_PW_CURTIS
    else if cu_index = SI_PW_CURTIS then SI_ERR_NO_ANS_short
    else if cu_index = SI_PY_NIGH then SI_PY_NIGHGI
    else if cu_index = SI_PY_NIGHGI then SI_PY_HANNAC
    else if cu_index = SI_PY_HANNAC then SI_PY_MILNER
    else if cu_index = SI_PY_MILNER then SI_PY_HANN
    else if cu_index = SI_PY_HANN then SI_ERR_NO_ANS_short
    else if cu_index = SI_SB_NIGH then SI_SB_HUANG
    else if cu_index = SI_SB_HUANG then SI_SB_CIESZEWSKI
    else if cu_index = SI_SB_CIESZEWSKI then SI_SB_KER
    else if cu_index = SI_SB_KER then SI_SB_DEMPSTER
    else if cu_index = SI_SB_DEMPSTER then SI_ERR_NO_ANS_short
    else if cu_index = SI_SE_CHENAC then SI_SE_CHEN
    else if cu_index = SI_SE_CHEN then SI_SE_NIGHGI
    else if cu_index = SI_SE_NIGHGI then SI_SE_NIGH
    else if cu_index = SI_SE_NIGH then SI_ERR_NO_ANS_short
    else if cu_index = SI_SS_NIGHGI99 then SI_SS_NIGH
    else if cu_index = SI_SS_NIGH then SI_SS_GOUDIE
    else if cu_index = SI_SS_GOUDIE then SI_SS_FARR
    else if cu_index = SI_SS_FARR then SI_SS_BARKER
    else if cu_index = SI_SS_BARKER then SI_ERR_NO_ANS_short
    else if cu_index = SI_SW_GOUDNIGH then SI_SW_HU_GARCIA
    else if cu_index = SI_SW_HU_GARCIA then SI_SW_NIGHTA
    else if cu_index = SI_SW_NIGHTA then SI_SW_NIGHGI2004
    else if cu_index = SI_SW_NIGHGI2004 then SI_SW_HUANG_PLA
    else if cu_index = SI_SW_HUANG_PLA then SI_SW_HUANG_NAT
    else if cu_index = SI_SW_HUANG_NAT then SI_SW_THROWER
    else if cu_index = SI_SW_THROWER then SI_SW_CIESZEWSKI
    else if cu_index = SI_SW_CIESZEWSKI then SI_SW_KER_PLA
    else if cu_index = SI_SW_KER_PLA then SI_SW_KER_NAT
    else if cu_index = SI_SW_KER_NAT then SI_SW_GOUDIE_PLAAC
    else if cu_index = SI_SW_GOUDIE_PLAAC then SI_SW_GOUDIE_PLA
    else if cu_index = SI_SW_GOUDIE_PLA then SI_SW_GOUDIE_NATAC
    else if cu_index = SI_SW_GOUDIE_NATAC then SI_SW_GOUDIE_NAT
    else if cu_index = SI_SW_GOUDIE_NAT then SI_ERR_NO_ANS_short
    else cu_index

/-! ## Theorems -/

section AgeToAgeTheorems

variable {α : Type} [LinearOrderedField α]

/-- Closed form of `age_to_age`: the two supported conversions add or subtract
the reference offset and clamp at zero, every other pair of age types is an
error. -/
theorem age_to_age_eq (cu : ℤ) (age1 : α) (t1 t2 : ℤ) (y2bh : α) :
    age_to_age cu age1 t1 t2 y2bh =
      if t1 = SI_AT_BREAST then
        if t2 = SI_AT_TOTAL then max 0 (age1 + age_offset_ref cu y2bh) else SI_ERR_AGE_TYPE
      else if t1 = SI_AT_TOTAL then
        if t2 = SI_AT_BREAST then max 0 (age1 - age_offset_ref cu y2bh) else SI_ERR_AGE_TYPE
      else SI_ERR_AGE_TYPE := by
  by_cases h : cu ∈ half_year_offset_curves
  · have hc := h
    simp only [half_year_offset_curves, List.mem_cons, List.not_mem_nil, or_false] at hc
    unfold age_to_age age_offset_ref
    rw [if_pos hc, if_pos h]
    simp only [max_def, not_lt]
    split_ifs <;> first | rfl | (exfalso; linarith) | linarith
  · have hc := h
    simp only [half_year_offset_curves, List.mem_cons, List.not_mem_nil, or_false] at hc
    unfold age_to_age age_offset_ref
    rw [if_neg hc, if_neg h]
    simp only [max_def, not_lt]
    split_ifs <;> first | rfl | (exfalso; linarith)

/-- Breast-height age to total age. -/
theorem age_to_age_breast_total (cu : ℤ) (age1 y2bh : α) :
    age_to_age cu age1 SI_AT_BREAST SI_AT_TOTAL y2bh = max 0 (age1 + age_offset_ref cu y2bh) := by
  rw [age_to_age_eq]; simp

/-- Total age to breast-height age. -/
theorem age_to_age_total_breast (cu : ℤ) (age1 y2bh : α) :
    age_to_age cu age1 SI_AT_TOTAL SI_AT_BREAST y2bh = max 0 (age1 - age_offset_ref cu y2bh) := by
  rw [age_to_age_eq]; simp

/-- C1: `age_to_age` equals its reference definition.  For every curve id, `age1`
and `y2bh`, with the offset `y2bh - 0.5` for the special-cased curves and `y2bh`
otherwise, Breast to Total gives `max 0 (age1 + offset)` and Total to Breast gives
`max 0 (age1 - offset)`; both results are non-negative. -/
theorem age_to_age_eq_reference (cu : ℤ) (age1 y2bh : α) :
    age_to_age cu age1 SI_AT_BREAST SI_AT_TOTAL y2bh = max 0 (age1 + age_offset_ref cu y2bh) ∧
    age_to_age cu age1 SI_AT_TOTAL SI_AT_BREAST y2bh = max 0 (age1 - age_offset_ref cu y2bh) ∧
    0 ≤ age_to_age cu age1 SI_AT_BREAST SI_AT_TOTAL y2bh ∧
    0 ≤ age_to_age cu age1 SI_AT_TOTAL SI_AT_BREAST y2bh := by
  rw [age_to_age_breast_total, age_to_age_total_breast]
  exact ⟨rfl, rfl, le_max_left _ _, le_max_left _ _⟩

/-- C2: `age_to_age` returns `SI_ERR_AGE_TYPE` if and only if the pair of age types
is neither (Breast, Total) nor (Total, Breast); in particular an identity
conversion returns `SI_ERR_AGE_TYPE` for every curve. -/
theorem age_to_age_err_age_type_iff (cu : ℤ) (age1 : α) (t1 t2 : ℤ) (y2bh : α) :
    (age_to_age cu age1 t1 t2 y2bh = SI_ERR_AGE_TYPE ↔
      ¬ ((t1 = SI_AT_BREAST ∧ t2 = SI_AT_TOTAL) ∨ (t1 = SI_AT_TOTAL ∧ t2 = SI_AT_BREAST))) ∧
    age_to_age cu age1 t1 t1 y2bh = SI_ERR_AGE_TYPE := by
  have hneg : ∀ x : α, max 0 x ≠ SI_ERR_AGE_TYPE := by
    intro x hx
    have h0 : (0 : α) ≤ max 0 x := le_max_left _ _
    rw [hx] at h0
    unfold SI_ERR_AGE_TYPE at h0
    linarith
  constructor
  · rw [age_to_age_eq]
    by_cases h1 : t1 = SI_AT_BREAST <;> by_cases h2 : t2 = SI_AT_TOTAL <;>
      by_cases h3 : t1 = SI_AT_TOTAL <;> by_cases h4 : t2 = SI_AT_BREAST <;>
      simp_all [hneg]
  · rw [age_to_age_eq]
    by_cases h1 : t1 = SI_AT_BREAST <;> by_cases h3 : t1 = SI_AT_TOTAL <;> simp_all

/-- C3, counterexample: for the half-year-offset curve `SI_SS_NIGH`, `a = 0` and
`y2bh = 1/5`, converting Breast to Total and back gives `3/10`, not `a`. -/
theorem age_to_age_involution_fails :
    (0 : ℚ) ≤ 0 ∧ (0 : ℚ) < 1 / 5 ∧
    age_to_age SI_SS_NIGH (age_to_age SI_SS_NIGH (0 : ℚ) SI_AT_BREAST SI_AT_TOTAL (1 / 5))
      SI_AT_TOTAL SI_AT_BREAST (1 / 5) = 3 / 10 ∧
    age_to_age SI_SS_NIGH (age_to_age SI_SS_NIGH (0 : ℚ) SI_AT_BREAST SI_AT_TOTAL (1 / 5))
      SI_AT_TOTAL SI_AT_BREAST (1 / 5) ≠ 0 := by
  have h : SI_SS_NIGH ∈ half_year_offset_curves := by simp [half_year_offset_curves]
  rw [age_to_age_breast_total, age_to_age_total_breast]
  simp only [age_offset_ref, if_pos h]
  norm_num

/-- C3, amended: in exact real arithmetic, for every curve id, every `a ≥ 0` and
every positive `y2bh`, with `a + y2bh ≥ 0.5` when the curve is one of the
half-year-offset curves, converting Breast to Total and back to Breast returns
`a`. -/
theorem age_to_age_involution (cu : ℤ) (a y2bh : α) (ha : 0 ≤ a) (hy : 0 < y2bh)
    (hs : cu ∈ half_year_offset_curves → 0.5 ≤ a + y2bh) :
    age_to_age cu (age_to_age cu a SI_AT_BREAST SI_AT_TOTAL y2bh) SI_AT_TOTAL SI_AT_BREAST y2bh
      = a := by
  rw [age_to_age_breast_total, age_to_age_total_breast]
  have h1 : 0 ≤ a + age_offset_ref cu y2bh := by
    unfold age_offset_ref
    split_ifs with h
    · have := hs h
      linarith
    · linarith
  rw [max_eq_right h1]
  have h2 : a + age_offset_ref cu y2bh - age_offset_ref cu y2bh = a := by ring
  rw [h2, max_eq_right ha]

/-- Witness of `age_to_age_involution` at `SI_SS_NIGH`, `a = 0`, `y2bh = 1/2`. -/
theorem age_to_age_involution_witness :
    age_to_age SI_SS_NIGH (age_to_age SI_SS_NIGH (0 : ℚ) SI_AT_BREAST SI_AT_TOTAL (1 / 2))
      SI_AT_TOTAL SI_AT_BREAST (1 / 2) = 0 :=
  age_to_age_involution SI_SS_NIGH 0 (1 / 2) (le_refl 0) (by norm_num) (fun _ => by norm_num)

/-- C7, the code at the failing inputs: for the curve ids 9999 and -1, which are in
no list of curves, `age_to_age` converts the age through the default branch and
does not return `SI_ERR_CURVE`. -/
theorem age_to_age_unknown_curve :
    age_to_age 9999 (10 : ℚ) SI_AT_BREAST SI_AT_TOTAL 5 = 15 ∧
    age_to_age (-1) (10 : ℚ) SI_AT_TOTAL SI_AT_BREAST 5 = 5 ∧
    age_to_age 9999 (10 : ℚ) SI_AT_BREAST SI_AT_TOTAL 5 ≠ SI_ERR_CURVE ∧
    age_to_age (-1) (10 : ℚ) SI_AT_TOTAL SI_AT_BREAST 5 ≠ SI_ERR_CURVE := by
  have h1 : (9999 : ℤ) ∉ half_year_offset_curves := by simp [half_year_offset_curves]
  have h2 : (-1 : ℤ) ∉ half_year_offset_curves := by simp [half_year_offset_curves]
  rw [age_to_age_breast_total, age_to_age_total_breast]
  simp only [age_offset_ref, if_neg h1, if_neg h2, SI_ERR_CURVE]
  norm_num

end AgeToAgeTheorems

section SwitchLemmas

variable {α : Type} [LinearOrderedField α]

/-- The C literal `0.0` is zero. -/
theorem zero_literal : (0.0 : α) = 0 := by norm_num

/-- An integer outside 0..123 takes the `default:` of the `switch`. -/
theorem index_to_height_switch_unknown (M : Extern α)
    (self : ℤ → α → ℤ → α → α → α → Option α) (fuel : ℕ) (cu : ℤ) (tage bhage : α)
    (age_type : ℤ) (site_index y2bh pi : α) (h : cu < 0 ∨ 123 < cu) :
    index_to_height_switch M self fuel cu tage bhage age_type site_index y2bh pi
      = some SI_ERR_CURVE := by
  have hne : ∀ k : ℤ, 0 ≤ k → k ≤ 123 → ¬ cu = k := by
    intro k h0 h1 hk
    omega
  unfold index_to_height_switch
  simp [hne]

/-- The `else` branch of the `GOUDIE` arm: the quadratic ramp. -/
theorem index_to_height_switch_goudie_ramp (M : Extern α)
    (self : ℤ → α → ℤ → α → α → α → Option α) (fuel : ℕ) (cu : ℤ) (tage bhage : α)
    (age_type : ℤ) (site_index y2bh pi : α) (hcu : cu ∈ goudie_family) (hb : bhage ≤ 0) :
    index_to_height_switch M self fuel cu tage bhage age_type site_index y2bh pi
      = some (tage * tage * 1.3 / y2bh / y2bh) := by
  have hb2 : ¬ bhage > 0.0 := by
    rw [zero_literal]
    exact not_lt.mpr hb
  simp only [goudie_family, List.mem_cons, List.not_mem_nil, or_false] at hcu
  unfold index_to_height_switch
  rcases hcu with h | h | h | h | h | h | h | h | h | h <;> subst h <;>
    simp [si2ht_GOUDIE, hb2]

/-- The curves of the Goudie family take the `default:` of `age_to_age`. -/
theorem goudie_not_half_year (cu : ℤ) (h : cu ∈ goudie_family) :
    cu ∉ half_year_offset_curves := by
  simp only [goudie_family, List.mem_cons, List.not_mem_nil, or_false] at h
  rcases h with h | h | h | h | h | h | h | h | h | h <;> subst h <;>
    simp [half_year_offset_curves]

/-- Total age: the two checks of the total age and the switch. -/
theorem index_to_height_ages_total (M : Extern α) (self : ℤ → α → ℤ → α → α → α → Option α)
    (fuel : ℕ) (cu : ℤ) (t site_index y2bh pi : α) :
    index_to_height_ages M self fuel cu t SI_AT_TOTAL site_index y2bh pi =
      if t < 0 then some SI_ERR_NO_ANS
      else if t < 0.00001 then some 0
      else index_to_height_switch M self fuel cu t
        (age_to_age cu t SI_AT_TOTAL SI_AT_BREAST y2bh) SI_AT_TOTAL site_index y2bh pi := by
  unfold index_to_height_ages
  simp [zero_literal]

/-- Breast-height age: the two checks of the total age and the switch. -/
theorem index_to_height_ages_breast (M : Extern α) (self : ℤ → α → ℤ → α → α → α → Option α)
    (fuel : ℕ) (cu : ℤ) (b site_index y2bh pi : α) :
    index_to_height_ages M self fuel cu b SI_AT_BREAST site_index y2bh pi =
      if age_to_age cu b SI_AT_BREAST SI_AT_TOTAL y2bh < 0 then some SI_ERR_NO_ANS
      else if age_to_age cu b SI_AT_BREAST SI_AT_TOTAL y2bh < 0.00001 then some 0
      else index_to_height_switch M self fuel cu
        (age_to_age cu b SI_AT_BREAST SI_AT_TOTAL y2bh) b SI_AT_BREAST site_index y2bh pi := by
  unfold index_to_height_ages
  simp [zero_literal]

end SwitchLemmas

section IndexToHeightTheorems

variable {α : Type} [LinearOrderedField α] [FloorRing α]

/-- Unfolding of `index_to_height`, uniform in the fuel. -/
theorem index_to_height_eq_step (M : Extern α) (fuel : ℕ) :
    index_to_height M fuel = index_to_height_step M (index_to_height_rec M fuel) fuel := by
  cases fuel <;> rfl

/-- For a non-negative argument the conversion `(int) x` is the floor. -/
theorem c_int_of_nonneg (x : α) (h : 0 ≤ x) : c_int x = ⌊x⌋ := by
  unfold c_int
  rw [if_pos h]

/-- The value of `y2bh` after the assignment `y2bh = ((int) y2bh) + 0.5`, for a
non-negative argument, is at least one half. -/
theorem half_le_c_int_add_half (y2bh : α) (h : 0 ≤ y2bh) :
    (0.5 : α) ≤ (c_int y2bh : α) + 0.5 := by
  rw [c_int_of_nonneg y2bh h]
  have h0 : (0 : ℤ) ≤ ⌊y2bh⌋ := Int.floor_nonneg.mpr h
  have h1 : (0 : α) ≤ ((⌊y2bh⌋ : ℤ) : α) := by exact_mod_cast h0
  linarith

/-- Entry of `index_to_height` for a site index that passes the first check. -/
theorem index_to_height_of_ge (M : Extern α) (fuel : ℕ) (cu : ℤ) (iage : α) (age_type : ℤ)
    (site_index y2bh pi : α) (hsi : 1.3 ≤ site_index) :
    index_to_height M fuel cu iage age_type site_index y2bh pi =
      index_to_height_ages M (index_to_height_rec M fuel) fuel cu iage age_type site_index
        ((c_int y2bh : α) + 0.5) pi := by
  rw [index_to_height_eq_step]
  unfold index_to_height_step
  rw [if_neg (not_lt.mpr hsi)]

/-- C4: for every curve id, age, age type, `y2bh` and growth proportion,
`index_to_height` with `site_index < 1.3` returns `SI_ERR_LT13`; no other check
precedes this one. -/
theorem index_to_height_site_index_lt13 (M : Extern α) (fuel : ℕ) (cu : ℤ) (iage : α)
    (age_type : ℤ) (site_index y2bh pi : α) (hsi : site_index < 1.3) :
    index_to_height M fuel cu iage age_type site_index y2bh pi = some SI_ERR_LT13 := by
  rw [index_to_height_eq_step]
  unfold index_to_height_step
  rw [if_pos hsi]

/-- Witness of `index_to_height_site_index_lt13` at site index 1. -/
theorem index_to_height_site_index_lt13_witness :
    index_to_height Extern.crude 0 SI_FDC_BRUCE (50 : ℚ) SI_AT_TOTAL 1 (-7) 0
      = some SI_ERR_LT13 :=
  index_to_height_site_index_lt13 Extern.crude 0 SI_FDC_BRUCE 50 SI_AT_TOTAL 1 (-7) 0
    (by norm_num)

/-- The quadratic ramp of the Goudie family below breast height, for total age. -/
theorem index_to_height_goudie_ramp (M : Extern α) (fuel : ℕ) (cu : ℤ)
    (t site_index y2bh pi : α) (hcu : cu ∈ goudie_family) (hsi : 1.3 ≤ site_index)
    (hy : 0 ≤ y2bh) (ht0 : 0.00001 ≤ t) (ht : t ≤ (⌊y2bh⌋ : α) + 0.5) :
    index_to_height M fuel cu t SI_AT_TOTAL site_index y2bh pi
      = some (t ^ 2 * 1.3 / ((⌊y2bh⌋ : α) + 0.5) ^ 2) := by
  have hY := half_le_c_int_add_half y2bh hy
  rw [index_to_height_of_ge M fuel cu t SI_AT_TOTAL site_index y2bh pi hsi,
    index_to_height_ages_total]
  rw [c_int_of_nonneg y2bh hy] at hY ⊢
  have h1 : ¬ t < 0 := by
    have : (0 : α) < 0.00001 := by norm_num
    linarith
  rw [if_neg h1, if_neg (not_lt.mpr ht0), age_to_age_total_breast]
  have hoff : age_offset_ref cu ((⌊y2bh⌋ : α) + 0.5) = (⌊y2bh⌋ : α) + 0.5 := by
    unfold age_offset_ref
    rw [if_neg (goudie_not_half_year cu hcu)]
  rw [hoff]
  have hb : max 0 (t - ((⌊y2bh⌋ : α) + 0.5)) ≤ 0 := by
    apply max_le (le_refl 0)
    linarith
  rw [index_to_height_switch_goudie_ramp M _ fuel cu t _ SI_AT_TOTAL site_index _ pi hcu hb]
  have hne : ((⌊y2bh⌋ : α) + 0.5) ≠ 0 := by
    have : (0 : α) < 0.5 := by norm_num
    intro h0
    rw [h0] at hY
    linarith
  congr 1
  field_simp
  ring

/-- C5, counterexample: for `SI_PLI_GOUDIE_DRY`, total age 1, `y2bh = 5` and
`site_index` exactly 1.3, `index_to_height` returns the height `26/605`, not
`SI_ERR_LT13`. -/
theorem index_to_height_site_index_13_numeric :
    index_to_height Extern.crude 0 SI_PLI_GOUDIE_DRY (1 : ℚ) SI_AT_TOTAL 1.3 5 0
      = some (26 / 605) ∧
    index_to_height Extern.crude 0 SI_PLI_GOUDIE_DRY (1 : ℚ) SI_AT_TOTAL 1.3 5 0
      ≠ some SI_ERR_LT13 := by
  have hfl : ⌊(5 : ℚ)⌋ = 5 := Int.floor_intCast (5 : ℤ)
  have h := index_to_height_goudie_ramp Extern.crude 0 SI_PLI_GOUDIE_DRY (1 : ℚ) 1.3 5 0
    (by simp [goudie_family]) (le_refl _) (by norm_num) (by norm_num)
    (by rw [hfl]; norm_num)
  rw [hfl] at h
  rw [h]
  constructor
  · congr 1
    norm_num
  · simp only [SI_ERR_LT13, ne_eq, Option.some.injEq]
    norm_num

/-- C5, amended: the site-index check is strict, so `site_index` exactly 1.3
passes it.  For every curve id a total age `0 ≤ t < 0.00001` gives height 0, and
for every curve of the Goudie family, `y2bh ≥ 0` and total age
`0.00001 ≤ t ≤ Y = ⌊y2bh⌋ + 0.5` the result is the positive height
`t^2 * 1.3 / Y^2`. -/
theorem index_to_height_site_index_eq_13 (M : Extern α) (fuel : ℕ) (cu : ℤ)
    (t y2bh pi : α) (ht0 : 0 ≤ t) :
    (t < 0.00001 → index_to_height M fuel cu t SI_AT_TOTAL 1.3 y2bh pi = some 0) ∧
    (cu ∈ goudie_family → 0 ≤ y2bh → 0.00001 ≤ t → t ≤ (⌊y2bh⌋ : α) + 0.5 →
      index_to_height M fuel cu t SI_AT_TOTAL 1.3 y2bh pi
        = some (t ^ 2 * 1.3 / ((⌊y2bh⌋ : α) + 0.5) ^ 2) ∧
      0 < t ^ 2 * 1.3 / ((⌊y2bh⌋ : α) + 0.5) ^ 2) := by
  constructor
  · intro ht
    rw [index_to_height_of_ge M fuel cu t SI_AT_TOTAL 1.3 y2bh pi (le_refl _),
      index_to_height_ages_total, if_neg (not_lt.mpr ht0), if_pos ht]
  · intro hcu hy ht1 ht
    refine ⟨index_to_height_goudie_ramp M fuel cu t 1.3 y2bh pi hcu (le_refl _) hy ht1 ht, ?_⟩
    have hY := half_le_c_int_add_half y2bh hy
    rw [c_int_of_nonneg y2bh hy] at hY
    have h5 : (0 : α) < 0.5 := by norm_num
    have h1 : (0 : α) < 0.00001 := by norm_num
    have hYpos : (0 : α) < (⌊y2bh⌋ : α) + 0.5 := by linarith
    have htpos : (0 : α) < t := by linarith
    positivity

/-- Witness of `index_to_height_site_index_eq_13`: `SI_FDC_BRUCE` at total age 0,
and `SI_AT_GOUDIE` at total age 2 with `y2bh = 4`. -/
theorem index_to_height_site_index_eq_13_witness :
    index_to_height Extern.crude 0 SI_FDC_BRUCE (0 : ℚ) SI_AT_TOTAL 1.3 5 0 = some 0 ∧
    index_to_height Extern.crude 0 SI_AT_GOUDIE (2 : ℚ) SI_AT_TOTAL 1.3 4 0
      = some ((2 : ℚ) ^ 2 * 1.3 / (((⌊(4 : ℚ)⌋ : ℤ) : ℚ) + 0.5) ^ 2) :=
  ⟨(index_to_height_site_index_eq_13 Extern.crude 0 SI_FDC_BRUCE (0 : ℚ) 5 0 (le_refl 0)).1
      (by norm_num),
    ((index_to_height_site_index_eq_13 Extern.crude 0 SI_AT_GOUDIE (2 : ℚ) 4 0
      (by norm_num)).2 (by simp [goudie_family]) (by norm_num) (by norm_num)
      (by
        have hf : ⌊(4 : ℚ)⌋ = 4 := Int.floor_intCast (4 : ℤ)
        rw [hf]
        norm_num)).1⟩

/-- C9: for every curve id and `site_index ≥ 1.3`, `index_to_height` with age type
Total returns `SI_ERR_NO_ANS` for a negative age and height 0 for
`0 ≤ age < 0.00001`; with age type Breast the derived total age is never negative,
so the call goes on to the near-zero check and the `switch`. -/
theorem index_to_height_total_age_checks (M : Extern α) (fuel : ℕ) (cu : ℤ) (iage : α)
    (site_index y2bh pi : α) (hsi : 1.3 ≤ site_index) :
    (iage < 0 →
      index_to_height M fuel cu iage SI_AT_TOTAL site_index y2bh pi = some SI_ERR_NO_ANS) ∧
    (0 ≤ iage → iage < 0.00001 →
      index_to_height M fuel cu iage SI_AT_TOTAL site_index y2bh pi = some 0) ∧
    0 ≤ age_to_age cu iage SI_AT_BREAST SI_AT_TOTAL ((c_int y2bh : α) + 0.5) ∧
    index_to_height M fuel cu iage SI_AT_BREAST site_index y2bh pi =
      if age_to_age cu iage SI_AT_BREAST SI_AT_TOTAL ((c_int y2bh : α) + 0.5) < 0.00001
      then some 0
      else index_to_height_switch M (index_to_height_rec M fuel) fuel cu
        (age_to_age cu iage SI_AT_BREAST SI_AT_TOTAL ((c_int y2bh : α) + 0.5)) iage
        SI_AT_BREAST site_index ((c_int y2bh : α) + 0.5) pi := by
  have hnn : 0 ≤ age_to_age cu iage SI_AT_BREAST SI_AT_TOTAL ((c_int y2bh : α) + 0.5) := by
    rw [age_to_age_breast_total]
    exact le_max_left _ _
  refine ⟨?_, ?_, hnn, ?_⟩
  · intro h
    rw [index_to_height_of_ge M fuel cu iage SI_AT_TOTAL site_index y2bh pi hsi,
      index_to_height_ages_total, if_pos h]
  · intro h0 h1
    rw [index_to_height_of_ge M fuel cu iage SI_AT_TOTAL site_index y2bh pi hsi,
      index_to_height_ages_total, if_neg (not_lt.mpr h0), if_pos h1]
  · rw [index_to_height_of_ge M fuel cu iage SI_AT_BREAST site_index y2bh pi hsi,
      index_to_height_ages_breast, if_neg (not_lt.mpr hnn)]

/-- Witness of `index_to_height_total_age_checks` at the total ages -1 and
1/1000000. -/
theorem index_to_height_total_age_checks_witness :
    index_to_height Extern.crude 0 SI_FDC_BRUCE (-1 : ℚ) SI_AT_TOTAL 30 5 0
      = some SI_ERR_NO_ANS ∧
    index_to_height Extern.crude 0 SI_FDC_BRUCE (1 / 1000000 : ℚ) SI_AT_TOTAL 30 5 0
      = some 0 :=
  ⟨(index_to_height_total_age_checks Extern.crude 0 SI_FDC_BRUCE (-1 : ℚ) 30 5 0
      (by norm_num)).1 (by norm_num),
    (index_to_height_total_age_checks Extern.crude 0 SI_FDC_BRUCE (1 / 1000000 : ℚ) 30 5 0
      (by norm_num)).2.1 (by norm_num) (by norm_num)⟩

/-- C10, amended: in exact real arithmetic, for every curve of the Goudie family,
`site_index ≥ 1.3`, `y2bh ≥ 0` and total age `t` with `0.00001 ≤ t ≤ Y`, where
`Y = ⌊y2bh⌋ + 0.5`, `index_to_height` returns `t^2 * 1.3 / Y^2`; at `t = Y` it
returns 1.3. -/
theorem index_to_height_goudie_below_breast_height (M : Extern α) (fuel : ℕ) (cu : ℤ)
    (t site_index y2bh pi : α) (hcu : cu ∈ goudie_family) (hsi : 1.3 ≤ site_index)
    (hy : 0 ≤ y2bh) (ht0 : 0.00001 ≤ t) (ht : t ≤ (⌊y2bh⌋ : α) + 0.5) :
    index_to_height M fuel cu t SI_AT_TOTAL site_index y2bh pi
      = some (t ^ 2 * 1.3 / ((⌊y2bh⌋ : α) + 0.5) ^ 2) ∧
    index_to_height M fuel cu ((⌊y2bh⌋ : α) + 0.5) SI_AT_TOTAL site_index y2bh pi
      = some 1.3 := by
  have hY := half_le_c_int_add_half y2bh hy
  rw [c_int_of_nonneg y2bh hy] at hY
  have h5 : (0.00001 : α) < 0.5 := by norm_num
  have h0 : (0 : α) < 0.00001 := by norm_num
  refine ⟨index_to_height_goudie_ramp M fuel cu t site_index y2bh pi hcu hsi hy ht0 ht, ?_⟩
  rw [index_to_height_goudie_ramp M fuel cu _ site_index y2bh pi hcu hsi hy (by linarith)
    (le_refl _)]
  have hne : ((⌊y2bh⌋ : α) + 0.5) ≠ 0 := by
    intro h
    rw [h] at hY
    linarith
  congr 1
  field_simp

/-- Witness of `index_to_height_goudie_below_breast_height` at `SI_SW_GOUDIE_NAT`. -/
theorem index_to_height_goudie_below_breast_height_witness :
    index_to_height Extern.crude 0 SI_SW_GOUDIE_NAT (2 : ℚ) SI_AT_TOTAL 20 6 0
      = some ((2 : ℚ) ^ 2 * 1.3 / (((⌊(6 : ℚ)⌋ : ℤ) : ℚ) + 0.5) ^ 2) :=
  (index_to_height_goudie_below_breast_height Extern.crude 0 SI_SW_GOUDIE_NAT (2 : ℚ) 20 6 0
    (by simp [goudie_family]) (by norm_num) (by norm_num) (by norm_num)
    (by
      have hf : ⌊(6 : ℚ)⌋ = 6 := Int.floor_intCast (6 : ℤ)
      rw [hf]
      norm_num)).1

end IndexToHeightTheorems

section JunctionTheorems

variable {α : Type} [LinearOrderedField α] [FloorRing α]

/-- Entry of `index_to_height` up to the `switch`: with a site index of at least
1.3 and a derived total age of at least 0.00001 the result is that of the
`switch`, at the derived ages and the normalised `y2bh`. -/
theorem index_to_height_eq_switch (M : Extern α) (fuel : ℕ) (cu : ℤ) (iage : α)
    (age_type : ℤ) (site_index y2bh pi : α) (hsi : 1.3 ≤ site_index)
    (ht : 0.00001 ≤ index_to_height_tage cu iage age_type ((c_int y2bh : α) + 0.5)) :
    index_to_height M fuel cu iage age_type site_index y2bh pi =
      index_to_height_switch M (index_to_height_rec M fuel) fuel cu
        (index_to_height_tage cu iage age_type ((c_int y2bh : α) + 0.5))
        (index_to_height_bhage cu iage age_type ((c_int y2bh : α) + 0.5))
        age_type site_index ((c_int y2bh : α) + 0.5) pi := by
  rw [index_to_height_of_ge M fuel cu iage age_type site_index y2bh pi hsi]
  have h0 : ¬ index_to_height_tage cu iage age_type ((c_int y2bh : α) + 0.5) < 0.0 := by
    have : (0 : α) < 0.00001 := by norm_num
    rw [zero_literal]
    exact not_lt.mpr (by linarith)
  unfold index_to_height_ages
  simp only []
  unfold index_to_height_tage index_to_height_bhage at *
  rw [if_neg h0, if_neg (not_lt.mpr ht)]

omit [FloorRing α] in
/-- The quadratic ramp as the code writes it and as the specification writes it. -/
theorem ramp_eq (t c y : α) : t * t * c / y / y = t ^ 2 * c / y ^ 2 := by
  rw [div_div, sq, sq]

/-- The conversion `(int) 5` is 5. -/
theorem c_int_five : c_int (5 : α) = (5 : ℤ) := by
  rw [c_int_of_nonneg (5 : α) (by norm_num), Int.floor_eq_iff]
  norm_num

/-- C11, counterexample: for `SI_HWC_WILEYAC` with total age 5, `y2bh = 5` and growth
proportion 0 the derived breast-height age is `0 ≤ 0.5` and the total age is at
least 0.00001, but the junction of this curve is at the growth proportion
(`bhage >= pi`), so the result is that of the main equation, `4.5 * 0.3048`, not
the ramp. -/
theorem index_to_height_ac_ramp_fails :
    index_to_height_bhage SI_HWC_WILEYAC (5 : ℚ) SI_AT_TOTAL ((c_int (5 : ℚ) : ℚ) + 0.5) = 0 ∧
    index_to_height Extern.crude 0 SI_HWC_WILEYAC (5 : ℚ) SI_AT_TOTAL 20 5 0
      = some (4.5 * 0.3048) ∧
    (4.5 * 0.3048 : ℚ) ≠ 5 ^ 2 * 1.37 / ((c_int (5 : ℚ) : ℚ) + 0.5) ^ 2 := by
  have hc : c_int (5 : ℚ) = 5 := c_int_five
  have hw : SI_HWC_WILEYAC ∈ half_year_offset_curves := by simp [half_year_offset_curves]
  refine ⟨?_, ?_, ?_⟩
  · rw [hc]
    simp only [index_to_height_bhage, if_true, age_to_age_total_breast, age_offset_ref,
      if_pos hw]
    norm_num
  · rw [index_to_height_of_ge Extern.crude 0 SI_HWC_WILEYAC (5 : ℚ) SI_AT_TOTAL 20 5 0
      (by norm_num), hc, index_to_height_ages_total, if_neg (by norm_num),
      if_neg (by norm_num), age_to_age_total_breast]
    simp only [age_offset_ref, if_pos hw]
    norm_num [index_to_height_switch, si2ht_HWC_WILEYAC, Extern.crude]
  · rw [hc]; norm_num

/-- C11, amended: what each "AC" curve does at and below the junction.  With `Y`
the normalised `y2bh`, `T` the derived total age (at least 0.00001) and `B` the
derived breast-height age: the nine curves of `ac_ramp_curves_13` and
`ac_ramp_curves_137` return the ramp `T^2 * c / Y^2` (`c = 1.3`, resp. `1.37`)
whenever `B ≤ 0.5`; `SI_CWC_KURUCZAC` returns it for `B < 0.5` and `SI_HWC_WILEYAC`
for `B < pi`; `SI_SE_CHENAC` (for `B ≤ 0.5`) and the two `SI_SW_GOUDIE_*AC` curves
(for `B ≤ pi`) return `1.3 * pow (T / Y) (1.628 - 0.05991 * Y) * pow 1.127 (T - Y)`;
`SI_FDC_BRUCEAC` has no ramp and always evaluates its main equation.  The
sixteenth curve, `SI_BA_KURUCZ82AC`, is left out: below its junction the arm
subtracts a term from the ramp, which the source marks as a possible flaw. -/
theorem index_to_height_ac_below (M : Extern α) (fuel : ℕ) (cu : ℤ) (iage : α)
    (age_type : ℤ) (site_index y2bh pi Y T B : α)
    (hY : Y = (c_int y2bh : α) + 0.5)
    (hT : T = index_to_height_tage cu iage age_type Y)
    (hB : B = index_to_height_bhage cu iage age_type Y)
    (hsi : 1.3 ≤ site_index) (ht : 0.00001 ≤ T) :
    (cu ∈ ac_ramp_curves_13 → B ≤ 0.5 →
      index_to_height M fuel cu iage age_type site_index y2bh pi
        = some (T ^ 2 * 1.3 / Y ^ 2)) ∧
    (cu ∈ ac_ramp_curves_137 → B ≤ 0.5 →
      index_to_height M fuel cu iage age_type site_index y2bh pi
        = some (T ^ 2 * 1.37 / Y ^ 2)) ∧
    (cu = SI_CWC_KURUCZAC → B < 0.5 →
      index_to_height M fuel cu iage age_type site_index y2bh pi
        = some (T ^ 2 * 1.3 / Y ^ 2)) ∧
    (cu = SI_HWC_WILEYAC → B < pi →
      index_to_height M fuel cu iage age_type site_index y2bh pi
        = some (T ^ 2 * 1.37 / Y ^ 2)) ∧
    (cu = SI_SE_CHENAC → B ≤ 0.5 →
      index_to_height M fuel cu iage age_type site_index y2bh pi
        = some (1.3 * M.pow (T / Y) (1.628 - 0.05991 * Y) * M.pow 1.127 (T - Y))) ∧
    (cu = SI_SW_GOUDIE_NATAC ∨ cu = SI_SW_GOUDIE_PLAAC → B ≤ pi →
      index_to_height M fuel cu iage age_type site_index y2bh pi
        = some (1.3 * M.pow (T / Y) (1.628 - 0.05991 * Y) * M.pow 1.127 (T - Y))) ∧
    (cu = SI_FDC_BRUCEAC →
      index_to_height M fuel cu iage age_type site_index y2bh pi
        = some (si2ht_FDC_BRUCEAC M T B age_type site_index pi)) := by
  have key := index_to_height_eq_switch M fuel cu iage age_type site_index y2bh pi hsi
    (by rw [← hY, ← hT]; exact ht)
  rw [← hY, ← hT, ← hB] at key
  rw [key, ← ramp_eq, ← ramp_eq]
  refine ⟨?_, ?_, ?_, ?_, ?_, ?_, ?_⟩
  · intro hcu hb
    have hb2 : ¬ B > 0.5 := not_lt.mpr hb
    simp only [ac_ramp_curves_13, List.mem_cons, List.not_mem_nil, or_false] at hcu
    unfold index_to_height_switch
    rcases hcu with h | h | h | h | h <;> subst h <;>
      simp [si2ht_ACB_HUANGAC, si2ht_ACT_THROWERAC, si2ht_BL_CHENAC, si2ht_FDI_THROWERAC,
        si2ht_PJ_HUANGAC, hb2]
  · intro hcu hb
    have hb2 : ¬ B > 0.5 := not_lt.mpr hb
    simp only [ac_ramp_curves_137, List.mem_cons, List.not_mem_nil, or_false] at hcu
    unfold index_to_height_switch
    rcases hcu with h | h | h | h <;> subst h <;>
      simp [si2ht_BP_CURTISAC, si2ht_HM_MEANSAC, si2ht_PW_CURTISAC, si2ht_PY_HANNAC, hb2]
  · intro hcu hb
    have hb2 : ¬ B >= 0.5 := not_le.mpr hb
    subst hcu
    unfold index_to_height_switch
    simp [si2ht_CWC_KURUCZAC, hb2]
  · intro hcu hb
    have hb2 : ¬ B >= pi := not_le.mpr hb
    subst hcu
    unfold index_to_height_switch
    simp [si2ht_HWC_WILEYAC, hb2]
  · intro hcu hb
    have hb2 : ¬ B > 0.5 := not_lt.mpr hb
    subst hcu
    unfold index_to_height_switch
    simp [si2ht_SE_CHENAC, hb2]
  · intro hcu hb
    have hb2 : ¬ B > pi := not_lt.mpr hb
    unfold index_to_height_switch
    rcases hcu with h | h <;> subst h <;>
      simp [si2ht_SW_GOUDIE_NATAC, si2ht_SW_GOUDIE_PLAAC, hb2]
  · intro hcu
    subst hcu
    unfold index_to_height_switch
    simp

/-- Witness of `index_to_height_ac_below` at `SI_ACB_HUANGAC`, total age 1,
`y2bh = 5`: the ramp, first part. -/
theorem index_to_height_ac_below_witness :
    index_to_height Extern.crude 0 SI_ACB_HUANGAC (1 : ℚ) SI_AT_TOTAL 20 5 0
      = some (1 ^ 2 * 1.3 / (11 / 2) ^ 2) :=
  (index_to_height_ac_below Extern.crude 0 SI_ACB_HUANGAC (1 : ℚ) SI_AT_TOTAL 20 5 0
    (11 / 2) 1 0
    (by rw [c_int_five]; norm_num)
    (by simp [index_to_height_tage])
    (by
      have hk : SI_ACB_HUANGAC ∈ half_year_offset_curves := by simp [half_year_offset_curves]
      simp only [index_to_height_bhage, if_true, age_to_age_total_breast, age_offset_ref,
        if_pos hk]
      norm_num)
    (by norm_num) (by norm_num)).1 (by simp [ac_ramp_curves_13]) (by norm_num)

/-- Every "AC" curve falls in one of the groups of junction behaviour. -/
theorem ac_curves_cases (cu : ℤ) :
    cu ∈ ac_curves ↔
      cu ∈ ac_ramp_curves_13 ∨ cu ∈ ac_ramp_curves_137 ∨ cu = SI_CWC_KURUCZAC ∨
      cu = SI_HWC_WILEYAC ∨ cu = SI_BA_KURUCZ82AC ∨ cu = SI_SE_CHENAC ∨
      (cu = SI_SW_GOUDIE_NATAC ∨ cu = SI_SW_GOUDIE_PLAAC) ∨ cu = SI_FDC_BRUCEAC := by
  simp only [ac_curves, ac_ramp_curves_13, ac_ramp_curves_137, List.mem_cons,
    List.not_mem_nil, or_false]
  tauto

/-- C14, the code at the failing input: for `SI_BA_KURUCZ82`, `SI_BL_KURUCZ82` and
`SI_BA_KURUCZ82AC` with total age 1, site index 20, `y2bh = 5` and growth
proportion 0, `index_to_height` returns `-25091963/60500000` (about -0.4147), a
negative number strictly between the sentinel -1 and 0. -/
theorem index_to_height_kurucz_negative :
    index_to_height Extern.crude 0 SI_BA_KURUCZ82 (1 : ℚ) SI_AT_TOTAL 20 5 0
      = some (-25091963 / 60500000) ∧
    index_to_height Extern.crude 0 SI_BL_KURUCZ82 (1 : ℚ) SI_AT_TOTAL 20 5 0
      = some (-25091963 / 60500000) ∧
    index_to_height Extern.crude 0 SI_BA_KURUCZ82AC (1 : ℚ) SI_AT_TOTAL 20 5 0
      = some (-25091963 / 60500000) ∧
    (-1 : ℚ) < -25091963 / 60500000 ∧ (-25091963 / 60500000 : ℚ) < 0 := by
  have hc : c_int (5 : ℚ) = 5 := c_int_five
  have h1 : SI_BA_KURUCZ82 ∉ half_year_offset_curves := by simp [half_year_offset_curves]
  have h2 : SI_BL_KURUCZ82 ∉ half_year_offset_curves := by simp [half_year_offset_curves]
  have h3 : SI_BA_KURUCZ82AC ∈ half_year_offset_curves := by simp [half_year_offset_curves]
  refine ⟨?_, ?_, ?_, by norm_num, by norm_num⟩
  · rw [index_to_height_of_ge Extern.crude 0 SI_BA_KURUCZ82 (1 : ℚ) SI_AT_TOTAL 20 5 0
      (by norm_num), hc, index_to_height_ages_total, if_neg (by norm_num),
      if_neg (by norm_num), age_to_age_total_breast]
    simp only [age_offset_ref, if_neg h1]
    norm_num [index_to_height_switch, si2ht_BA_KURUCZ82]
  · rw [index_to_height_of_ge Extern.crude 0 SI_BL_KURUCZ82 (1 : ℚ) SI_AT_TOTAL 20 5 0
      (by norm_num), hc, index_to_height_ages_total, if_neg (by norm_num),
      if_neg (by norm_num), age_to_age_total_breast]
    simp only [age_offset_ref, if_neg h2]
    norm_num [index_to_height_switch, si2ht_BA_KURUCZ82]
  · rw [index_to_height_of_ge Extern.crude 0 SI_BA_KURUCZ82AC (1 : ℚ) SI_AT_TOTAL 20 5 0
      (by norm_num), hc, index_to_height_ages_total, if_neg (by norm_num),
      if_neg (by norm_num), age_to_age_total_breast]
    simp only [age_offset_ref, if_pos h3]
    norm_num [index_to_height_switch, si2ht_BA_KURUCZ82AC]

end JunctionTheorems

section LogisticSwitchLemmas

variable {α : Type} [LinearOrderedField α]

set_option maxHeartbeats 1600000 in
/-- At breast-height age 50 each logistic-ratio arm returns the site index: the
two logistic terms of the ratio coincide. -/
theorem index_to_height_switch_logistic_50 (M : Extern α)
    (self : ℤ → α → ℤ → α → α → α → Option α) (fuel : ℕ) (cu : ℤ) (tage : α)
    (age_type : ℤ) (site_index y2bh pi : α) (hexp : ∀ x, 0 ≤ M.exp x)
    (hsi : 1.3 < site_index) (hcu : cu ∈ logistic_ratio_curves) :
    index_to_height_switch M self fuel cu tage 50 age_type site_index y2bh pi
      = some site_index := by
  have hne : ∀ x, 1 + M.exp x ≠ 0 := by
    intro x
    have := hexp x
    intro h
    linarith
  have hne2 : ∀ x, 1 + 4591 / 62500 * (site_index - 13 / 10) + M.exp x ≠ 0 := by
    intro x
    have h1 := hexp x
    have h2 : (0 : α) < site_index - 13 / 10 := by
      have : (1.3 : α) = 13 / 10 := by norm_num
      linarith
    have h3 : (0 : α) < 4591 / 62500 * (site_index - 13 / 10) := by positivity
    intro h
    linarith
  simp only [logistic_ratio_curves, goudie_family, List.cons_append, List.nil_append,
    List.mem_cons, List.not_mem_nil, or_false] at hcu
  unfold index_to_height_switch
  rcases hcu with h | h | h | h | h | h | h | h | h | h | h | h | h | h | h | h | h | h | h |
    h | h | h | h | h <;> subst h
  all_goals
    simp [si2ht_GOUDIE, si2ht_ACT_THROWER, si2ht_CHEN, si2ht_BA_DILUCCA, si2ht_PJ_HUANG,
      si2ht_SS_NIGH, si2ht_CWI_NIGH, si2ht_HWI_NIGH, si2ht_EP_NIGH, si2ht_SB_NIGH,
      si2ht_AT_NIGH, si2ht_FDI_THROWERAC, si2ht_SW_THROWER, hne, hne2]
  all_goals norm_num [hne, hne2]

/-- The curves of the Goudie family are dispatched to the `GOUDIE` arm. -/
theorem index_to_height_switch_goudie (M : Extern α)
    (self : ℤ → α → ℤ → α → α → α → Option α) (fuel : ℕ) (cu : ℤ) (tage bhage : α)
    (age_type : ℤ) (site_index y2bh pi : α) (hcu : cu ∈ goudie_family) :
    index_to_height_switch M self fuel cu tage bhage age_type site_index y2bh pi
      = some (si2ht_GOUDIE M cu tage bhage site_index y2bh) := by
  simp only [goudie_family, List.mem_cons, List.not_mem_nil, or_false] at hcu
  unfold index_to_height_switch
  rcases hcu with h | h | h | h | h | h | h | h | h | h <;> subst h <;> simp

/-- The logistic branch of the `GOUDIE` arm of `index_to_height`: for each curve
of the family there are coefficients `c1`, `c2` and `c3 < 0` with which the height
at a positive breast-height age is `1.3` plus `site_index - 1.3` times the ratio
of the logistic terms at the ages 50 and `bhage`. -/
theorem si2ht_GOUDIE_logistic (M : Extern α) (cu : ℤ) (hcu : cu ∈ goudie_family) :
    ∃ c1 c2 c3 : α, c3 < 0 ∧ ∀ tage bhage site_index y2bh : α, 0 < bhage →
      si2ht_GOUDIE M cu tage bhage site_index y2bh =
        1.3 + (site_index - 1.3) *
          ((1 + M.exp (c2 + c1 * LLOG M (site_index - 1.3) + c3 * M.log 50)) /
           (1 + M.exp (c2 + c1 * LLOG M (site_index - 1.3) + c3 * M.log bhage))) := by
  have h50 : (50.0 : α) = 50 := by norm_num
  have h1 : (1.0 : α) = 1 := by norm_num
  simp only [goudie_family, List.mem_cons, List.not_mem_nil, or_false] at hcu
  rcases hcu with h | h | h | h | h | h | h | h | h | h <;> subst h
  · refine ⟨-1.00726, 7.81498, -1.28517, by norm_num, fun tage bhage s y hb => ?_⟩
    have hb2 : bhage > 0.0 := by rw [zero_literal]; exact hb
    simp [si2ht_GOUDIE, hb2, h50, h1]
  · refine ⟨-0.935, 7.81498, -1.28517, by norm_num, fun tage bhage s y hb => ?_⟩
    have hb2 : bhage > 0.0 := by rw [zero_literal]; exact hb
    simp [si2ht_GOUDIE, hb2, h50, h1]
  · refine ⟨-0.9576, 7.4871, -1.2036, by norm_num, fun tage bhage s y hb => ?_⟩
    have hb2 : bhage > 0.0 := by rw [zero_literal]; exact hb
    simp [si2ht_GOUDIE, hb2, h50, h1]
  · refine ⟨-1.2866, 9.7936, -1.4661, by norm_num, fun tage bhage s y hb => ?_⟩
    have hb2 : bhage > 0.0 := by rw [zero_literal]; exact hb
    simp [si2ht_GOUDIE, hb2, h50, h1]
  · refine ⟨-1.2866, 9.7936, -1.4661, by norm_num, fun tage bhage s y hb => ?_⟩
    have hb2 : bhage > 0.0 := by rw [zero_literal]; exact hb
    simp [si2ht_GOUDIE, hb2, h50, h1]
  · refine ⟨-1.2240, 9.6183, -1.4627, by norm_num, fun tage bhage s y hb => ?_⟩
    have hb2 : bhage > 0.0 := by rw [zero_literal]; exact hb
    simp [si2ht_GOUDIE, hb2, h50, h1]
  · refine ⟨-1.3154, 8.5594, -1.1484, by norm_num, fun tage bhage s y hb => ?_⟩
    have hb2 : bhage > 0.0 := by rw [zero_literal]; exact hb
    simp [si2ht_GOUDIE, hb2, h50, h1]
  · refine ⟨-1.5282, 11.0605, -1.5108, by norm_num, fun tage bhage s y hb => ?_⟩
    have hb2 : bhage > 0.0 := by rw [zero_literal]; exact hb
    simp [si2ht_GOUDIE, hb2, h50, h1]
  · refine ⟨-0.237724692, 5.780089777, -1.150039266, by norm_num,
      fun tage bhage s y hb => ?_⟩
    have hb2 : bhage > 0.0 := by rw [zero_literal]; exact hb
    simp [si2ht_GOUDIE, hb2, h50, h1]
  · refine ⟨-0.618, 6.879, -1.32, by norm_num, fun tage bhage s y hb => ?_⟩
    have hb2 : bhage > 0.0 := by rw [zero_literal]; exact hb
    simp [si2ht_GOUDIE, hb2, h50, h1]

end LogisticSwitchLemmas

section LogisticTheorems

variable {α : Type} [LinearOrderedField α] [FloorRing α]

/-- C12, amended: in exact real arithmetic, for every logistic-ratio curve of
`logistic_ratio_curves`, every `site_index > 1.3` and every `y2bh ≥ 0`,
`index_to_height` at breast-height age 50 returns the site index (for an `exp`
without negative values, so that no denominator `1 + exp (..)` is zero). -/
theorem index_to_height_logistic_at_50 (M : Extern α) (fuel : ℕ) (cu : ℤ)
    (site_index y2bh pi : α) (hexp : ∀ x, 0 ≤ M.exp x) (hcu : cu ∈ logistic_ratio_curves)
    (hsi : 1.3 < site_index) (hy : 0 ≤ y2bh) :
    index_to_height M fuel cu 50 SI_AT_BREAST site_index y2bh pi = some site_index := by
  have hY := half_le_c_int_add_half y2bh hy
  have h05 : (0.5 : α) = 1 / 2 := by norm_num
  have ht : (50 : α) ≤ age_to_age cu 50 SI_AT_BREAST SI_AT_TOTAL ((c_int y2bh : α) + 0.5) := by
    rw [age_to_age_breast_total]
    apply le_max_of_le_right
    unfold age_offset_ref
    split_ifs <;> linarith
  rw [index_to_height_of_ge M fuel cu 50 SI_AT_BREAST site_index y2bh pi (le_of_lt hsi),
    index_to_height_ages_breast, if_neg (not_lt.mpr (by linarith)),
    if_neg (not_lt.mpr (le_trans (by norm_num) ht))]
  exact index_to_height_switch_logistic_50 M _ fuel cu _ SI_AT_BREAST site_index _ pi hexp hsi
    hcu

omit [FloorRing α] in
/-- The logistic splice `1.3 + s * ((1 + N) / (1 + E))` does not decrease when the
term `E` of the denominator decreases. -/
theorem logistic_ratio_mono (s N E1 E2 : α) (hs : 0 ≤ s) (hN : 0 ≤ N) (hE2 : 0 ≤ E2)
    (h : E2 ≤ E1) :
    1.3 + s * ((1 + N) / (1 + E1)) ≤ 1.3 + s * ((1 + N) / (1 + E2)) := by
  have h1 : (0 : α) ≤ 1 + N := by linarith
  have h2 : (0 : α) < 1 + E2 := by linarith
  have h3 : 1 + E2 ≤ 1 + E1 := by linarith
  have hr : (1 + N) / (1 + E1) ≤ (1 + N) / (1 + E2) := div_le_div_of_nonneg_left h1 h2 h3
  have := mul_le_mul_of_nonneg_left hr hs
  linarith

/-- The logistic branch of the Goudie family for total age: beyond the normalised
`y2bh` the height is the value of the `GOUDIE` arm at the breast-height age
`t - (⌊y2bh⌋ + 0.5)`. -/
theorem index_to_height_goudie_above (M : Extern α) (fuel : ℕ) (cu : ℤ)
    (t site_index y2bh pi : α) (hcu : cu ∈ goudie_family) (hsi : 1.3 ≤ site_index)
    (hy : 0 ≤ y2bh) (ht : (⌊y2bh⌋ : α) + 0.5 < t) :
    index_to_height M fuel cu t SI_AT_TOTAL site_index y2bh pi
      = some (si2ht_GOUDIE M cu t (t - ((⌊y2bh⌋ : α) + 0.5)) site_index
          ((⌊y2bh⌋ : α) + 0.5)) := by
  have hY := half_le_c_int_add_half y2bh hy
  rw [c_int_of_nonneg y2bh hy] at hY
  have h05 : (0 : α) < 0.5 := by norm_num
  have h5 : (0.00001 : α) < 0.5 := by norm_num
  rw [index_to_height_of_ge M fuel cu t SI_AT_TOTAL site_index y2bh pi hsi,
    index_to_height_ages_total, c_int_of_nonneg y2bh hy,
    if_neg (not_lt.mpr (by linarith)), if_neg (not_lt.mpr (by linarith)),
    age_to_age_total_breast]
  have hoff : age_offset_ref cu ((⌊y2bh⌋ : α) + 0.5) = (⌊y2bh⌋ : α) + 0.5 := by
    unfold age_offset_ref
    rw [if_neg (goudie_not_half_year cu hcu)]
  rw [hoff, max_eq_right (by linarith), index_to_height_switch_goudie M _ fuel cu _ _ _ _ _ pi hcu]

/-- C15: for every curve of the Goudie family, every `site_index ≥ 1.3` and every
`y2bh ≥ 0`, `index_to_height` with total age returns a height for every age
`≥ 0`, and the height is non-decreasing in the age: for `0 ≤ t1 ≤ t2` the height at
`t1` is at most the height at `t2` (for an `exp` that is monotone and without
negative values, and a `log` that is monotone on the positive numbers). -/
theorem index_to_height_goudie_monotone (M : Extern α) (fuel : ℕ) (cu : ℤ)
    (site_index y2bh pi t1 t2 : α)
    (hexp_mono : ∀ x y, x ≤ y → M.exp x ≤ M.exp y) (hexp_nonneg : ∀ x, 0 ≤ M.exp x)
    (hlog_mono : ∀ x y, 0 < x → x ≤ y → M.log x ≤ M.log y)
    (hcu : cu ∈ goudie_family) (hsi : 1.3 ≤ site_index) (hy : 0 ≤ y2bh)
    (h1 : 0 ≤ t1) (h12 : t1 ≤ t2) :
    ∃ ht1 ht2 : α,
      index_to_height M fuel cu t1 SI_AT_TOTAL site_index y2bh pi = some ht1 ∧
      index_to_height M fuel cu t2 SI_AT_TOTAL site_index y2bh pi = some ht2 ∧
      ht1 ≤ ht2 := by
  obtain ⟨c1, c2, c3, hc3, hform⟩ := si2ht_GOUDIE_logistic M cu hcu
  have hY := half_le_c_int_add_half y2bh hy
  rw [c_int_of_nonneg y2bh hy] at hY
  have h05 : (0 : α) < 0.5 := by norm_num
  have hYpos : (0 : α) < (⌊y2bh⌋ : α) + 0.5 := by linarith
  have hs0 : (0 : α) ≤ site_index - 1.3 := by linarith
  -- the values of the three pieces
  have hzero : ∀ t : α, 0 ≤ t → t < 0.00001 →
      index_to_height M fuel cu t SI_AT_TOTAL site_index y2bh pi = some 0 := by
    intro t ht0 ht
    rw [index_to_height_of_ge M fuel cu t SI_AT_TOTAL site_index y2bh pi hsi,
      index_to_height_ages_total, if_neg (not_lt.mpr ht0), if_pos ht]
  have hramp : ∀ t : α, 0.00001 ≤ t → t ≤ (⌊y2bh⌋ : α) + 0.5 →
      index_to_height M fuel cu t SI_AT_TOTAL site_index y2bh pi
        = some (t ^ 2 * 1.3 / ((⌊y2bh⌋ : α) + 0.5) ^ 2) :=
    fun t ht0 ht => index_to_height_goudie_ramp M fuel cu t site_index y2bh pi hcu hsi hy ht0 ht
  have hlogi : ∀ t : α, (⌊y2bh⌋ : α) + 0.5 < t →
      index_to_height M fuel cu t SI_AT_TOTAL site_index y2bh pi
        = some (1.3 + (site_index - 1.3) *
          ((1 + M.exp (c2 + c1 * LLOG M (site_index - 1.3) + c3 * M.log 50)) /
           (1 + M.exp (c2 + c1 * LLOG M (site_index - 1.3)
              + c3 * M.log (t - ((⌊y2bh⌋ : α) + 0.5)))))) := by
    intro t ht
    rw [index_to_height_goudie_above M fuel cu t site_index y2bh pi hcu hsi hy ht,
      hform _ _ _ _ (by linarith)]
  -- bounds on the pieces
  have hramp_nonneg : ∀ t : α, 0 ≤ t ^ 2 * 1.3 / ((⌊y2bh⌋ : α) + 0.5) ^ 2 := by
    intro t
    positivity
  have hramp_le : ∀ t : α, 0 ≤ t → t ≤ (⌊y2bh⌋ : α) + 0.5 →
      t ^ 2 * 1.3 / ((⌊y2bh⌋ : α) + 0.5) ^ 2 ≤ 1.3 := by
    intro t ht0 ht
    rw [div_le_iff₀ (by positivity)]
    have : t ^ 2 ≤ ((⌊y2bh⌋ : α) + 0.5) ^ 2 := pow_le_pow_left₀ ht0 ht 2
    have h13 : (0 : α) ≤ 1.3 := by norm_num
    nlinarith
  have hratio_nonneg : ∀ x y : α, 0 ≤ (1 + M.exp x) / (1 + M.exp y) := by
    intro x y
    have := hexp_nonneg x
    have := hexp_nonneg y
    positivity
  have hlogi_ge : ∀ x y : α, (1.3 : α) ≤ 1.3 + (site_index - 1.3) *
      ((1 + M.exp x) / (1 + M.exp y)) := by
    intro x y
    have := mul_nonneg hs0 (hratio_nonneg x y)
    linarith
  have h13 : (0 : α) ≤ 1.3 := by norm_num
  -- case analysis on the two ages
  by_cases ha : t1 < 0.00001
  · rw [hzero t1 h1 ha]
    by_cases hb : t2 < 0.00001
    · rw [hzero t2 (le_trans h1 h12) hb]
      exact ⟨0, 0, rfl, rfl, le_refl 0⟩
    · by_cases hb2 : t2 ≤ (⌊y2bh⌋ : α) + 0.5
      · rw [hramp t2 (not_lt.mp hb) hb2]
        exact ⟨_, _, rfl, rfl, hramp_nonneg t2⟩
      · rw [hlogi t2 (not_le.mp hb2)]
        exact ⟨_, _, rfl, rfl, le_trans h13 (hlogi_ge _ _)⟩
  · have ha1 := not_lt.mp ha
    by_cases ha2 : t1 ≤ (⌊y2bh⌋ : α) + 0.5
    · rw [hramp t1 ha1 ha2]
      by_cases hb2 : t2 ≤ (⌊y2bh⌋ : α) + 0.5
      · rw [hramp t2 (le_trans ha1 h12) hb2]
        refine ⟨_, _, rfl, rfl, ?_⟩
        apply div_le_div_of_nonneg_right _ (by positivity)
        have : t1 ^ 2 ≤ t2 ^ 2 := pow_le_pow_left₀ h1 h12 2
        nlinarith
      · rw [hlogi t2 (not_le.mp hb2)]
        exact ⟨_, _, rfl, rfl, le_trans (hramp_le t1 h1 ha2) (hlogi_ge _ _)⟩
    · have ha3 := not_le.mp ha2
      rw [hlogi t1 ha3, hlogi t2 (lt_of_lt_of_le ha3 h12)]
      refine ⟨_, _, rfl, rfl, ?_⟩
      have hl : M.log (t1 - ((⌊y2bh⌋ : α) + 0.5)) ≤ M.log (t2 - ((⌊y2bh⌋ : α) + 0.5)) :=
        hlog_mono _ _ (by linarith) (by linarith)
      have he : M.exp (c2 + c1 * LLOG M (site_index - 1.3)
            + c3 * M.log (t2 - ((⌊y2bh⌋ : α) + 0.5)))
          ≤ M.exp (c2 + c1 * LLOG M (site_index - 1.3)
            + c3 * M.log (t1 - ((⌊y2bh⌋ : α) + 0.5))) := by
        apply hexp_mono
        have := mul_le_mul_of_nonpos_left hl (le_of_lt hc3)
        linarith
      exact logistic_ratio_mono _ _ _ _ hs0 (hexp_nonneg _) (hexp_nonneg _) he

end LogisticTheorems

section IndexToAgeTheorems

variable {α : Type} [LinearOrderedField α] [FloorRing α]

/-- C16: for every curve id, site index and `y2bh`, `index_to_age` with
`site_height < 1.3` and age type breast height returns `SI_ERR_LT13`, which is
-1; this holds also for `site_height ≤ 0.0001` and for a valid site index. -/
theorem index_to_age_breast_below_13 (M : Extern α) (fuel : ℕ) (cu : ℤ)
    (site_height site_index y2bh : α) (h : site_height < 1.3) :
    index_to_age M fuel cu site_height SI_AT_BREAST site_index y2bh = some SI_ERR_LT13 ∧
    (SI_ERR_LT13 : α) = -1 := by
  unfold index_to_age
  rw [if_pos ⟨h, rfl⟩]
  exact ⟨rfl, rfl⟩

/-- Witness of `index_to_age_breast_below_13` at site height 0 and site index 20. -/
theorem index_to_age_breast_below_13_witness :
    index_to_age Extern.crude 0 SI_FDC_BRUCE (0 : ℚ) SI_AT_BREAST 20 5 = some SI_ERR_LT13 ∧
    (SI_ERR_LT13 : ℚ) = -1 :=
  index_to_age_breast_below_13 Extern.crude 0 SI_FDC_BRUCE 0 20 5 (by norm_num)

/-- C17, counterexample: with site height 0, age type total and site index 1
(below 1.3) `index_to_age` returns the age 0, not `SI_ERR_LT13`. -/
theorem index_to_age_site_index_lt13_fails :
    index_to_age Extern.crude 0 SI_FDC_BRUCE (0 : ℚ) SI_AT_TOTAL 1 5 = some 0 ∧
    (0 : ℚ) ≠ SI_ERR_LT13 := by
  constructor
  · unfold index_to_age
    rw [if_neg (by simp), if_pos (by norm_num)]
  · norm_num [SI_ERR_LT13]

/-- C17, amended: for every curve id, site height, age type and `y2bh`,
`index_to_age` with `site_index < 1.3` returns `SI_ERR_LT13`, except that a site
height of at most 0.0001 with an age type other than breast height returns the
age 0 (the seedling check comes first). -/
theorem index_to_age_site_index_lt13 (M : Extern α) (fuel : ℕ) (cu : ℤ)
    (site_height : α) (age_type : ℤ) (site_index y2bh : α) (hsi : site_index < 1.3) :
    index_to_age M fuel cu site_height age_type site_index y2bh =
      if site_height ≤ 0.0001 ∧ age_type ≠ SI_AT_BREAST then some 0
      else some SI_ERR_LT13 := by
  have h13 : (0.0001 : α) < 1.3 := by norm_num
  unfold index_to_age
  by_cases hb : age_type = SI_AT_BREAST
  · by_cases hs : site_height < 1.3
    · rw [if_pos ⟨hs, hb⟩, if_neg (fun h => h.2 hb)]
    · rw [if_neg (fun h => hs h.1), if_neg (fun h => hs h.1), if_pos hsi,
        if_neg (fun h => h.2 hb)]
  · by_cases hs : site_height ≤ 0.0001
    · rw [if_neg (fun h => hb h.2), if_pos ⟨lt_of_le_of_lt hs h13, hs⟩, if_pos ⟨hs, hb⟩]
    · rw [if_neg (fun h => hb h.2), if_neg (fun h => hs h.2), if_pos hsi,
        if_neg (fun h => hs h.1)]

/-- Witness of `index_to_age_site_index_lt13` at site height 10, total age, site
index 1. -/
theorem index_to_age_site_index_lt13_witness :
    index_to_age Extern.crude 0 SI_FDC_BRUCE (10 : ℚ) SI_AT_TOTAL 1 5 =
      if (10 : ℚ) ≤ 0.0001 ∧ SI_AT_TOTAL ≠ SI_AT_BREAST then some 0
      else some SI_ERR_LT13 :=
  index_to_age_site_index_lt13 Extern.crude 0 SI_FDC_BRUCE 10 SI_AT_TOTAL 1 5 (by norm_num)

/-- C18: for every curve id, every site index and every `y2bh`, `index_to_age`
with age type total and `site_height ≤ 0.0001` returns the age 0, which is none of
the error codes. -/
theorem index_to_age_seedling (M : Extern α) (fuel : ℕ) (cu : ℤ)
    (site_height site_index y2bh : α) (h : site_height ≤ 0.0001) :
    index_to_age M fuel cu site_height SI_AT_TOTAL site_index y2bh = some 0 ∧
    (0 : α) ≠ SI_ERR_LT13 ∧ (0 : α) ≠ SI_ERR_NO_ANS ∧ (0 : α) ≠ SI_ERR_CURVE ∧
    (0 : α) ≠ SI_ERR_GI_TOT := by
  have h13 : (0.0001 : α) < 1.3 := by norm_num
  refine ⟨?_, ?_, ?_, ?_, ?_⟩
  · unfold index_to_age
    rw [if_neg (by simp), if_pos ⟨lt_of_le_of_lt h h13, h⟩]
  all_goals norm_num [SI_ERR_LT13, SI_ERR_NO_ANS, SI_ERR_CURVE, SI_ERR_GI_TOT]

/-- Witness of `index_to_age_seedling` at site height 0, for an unknown curve id. -/
theorem index_to_age_seedling_witness :
    index_to_age Extern.crude 0 9999 (0 : ℚ) SI_AT_TOTAL 20 5 = some 0 ∧
    (0 : ℚ) ≠ SI_ERR_LT13 ∧ (0 : ℚ) ≠ SI_ERR_NO_ANS ∧ (0 : ℚ) ≠ SI_ERR_CURVE ∧
    (0 : ℚ) ≠ SI_ERR_GI_TOT :=
  index_to_age_seedling Extern.crude 0 9999 0 20 5 (by norm_num)

end IndexToAgeTheorems

section RealLibm

/-- The `exp` of the real instance. -/
theorem Extern.real_exp (x : ℝ) :
    Extern.real.exp x = Real.exp x := rfl

/-- The `log` of the real instance. -/
theorem Extern.real_log (x : ℝ) :
    Extern.real.log x = Real.log x := rfl

/-- The `pow` of the real instance. -/
theorem Extern.real_pow (x y : ℝ) :
    Extern.real.pow x y = x ^ y := rfl

/-- The macro `LLOG` at a positive real number. -/
theorem LLOG_real_of_pos (x : ℝ) (hx : 0 < x) :
    LLOG Extern.real x = Real.log x := by
  unfold LLOG
  rw [zero_literal, if_neg (not_le.mpr hx)]
  rfl

/-- The macro `PPOW` at a positive real base. -/
theorem PPOW_real_of_pos (x y : ℝ) (hx : 0 < x) :
    PPOW Extern.real x y = x ^ y := by
  unfold PPOW
  rw [zero_literal, if_neg (not_le.mpr hx)]
  rfl

/-- The macro `PPOW` at a base that is not positive. -/
theorem PPOW_of_nonpos {α : Type} [LinearOrderedField α] (M : Extern α) (x y : α)
    (hx : x ≤ 0) : PPOW M x y = 0 := by
  unfold PPOW
  rw [zero_literal, if_pos hx]

/-- The closed-form inverse of the `GOUDIE` arm of `index_to_age`, at a height of
at least 1.3: for each of its five curves the coefficients are those of the
`GOUDIE` arm of `index_to_height`. -/
theorem goudie_closed_form_coefficients {α : Type} [LinearOrderedField α] (M : Extern α)
    (cu : ℤ) (hcu : cu ∈ goudie_closed_form) :
    ∃ c1 c2 c3 : α, c3 < 0 ∧
      (∀ tage bhage site_index y2bh : α, 0 < bhage →
        si2ht_GOUDIE M cu tage bhage site_index y2bh =
          1.3 + (site_index - 1.3) *
            ((1 + M.exp (c2 + c1 * LLOG M (site_index - 1.3) + c3 * M.log 50)) /
             (1 + M.exp (c2 + c1 * LLOG M (site_index - 1.3) + c3 * M.log bhage)))) ∧
      (∀ site_height site_index y2bh : α, 1.3 ≤ site_height →
        si2age_GOUDIE M cu site_height SI_AT_TOTAL site_index y2bh =
          if M.exp ((LLOG M ((site_index - 1.3) *
                (1 + M.exp (c2 + c1 * LLOG M (site_index - 1.3) + c3 * M.log 50))
                / (site_height - 1.3) - 1)
              - (c2 + c1 * LLOG M (site_index - 1.3))) / c3) + y2bh < 0 then 0
          else if M.exp ((LLOG M ((site_index - 1.3) *
                (1 + M.exp (c2 + c1 * LLOG M (site_index - 1.3) + c3 * M.log 50))
                / (site_height - 1.3) - 1)
              - (c2 + c1 * LLOG M (site_index - 1.3))) / c3) + y2bh > MAX_AGE
            then SI_ERR_NO_ANS
          else M.exp ((LLOG M ((site_index - 1.3) *
                (1 + M.exp (c2 + c1 * LLOG M (site_index - 1.3) + c3 * M.log 50))
                / (site_height - 1.3) - 1)
              - (c2 + c1 * LLOG M (site_index - 1.3))) / c3) + y2bh) := by
  have h50 : (50.0 : α) = 50 := by norm_num
  have h1 : (1.0 : α) = 1 := by norm_num
  simp only [goudie_closed_form, List.mem_cons, List.not_mem_nil, or_false] at hcu
  rcases hcu with h | h | h | h | h <;> subst h
  · refine ⟨-1.00726, 7.81498, -1.28517, by norm_num, fun tage bhage s y hb => ?_,
      fun h s y hh => ?_⟩
    · have hb2 : bhage > 0.0 := by rw [zero_literal]; exact hb
      simp [si2ht_GOUDIE, hb2, h50, h1]
    · simp [si2age_GOUDIE, not_lt.mpr hh, h50]
  · refine ⟨-0.935, 7.81498, -1.28517, by norm_num, fun tage bhage s y hb => ?_,
      fun h s y hh => ?_⟩
    · have hb2 : bhage > 0.0 := by rw [zero_literal]; exact hb
      simp [si2ht_GOUDIE, hb2, h50, h1]
    · simp [si2age_GOUDIE, not_lt.mpr hh, h50]
  · refine ⟨-1.5282, 11.0605, -1.5108, by norm_num, fun tage bhage s y hb => ?_,
      fun h s y hh => ?_⟩
    · have hb2 : bhage > 0.0 := by rw [zero_literal]; exact hb
      simp [si2ht_GOUDIE, hb2, h50, h1]
    · simp [si2age_GOUDIE, not_lt.mpr hh, h50]
  · refine ⟨-1.2866, 9.7936, -1.4661, by norm_num, fun tage bhage s y hb => ?_,
      fun h s y hh => ?_⟩
    · have hb2 : bhage > 0.0 := by rw [zero_literal]; exact hb
      simp [si2ht_GOUDIE, hb2, h50, h1]
    · simp [si2age_GOUDIE, not_lt.mpr hh, h50]
  · refine ⟨-1.2866, 9.7936, -1.4661, by norm_num, fun tage bhage s y hb => ?_,
      fun h s y hh => ?_⟩
    · have hb2 : bhage > 0.0 := by rw [zero_literal]; exact hb
      simp [si2ht_GOUDIE, hb2, h50, h1]
    · simp [si2age_GOUDIE, not_lt.mpr hh, h50]

end RealLibm

section GoudieRoundTrip

/-- The five curves inverted in closed form belong to the Goudie family. -/
theorem goudie_closed_form_subset (cu : ℤ) (h : cu ∈ goudie_closed_form) :
    cu ∈ goudie_family := by
  simp only [goudie_closed_form, List.mem_cons, List.not_mem_nil, or_false] at h
  rcases h with h | h | h | h | h <;> subst h <;> simp [goudie_family]

/-- The five curves inverted in closed form are dispatched to the `GOUDIE` arm of
`index_to_age`. -/
theorem index_to_age_switch_goudie {α : Type} [LinearOrderedField α] [FloorRing α]
    (M : Extern α) (fuel : ℕ) (cu : ℤ) (site_height : α) (age_type : ℤ)
    (site_index y2bh : α) (hcu : cu ∈ goudie_closed_form) :
    index_to_age_switch M fuel cu site_height age_type site_index y2bh
      = some (si2age_GOUDIE M cu site_height age_type site_index y2bh) := by
  simp only [goudie_closed_form, List.mem_cons, List.not_mem_nil, or_false] at hcu
  unfold index_to_age_switch
  rcases hcu with h | h | h | h | h <;> subst h <;> simp

/-- Entry of `index_to_age` for a site height and a site index of at least 1.3. -/
theorem index_to_age_of_ge {α : Type} [LinearOrderedField α] [FloorRing α]
    (M : Extern α) (fuel : ℕ) (cu : ℤ) (site_height : α) (age_type : ℤ)
    (site_index y2bh : α) (hh : 1.3 ≤ site_height) (hsi : 1.3 ≤ site_index) :
    index_to_age M fuel cu site_height age_type site_index y2bh
      = index_to_age_switch M fuel cu site_height age_type site_index y2bh := by
  unfold index_to_age
  rw [if_neg (fun h => not_lt.mpr hh h.1), if_neg (fun h => not_lt.mpr hh h.1),
    if_neg (not_lt.mpr hsi)]

/-- Solving the logistic splice `h = 1.3 + s * (N / (1 + E))` for `E`. -/
theorem logistic_invert {α : Type} [LinearOrderedField α] (s N E : α) (hs : s ≠ 0)
    (hN : N ≠ 0) :
    s * N / (1.3 + s * (N / (1 + E)) - 1.3) - 1 = E := by
  have h : (1.3 : α) + s * (N / (1 + E)) - 1.3 = s * N / (1 + E) := by ring
  rw [h]
  field_simp

/-- Round trip of the Goudie curves inverted in closed form, over the real
numbers, for a total age `t` above the normalised `y2bh` `Y = ⌊y2bh⌋ + 0.5`:
`index_to_height` evaluates the logistic branch at the breast-height age `t - Y`,
and `index_to_age` recovers `t - Y` and adds the `y2bh` it was given. -/
theorem index_to_age_goudie_total (fuel fuel2 : ℕ) (cu : ℤ)
    (site_index y2bh t pi : ℝ) (hcu : cu ∈ goudie_closed_form) (hsi : 1.3 < site_index)
    (hy : 0 ≤ y2bh) (ht : (⌊y2bh⌋ : ℝ) + 0.5 < t)
    (hmax : t - ((⌊y2bh⌋ : ℝ) + 0.5) + y2bh ≤ 999) :
    ∃ h : ℝ,
      index_to_height Extern.real fuel cu t SI_AT_TOTAL site_index y2bh pi = some h ∧
      index_to_age Extern.real fuel2 cu h SI_AT_TOTAL site_index y2bh
        = some (t - ((⌊y2bh⌋ : ℝ) + 0.5) + y2bh) := by
  obtain ⟨c1, c2, c3, hc3, hf, hi⟩ := goudie_closed_form_coefficients Extern.real cu hcu
  have hb : 0 < t - ((⌊y2bh⌋ : ℝ) + 0.5) := by linarith
  have hs : 0 < site_index - 1.3 := by linarith
  rw [index_to_height_goudie_above Extern.real fuel cu t site_index y2bh pi
    (goudie_closed_form_subset cu hcu) (le_of_lt hsi) hy ht, hf _ _ _ _ hb]
  refine ⟨_, rfl, ?_⟩
  simp only [Extern.real_exp, Extern.real_log]
  generalize hK : c2 + c1 * LLOG Extern.real (site_index - 1.3) = K
  have hN : 0 < 1 + Real.exp (K + c3 * Real.log 50) := by positivity
  have hE : 0 < 1 + Real.exp (K + c3 * Real.log (t - ((⌊y2bh⌋ : ℝ) + 0.5))) := by positivity
  have hh : (1.3 : ℝ) ≤ 1.3 + (site_index - 1.3) *
      ((1 + Real.exp (K + c3 * Real.log 50)) /
        (1 + Real.exp (K + c3 * Real.log (t - ((⌊y2bh⌋ : ℝ) + 0.5))))) := by
    have : 0 < (site_index - 1.3) *
      ((1 + Real.exp (K + c3 * Real.log 50)) /
        (1 + Real.exp (K + c3 * Real.log (t - ((⌊y2bh⌋ : ℝ) + 0.5))))) := by positivity
    linarith
  rw [index_to_age_of_ge Extern.real fuel2 cu _ SI_AT_TOTAL site_index y2bh hh
    (le_of_lt hsi), index_to_age_switch_goudie Extern.real fuel2 cu _ SI_AT_TOTAL
    site_index y2bh hcu, hi _ _ _ hh]
  simp only [Extern.real_exp, Extern.real_log, hK]
  have hratio := logistic_invert (site_index - 1.3) (1 + Real.exp (K + c3 * Real.log 50))
    (Real.exp (K + c3 * Real.log (t - ((⌊y2bh⌋ : ℝ) + 0.5)))) (ne_of_gt hs) (ne_of_gt hN)
  rw [hratio, LLOG_real_of_pos _ (Real.exp_pos _), Real.log_exp]
  have hdiv : (K + c3 * Real.log (t - ((⌊y2bh⌋ : ℝ) + 0.5)) - K) / c3
      = Real.log (t - ((⌊y2bh⌋ : ℝ) + 0.5)) := by
    rw [add_sub_cancel_left, mul_div_cancel_left₀ _ (ne_of_lt hc3)]
  rw [hdiv, Real.exp_log hb, if_neg (not_lt.mpr (by linarith)), if_neg]
  unfold MAX_AGE
  have : (999.0 : ℝ) = 999 := by norm_num
  rw [this]
  exact not_lt.mpr hmax

end GoudieRoundTrip

section BruceReal

/-- The exponent `x2` of Bruce's curve is negative on the range of site indices
with a positive `13.25 - site_index / 6.096`. -/
theorem bruce_x2_neg (x : ℝ) (h0 : 0 ≤ x) (h1 : x ≤ 2.65) :
    -0.477762 + x * (-0.894427 + x * (0.793548 - x * 0.171666)) < 0 := by
  nlinarith [mul_nonneg h0 (sq_nonneg (x - 2.3113)), mul_nonneg h0 (sub_nonneg.mpr h1)]

/-- The curve `SI_FDC_BRUCE` is dispatched to its arm of `index_to_height`. -/
theorem index_to_height_switch_bruce {α : Type} [LinearOrderedField α] (M : Extern α)
    (self : ℤ → α → ℤ → α → α → α → Option α) (fuel : ℕ) (tage bhage : α)
    (age_type : ℤ) (site_index y2bh pi : α) :
    index_to_height_switch M self fuel SI_FDC_BRUCE tage bhage age_type site_index y2bh pi
      = some (si2ht_FDC_BRUCE M tage bhage age_type site_index) := by
  unfold index_to_height_switch
  simp

/-- The curve `SI_FDC_BRUCE` is dispatched to its arm of `index_to_age`. -/
theorem index_to_age_switch_bruce {α : Type} [LinearOrderedField α] [FloorRing α]
    (M : Extern α) (fuel : ℕ) (site_height : α) (age_type : ℤ) (site_index y2bh : α) :
    index_to_age_switch M fuel SI_FDC_BRUCE site_height age_type site_index y2bh
      = some (si2age_FDC_BRUCE M site_height age_type site_index) := by
  unfold index_to_age_switch
  simp

/-- The arm of `SI_FDC_BRUCE` in `index_to_height` over the real numbers, at a
positive total age `u` of the arm (`tage` for total age, `bhage` plus the
unrounded years to breast height otherwise). -/
theorem si2ht_FDC_BRUCE_real (age_type : ℤ)
    (tage bhage site_index u : ℝ) (hY : 0 < bruce_y2bh site_index) (hu : 0 < u)
    (hdef : u = if age_type = SI_AT_TOTAL then tage else bhage + bruce_y2bh site_index) :
    si2ht_FDC_BRUCE Extern.real tage bhage age_type site_index =
      site_index * Real.exp
        (Real.log (1.372 / site_index) /
          (bruce_y2bh site_index ^ bruce_x2 site_index
            - (50 + bruce_y2bh site_index) ^ bruce_x2 site_index)
          * (u ^ bruce_x2 site_index
            - (50 + bruce_y2bh site_index) ^ bruce_x2 site_index)) := by
  have h50 : (50.0 : ℝ) = 50 := by norm_num
  have hY50 : 0 < 50 + bruce_y2bh site_index := by linarith
  unfold bruce_y2bh bruce_x2 at *
  unfold si2ht_FDC_BRUCE
  simp only [h50, PPOW_real_of_pos _ _ hY, PPOW_real_of_pos _ _ hY50,
    Extern.real_exp, Extern.real_log]
  split_ifs at hdef ⊢ with hT
  · rw [← hdef, PPOW_real_of_pos _ _ hu]
  · rw [← hdef, PPOW_real_of_pos _ _ hu]

/-- Facts on the constants of Bruce's curve for a site index in its valid range:
the exponent is negative, the denominator `y2bh ^ x2 - (50 + y2bh) ^ x2` is
positive and `log (1.372 / site_index)` is negative. -/
theorem bruce_constants (site_index : ℝ) (hsi : 1.372 < site_index)
    (hY : 0 < bruce_y2bh site_index) :
    bruce_x2 site_index < 0 ∧
    0 < bruce_y2bh site_index ^ bruce_x2 site_index
      - (50 + bruce_y2bh site_index) ^ bruce_x2 site_index ∧
    Real.log (1.372 / site_index) < 0 := by
  have hx2 : bruce_x2 site_index < 0 := by
    unfold bruce_x2
    unfold bruce_y2bh at hY
    apply bruce_x2_neg
    · have : (0 : ℝ) < site_index := by linarith
      positivity
    · rw [div_le_iff₀ (by norm_num)]
      have h6 : site_index / 6.096 < 13.25 := by linarith
      rw [div_lt_iff₀ (by norm_num)] at h6
      norm_num at h6 ⊢
      linarith
  refine ⟨hx2, ?_, ?_⟩
  · have := Real.rpow_lt_rpow_of_neg hY
      (show bruce_y2bh site_index < 50 + bruce_y2bh site_index by linarith) hx2
    linarith
  · apply Real.log_neg
    · have : (0 : ℝ) < site_index := by linarith
      positivity
    · rw [div_lt_one (by linarith)]
      exact hsi

/-- The arm of `SI_FDC_BRUCE` in `index_to_age` over the real numbers inverts the
height equation: at the height of the total age `u > 0` of the arm it recovers
`u`, subtracts the unrounded years to breast height for a breast-height age, and
applies its two range checks. -/
theorem si2age_FDC_BRUCE_real (age_type : ℤ)
    (site_index u : ℝ) (hsi : 1.372 < site_index) (hY : 0 < bruce_y2bh site_index)
    (hu : 0 < u) :
    si2age_FDC_BRUCE Extern.real
      (site_index * Real.exp
        (Real.log (1.372 / site_index) /
          (bruce_y2bh site_index ^ bruce_x2 site_index
            - (50 + bruce_y2bh site_index) ^ bruce_x2 site_index)
          * (u ^ bruce_x2 site_index
            - (50 + bruce_y2bh site_index) ^ bruce_x2 site_index))) age_type site_index =
      if (if age_type = SI_AT_BREAST then u - bruce_y2bh site_index else u) < 0 then 0
      else if (if age_type = SI_AT_BREAST then u - bruce_y2bh site_index else u) > 999
        then SI_ERR_NO_ANS
      else (if age_type = SI_AT_BREAST then u - bruce_y2bh site_index else u) := by
  obtain ⟨hx2, hCB, hL⟩ := bruce_constants site_index hsi hY
  have h50 : (50.0 : ℝ) = 50 := by norm_num
  have hY50 : 0 < 50 + bruce_y2bh site_index := by linarith
  have hsi0 : (0 : ℝ) < site_index := by linarith
  have hq : (0 : ℝ) < 1.372 / site_index := by positivity
  unfold bruce_y2bh bruce_x2 at *
  unfold si2age_FDC_BRUCE
  simp only [h50, PPOW_real_of_pos _ _ hY, PPOW_real_of_pos _ _ hY50,
    LLOG_real_of_pos _ hq, mul_div_cancel_left₀ _ (ne_of_gt hsi0),
    LLOG_real_of_pos _ (Real.exp_pos _), Real.log_exp]
  generalize -0.477762 + site_index / 30.48 * (-0.894427 + site_index / 30.48 *
    (0.793548 - site_index / 30.48 * 0.171666)) = x2 at *
  generalize (13.25 - site_index / 6.096) = Y at *
  have hx4 : Real.log (1.372 / site_index) / (Y ^ x2 - (50 + Y) ^ x2) ≠ 0 :=
    div_ne_zero (ne_of_lt hL) (ne_of_gt hCB)
  rw [mul_div_cancel_left₀ _ hx4, sub_add_cancel]
  have hux : 0 < u ^ x2 := Real.rpow_pos_of_pos hu x2
  rw [if_neg (not_lt.mpr (le_of_lt hux)), PPOW_real_of_pos _ _ hux,
    ← Real.rpow_mul (le_of_lt hu), mul_one_div_cancel (ne_of_lt hx2), Real.rpow_one]
  simp only [zero_literal, MAX_AGE]
  norm_num

end BruceReal

section BruceNumeric

/-- A bound on the exponential of Bruce's height equation: with
`log (1.372 / site_index) ≤ -3` and `P - B` at least `0.0122 * C`, the factor
`exp (L / (C - B) * (P - B))` is at most `1 / 1.0366`. -/
theorem bruce_exp_le (L C B P : ℝ) (hL : L ≤ -3) (hB : 0 < B) (hBC : B < C)
    (hP : 0.0122 * C ≤ P - B) :
    Real.exp (L / (C - B) * (P - B)) ≤ 1 / 1.0366 := by
  have hC : 0 < C := lt_trans hB hBC
  have hD : 0 < C - B := by linarith
  have hr : 0.0122 ≤ (P - B) / (C - B) := by
    rw [le_div_iff₀ hD]
    nlinarith
  have hz : L / (C - B) * (P - B) ≤ -0.0366 := by
    have h1 : L / (C - B) * (P - B) = L * ((P - B) / (C - B)) := by ring
    rw [h1]
    nlinarith
  have h2 := Real.add_one_le_exp (-(L / (C - B) * (P - B)))
  rw [Real.exp_neg] at h2
  have hpos := Real.exp_pos (L / (C - B) * (P - B))
  rw [le_div_iff₀ (by norm_num)]
  have h3 : (1.0366 : ℝ) ≤ (Real.exp (L / (C - B) * (P - B)))⁻¹ := by linarith
  have h4 := mul_le_mul_of_nonneg_left h3 (le_of_lt hpos)
  rw [mul_inv_cancel₀ (ne_of_gt hpos)] at h4
  linarith

/-- The bound `exp 3 < 20.1`. -/
theorem exp_three_lt : Real.exp 3 < 20.1 := by
  have h1 : Real.exp 3 = Real.exp 1 ^ 3 := by
    rw [← Real.exp_nat_mul]
    norm_num
  rw [h1]
  have h2 := Real.exp_one_lt_d9
  have h3 : (0 : ℝ) < Real.exp 1 := Real.exp_pos 1
  calc Real.exp 1 ^ 3 ≤ 2.7182818286 ^ 3 := pow_le_pow_left₀ (le_of_lt h3) (le_of_lt h2) 3
    _ < 20.1 := by norm_num

/-- Numeric facts on Bruce's curve at site index 30 and total age 50. -/
theorem bruce_total_50 :
    (30 : ℝ) * Real.exp
      (Real.log (1.372 / 30) /
        (bruce_y2bh (30 : ℝ) ^ bruce_x2 (30 : ℝ)
          - (50 + bruce_y2bh (30 : ℝ)) ^ bruce_x2 (30 : ℝ))
        * ((50 : ℝ) ^ bruce_x2 (30 : ℝ)
          - (50 + bruce_y2bh (30 : ℝ)) ^ bruce_x2 (30 : ℝ))) < 29.4 := by
  have hx2l : (-1 : ℝ) ≤ bruce_x2 (30 : ℝ) := by unfold bruce_x2; norm_num
  have hx2u : bruce_x2 (30 : ℝ) ≤ -1 / 2 := by unfold bruce_x2; norm_num
  have hYl : (8.32 : ℝ) ≤ bruce_y2bh (30 : ℝ) := by unfold bruce_y2bh; norm_num
  have hYu : bruce_y2bh (30 : ℝ) ≤ 8.33 := by unfold bruce_y2bh; norm_num
  generalize bruce_x2 (30 : ℝ) = x2 at *
  generalize bruce_y2bh (30 : ℝ) = Y at *
  have hY : 0 < Y := by linarith
  have hB : 0 < (50 + Y) ^ x2 := Real.rpow_pos_of_pos (by linarith) x2
  have hP : 0 < (50 : ℝ) ^ x2 := Real.rpow_pos_of_pos (by norm_num) x2
  have hC : 0 < Y ^ x2 := Real.rpow_pos_of_pos hY x2
  have hBC : (50 + Y) ^ x2 < Y ^ x2 :=
    Real.rpow_lt_rpow_of_neg hY (by linarith) (by linarith)
  -- P * 50 = 50 ^ (x2 + 1) ≥ Y ^ (x2 + 1) = C * Y
  have hPC : Y ^ x2 * Y ≤ (50 : ℝ) ^ x2 * 50 := by
    rw [← Real.rpow_add_one (ne_of_gt hY), ← Real.rpow_add_one (by norm_num)]
    exact Real.rpow_le_rpow (le_of_lt hY) (by linarith) (by linarith)
  -- B ≤ P / 1.08
  have hBP : (50 + Y) ^ x2 * 1.08 ≤ (50 : ℝ) ^ x2 := by
    have h1 : (50 + Y) ^ x2 ≤ ((50 : ℝ) * 1.1664) ^ x2 :=
      Real.rpow_le_rpow_of_exponent_nonpos (by norm_num) (by linarith) (by linarith)
    have h2 : ((50 : ℝ) * 1.1664) ^ x2 = (50 : ℝ) ^ x2 * (1.1664 : ℝ) ^ x2 :=
      Real.mul_rpow (by norm_num) (by norm_num)
    have h3 : (1.1664 : ℝ) ^ x2 = (1.08 : ℝ) ^ (2 * x2) := by
      have : (1.1664 : ℝ) = (1.08 : ℝ) ^ (2 : ℝ) := by
        rw [Real.rpow_two]
        norm_num
      rw [this, ← Real.rpow_mul (by norm_num)]
    have h4 : (1.08 : ℝ) ^ (2 * x2) ≤ (1.08 : ℝ) ^ (-1 : ℝ) :=
      Real.rpow_le_rpow_of_exponent_le (by norm_num) (by linarith)
    have h5 : (1.08 : ℝ) ^ (-1 : ℝ) = 1 / 1.08 := by
      rw [Real.rpow_neg_one]
      norm_num
    rw [h2, h3] at h1
    have h6 : (50 : ℝ) ^ x2 * (1.08 : ℝ) ^ (2 * x2) ≤ (50 : ℝ) ^ x2 * (1 / 1.08) := by
      rw [← h5]
      exact mul_le_mul_of_nonneg_left h4 (le_of_lt hP)
    have h7 : (50 + Y) ^ x2 ≤ (50 : ℝ) ^ x2 * (1 / 1.08) := le_trans h1 h6
    have h8 := mul_le_mul_of_nonneg_right h7 (show (0 : ℝ) ≤ 1.08 by norm_num)
    have h9 : (50 : ℝ) ^ x2 * (1 / 1.08) * 1.08 = (50 : ℝ) ^ x2 := by
      field_simp
    rw [h9] at h8
    exact h8
  have hL : Real.log (1.372 / 30) ≤ -3 := by
    rw [Real.log_le_iff_le_exp (by norm_num), Real.exp_neg]
    have h1 := exp_three_lt
    have h2 : (0 : ℝ) < Real.exp 3 := Real.exp_pos 3
    have h3 : 1 / (20.1 : ℝ) ≤ 1 / Real.exp 3 := one_div_le_one_div_of_le h2 (le_of_lt h1)
    rw [← one_div]
    exact le_trans (by norm_num) h3
  have hkey : 0.0122 * Y ^ x2 ≤ (50 : ℝ) ^ x2 - (50 + Y) ^ x2 := by
    nlinarith
  have hexp := bruce_exp_le (Real.log (1.372 / 30)) (Y ^ x2) ((50 + Y) ^ x2) ((50 : ℝ) ^ x2)
    hL hB hBC hkey
  have : (30 : ℝ) * (1 / 1.0366) < 29.4 := by norm_num
  nlinarith

/-- Numeric facts on Bruce's curve at site index 30.48 and the total age 8.245 of
the arm, just below the years to breast height 8.25: the height is still at least
1.3. -/
theorem bruce_below_breast_height :
    (1.3 : ℝ) ≤ 30.48 * Real.exp
      (Real.log (1.372 / 30.48) /
        (bruce_y2bh (30.48 : ℝ) ^ bruce_x2 (30.48 : ℝ)
          - (50 + bruce_y2bh (30.48 : ℝ)) ^ bruce_x2 (30.48 : ℝ))
        * ((-0.005 + bruce_y2bh (30.48 : ℝ)) ^ bruce_x2 (30.48 : ℝ)
          - (50 + bruce_y2bh (30.48 : ℝ)) ^ bruce_x2 (30.48 : ℝ))) := by
  have hx2l : (-1 : ℝ) ≤ bruce_x2 (30.48 : ℝ) := by unfold bruce_x2; norm_num
  have hx2u : bruce_x2 (30.48 : ℝ) ≤ -1 / 2 := by unfold bruce_x2; norm_num
  have hYe : bruce_y2bh (30.48 : ℝ) = 8.25 := by unfold bruce_y2bh; norm_num
  rw [hYe]
  generalize bruce_x2 (30.48 : ℝ) = x2 at *
  have hu : (-0.005 + 8.25 : ℝ) = 8.245 := by norm_num
  have h58 : (50 + 8.25 : ℝ) = 58.25 := by norm_num
  rw [hu, h58]
  have hB : 0 < (58.25 : ℝ) ^ x2 := Real.rpow_pos_of_pos (by norm_num) x2
  have hC : 0 < (8.25 : ℝ) ^ x2 := Real.rpow_pos_of_pos (by norm_num) x2
  have hU : 0 < (8.245 : ℝ) ^ x2 := Real.rpow_pos_of_pos (by norm_num) x2
  -- U * 8.245 = 8.245 ^ (x2 + 1) ≤ 8.25 ^ (x2 + 1) = C * 8.25
  have hUC : (8.245 : ℝ) ^ x2 * 8.245 ≤ (8.25 : ℝ) ^ x2 * 8.25 := by
    rw [← Real.rpow_add_one (by norm_num), ← Real.rpow_add_one (by norm_num)]
    exact Real.rpow_le_rpow (by norm_num) (by norm_num) (by linarith)
  -- B ≤ C / 2
  have hBC : (58.25 : ℝ) ^ x2 * 2 ≤ (8.25 : ℝ) ^ x2 := by
    have h1 : (58.25 : ℝ) ^ x2 ≤ ((8.25 : ℝ) * 4) ^ x2 :=
      Real.rpow_le_rpow_of_exponent_nonpos (by norm_num) (by norm_num) (by linarith)
    have h2 : ((8.25 : ℝ) * 4) ^ x2 = (8.25 : ℝ) ^ x2 * (4 : ℝ) ^ x2 :=
      Real.mul_rpow (by norm_num) (by norm_num)
    have h3 : (4 : ℝ) ^ x2 = (2 : ℝ) ^ (2 * x2) := by
      have : (4 : ℝ) = (2 : ℝ) ^ (2 : ℝ) := by
        rw [Real.rpow_two]
        norm_num
      rw [this, ← Real.rpow_mul (by norm_num)]
    have h4 : (2 : ℝ) ^ (2 * x2) ≤ (2 : ℝ) ^ (-1 : ℝ) :=
      Real.rpow_le_rpow_of_exponent_le (by norm_num) (by linarith)
    have h5 : (2 : ℝ) ^ (-1 : ℝ) = 1 / 2 := by
      rw [Real.rpow_neg_one]
      norm_num
    rw [h2, h3] at h1
    rw [h5] at h4
    have h6 := mul_le_mul_of_nonneg_left h4 (le_of_lt hC)
    linarith
  -- the two logarithms
  have hL1 : -21.22 ≤ Real.log (1.372 / 30.48) := by
    have h := Real.log_le_sub_one_of_pos (show (0 : ℝ) < 30.48 / 1.372 by norm_num)
    have h2 : Real.log (1.372 / 30.48) = -Real.log (30.48 / 1.372) := by
      rw [← Real.log_inv]
      congr 1
      norm_num
    rw [h2]
    have h3 : (30.48 / 1.372 : ℝ) - 1 ≤ 21.22 := by norm_num
    linarith
  have hL0 : Real.log (1.372 / 30.48) < 0 := Real.log_neg (by norm_num) (by norm_num)
  have hL2 : 0.0524 ≤ Real.log (1.372 / 1.3) := by
    have h := Real.one_sub_inv_le_log_of_pos (show (0 : ℝ) < 1.372 / 1.3 by norm_num)
    have h3 : (0.0524 : ℝ) ≤ 1 - (1.372 / 1.3)⁻¹ := by norm_num
    linarith
  have hL3 : Real.log (1.3 / 30.48) = Real.log (1.372 / 30.48) - Real.log (1.372 / 1.3) := by
    rw [← Real.log_div (by norm_num) (by norm_num)]
    congr 1
    norm_num
  -- the exponent is at least log (1.3 / 30.48)
  have hD : 0 < (8.25 : ℝ) ^ x2 - (58.25 : ℝ) ^ x2 := by linarith
  have hz : Real.log (1.3 / 30.48) ≤
      Real.log (1.372 / 30.48) / ((8.25 : ℝ) ^ x2 - (58.25 : ℝ) ^ x2)
        * ((8.245 : ℝ) ^ x2 - (58.25 : ℝ) ^ x2) := by
    have h1 : Real.log (1.372 / 30.48) / ((8.25 : ℝ) ^ x2 - (58.25 : ℝ) ^ x2)
        * ((8.245 : ℝ) ^ x2 - (58.25 : ℝ) ^ x2)
        = Real.log (1.372 / 30.48) + Real.log (1.372 / 30.48) *
          (((8.245 : ℝ) ^ x2 - (8.25 : ℝ) ^ x2) / ((8.25 : ℝ) ^ x2 - (58.25 : ℝ) ^ x2)) := by
      field_simp
      ring
    have h2 : ((8.245 : ℝ) ^ x2 - (8.25 : ℝ) ^ x2) / ((8.25 : ℝ) ^ x2 - (58.25 : ℝ) ^ x2)
        ≤ 0.0013 := by
      rw [div_le_iff₀ hD]
      nlinarith
    have h3 : 0 ≤ ((8.245 : ℝ) ^ x2 - (8.25 : ℝ) ^ x2) / ((8.25 : ℝ) ^ x2 - (58.25 : ℝ) ^ x2) := by
      apply div_nonneg _ (le_of_lt hD)
      have := Real.rpow_le_rpow_of_exponent_nonpos (show (0 : ℝ) < 8.245 by norm_num)
        (show (8.245 : ℝ) ≤ 8.25 by norm_num) (show x2 ≤ 0 by linarith)
      linarith
    rw [h1, hL3]
    nlinarith
  have hexp := Real.exp_le_exp.mpr hz
  rw [Real.exp_log (by norm_num)] at hexp
  have := mul_le_mul_of_nonneg_left hexp (show (0 : ℝ) ≤ 30.48 by norm_num)
  have h4 : (30.48 : ℝ) * (1.3 / 30.48) = 1.3 := by norm_num
  linarith

end BruceNumeric

section RealTheorems

/-- The conversion `(int) 8` is 8. -/
theorem c_int_eight : c_int (8 : ℝ) = (8 : ℤ) := by
  rw [c_int_of_nonneg (8 : ℝ) (by norm_num), Int.floor_eq_iff]
  norm_num

/-- The conversion `(int)` of the years to breast height of `SI_FDC_BRUCE` at site
index 30 is 8. -/
theorem c_int_si_y2bh_bruce_30 :
    si_y2bh Extern.real SI_FDC_BRUCE (30 : ℝ) = 13.25 - 30 / 6.096 ∧
    c_int (si_y2bh Extern.real SI_FDC_BRUCE (30 : ℝ)) = 8 := by
  have h : si_y2bh Extern.real SI_FDC_BRUCE (30 : ℝ) = 13.25 - 30 / 6.096 := by
    unfold si_y2bh
    norm_num
  refine ⟨h, ?_⟩
  rw [h, c_int_of_nonneg _ (by norm_num), Int.floor_eq_iff]
  norm_num

/-- C13, counterexample: over the real numbers, with `y2bh = si_y2bh (SI_FDC_BRUCE,
30)`, `index_to_height` for `SI_FDC_BRUCE`, total age 50 and site index 30 returns
a height below 29.4, outside the interval `[29.4, 30.6]`. -/
theorem index_to_height_bruce_total_50_far :
    ∃ h : ℝ,
      index_to_height Extern.real 0 SI_FDC_BRUCE 50 SI_AT_TOTAL 30
        (si_y2bh Extern.real SI_FDC_BRUCE 30) 0 = some h ∧
      h < 29.4 := by
  have hc := c_int_si_y2bh_bruce_30.2
  have ht : index_to_height_tage SI_FDC_BRUCE (50 : ℝ) SI_AT_TOTAL
      ((c_int (si_y2bh Extern.real SI_FDC_BRUCE (30 : ℝ)) : ℝ) + 0.5) = 50 := by
    simp [index_to_height_tage]
  rw [index_to_height_eq_switch Extern.real 0 SI_FDC_BRUCE 50 SI_AT_TOTAL 30 _ 0 (by norm_num)
    (by rw [ht]; norm_num), ht, index_to_height_switch_bruce,
    si2ht_FDC_BRUCE_real SI_AT_TOTAL 50 _ 30 50 (by unfold bruce_y2bh; norm_num) (by norm_num)
      (by simp)]
  exact ⟨_, rfl, bruce_total_50⟩

/-- C13, amended: over the real numbers, with `y2bh = si_y2bh (SI_FDC_BRUCE, 30)`,
`index_to_height` for `SI_FDC_BRUCE` and site index 30 returns exactly 30 at
breast-height age 50 (the reference age of the site index), and a height below
29.4 at total age 50. -/
theorem index_to_height_bruce_reference_age (fuel : ℕ) :
    index_to_height Extern.real fuel SI_FDC_BRUCE 50 SI_AT_BREAST 30
      (si_y2bh Extern.real SI_FDC_BRUCE 30) 0 = some 30 ∧
    ∃ h : ℝ,
      index_to_height Extern.real fuel SI_FDC_BRUCE 50 SI_AT_TOTAL 30
        (si_y2bh Extern.real SI_FDC_BRUCE 30) 0 = some h ∧
      h < 29.4 := by
  have hc := c_int_si_y2bh_bruce_30.2
  have hb : SI_FDC_BRUCE ∉ half_year_offset_curves := by simp [half_year_offset_curves]
  constructor
  · have ht : index_to_height_tage SI_FDC_BRUCE (50 : ℝ) SI_AT_BREAST
        ((c_int (si_y2bh Extern.real SI_FDC_BRUCE (30 : ℝ)) : ℝ) + 0.5) = 58.5 := by
      rw [hc]
      simp only [index_to_height_tage, age_to_age_breast_total, age_offset_ref, if_neg hb]
      norm_num
    have hbh : index_to_height_bhage SI_FDC_BRUCE (50 : ℝ) SI_AT_BREAST
        ((c_int (si_y2bh Extern.real SI_FDC_BRUCE (30 : ℝ)) : ℝ) + 0.5) = 50 := by
      simp [index_to_height_bhage]
    rw [index_to_height_eq_switch Extern.real fuel SI_FDC_BRUCE 50 SI_AT_BREAST 30 _ 0
      (by norm_num) (by rw [ht]; norm_num), ht, hbh, index_to_height_switch_bruce,
      si2ht_FDC_BRUCE_real SI_AT_BREAST 58.5 50 30 (50 + bruce_y2bh 30)
        (by unfold bruce_y2bh; norm_num) (by unfold bruce_y2bh; norm_num) (by simp),
      sub_self, mul_zero, Real.exp_zero, mul_one]
  · have ht : index_to_height_tage SI_FDC_BRUCE (50 : ℝ) SI_AT_TOTAL
        ((c_int (si_y2bh Extern.real SI_FDC_BRUCE (30 : ℝ)) : ℝ) + 0.5) = 50 := by
      simp [index_to_height_tage]
    rw [index_to_height_eq_switch Extern.real fuel SI_FDC_BRUCE 50 SI_AT_TOTAL 30 _ 0
      (by norm_num) (by rw [ht]; norm_num), ht, index_to_height_switch_bruce,
      si2ht_FDC_BRUCE_real SI_AT_TOTAL 50 _ 30 50 (by unfold bruce_y2bh; norm_num)
        (by norm_num) (by simp)]
    exact ⟨_, rfl, bruce_total_50⟩

/-- C19, counterexample: over the real numbers, for `SI_FDC_BRUCE` with site index
30.48 (years to breast height 8.25), `y2bh = 8` and the breast-height age -0.005,
the total age is positive (8.495 for `index_to_height`, 8.245 in the arm) and the
height is at least 1.3, but `index_to_age` returns 0 and not -0.005. -/
theorem index_to_age_bruce_round_trip_fails :
    index_to_height_tage SI_FDC_BRUCE (-0.005 : ℝ) SI_AT_BREAST ((c_int (8 : ℝ) : ℝ) + 0.5)
      = 8.495 ∧
    (-0.005 : ℝ) + bruce_y2bh 30.48 = 8.245 ∧
    ∃ h : ℝ,
      index_to_height Extern.real 0 SI_FDC_BRUCE (-0.005) SI_AT_BREAST 30.48 8 0 = some h ∧
      1.3 ≤ h ∧
      index_to_age Extern.real 0 SI_FDC_BRUCE h SI_AT_BREAST 30.48 8 = some 0 := by
  have hb : SI_FDC_BRUCE ∉ half_year_offset_curves := by simp [half_year_offset_curves]
  have hYe : bruce_y2bh (30.48 : ℝ) = 8.25 := by unfold bruce_y2bh; norm_num
  have ht : index_to_height_tage SI_FDC_BRUCE (-0.005 : ℝ) SI_AT_BREAST
      ((c_int (8 : ℝ) : ℝ) + 0.5) = 8.495 := by
    rw [c_int_eight]
    simp only [index_to_height_tage, age_to_age_breast_total, age_offset_ref, if_neg hb]
    norm_num
  have hbh : index_to_height_bhage SI_FDC_BRUCE (-0.005 : ℝ) SI_AT_BREAST
      ((c_int (8 : ℝ) : ℝ) + 0.5) = -0.005 := by
    simp [index_to_height_bhage]
  refine ⟨ht, by rw [hYe]; norm_num, ?_⟩
  rw [index_to_height_eq_switch Extern.real 0 SI_FDC_BRUCE (-0.005) SI_AT_BREAST 30.48 8 0
    (by norm_num) (by rw [ht]; norm_num), ht, hbh, index_to_height_switch_bruce,
    si2ht_FDC_BRUCE_real SI_AT_BREAST 8.495 (-0.005) 30.48 (-0.005 + bruce_y2bh 30.48)
      (by rw [hYe]; norm_num) (by rw [hYe]; norm_num) (by simp)]
  refine ⟨_, rfl, bruce_below_breast_height, ?_⟩
  rw [index_to_age_of_ge Extern.real 0 SI_FDC_BRUCE _ SI_AT_BREAST 30.48 8
    bruce_below_breast_height (by norm_num), index_to_age_switch_bruce,
    si2age_FDC_BRUCE_real SI_AT_BREAST 30.48 (-0.005 + bruce_y2bh 30.48) (by norm_num)
      (by rw [hYe]; norm_num) (by rw [hYe]; norm_num)]
  rw [hYe]
  norm_num

/-- C19, amended: over the real numbers, for `SI_FDC_BRUCE`, every site index in
the valid range (`site_index > 1.372`, `13.25 - site_index / 6.096 > 0`), both age
types, every `y2bh` argument and every age with `0 ≤ age ≤ 999` whose total age
derived by `index_to_height` is at least 0.00001: `index_to_height` returns a
height `h` (at least 1.372 for a breast-height age), and if `h ≥ 1.3` then
`index_to_age` at `h` returns exactly `age`. -/
theorem index_to_age_bruce_round_trip (fuel fuel2 : ℕ) (age_type : ℤ)
    (age site_index y2bh pi : ℝ)
    (hT : age_type = SI_AT_TOTAL ∨ age_type = SI_AT_BREAST)
    (hsi : 1.372 < site_index) (hY : 0 < 13.25 - site_index / 6.096)
    (ha0 : 0 ≤ age) (ha : age ≤ 999)
    (hpre : 0.00001 ≤ index_to_height_tage SI_FDC_BRUCE age age_type
      ((c_int y2bh : ℝ) + 0.5)) :
    ∃ h : ℝ,
      index_to_height Extern.real fuel SI_FDC_BRUCE age age_type site_index y2bh pi
        = some h ∧
      (age_type = SI_AT_BREAST → 1.372 ≤ h) ∧
      (1.3 ≤ h →
        index_to_age Extern.real fuel2 SI_FDC_BRUCE h age_type site_index y2bh
          = some age) := by
  have hY2 : 0 < bruce_y2bh site_index := hY
  obtain ⟨hx2, hCB, hL⟩ := bruce_constants site_index hsi hY2
  have hsi13 : (1.3 : ℝ) ≤ site_index := by
    have : (1.3 : ℝ) < 1.372 := by norm_num
    linarith
  have hsi0 : (0 : ℝ) < site_index := by linarith
  -- the total age of the arm
  have hu : ∃ u : ℝ, 0 < u ∧
      (u = if age_type = SI_AT_TOTAL then
          index_to_height_tage SI_FDC_BRUCE age age_type ((c_int y2bh : ℝ) + 0.5)
        else index_to_height_bhage SI_FDC_BRUCE age age_type ((c_int y2bh : ℝ) + 0.5)
          + bruce_y2bh site_index) ∧
      (if age_type = SI_AT_BREAST then u - bruce_y2bh site_index else u) = age ∧
      (age_type = SI_AT_BREAST → bruce_y2bh site_index ≤ u) := by
    rcases hT with h | h
    · subst h
      have ht : index_to_height_tage SI_FDC_BRUCE age SI_AT_TOTAL ((c_int y2bh : ℝ) + 0.5)
          = age := by simp [index_to_height_tage]
      rw [ht] at hpre
      refine ⟨age, lt_of_lt_of_le (by norm_num) hpre, by rw [if_pos rfl]; exact ht.symm,
        by simp, by simp⟩
    · subst h
      have hbh : index_to_height_bhage SI_FDC_BRUCE age SI_AT_BREAST
          ((c_int y2bh : ℝ) + 0.5) = age := by simp [index_to_height_bhage]
      refine ⟨age + bruce_y2bh site_index, by linarith, by rw [if_neg (by simp), hbh], by simp,
        fun _ => by linarith⟩
  obtain ⟨u, hu0, hudef, huage, huY⟩ := hu
  rw [index_to_height_eq_switch Extern.real fuel SI_FDC_BRUCE age age_type site_index y2bh pi
    hsi13 hpre, index_to_height_switch_bruce,
    si2ht_FDC_BRUCE_real age_type _ _ site_index u hY2 hu0 hudef]
  refine ⟨_, rfl, ?_, ?_⟩
  · intro hB
    have h1 : u ^ bruce_x2 site_index ≤ bruce_y2bh site_index ^ bruce_x2 site_index :=
      Real.rpow_le_rpow_of_exponent_nonpos hY2 (huY hB) (le_of_lt hx2)
    have h2 : Real.log (1.372 / site_index) ≤
        Real.log (1.372 / site_index) /
          (bruce_y2bh site_index ^ bruce_x2 site_index
            - (50 + bruce_y2bh site_index) ^ bruce_x2 site_index)
          * (u ^ bruce_x2 site_index
            - (50 + bruce_y2bh site_index) ^ bruce_x2 site_index) := by
      rw [div_mul_eq_mul_div, le_div_iff₀ hCB]
      exact mul_le_mul_of_nonpos_left (by linarith) (le_of_lt hL)
    have h3 := Real.exp_le_exp.mpr h2
    rw [Real.exp_log (by positivity)] at h3
    have h4 := mul_le_mul_of_nonneg_left h3 (le_of_lt hsi0)
    have h5 : site_index * (1.372 / site_index) = 1.372 := by
      field_simp
    linarith
  · intro hh
    rw [index_to_age_of_ge Extern.real fuel2 SI_FDC_BRUCE _ age_type site_index y2bh hh hsi13,
      index_to_age_switch_bruce, si2age_FDC_BRUCE_real age_type site_index u hsi hY2 hu0,
      huage, if_neg (not_lt.mpr ha0), if_neg (not_lt.mpr ha)]

/-- Witness of `index_to_age_bruce_round_trip` at breast-height age 50, site index
30.48 and `y2bh = 8`: the round trip returns 50. -/
theorem index_to_age_bruce_round_trip_witness :
    ∃ h : ℝ,
      index_to_height Extern.real 0 SI_FDC_BRUCE 50 SI_AT_BREAST 30.48 8 0 = some h ∧
      index_to_age Extern.real 0 SI_FDC_BRUCE h SI_AT_BREAST 30.48 8 = some 50 := by
  have hb : SI_FDC_BRUCE ∉ half_year_offset_curves := by simp [half_year_offset_curves]
  obtain ⟨h, h1, h2, h3⟩ := index_to_age_bruce_round_trip 0 0 SI_AT_BREAST 50 30.48 8 0
    (Or.inr rfl) (by norm_num) (by norm_num) (by norm_num) (by norm_num)
    (by
      rw [c_int_eight]
      simp only [index_to_height_tage, age_to_age_breast_total, age_offset_ref, if_neg hb]
      norm_num)
  exact ⟨h, h1, h3 (le_trans (by norm_num) (h2 rfl))⟩

/-- C20, the code at the failing input: over the real numbers, for
`SI_PLI_GOUDIE_DRY`, site index 20, `y2bh = 5` and total age 30, `index_to_height`
returns a height `h` and `index_to_age` at `h` returns 29.5, half a year less
than the age: `index_to_height` works with `(int) y2bh + 0.5 = 5.5` years to breast
height, `index_to_age` adds the 5 years it was given. -/
theorem index_to_age_goudie_round_trip_off (fuel fuel2 : ℕ) :
    ∃ h : ℝ,
      index_to_height Extern.real fuel SI_PLI_GOUDIE_DRY 30 SI_AT_TOTAL 20 5 0 = some h ∧
      index_to_age Extern.real fuel2 SI_PLI_GOUDIE_DRY h SI_AT_TOTAL 20 5 = some 29.5 ∧
      (0.05 : ℝ) < |29.5 - 30| := by
  have hf : ⌊(5 : ℝ)⌋ = 5 := by
    rw [Int.floor_eq_iff]
    norm_num
  obtain ⟨h, h1, h2⟩ := index_to_age_goudie_total fuel fuel2 SI_PLI_GOUDIE_DRY 20 5 30 0
    (by simp [goudie_closed_form]) (by norm_num) (by norm_num) (by rw [hf]; norm_num)
    (by rw [hf]; norm_num)
  refine ⟨h, h1, ?_, ?_⟩
  · rw [h2, hf]
    norm_num
  · rw [abs_of_neg (by norm_num)]
    norm_num

/-- Witness of `index_to_height_logistic_at_50` over the real numbers, at
`SI_PLI_GOUDIE_DRY`, site index 20 and `y2bh = 5`. -/
theorem index_to_height_logistic_at_50_witness :
    index_to_height Extern.real 0 SI_PLI_GOUDIE_DRY 50 SI_AT_BREAST 20 5 0 = some 20 :=
  index_to_height_logistic_at_50 Extern.real 0 SI_PLI_GOUDIE_DRY 20 5 0
    (fun x => le_of_lt (Real.exp_pos x)) (by simp [logistic_ratio_curves, goudie_family])
    (by norm_num) (by norm_num)

/-- Witness of `index_to_height_goudie_monotone` over the real numbers, at
`SI_PLI_GOUDIE_DRY`, site index 20, `y2bh = 5` and the total ages 1 and 30. -/
theorem index_to_height_goudie_monotone_witness :
    ∃ ht1 ht2 : ℝ,
      index_to_height Extern.real 0 SI_PLI_GOUDIE_DRY 1 SI_AT_TOTAL 20 5 0 = some ht1 ∧
      index_to_height Extern.real 0 SI_PLI_GOUDIE_DRY 30 SI_AT_TOTAL 20 5 0 = some ht2 ∧
      ht1 ≤ ht2 :=
  index_to_height_goudie_monotone Extern.real 0 SI_PLI_GOUDIE_DRY 20 5 0 1 30
    (fun _ _ h => Real.exp_le_exp.mpr h) (fun x => le_of_lt (Real.exp_pos x))
    (fun _ _ hx h => Real.log_le_log hx h) (by simp [goudie_family])
    (by norm_num) (by norm_num) (by norm_num) (by norm_num)

end RealTheorems

section IterateTheorems

variable {α : Type} [LinearOrderedField α] [FloorRing α]

/-- A curve index outside 0..123 takes the `default:` arm of `index_to_age`. -/
theorem index_to_age_switch_unknown (M : Extern α) (fuel : ℕ) (cu : ℤ) (site_height : α)
    (age_type : ℤ) (site_index y2bh : α) (h : cu < 0 ∨ 123 < cu) :
    index_to_age_switch M fuel cu site_height age_type site_index y2bh
      = iterate M fuel cu site_height age_type site_index y2bh := by
  have hne : ∀ k : ℤ, 0 ≤ k → k ≤ 123 → ¬ cu = k := by
    intro k h0 h1 hk
    omega
  unfold index_to_age_switch
  simp [hne]

/-- The preliminary test of `iterate`: one of the five error codes it checks at
the seed is returned at once. -/
theorem iterate_of_seed_error (M : Extern α) (fuel : ℕ) (cu : ℤ) (site_height : α)
    (age_type : ℤ) (site_index y2bh v : α)
    (hseed : index_to_height M fuel cu 25 SI_AT_TOTAL site_index y2bh 0.5 = some v)
    (hv : v = SI_ERR_CURVE ∨ v = SI_ERR_LT13 ∨ v = SI_ERR_GI_MIN ∨ v = SI_ERR_GI_MAX ∨
      v = SI_ERR_GI_TOT) :
    iterate M fuel cu site_height age_type site_index y2bh = some v := by
  unfold iterate
  simp only [hseed, Option.bind]
  rw [if_pos hv]

/-- The preliminary test of `iterate` lets every other value pass: the loop is
entered. -/
theorem iterate_of_seed_other (M : Extern α) (fuel : ℕ) (cu : ℤ) (site_height : α)
    (age_type : ℤ) (site_index y2bh v : α)
    (hseed : index_to_height M fuel cu 25 SI_AT_TOTAL site_index y2bh 0.5 = some v)
    (hv : ¬ (v = SI_ERR_CURVE ∨ v = SI_ERR_LT13 ∨ v = SI_ERR_GI_MIN ∨ v = SI_ERR_GI_MAX ∨
      v = SI_ERR_GI_TOT)) :
    iterate M fuel cu site_height age_type site_index y2bh =
      (iterate_loop M fuel cu site_height site_index y2bh fuel 25 (25 / 2) 0).bind
        fun si2age =>
          if si2age >= 0 then
            if age_type = SI_AT_BREAST then
              some (age_to_age cu si2age SI_AT_TOTAL SI_AT_BREAST y2bh)
            else some si2age
          else some si2age := by
  unfold iterate
  simp only [hseed, Option.bind]
  rw [if_neg hv]

/-- The total age 25 of the seed passes the checks of `index_to_height`: the result
is that of the `switch`. -/
theorem index_to_height_seed (M : Extern α) (fuel : ℕ) (cu : ℤ) (t site_index y2bh pi : α)
    (hsi : 1.3 ≤ site_index) (ht : 0.00001 ≤ t) :
    index_to_height M fuel cu t SI_AT_TOTAL site_index y2bh pi =
      index_to_height_switch M (index_to_height_rec M fuel) fuel cu t
        (age_to_age cu t SI_AT_TOTAL SI_AT_BREAST ((c_int y2bh : α) + 0.5))
        SI_AT_TOTAL site_index ((c_int y2bh : α) + 0.5) pi := by
  have h0 : (0 : α) < 0.00001 := by norm_num
  rw [index_to_height_of_ge M fuel cu t SI_AT_TOTAL site_index y2bh pi hsi,
    index_to_height_ages_total, if_neg (not_lt.mpr (by linarith)), if_neg (not_lt.mpr ht)]

/-- C21: for every curve id outside the dispatch (below 0 or above 123), every
`site_index ≥ 1.3`, every `site_height ≥ 1.3`, every age type and every `y2bh`,
`index_to_age` returns `SI_ERR_CURVE`, which is -5: the preliminary evaluation of
`iterate` returns it and `iterate` passes it on unchanged. -/
theorem index_to_age_unknown_curve (M : Extern α) (fuel : ℕ) (cu : ℤ) (site_height : α)
    (age_type : ℤ) (site_index y2bh : α) (hcu : cu < 0 ∨ 123 < cu)
    (hsi : 1.3 ≤ site_index) (hh : 1.3 ≤ site_height) :
    index_to_age M fuel cu site_height age_type site_index y2bh = some SI_ERR_CURVE ∧
    (SI_ERR_CURVE : α) = -5 := by
  refine ⟨?_, rfl⟩
  rw [index_to_age_of_ge M fuel cu site_height age_type site_index y2bh hh hsi,
    index_to_age_switch_unknown M fuel cu site_height age_type site_index y2bh hcu]
  apply iterate_of_seed_error M fuel cu site_height age_type site_index y2bh SI_ERR_CURVE _
    (Or.inl rfl)
  rw [index_to_height_seed M fuel cu 25 site_index y2bh 0.5 hsi (by norm_num),
    index_to_height_switch_unknown M _ fuel cu _ _ _ _ _ _ hcu]

/-- Witness of `index_to_age_unknown_curve` at the curve id 9999 with a
breast-height age. -/
theorem index_to_age_unknown_curve_witness :
    index_to_age Extern.crude 0 9999 (10 : ℚ) SI_AT_BREAST 20 5 = some SI_ERR_CURVE ∧
    (SI_ERR_CURVE : ℚ) = -5 :=
  index_to_age_unknown_curve Extern.crude 0 9999 10 SI_AT_BREAST 20 5 (Or.inr (by norm_num))
    (by norm_num) (by norm_num)

/-- C22, amended: if the preliminary evaluation of `iterate` at the seed (total
age 25) returns `v`, then `iterate` returns `v` at once when `v` is one of
`SI_ERR_CURVE`, `SI_ERR_LT13`, `SI_ERR_GI_MIN`, `SI_ERR_GI_MAX`, `SI_ERR_GI_TOT`;
when `v` is `SI_ERR_NO_ANS` it enters the loop, started at age 25 with step 12.5,
and applies the age-type conversion to a non-negative result of the loop. -/
theorem iterate_seed_check (M : Extern α) (fuel : ℕ) (cu : ℤ) (site_height : α)
    (age_type : ℤ) (site_index y2bh v : α)
    (hseed : index_to_height M fuel cu 25 SI_AT_TOTAL site_index y2bh 0.5 = some v) :
    ((v = SI_ERR_CURVE ∨ v = SI_ERR_LT13 ∨ v = SI_ERR_GI_MIN ∨ v = SI_ERR_GI_MAX ∨
        v = SI_ERR_GI_TOT) →
      iterate M fuel cu site_height age_type site_index y2bh = some v) ∧
    (v = SI_ERR_NO_ANS →
      iterate M fuel cu site_height age_type site_index y2bh =
        (iterate_loop M fuel cu site_height site_index y2bh fuel 25 (25 / 2) 0).bind
          fun si2age =>
            if si2age >= 0 then
              if age_type = SI_AT_BREAST then
                some (age_to_age cu si2age SI_AT_TOTAL SI_AT_BREAST y2bh)
              else some si2age
            else some si2age) := by
  constructor
  · intro hv
    exact iterate_of_seed_error M fuel cu site_height age_type site_index y2bh v hseed hv
  · intro hv
    apply iterate_of_seed_other M fuel cu site_height age_type site_index y2bh v hseed
    rw [hv]
    norm_num [SI_ERR_NO_ANS, SI_ERR_CURVE, SI_ERR_LT13, SI_ERR_GI_MIN, SI_ERR_GI_MAX,
      SI_ERR_GI_TOT]

end IterateTheorems

section IterateSteps

variable {α : Type} [LinearOrderedField α] [FloorRing α]

/-- One iteration of the loop of `iterate` when `index_to_height` returns
`SI_ERR_NO_ANS` (and the count of such answers stays below 100): the height is
taken to be 1000, above the site height, so a positive step is halved and
reversed. -/
theorem iterate_loop_no_ans (M : Extern α) (fuel : ℕ) (cu : ℤ)
    (site_height site_index y2bh : α) (n : ℕ) (si2age step : α) (err_count : ℤ)
    (hht : index_to_height M fuel cu si2age SI_AT_TOTAL site_index y2bh 0.5
      = some SI_ERR_NO_ANS)
    (he : err_count + 1 ≠ 100) (hsh : site_height < 999) :
    iterate_loop M fuel cu site_height site_index y2bh (n + 1) si2age step err_count =
      if (if step > 0 then (-step) / 2.0 else step) < 0.00001 ∧
          (if step > 0 then (-step) / 2.0 else step) > -0.00001 then
        some (si2age + (if step > 0 then (-step) / 2.0 else step))
      else if si2age + (if step > 0 then (-step) / 2.0 else step) > 999.0 then
        some SI_ERR_NO_ANS
      else
        iterate_loop M fuel cu site_height site_index y2bh n
          (si2age + (if step > 0 then (-step) / 2.0 else step))
          (if step > 0 then (-step) / 2.0 else step) (err_count + 1) := by
  have hb1 : (1000 : α) - site_height > 0.005 := by
    have : (0.005 : α) < 1 := by norm_num
    linarith
  have hg : (1000 : α) > site_height := by linarith
  rw [iterate_loop]
  simp only [hht, Option.bind, if_true, true_and, if_neg he, if_pos (Or.inl hb1), if_pos hg]

/-- One iteration of the loop of `iterate` when `index_to_height` returns a height
within 0.005 of the site height: the loop is left with the current age. -/
theorem iterate_loop_hit (M : Extern α) (fuel : ℕ) (cu : ℤ)
    (site_height site_index y2bh : α) (n : ℕ) (si2age step test_ht : α) (err_count : ℤ)
    (hht : index_to_height M fuel cu si2age SI_AT_TOTAL site_index y2bh 0.5 = some test_ht)
    (hne : test_ht ≠ SI_ERR_NO_ANS)
    (h1 : ¬ test_ht - site_height > 0.005) (h2 : ¬ test_ht - site_height < -0.005) :
    iterate_loop M fuel cu site_height site_index y2bh (n + 1) si2age step err_count =
      some si2age := by
  rw [iterate_loop]
  simp only [hht, Option.bind, if_neg hne]
  rw [if_neg (fun h => hne h.1), if_neg (fun h => h.elim h1 h2)]

end IterateSteps

section IterateReal

/-- Witness of `iterate_seed_check` at the curve id 9999, whose seed evaluation is
`SI_ERR_CURVE`. -/
theorem iterate_seed_check_witness :
    iterate Extern.crude 0 9999 (10 : ℚ) SI_AT_BREAST 20 5 = some SI_ERR_CURVE :=
  (iterate_seed_check Extern.crude 0 9999 10 SI_AT_BREAST 20 5 SI_ERR_CURVE
    (by
      rw [index_to_height_seed Extern.crude 0 9999 25 20 5 0.5 (by norm_num) (by norm_num),
        index_to_height_switch_unknown Extern.crude _ 0 9999 _ _ _ _ _ _
          (Or.inr (by norm_num))])).1 (Or.inl rfl)

/-- The curve `SI_PLI_NIGHTA98` is dispatched to its arm of `index_to_height`. -/
theorem index_to_height_switch_pli_nighta98 {α : Type} [LinearOrderedField α] (M : Extern α)
    (self : ℤ → α → ℤ → α → α → α → Option α) (fuel : ℕ) (tage bhage : α)
    (age_type : ℤ) (site_index y2bh pi : α) :
    index_to_height_switch M self fuel SI_PLI_NIGHTA98 tage bhage age_type site_index y2bh pi
      = some (si2ht_PLI_NIGHTA98 M tage site_index) := by
  unfold index_to_height_switch
  simp

/-- The curve `SI_PLI_NIGHTA98` takes the `default:` arm of `index_to_age`. -/
theorem index_to_age_switch_pli_nighta98 {α : Type} [LinearOrderedField α] [FloorRing α]
    (M : Extern α) (fuel : ℕ) (site_height : α) (age_type : ℤ) (site_index y2bh : α) :
    index_to_age_switch M fuel SI_PLI_NIGHTA98 site_height age_type site_index y2bh
      = iterate M fuel SI_PLI_NIGHTA98 site_height age_type site_index y2bh := by
  unfold index_to_age_switch
  simp

/-- Bounds on the height of `SI_PLI_NIGHTA98` at total age 12.5 and site index 20,
over the real numbers. -/
theorem si2ht_PLI_NIGHTA98_bounds :
    0.0001 < si2ht_PLI_NIGHTA98 Extern.real 12.5 20 ∧
    si2ht_PLI_NIGHTA98 Extern.real 12.5 20 < 999 := by
  have h1 : si2ht_PLI_NIGHTA98 Extern.real 12.5 20
      = (-0.03993 + 0.004828 * 20) * (12.5 : ℝ) ^ (1.902 : ℝ) * (0.9645 : ℝ) ^ (12.5 : ℝ) := by
    unfold si2ht_PLI_NIGHTA98
    rw [if_pos (by norm_num), PPOW_real_of_pos _ _ (by norm_num),
      PPOW_real_of_pos _ _ (by norm_num)]
  have ha1 : (12.5 : ℝ) ≤ (12.5 : ℝ) ^ (1.902 : ℝ) := by
    have := Real.rpow_le_rpow_of_exponent_le (show (1 : ℝ) ≤ 12.5 by norm_num)
      (show (1 : ℝ) ≤ 1.902 by norm_num)
    rwa [Real.rpow_one] at this
  have ha2 : (12.5 : ℝ) ^ (1.902 : ℝ) ≤ 156.25 := by
    have := Real.rpow_le_rpow_of_exponent_le (show (1 : ℝ) ≤ 12.5 by norm_num)
      (show (1.902 : ℝ) ≤ 2 by norm_num)
    rw [Real.rpow_two] at this
    norm_num at this
    linarith
  have hb1 : (0.6 : ℝ) ≤ (0.9645 : ℝ) ^ (12.5 : ℝ) := by
    have := Real.rpow_le_rpow_of_exponent_ge (show (0 : ℝ) < 0.9645 by norm_num)
      (show (0.9645 : ℝ) ≤ 1 by norm_num) (show (12.5 : ℝ) ≤ ((13 : ℕ) : ℝ) by norm_num)
    rw [Real.rpow_natCast] at this
    have h13 : (0.6 : ℝ) ≤ (0.9645 : ℝ) ^ 13 := by norm_num
    linarith
  have hb2 : (0.9645 : ℝ) ^ (12.5 : ℝ) ≤ 1 :=
    Real.rpow_le_one (by norm_num) (by norm_num) (by norm_num)
  rw [h1]
  have hc : (-0.03993 + 0.004828 * 20 : ℝ) = 0.05663 := by norm_num
  rw [hc]
  constructor
  · nlinarith [mul_le_mul ha1 hb1 (by norm_num) (by linarith : (0 : ℝ) ≤ (12.5 : ℝ) ^ (1.902 : ℝ))]
  · nlinarith [mul_le_mul ha2 hb2 (by linarith) (by norm_num : (0 : ℝ) ≤ 156.25)]

/-- C22, counterexample: over the real numbers, for `SI_PLI_NIGHTA98` with site
index 20 and `y2bh = 5`, the preliminary evaluation at the seed returns
`SI_ERR_NO_ANS`, but `index_to_age` at the site height of total age 12.5 returns
the age 12.5, not `SI_ERR_NO_ANS`: the loop steps from 25 over 18.75 to 12.5. -/
theorem index_to_age_seed_no_ans_iterates :
    index_to_height Extern.real 3 SI_PLI_NIGHTA98 25 SI_AT_TOTAL 20 5 0.5
      = some SI_ERR_NO_ANS ∧
    index_to_height Extern.real 3 SI_PLI_NIGHTA98 12.5 SI_AT_TOTAL 20 5 0.5
      = some (si2ht_PLI_NIGHTA98 Extern.real 12.5 20) ∧
    index_to_age Extern.real 3 SI_PLI_NIGHTA98 (si2ht_PLI_NIGHTA98 Extern.real 12.5 20)
      SI_AT_TOTAL 20 5 = some 12.5 ∧
    (12.5 : ℝ) ≠ SI_ERR_NO_ANS := by
  obtain ⟨hlo, hhi⟩ := si2ht_PLI_NIGHTA98_bounds
  have hval : ∀ t : ℝ, 0.00001 ≤ t →
      index_to_height Extern.real 3 SI_PLI_NIGHTA98 t SI_AT_TOTAL 20 5 0.5
        = some (si2ht_PLI_NIGHTA98 Extern.real t 20) := by
    intro t ht
    rw [index_to_height_seed Extern.real 3 SI_PLI_NIGHTA98 t 20 5 0.5 (by norm_num) ht,
      index_to_height_switch_pli_nighta98]
  have hna : ∀ t : ℝ, 15 < t → si2ht_PLI_NIGHTA98 Extern.real t 20 = SI_ERR_NO_ANS := by
    intro t ht
    unfold si2ht_PLI_NIGHTA98
    rw [if_neg (not_le.mpr ht)]
  have h25 := hval 25 (by norm_num)
  rw [hna 25 (by norm_num)] at h25
  have h1875 := hval 18.75 (by norm_num)
  rw [hna 18.75 (by norm_num)] at h1875
  have h125 := hval 12.5 (by norm_num)
  refine ⟨h25, h125, ?_, by norm_num [SI_ERR_NO_ANS]⟩
  generalize si2ht_PLI_NIGHTA98 Extern.real 12.5 20 = H at *
  have hpre : index_to_age Extern.real 3 SI_PLI_NIGHTA98 H SI_AT_TOTAL 20 5
      = iterate Extern.real 3 SI_PLI_NIGHTA98 H SI_AT_TOTAL 20 5 := by
    unfold index_to_age
    rw [if_neg (by simp), if_neg (fun h => by linarith [h.2]), if_neg (by norm_num),
      index_to_age_switch_pli_nighta98]
  rw [hpre, iterate_of_seed_other Extern.real 3 SI_PLI_NIGHTA98 H SI_AT_TOTAL 20 5
    SI_ERR_NO_ANS h25 (by norm_num [SI_ERR_NO_ANS, SI_ERR_CURVE, SI_ERR_LT13, SI_ERR_GI_MIN,
      SI_ERR_GI_MAX, SI_ERR_GI_TOT])]
  have hH4 : H ≠ SI_ERR_NO_ANS := by
    unfold SI_ERR_NO_ANS
    intro h
    linarith
  have hloop : iterate_loop Extern.real 3 SI_PLI_NIGHTA98 H 20 5 3 25 (25 / 2) 0
      = some 12.5 := by
    have s1 : (if (25 / 2 : ℝ) > 0 then (-(25 / 2 : ℝ)) / 2.0 else 25 / 2) = -6.25 := by
      rw [if_pos (by norm_num)]
      norm_num
    have s2 : (if (-6.25 : ℝ) > 0 then (-(-6.25 : ℝ)) / 2.0 else -6.25) = -6.25 := by
      rw [if_neg (by norm_num)]
    rw [iterate_loop_no_ans Extern.real 3 SI_PLI_NIGHTA98 H 20 5 2 25 (25 / 2) 0 h25
      (by norm_num) hhi, s1, if_neg (by norm_num), if_neg (by norm_num),
      show (25 : ℝ) + -6.25 = 18.75 by norm_num,
      iterate_loop_no_ans Extern.real 3 SI_PLI_NIGHTA98 H 20 5 1 18.75 (-6.25) (0 + 1) h1875
      (by norm_num) hhi, s2, if_neg (by norm_num), if_neg (by norm_num),
      show (18.75 : ℝ) + -6.25 = 12.5 by norm_num,
      iterate_loop_hit Extern.real 3 SI_PLI_NIGHTA98 H 20 5 0 12.5 (-6.25) H (0 + 1 + 1) h125
      hH4 (by norm_num) (by norm_num)]
  rw [hloop]
  simp

end IterateReal

section GrowthIntercept

variable {α : Type} [LinearOrderedField α] [FloorRing α]

omit [FloorRing α] in
/-- The growth-intercept curves are dispatched to `gi_si2ht`, called with the
breast-height age. -/
theorem index_to_height_switch_gi (M : Extern α)
    (self : ℤ → α → ℤ → α → α → α → Option α) (fuel : ℕ) (cu : ℤ) (tage bhage : α)
    (age_type : ℤ) (site_index y2bh pi : α) (hcu : cu ∈ gi_curves) :
    index_to_height_switch M self fuel cu tage bhage age_type site_index y2bh pi
      = gi_si2ht M fuel cu bhage site_index := by
  simp only [gi_curves, List.mem_cons, List.not_mem_nil, or_false] at hcu
  unfold index_to_height_switch
  rcases hcu with h | h | h | h | h | h | h | h | h | h | h | h | h | h | h | h | h <;>
    subst h <;> simp

/-- The growth-intercept curves take the `default:` of `age_to_age`. -/
theorem gi_not_half_year (cu : ℤ) (h : cu ∈ gi_curves) : cu ∉ half_year_offset_curves := by
  simp only [gi_curves, List.mem_cons, List.not_mem_nil, or_false] at h
  rcases h with h | h | h | h | h | h | h | h | h | h | h | h | h | h | h | h | h <;>
    subst h <;> simp [half_year_offset_curves]

/-- The four growth-intercept curves without a label in `index_to_age` take its
`default:` arm. -/
theorem index_to_age_switch_gi_default (M : Extern α) (fuel : ℕ) (cu : ℤ) (site_height : α)
    (age_type : ℤ) (site_index y2bh : α) (hcu : cu ∈ gi_curves_without_age_arm) :
    index_to_age_switch M fuel cu site_height age_type site_index y2bh
      = iterate M fuel cu site_height age_type site_index y2bh := by
  simp only [gi_curves_without_age_arm, List.mem_cons, List.not_mem_nil, or_false] at hcu
  unfold index_to_age_switch
  rcases hcu with h | h | h | h <;> subst h <;> simp

/-- The four growth-intercept curves without a label in `index_to_age` are
growth-intercept curves. -/
theorem gi_curves_without_age_arm_subset (cu : ℤ) (h : cu ∈ gi_curves_without_age_arm) :
    cu ∈ gi_curves := by
  simp only [gi_curves_without_age_arm, List.mem_cons, List.not_mem_nil, or_false] at h
  rcases h with h | h | h | h <;> subst h <;> simp [gi_curves]

/-- A growth-intercept curve with a total age whose breast-height age is below
one half: `index_to_height` returns `SI_ERR_GI_MIN`. -/
theorem index_to_height_gi_total_min (M : Extern α) (fuel : ℕ) (cu : ℤ)
    (t site_index y2bh pi : α) (hcu : cu ∈ gi_curves) (hsi : 1.3 ≤ site_index)
    (ht : 0.00001 ≤ t) (hb : t - ((c_int y2bh : α) + 0.5) < 0.5) :
    index_to_height M fuel cu t SI_AT_TOTAL site_index y2bh pi = some SI_ERR_GI_MIN := by
  rw [index_to_height_seed M fuel cu t site_index y2bh pi hsi ht,
    index_to_height_switch_gi M _ fuel cu _ _ _ _ _ _ hcu, age_to_age_total_breast]
  unfold age_offset_ref
  rw [if_neg (gi_not_half_year cu hcu)]
  unfold gi_si2ht
  rw [if_pos]
  apply max_lt (by norm_num) hb

/-- The conversion `(int) 30` is 30. -/
theorem c_int_thirty : c_int (30 : α) = (30 : ℤ) := by
  rw [c_int_of_nonneg (30 : α) (by norm_num), Int.floor_eq_iff]
  norm_num

/-- C23, the code at the failing inputs: for the four growth-intercept curves
`SI_BA_NIGHGI`, `SI_PY_NIGHGI`, `SI_SE_NIGHGI` and `SI_SW_NIGHGI2004`, `index_to_age`
with site height 10, age type total, site index 20 and `y2bh = 30` returns
`SI_ERR_GI_MIN` (-2), not `SI_ERR_GI_TOT` (-9): they have no label in
`index_to_age`, and the preliminary evaluation of `iterate` by `index_to_height`
returns `SI_ERR_GI_MIN`. -/
theorem index_to_age_gi_total_not_gi_tot :
    index_to_age Extern.crude 0 SI_BA_NIGHGI (10 : ℚ) SI_AT_TOTAL 20 30
      = some SI_ERR_GI_MIN ∧
    index_to_age Extern.crude 0 SI_PY_NIGHGI (10 : ℚ) SI_AT_TOTAL 20 30
      = some SI_ERR_GI_MIN ∧
    index_to_age Extern.crude 0 SI_SE_NIGHGI (10 : ℚ) SI_AT_TOTAL 20 30
      = some SI_ERR_GI_MIN ∧
    index_to_age Extern.crude 0 SI_SW_NIGHGI2004 (10 : ℚ) SI_AT_TOTAL 20 30
      = some SI_ERR_GI_MIN ∧
    (SI_ERR_GI_MIN : ℚ) = -2 ∧ (SI_ERR_GI_TOT : ℚ) = -9 := by
  have key : ∀ cu : ℤ, cu ∈ gi_curves_without_age_arm →
      index_to_age Extern.crude 0 cu (10 : ℚ) SI_AT_TOTAL 20 30 = some SI_ERR_GI_MIN := by
    intro cu hcu
    rw [index_to_age_of_ge Extern.crude 0 cu 10 SI_AT_TOTAL 20 30 (by norm_num) (by norm_num),
      index_to_age_switch_gi_default Extern.crude 0 cu 10 SI_AT_TOTAL 20 30 hcu]
    apply iterate_of_seed_error Extern.crude 0 cu 10 SI_AT_TOTAL 20 30 SI_ERR_GI_MIN _
      (Or.inr (Or.inr (Or.inl rfl)))
    apply index_to_height_gi_total_min Extern.crude 0 cu 25 20 30 0.5
      (gi_curves_without_age_arm_subset cu hcu) (by norm_num) (by norm_num)
    rw [c_int_thirty]
    norm_num
  exact ⟨key _ (by simp [gi_curves_without_age_arm]), key _ (by simp [gi_curves_without_age_arm]),
    key _ (by simp [gi_curves_without_age_arm]), key _ (by simp [gi_curves_without_age_arm]),
    rfl, rfl⟩

/-- C24, the code at the failing inputs: for the growth-intercept curve
`SI_BL_THROWERGI` with site index 20 and `y2bh = 5`, `index_to_height` with age type
total returns `SI_ERR_GI_MIN` (-2) at the age 1 and the height 0 at the age
0.000005; in neither case `SI_ERR_GI_TOT` (-9). -/
theorem index_to_height_gi_total_not_gi_tot :
    index_to_height Extern.crude 0 SI_BL_THROWERGI (1 : ℚ) SI_AT_TOTAL 20 5 0
      = some SI_ERR_GI_MIN ∧
    index_to_height Extern.crude 0 SI_BL_THROWERGI (1 / 200000 : ℚ) SI_AT_TOTAL 20 5 0
      = some 0 ∧
    (SI_ERR_GI_MIN : ℚ) = -2 ∧ (SI_ERR_GI_TOT : ℚ) = -9 := by
  refine ⟨?_, ?_, rfl, rfl⟩
  · apply index_to_height_gi_total_min Extern.crude 0 SI_BL_THROWERGI 1 20 5 0
      (by simp [gi_curves]) (by norm_num) (by norm_num)
    rw [c_int_five]
    norm_num
  · rw [index_to_height_of_ge Extern.crude 0 SI_BL_THROWERGI (1 / 200000 : ℚ) SI_AT_TOTAL 20
      5 0 (by norm_num), index_to_height_ages_total, if_neg (by norm_num),
      if_pos (by norm_num)]

omit [FloorRing α] in
/-- C26: for every growth-intercept curve id (the 17 ids of `gi_curves`) and every
`site_index ≥ 1.3`, `si_y2bh` returns `SI_ERR_GI_TOT`, which is -9. -/
theorem si_y2bh_gi (M : Extern α) (cu : ℤ) (site_index : α) (hcu : cu ∈ gi_curves)
    (hsi : 1.3 ≤ site_index) :
    si_y2bh M cu site_index = SI_ERR_GI_TOT ∧ (SI_ERR_GI_TOT : α) = -9 := by
  refine ⟨?_, rfl⟩
  simp only [gi_curves, List.mem_cons, List.not_mem_nil, or_false] at hcu
  unfold si_y2bh
  rw [if_neg (not_lt.mpr hsi)]
  rcases hcu with h | h | h | h | h | h | h | h | h | h | h | h | h | h | h | h | h <;>
    subst h <;> simp

/-- Witness of `si_y2bh_gi` at `SI_BA_NIGHGI` and site index 20. -/
theorem si_y2bh_gi_witness :
    si_y2bh Extern.crude SI_BA_NIGHGI (20 : ℚ) = SI_ERR_GI_TOT ∧ (SI_ERR_GI_TOT : ℚ) = -9 :=
  si_y2bh_gi Extern.crude SI_BA_NIGHGI 20 (by simp [gi_curves]) (by norm_num)

end GrowthIntercept

section YearsToBreastHeightTheorems

variable {α : Type} [LinearOrderedField α]

/-- The macro `PPOW` at a positive base is positive when `pow` is. -/
theorem PPOW_pos (M : Extern α) (hpow : ∀ x y : α, 0 < x → 0 < M.pow x y) (x y : α)
    (hx : 0 < x) : 0 < PPOW M x y := by
  unfold PPOW
  rw [zero_literal, if_neg (not_le.mpr hx)]
  exact hpow x y hx

omit [LinearOrderedField α] in
/-- A property holds of the value of a conditional if it holds of both branches. -/
theorem ite_cases (Q : α → Prop) (c : Prop) {inst : Decidable c} (a b : α) (ha : c → Q a)
    (hb : ¬ c → Q b) : Q (@ite α c inst a b) := by
  by_cases h : c
  · rw [if_pos h]
    exact ha h
  · rw [if_neg h]
    exact hb h

omit [LinearOrderedField α] in
/-- A step through a chain of conditionals on the curve index: with one of the
remaining labels matching, the `else` branch keeps the rest of the alternatives. -/
theorem ite_step (Q : α → Prop) (c R : Prop) {inst : Decidable c} (a b : α) (hm : c ∨ R)
    (ha : c → Q a) (hb : R → Q b) : Q (@ite α c inst a b) := by
  by_cases h : c
  · rw [if_pos h]
    exact ha h
  · rw [if_neg h]
    exact hb (hm.resolve_left h)

omit [LinearOrderedField α] in
/-- The last step through a chain of conditionals: the only remaining label
matches. -/
theorem ite_last (Q : α → Prop) (c : Prop) {inst : Decidable c} (a b : α) (hm : c)
    (ha : c → Q a) : Q (@ite α c inst a b) := by
  rw [if_pos hm]
  exact ha hm

set_option maxRecDepth 100000 in
/-- Every natural number below 124 is a `case` label of `si_y2bh`. -/
theorem si_y2bh_labels_range : ∀ k ∈ List.range 124, ((k : ℕ) : ℤ) ∈ si_y2bh_labels := by
  decide

/-- Every curve index from 0 to 123 has an arm in `si_y2bh`. -/
theorem mem_si_y2bh_labels (cu : ℤ) (h0 : 0 ≤ cu) (h1 : cu ≤ 123) : cu ∈ si_y2bh_labels := by
  have h := si_y2bh_labels_range cu.toNat (List.mem_range.mpr (by omega))
  rwa [Int.toNat_of_nonneg h0] at h

/-- A curve index outside 0..123 takes the `default:` of `si_y2bh`. -/
theorem si_y2bh_unknown (M : Extern α) (cu : ℤ) (site_index : α) (hsi : 1.3 ≤ site_index)
    (h : cu < 0 ∨ 123 < cu) : si_y2bh M cu site_index = SI_ERR_CURVE := by
  have hne : ∀ k : ℤ, 0 ≤ k → k ≤ 123 → ¬ cu = k := by
    intro k h0 h1 hk
    omega
  unfold si_y2bh
  rw [if_neg (not_lt.mpr hsi)]
  simp [hne]

set_option maxHeartbeats 4000000 in
set_option maxRecDepth 100000 in
/-- Case analysis of `si_y2bh` for a curve index from 0 to 123 and a site index of
at least 1.3, arm by arm: a property holds of the result if it holds of
`SI_ERR_GI_TOT` for a growth-intercept curve, of `SI_ERR_NO_ANS` and of every
positive number (for a `pow` that is positive at a positive base). -/
theorem si_y2bh_induct (M : Extern α) (hpow : ∀ x y : α, 0 < x → 0 < M.pow x y) (cu : ℤ)
    (site_index : α) (h0 : 0 ≤ cu) (h1 : cu ≤ 123) (hsi : 1.3 ≤ site_index) (Q : α → Prop)
    (hgi : cu ∈ gi_curves → Q SI_ERR_GI_TOT)
    (hna : Q SI_ERR_NO_ANS) (hposQ : ∀ v : α, 0 < v → Q v) :
    Q (si_y2bh M cu site_index) := by
  have hsi0 : (0 : α) < site_index := lt_of_lt_of_le (by norm_num) hsi
  have hP := PPOW_pos M hpow
  have h10 : (0 : α) < 1.0 := by norm_num
  have h20 : (0 : α) < 2.0 := by norm_num
  have h50 : (0 : α) < 5.0 := by norm_num
  have h80 : (0 : α) < 8.0 := by norm_num
  have h1045 : (0 : α) < 10.45 := by norm_num
  have q2 : Q 2 := hposQ _ two_pos
  have q10 : Q 1.0 := hposQ _ h10
  have q20 : Q 2.0 := hposQ _ h20
  have clamp : ∀ c : α, 0 < c → ∀ y : α, Q (if y < c then c else y) := fun c hc y =>
    ite_cases Q _ _ _ (fun _ => hposQ c hc)
      (fun hy => hposQ y (lt_of_lt_of_le hc (not_lt.mp hy)))
  have k1 := clamp 1 one_pos
  have k50 := clamp 5.0 h50
  have k80 := clamp 8.0 h80
  have k1045 := clamp 10.45 h1045
  have hm := mem_si_y2bh_labels cu h0 h1
  simp only [si_y2bh_labels, List.mem_cons, List.not_mem_nil, or_false] at hm
  clear h0 h1
  unfold si_y2bh
  rw [if_neg (not_lt.mpr hsi)]
  dsimp only
  repeat' first
    | refine ite_step Q _ _ _ _ hm (fun h => ?_) (fun hm => ?_)
    | exact k1 _
    | exact k50 _
    | exact k80 _
    | (refine hgi ?_; rw [h]; decide)
    | exact hna
    | refine ite_last Q _ _ _ hm (fun h => ?_)
    | refine ite_cases Q _ _ _ (fun h => ?_) (fun h => ?_)
    | (refine hposQ _ ?_; positivity)
    | exact k1045 _
    | exact q2
    | exact q10
    | exact q20
    | (refine hposQ _ (mul_pos ?_ (hP _ _ (sub_pos.mpr (lt_of_lt_of_le ?_ (not_lt.mp h)))))
        <;> norm_num)
    | (refine hposQ _ (mul_pos ?_ (hpow _ _ (sub_pos.mpr (lt_of_le_of_lt ?_ (not_le.mp h)))))
        <;> norm_num)
    | (refine hposQ _ (mul_pos ?_ (hpow _ _ ?_)) <;> norm_num)
    | (refine hposQ _ ?_; linarith)

/-- The values of `si_y2bh`: `SI_ERR_LT13` for a site index below 1.3,
`SI_ERR_GI_TOT` for a growth-intercept curve, `SI_ERR_CURVE` for a curve index
outside 0..123, and otherwise `SI_ERR_NO_ANS` or a positive number of years (for a
`pow` that is positive at a positive base). -/
theorem si_y2bh_cases (M : Extern α) (hpow : ∀ x y : α, 0 < x → 0 < M.pow x y) (cu : ℤ)
    (site_index : α) :
    (site_index < 1.3 ∧ si_y2bh M cu site_index = SI_ERR_LT13) ∨
    (cu ∈ gi_curves ∧ si_y2bh M cu site_index = SI_ERR_GI_TOT) ∨
    ((cu < 0 ∨ 123 < cu) ∧ si_y2bh M cu site_index = SI_ERR_CURVE) ∨
    si_y2bh M cu site_index = SI_ERR_NO_ANS ∨
    0 < si_y2bh M cu site_index := by
  by_cases hs : site_index < 1.3
  · left
    refine ⟨hs, ?_⟩
    unfold si_y2bh
    rw [if_pos hs]
  · right
    by_cases hc : cu < 0 ∨ 123 < cu
    · exact Or.inr (Or.inl ⟨hc, si_y2bh_unknown M cu site_index (not_lt.mp hs) hc⟩)
    · exact si_y2bh_induct M hpow cu site_index (not_lt.mp (not_or.mp hc).1)
        (not_lt.mp (not_or.mp hc).2) (not_lt.mp hs)
        (fun v => (cu ∈ gi_curves ∧ v = SI_ERR_GI_TOT) ∨
          ((cu < 0 ∨ 123 < cu) ∧ v = SI_ERR_CURVE) ∨ v = SI_ERR_NO_ANS ∨ 0 < v)
        (fun h => Or.inl ⟨h, rfl⟩)
        (Or.inr (Or.inr (Or.inl rfl))) (fun v hv => Or.inr (Or.inr (Or.inr hv)))

end YearsToBreastHeightTheorems

section YearsToBreastHeightClaims

variable {α : Type} [LinearOrderedField α] [FloorRing α]

omit [FloorRing α] in
/-- C27: for every curve index from 0 to 123 (the curves with an arm in `si_y2bh`)
that is not a growth-intercept curve and every `site_index ≥ 1.3`, `si_y2bh` returns
either `SI_ERR_NO_ANS` or a strictly positive number of years (for a `pow` that is
positive at a positive base, as the power function of real analysis is). -/
theorem si_y2bh_pos (M : Extern α) (cu : ℤ) (site_index : α)
    (hpow : ∀ x y : α, 0 < x → 0 < M.pow x y) (h0 : 0 ≤ cu) (h1 : cu ≤ 123)
    (hgi : cu ∉ gi_curves) (hsi : 1.3 ≤ site_index) :
    si_y2bh M cu site_index = SI_ERR_NO_ANS ∨ 0 < si_y2bh M cu site_index := by
  rcases si_y2bh_cases M hpow cu site_index with h | h | h | h | h
  · exact absurd h.1 (not_lt.mpr hsi)
  · exact absurd h.1 hgi
  · rcases h.1 with hc | hc
    · exact absurd h0 (not_le.mpr hc)
    · exact absurd h1 (not_le.mpr hc)
  · exact Or.inl h
  · exact Or.inr h

/-- Witness of `si_y2bh_pos` over the real numbers, at `SI_FDC_NIGHTA` (an arm that
calls `pow`) and site index 20. -/
theorem si_y2bh_pos_witness :
    si_y2bh Extern.real SI_FDC_NIGHTA (20 : ℝ) = SI_ERR_NO_ANS ∨
    0 < si_y2bh Extern.real SI_FDC_NIGHTA (20 : ℝ) :=
  si_y2bh_pos Extern.real SI_FDC_NIGHTA 20 (fun x y hx => Real.rpow_pos_of_pos hx y)
    (by norm_num) (by norm_num) (by simp [gi_curves]) (by norm_num)

/-- C28: for every curve id and site index for which `si_y2bh` returns a value `y`
that is none of its error codes (`SI_ERR_LT13`, `SI_ERR_GI_TOT`, `SI_ERR_CURVE`,
`SI_ERR_NO_ANS`), `si_y2bh05` returns `⌊y⌋ + 0.5`, a value `n + 0.5` with a natural
number `n`, which differs from `y` by at most 0.5 (for a `pow` that is positive at a
positive base). -/
theorem si_y2bh05_eq_floor (M : Extern α) (cu : ℤ) (site_index : α)
    (hpow : ∀ x y : α, 0 < x → 0 < M.pow x y)
    (hlt : si_y2bh M cu site_index ≠ SI_ERR_LT13)
    (hgt : si_y2bh M cu site_index ≠ SI_ERR_GI_TOT)
    (hcv : si_y2bh M cu site_index ≠ SI_ERR_CURVE)
    (hna : si_y2bh M cu site_index ≠ SI_ERR_NO_ANS) :
    si_y2bh05 M cu site_index = (⌊si_y2bh M cu site_index⌋ : α) + 0.5 ∧
    (∃ n : ℕ, si_y2bh05 M cu site_index = (n : α) + 0.5) ∧
    |si_y2bh05 M cu site_index - si_y2bh M cu site_index| ≤ 0.5 := by
  have hpos : 0 < si_y2bh M cu site_index := by
    rcases si_y2bh_cases M hpow cu site_index with h | h | h | h | h
    · exact absurd h.2 hlt
    · exact absurd h.2 hgt
    · exact absurd h.2 hcv
    · exact absurd h hna
    · exact h
  have h05 : si_y2bh05 M cu site_index = (⌊si_y2bh M cu site_index⌋ : α) + 0.5 := by
    unfold si_y2bh05
    simp only []
    rw [c_int_of_nonneg _ (le_of_lt hpos)]
  have hfl : (0 : ℤ) ≤ ⌊si_y2bh M cu site_index⌋ := Int.floor_nonneg.mpr (le_of_lt hpos)
  have h1 := Int.floor_le (si_y2bh M cu site_index)
  have h2 := Int.lt_floor_add_one (si_y2bh M cu site_index)
  have hh : (0.5 : α) = 1 / 2 := by norm_num
  refine ⟨h05, ⟨⌊si_y2bh M cu site_index⌋.toNat, ?_⟩, ?_⟩
  · rw [h05]
    congr 1
    have : ((⌊si_y2bh M cu site_index⌋.toNat : ℤ) : α) = (⌊si_y2bh M cu site_index⌋ : α) := by
      rw [Int.toNat_of_nonneg hfl]
    rw [← this]
    norm_cast
  · rw [h05, abs_le, hh]
    constructor <;> linarith

/-- Witness of `si_y2bh05_eq_floor` over the real numbers, at `SI_FDC_BRUCE` and
site index 30 (years to breast height `13.25 - 30 / 6.096`, about 8.33). -/
theorem si_y2bh05_eq_floor_witness :
    si_y2bh05 Extern.real SI_FDC_BRUCE (30 : ℝ)
      = (⌊si_y2bh Extern.real SI_FDC_BRUCE (30 : ℝ)⌋ : ℝ) + 0.5 ∧
    (∃ n : ℕ, si_y2bh05 Extern.real SI_FDC_BRUCE (30 : ℝ) = (n : ℝ) + 0.5) ∧
    |si_y2bh05 Extern.real SI_FDC_BRUCE (30 : ℝ) - si_y2bh Extern.real SI_FDC_BRUCE (30 : ℝ)|
      ≤ 0.5 := by
  have h := c_int_si_y2bh_bruce_30.1
  exact si_y2bh05_eq_floor Extern.real SI_FDC_BRUCE 30
    (fun x y hx => Real.rpow_pos_of_pos hx y)
    (by rw [h]; norm_num [SI_ERR_LT13]) (by rw [h]; norm_num [SI_ERR_GI_TOT])
    (by rw [h]; norm_num [SI_ERR_CURVE]) (by rw [h]; norm_num [SI_ERR_NO_ANS])

/-- C29, the code at the failing inputs: `si_y2bh05` does not return the error
codes of `si_y2bh`; the rounding step is applied to them.  For a site index below
1.3 (`SI_ERR_LT13`, -1) it returns -0.5, for an unknown curve id (`SI_ERR_CURVE`,
-5) it returns -4.5 and for a growth-intercept curve (`SI_ERR_GI_TOT`, -9) it
returns -8.5. -/
theorem si_y2bh05_error_codes :
    si_y2bh Extern.crude SI_FDC_BRUCE (1 : ℚ) = SI_ERR_LT13 ∧
    si_y2bh05 Extern.crude SI_FDC_BRUCE (1 : ℚ) = -1 / 2 ∧
    si_y2bh Extern.crude 9999 (20 : ℚ) = SI_ERR_CURVE ∧
    si_y2bh05 Extern.crude 9999 (20 : ℚ) = -9 / 2 ∧
    si_y2bh Extern.crude SI_FDC_NIGHGI (20 : ℚ) = SI_ERR_GI_TOT ∧
    si_y2bh05 Extern.crude SI_FDC_NIGHGI (20 : ℚ) = -17 / 2 ∧
    (SI_ERR_LT13 : ℚ) = -1 ∧ (SI_ERR_CURVE : ℚ) = -5 ∧ (SI_ERR_GI_TOT : ℚ) = -9 := by
  have hc : ∀ n : ℤ, n < 0 → c_int ((n : ℚ)) = n := by
    intro n hn
    unfold c_int
    rw [if_neg (by exact_mod_cast not_le.mpr hn), Int.ceil_intCast]
  have e1 : si_y2bh Extern.crude SI_FDC_BRUCE (1 : ℚ) = SI_ERR_LT13 := by
    unfold si_y2bh
    rw [if_pos (by norm_num)]
  have e2 : si_y2bh Extern.crude 9999 (20 : ℚ) = SI_ERR_CURVE :=
    si_y2bh_unknown Extern.crude 9999 20 (by norm_num) (Or.inr (by norm_num))
  have e3 : si_y2bh Extern.crude SI_FDC_NIGHGI (20 : ℚ) = SI_ERR_GI_TOT := by
    unfold si_y2bh
    rw [if_neg (by norm_num), if_pos rfl]
  refine ⟨e1, ?_, e2, ?_, e3, ?_, rfl, rfl, rfl⟩
  · unfold si_y2bh05
    simp only [e1, SI_ERR_LT13]
    have := hc (-1) (by norm_num)
    norm_num at this
    rw [this]
    norm_num
  · unfold si_y2bh05
    simp only [e2, SI_ERR_CURVE]
    have := hc (-5) (by norm_num)
    norm_num at this
    rw [this]
    norm_num
  · unfold si_y2bh05
    simp only [e3, SI_ERR_GI_TOT]
    have := hc (-9) (by norm_num)
    norm_num at this
    rw [this]
    norm_num

end YearsToBreastHeightClaims

section ZoneAndEnumeration

/-- A character is determined by its code. -/
theorem char_eq_of_toNat (c d : Char) (h : c.toNat = d.toNat) : c = d := by
  rw [← Char.ofNat_toNat c, ← Char.ofNat_toNat d, h]

/-- C34: `fiz_check` returns `FIZ_COAST` (1) exactly for the codes 'A', 'B', 'C',
`FIZ_INTERIOR` (2) exactly for 'D' ... 'L' (the characters with codes 68 to 76) and
`FIZ_UNKNOWN` (0) for every other character; in particular 'A' is coast, 'E' is
interior, 'Z' is unknown and every lower-case letter (codes 97 to 122) is
unknown. -/
theorem fiz_check_classes :
    (∀ fiz : Char, fiz_check fiz = FIZ_COAST ↔ fiz ∈ ['A', 'B', 'C']) ∧
    (∀ fiz : Char, fiz_check fiz = FIZ_INTERIOR ↔
      fiz ∈ ['D', 'E', 'F', 'G', 'H', 'I', 'J', 'K', 'L']) ∧
    (∀ fiz : Char, fiz_check fiz = FIZ_INTERIOR ↔ 68 ≤ fiz.toNat ∧ fiz.toNat ≤ 76) ∧
    (∀ fiz : Char, fiz_check fiz = FIZ_UNKNOWN ↔
      fiz ∉ ['A', 'B', 'C', 'D', 'E', 'F', 'G', 'H', 'I', 'J', 'K', 'L']) ∧
    (∀ fiz : Char, fiz_check fiz = FIZ_COAST ∨ fiz_check fiz = FIZ_INTERIOR ∨
      fiz_check fiz = FIZ_UNKNOWN) ∧
    (∀ fiz : Char, 97 ≤ fiz.toNat ∧ fiz.toNat ≤ 122 → fiz_check fiz = FIZ_UNKNOWN) ∧
    fiz_check 'A' = FIZ_COAST ∧ fiz_check 'E' = FIZ_INTERIOR ∧
    fiz_check 'Z' = FIZ_UNKNOWN ∧
    FIZ_COAST = 1 ∧ FIZ_INTERIOR = 2 ∧ FIZ_UNKNOWN = 0 := by
  have hA : ∀ fiz : Char, fiz_check fiz = FIZ_COAST ↔ fiz ∈ ['A', 'B', 'C'] := by
    intro fiz
    simp only [List.mem_cons, List.not_mem_nil, or_false]
    unfold fiz_check
    split_ifs with h1 h2
    · simp [h1]
    · simp [h1]
    · simp [h1]
  have hD : ∀ fiz : Char, fiz_check fiz = FIZ_INTERIOR ↔
      fiz ∈ ['D', 'E', 'F', 'G', 'H', 'I', 'J', 'K', 'L'] := by
    intro fiz
    simp only [List.mem_cons, List.not_mem_nil, or_false]
    unfold fiz_check
    split_ifs with h1 h2
    · rcases h1 with h | h | h <;> subst h <;> decide
    · simp [h2]
    · simp [h2]
  have hR : ∀ fiz : Char, fiz ∈ ['D', 'E', 'F', 'G', 'H', 'I', 'J', 'K', 'L'] ↔
      68 ≤ fiz.toNat ∧ fiz.toNat ≤ 76 := by
    intro fiz
    simp only [List.mem_cons, List.not_mem_nil, or_false]
    constructor
    · intro h
      rcases h with h | h | h | h | h | h | h | h | h <;> subst h <;> decide
    · rintro ⟨h1, h2⟩
      have h : fiz.toNat = 68 ∨ fiz.toNat = 69 ∨ fiz.toNat = 70 ∨ fiz.toNat = 71 ∨
          fiz.toNat = 72 ∨ fiz.toNat = 73 ∨ fiz.toNat = 74 ∨ fiz.toNat = 75 ∨
          fiz.toNat = 76 := by omega
      rcases h with h | h | h | h | h | h | h | h | h
      · exact Or.inl (char_eq_of_toNat _ _ h)
      · exact Or.inr (Or.inl (char_eq_of_toNat _ _ h))
      · exact Or.inr (Or.inr (Or.inl (char_eq_of_toNat _ _ h)))
      · exact Or.inr (Or.inr (Or.inr (Or.inl (char_eq_of_toNat _ _ h))))
      · exact Or.inr (Or.inr (Or.inr (Or.inr (Or.inl (char_eq_of_toNat _ _ h)))))
      · exact Or.inr (Or.inr (Or.inr (Or.inr (Or.inr (Or.inl (char_eq_of_toNat _ _ h))))))
      · exact Or.inr (Or.inr (Or.inr (Or.inr (Or.inr (Or.inr
          (Or.inl (char_eq_of_toNat _ _ h)))))))
      · exact Or.inr (Or.inr (Or.inr (Or.inr (Or.inr (Or.inr (Or.inr
          (Or.inl (char_eq_of_toNat _ _ h))))))))
      · exact Or.inr (Or.inr (Or.inr (Or.inr (Or.inr (Or.inr (Or.inr
          (Or.inr (char_eq_of_toNat _ _ h))))))))
  have hU : ∀ fiz : Char, fiz_check fiz = FIZ_UNKNOWN ↔
      fiz ∉ ['A', 'B', 'C', 'D', 'E', 'F', 'G', 'H', 'I', 'J', 'K', 'L'] := by
    intro fiz
    simp only [List.mem_cons, List.not_mem_nil, or_false]
    unfold fiz_check
    split_ifs with h1 h2
    · simp only [FIZ_COAST, FIZ_UNKNOWN]
      constructor
      · intro h; exact absurd h (by decide)
      · intro h; exact absurd (by tauto) h
    · simp only [FIZ_INTERIOR, FIZ_UNKNOWN]
      constructor
      · intro h; exact absurd h (by decide)
      · intro h; exact absurd (by tauto) h
    · constructor
      · intro _; tauto
      · intro _; rfl
  refine ⟨hA, hD, fun fiz => (hD fiz).trans (hR fiz), hU, ?_, ?_, by decide, by decide,
    by decide, rfl, rfl, rfl⟩
  · intro fiz
    unfold fiz_check
    split_ifs
    · exact Or.inl rfl
    · exact Or.inr (Or.inl rfl)
    · exact Or.inr (Or.inr rfl)
  · rintro fiz ⟨h1, h2⟩
    rw [hU]
    simp only [List.mem_cons, List.not_mem_nil, or_false]
    intro h
    rcases h with h | h | h | h | h | h | h | h | h | h | h | h <;> subst h <;>
      revert h1 <;> decide

set_option maxRecDepth 100000 in
/-- C35, the code at the failing inputs: the `switch` of `Sindex_NextCurve` has no
`case` label for eleven curve indices, and for each of them the function, called
with the species the curve is intended for, returns the curve index it was given
(neither `SI_ERR_NO_ANS` nor a different curve).  For every other curve index with
its intended species it returns `SI_ERR_NO_ANS` or a different curve index with the
same intended species, and for a curve not intended for the species it returns
`SI_ERR_CURVE`. -/
theorem Sindex_NextCurve_unlabelled :
    Sindex_CurveToSpecies SI_SW_NIGHGI = SI_SPEC_SW ∧
    Sindex_NextCurve SI_SPEC_SW SI_SW_NIGHGI = SI_SW_NIGHGI ∧
    (∀ cu ∈ next_curve_unlabelled,
      0 ≤ Sindex_CurveToSpecies cu ∧ Sindex_CurveToSpecies cu < SI_MAX_SPECIES ∧
      Sindex_NextCurve (Sindex_CurveToSpecies cu) cu = cu) ∧
    (∀ cu ∈ List.range 124, (cu : ℤ) ∉ next_curve_unlabelled →
      Sindex_NextCurve (Sindex_CurveToSpecies cu) cu = SI_ERR_NO_ANS_short ∨
      (Sindex_NextCurve (Sindex_CurveToSpecies cu) cu ≠ cu ∧
        Sindex_CurveToSpecies (Sindex_NextCurve (Sindex_CurveToSpecies cu) cu)
          = Sindex_CurveToSpecies cu)) ∧
    (∀ sp cu : ℤ, 0 ≤ sp → sp < SI_MAX_SPECIES → Sindex_CurveToSpecies cu ≠ sp →
      Sindex_NextCurve sp cu = SI_ERR_CURVE_short) := by
  refine ⟨by decide, by decide, by decide, by decide, ?_⟩
  intro sp cu h0 h1 hne
  unfold Sindex_NextCurve
  have hsp : ¬ (sp < 0 ∨ sp ≥ SI_MAX_SPECIES) := fun h =>
    h.elim (fun h => absurd h0 (not_le.mpr h)) (fun h => absurd h1 (not_lt.mpr h))
  rw [if_neg hsp]
  by_cases hr : cu < 0 ∨ cu ≥ SI_MAX_CURVES
  · rw [if_pos hr]
  · rw [if_neg hr]
    unfold Sindex_CurveToSpecies at hne
    rw [if_neg hr] at hne
    rw [if_pos hne]

end ZoneAndEnumeration

section HuGarciaSolver

variable {α : Type} [LinearOrderedField α]

/-- Invariant of the loop of `hu_garcia_q`: started with a positive `q` and a
positive `step`, every iteration keeps both positive (the step is kept or halved,
`q` is raised by the step, or lowered by it and reset to `0.0000001` when that
makes it non-positive), so a returned `q` is positive. -/
theorem hu_garcia_q_loop_pos (M : Extern α) (site_index bhage : α) :
    ∀ (fuel : ℕ) (q step diff r : α), 0 < q → 0 < step →
      hu_garcia_q_loop M site_index bhage fuel q step diff = some r → 0 < r := by
  intro fuel
  induction fuel with
  | zero =>
    intro q step diff r _ _ h
    simp [hu_garcia_q_loop] at h
  | succ n ih =>
    intro q step diff r hq hs h
    have h2 : (0 : α) < 2.0 := by norm_num
    have hs2 : 0 < step / 2.0 := div_pos hs h2
    have hst : 0 < (if diff < 0 then step / 2.0 else step) := by
      split_ifs
      · exact hs2
      · exact hs
    have hst2 : 0 < (if diff > 0 then step / 2.0 else step) := by
      split_ifs
      · exact hs2
      · exact hs
    have hq2 : ∀ x : α, 0 < (if x ≤ 0 then (0.0000001 : α) else x) := by
      intro x
      split_ifs with hx
      · norm_num
      · exact not_le.mp hx
    rw [hu_garcia_q_loop] at h
    dsimp only at h
    by_cases c1 : site_index - hu_garcia_h M q bhage > 0.0000001
    · rw [if_pos c1] at h
      by_cases c2 : (if diff < 0 then step / 2.0 else step) < 0.0000001
      · rw [if_pos c2, Option.some.injEq] at h
        rw [← h]
        exact add_pos hq hst
      · rw [if_neg c2] at h
        exact ih _ _ _ _ (add_pos hq hst) hst h
    · rw [if_neg c1] at h
      by_cases c3 : site_index - hu_garcia_h M q bhage < -0.0000001
      · rw [if_pos c3] at h
        by_cases c4 : (if diff > 0 then step / 2.0 else step) < 0.0000001
        · rw [if_pos c4, Option.some.injEq] at h
          rw [← h]
          exact hq2 _
        · rw [if_neg c4] at h
          exact ih _ _ _ _ (hq2 _) hst2 h
      · rw [if_neg c3, Option.some.injEq] at h
        rw [← h]
        exact hq

/-- C37: the `q` returned by `hu_garcia_q` is strictly positive, for every site
index and reference age and every implementation of `exp` and `pow`: the loop starts
from `q = 0.02` and `step = 0.01` and keeps `q` and `step` positive throughout
(`q` is reset to `0.0000001` whenever a decrement would make it non-positive). -/
theorem hu_garcia_q_pos (M : Extern α) (fuel : ℕ) (site_index bhage q : α)
    (h : hu_garcia_q M fuel site_index bhage = some q) : 0 < q := by
  unfold hu_garcia_q at h
  exact hu_garcia_q_loop_pos M site_index bhage fuel 0.02 0.01 0 q (by norm_num)
    (by norm_num) h

/-- The run of `hu_garcia_q` behind the witness of C37: with the crude rational
functions and a site index equal to the height at `q = 0.03`, the first iteration
raises `q` from 0.02 to 0.03 and the second one returns it. -/
theorem hu_garcia_q_crude_run :
    hu_garcia_q Extern.crude 2 (525787244008257 / 50000000000000 : ℚ) 50 = some (3 / 100) := by
  norm_num [hu_garcia_q, hu_garcia_q_loop, hu_garcia_h, Extern.crude]

/-- Witness of C37: a run of `hu_garcia_q` that returns (reference age 50, two
iterations), and the positivity of its result. -/
theorem hu_garcia_q_pos_witness :
    hu_garcia_q Extern.crude 2 (525787244008257 / 50000000000000 : ℚ) 50 = some (3 / 100) ∧
    (0 : ℚ) < 3 / 100 :=
  ⟨hu_garcia_q_crude_run, hu_garcia_q_pos Extern.crude 2 _ 50 _ hu_garcia_q_crude_run⟩

end HuGarciaSolver

section HuGarciaReal

/-- The forward height function of Hu and Garcia over the real numbers. -/
theorem hu_garcia_h_real (q b : ℝ) :
    hu_garcia_h Extern.real q b =
      283.9 * q ^ (0.5137 : ℝ) *
        (1 - (1 - (1.3 / (283.9 * q ^ (0.5137 : ℝ))) ^ (0.5829 : ℝ)) *
          Real.exp (-q * (b - 0.5))) ^ (1.71556 : ℝ) := rfl

/-- The inverse of Hu and Garcia over the real numbers. -/
theorem hu_garcia_bha_real (q h : ℝ) :
    hu_garcia_bha Extern.real q h =
      0.5 - 1 / q * Real.log ((1 - (h / (283.9 * q ^ (0.5137 : ℝ))) ^ (0.5829 : ℝ)) /
        (1 - (1.3 / (283.9 * q ^ (0.5137 : ℝ))) ^ (0.5829 : ℝ))) := rfl

/-- The coefficient `a = 283.9 q ^ 0.5137` of the Hu and Garcia functions is
positive for a positive `q`, and so are `1.3 / a` and its power. -/
theorem hu_garcia_a_pos (q : ℝ) (hq : 0 < q) :
    0 < 283.9 * q ^ (0.5137 : ℝ) ∧ 0 < 1.3 / (283.9 * q ^ (0.5137 : ℝ)) ∧
    0 < (1.3 / (283.9 * q ^ (0.5137 : ℝ))) ^ (0.5829 : ℝ) := by
  have h1 : 0 < 283.9 * q ^ (0.5137 : ℝ) :=
    mul_pos (by norm_num) (Real.rpow_pos_of_pos hq _)
  have h2 : 0 < 1.3 / (283.9 * q ^ (0.5137 : ℝ)) := div_pos (by norm_num) h1
  exact ⟨h1, h2, Real.rpow_pos_of_pos h2 _⟩

/-- The base of the outer power of `hu_garcia_h` is positive: it lies between
`y` and 1, where `y` is the power of `1.3 / a`. -/
theorem hu_garcia_base_pos (y E : ℝ) (hy : 0 < y) (hE : 0 < E) (hE1 : E ≤ 1) :
    0 < 1 - (1 - y) * E := by
  have : 0 < y * E := mul_pos hy hE
  nlinarith

/-- A positive real number other than 1 is moved by a power with an exponent
below 1. -/
theorem rpow_ne_self (u k : ℝ) (hu : 0 < u) (hu1 : u ≠ 1) (hk : k < 1) : u ^ k ≠ u := by
  rcases lt_or_gt_of_ne hu1 with h | h
  · have := Real.rpow_lt_rpow_of_exponent_gt hu h hk
    rw [Real.rpow_one] at this
    exact ne_of_gt this
  · have := Real.rpow_lt_rpow_of_exponent_lt h hk
    rw [Real.rpow_one] at this
    exact ne_of_lt this

/-- A positive real number other than 1 has no positive power equal to 1. -/
theorem rpow_ne_one (x c : ℝ) (hx : 0 < x) (hx1 : x ≠ 1) (hc : 0 < c) : x ^ c ≠ 1 := by
  rcases lt_or_gt_of_ne hx1 with h | h
  · exact ne_of_lt (Real.rpow_lt_one (le_of_lt hx) h hc)
  · exact ne_of_gt (Real.one_lt_rpow h hc)

/-- The exponential factor of `hu_garcia_h` is at most 1 from the age 0.5 on. -/
theorem hu_garcia_exp_le_one (q b : ℝ) (hq : 0 < q) (hb : 0.5 ≤ b) :
    Real.exp (-q * (b - 0.5)) ≤ 1 := by
  rw [Real.exp_le_one_iff, neg_mul]
  exact neg_nonpos.mpr (mul_nonneg (le_of_lt hq) (sub_nonneg.mpr hb))

/-- The core of the round trip: with an exponent `k` strictly between 0 and 1 in
place of 1, the logarithm formula of the age gives a different value. -/
theorem hu_garcia_round_trip_core (q c y E k : ℝ) (hq : 0 < q) (hy : 0 < y) (hy1 : y ≠ 1)
    (hE : 0 < E) (hE1 : E ≤ 1) (hk0 : 0 < k) (hk : k < 1) :
    c - 1 / q * Real.log ((1 - (1 - (1 - y) * E) ^ k) / (1 - y)) ≠
      c - 1 / q * Real.log ((1 - (1 - (1 - y) * E)) / (1 - y)) := by
  have hu := hu_garcia_base_pos y E hy hE hE1
  generalize hud : 1 - (1 - y) * E = u at *
  have hu1 : u ≠ 1 := by
    intro h
    rw [← hud] at h
    have : (1 - y) * E = 0 := by linarith
    rcases mul_eq_zero.mp this with h1 | h1
    · exact hy1 (by linarith)
    · exact ne_of_gt hE h1
  have hpne := rpow_ne_self u k hu hu1 hk
  have hne : 1 - y ≠ 0 := sub_ne_zero.mpr (Ne.symm hy1)
  have hR1 : 0 < (1 - u ^ k) / (1 - y) := by
    rcases lt_or_gt_of_ne hy1 with h | h
    · have hlt : u < 1 := by
        rw [← hud]
        have : 0 < (1 - y) * E := mul_pos (by linarith) hE
        linarith
      have := Real.rpow_lt_one (le_of_lt hu) hlt hk0
      exact div_pos (by linarith) (by linarith)
    · have hgt : 1 < u := by
        rw [← hud]
        have : (1 - y) * E < 0 := mul_neg_of_neg_of_pos (by linarith) hE
        linarith
      have := Real.one_lt_rpow hgt hk0
      exact div_pos_of_neg_of_neg (by linarith) (by linarith)
  have hR2 : 0 < (1 - u) / (1 - y) := by
    have : (1 - u) / (1 - y) = E := by
      rw [← hud, sub_sub_cancel, mul_div_cancel_left₀ _ hne]
    rw [this]
    exact hE
  intro heq
  have hlog : Real.log ((1 - u ^ k) / (1 - y)) = Real.log ((1 - u) / (1 - y)) := by
    have h1 : 1 / q * Real.log ((1 - u ^ k) / (1 - y)) =
        1 / q * Real.log ((1 - u) / (1 - y)) := by linarith
    exact mul_left_cancel₀ (ne_of_gt (one_div_pos.mpr hq)) h1
  have hinj := Real.log_injOn_pos (Set.mem_Ioi.mpr hR1) (Set.mem_Ioi.mpr hR2) hlog
  rw [div_left_inj' hne] at hinj
  exact hpne (by linarith)

/-- The product of the two exponents of the Hu and Garcia functions is not 1. -/
theorem hu_garcia_exponents : (1.71556 : ℝ) * 0.5829 = 0.999999924 ∧
    (0.5829 : ℝ) * 1.71556 = 0.999999924 ∧ (0.999999924 : ℝ) < 1 := by
  norm_num

/-- Round trip of the Hu and Garcia functions over the real numbers, as computed:
the inverse applied to the forward height is the formula of the age with the power
`0.999999924` of the base `u` in place of `u`. -/
theorem hu_garcia_round_trip_formula (q b : ℝ) (hq : 0 < q) (hb : 0.5 ≤ b) :
    0 < 1 - (1 - (1.3 / (283.9 * q ^ (0.5137 : ℝ))) ^ (0.5829 : ℝ)) *
        Real.exp (-q * (b - 0.5)) ∧
    hu_garcia_bha Extern.real q (hu_garcia_h Extern.real q b) =
      0.5 - 1 / q * Real.log
        ((1 - (1 - (1 - (1.3 / (283.9 * q ^ (0.5137 : ℝ))) ^ (0.5829 : ℝ)) *
            Real.exp (-q * (b - 0.5))) ^ (0.999999924 : ℝ)) /
          (1 - (1.3 / (283.9 * q ^ (0.5137 : ℝ))) ^ (0.5829 : ℝ))) := by
  have ha := (hu_garcia_a_pos q hq).1
  have hy := (hu_garcia_a_pos q hq).2.2
  have hE : 0 < Real.exp (-q * (b - 0.5)) := Real.exp_pos _
  have hE1 := hu_garcia_exp_le_one q b hq hb
  have hu := hu_garcia_base_pos _ _ hy hE hE1
  refine ⟨hu, ?_⟩
  rw [hu_garcia_bha_real, hu_garcia_h_real, mul_div_cancel_left₀ _ (ne_of_gt ha),
    ← Real.rpow_mul (le_of_lt hu), hu_garcia_exponents.1]

/-- The age `b` in terms of the base `u` of the forward function. -/
theorem hu_garcia_age_formula (q b : ℝ) (hq : 0 < q)
    (ha : 283.9 * q ^ (0.5137 : ℝ) ≠ 1.3) :
    (1.3 / (283.9 * q ^ (0.5137 : ℝ))) ^ (0.5829 : ℝ) ≠ 1 ∧
    (1 - (1 - (1 - (1.3 / (283.9 * q ^ (0.5137 : ℝ))) ^ (0.5829 : ℝ)) *
        Real.exp (-q * (b - 0.5)))) /
      (1 - (1.3 / (283.9 * q ^ (0.5137 : ℝ))) ^ (0.5829 : ℝ)) = Real.exp (-q * (b - 0.5)) ∧
    b = 0.5 - 1 / q * Real.log
        ((1 - (1 - (1 - (1.3 / (283.9 * q ^ (0.5137 : ℝ))) ^ (0.5829 : ℝ)) *
            Real.exp (-q * (b - 0.5)))) /
          (1 - (1.3 / (283.9 * q ^ (0.5137 : ℝ))) ^ (0.5829 : ℝ))) := by
  have hapos := (hu_garcia_a_pos q hq).1
  have hx := (hu_garcia_a_pos q hq).2.1
  have hy1 : (1.3 / (283.9 * q ^ (0.5137 : ℝ))) ^ (0.5829 : ℝ) ≠ 1 := by
    refine rpow_ne_one _ 0.5829 hx ?_ (by norm_num)
    intro h
    rw [div_eq_one_iff_eq (ne_of_gt hapos)] at h
    exact ha h.symm
  have hne : 1 - (1.3 / (283.9 * q ^ (0.5137 : ℝ))) ^ (0.5829 : ℝ) ≠ 0 :=
    sub_ne_zero.mpr (Ne.symm hy1)
  have hR : (1 - (1 - (1 - (1.3 / (283.9 * q ^ (0.5137 : ℝ))) ^ (0.5829 : ℝ)) *
        Real.exp (-q * (b - 0.5)))) /
      (1 - (1.3 / (283.9 * q ^ (0.5137 : ℝ))) ^ (0.5829 : ℝ)) = Real.exp (-q * (b - 0.5)) := by
    rw [sub_sub_cancel, mul_div_cancel_left₀ _ hne]
  refine ⟨hy1, hR, ?_⟩
  rw [hR, Real.log_exp]
  field_simp
  ring

/-- The round trip of the Hu and Garcia functions over the real numbers is not
exact: the inverse applied to the forward height differs from the age. -/
theorem hu_garcia_round_trip_ne (q b : ℝ) (hq : 0 < q) (hb : 0.5 ≤ b)
    (ha : 283.9 * q ^ (0.5137 : ℝ) ≠ 1.3) :
    hu_garcia_bha Extern.real q (hu_garcia_h Extern.real q b) ≠ b := by
  obtain ⟨_, hf⟩ := hu_garcia_round_trip_formula q b hq hb
  obtain ⟨hy1, _, hbf⟩ := hu_garcia_age_formula q b hq ha
  intro heq
  exact hu_garcia_round_trip_core q 0.5 _ _ 0.999999924 hq (hu_garcia_a_pos q hq).2.2 hy1
    (Real.exp_pos _) (hu_garcia_exp_le_one q b hq hb) (by norm_num) (by norm_num)
    (hf.symm.trans (heq.trans hbf))

/-- The forward height at the breast-height age 0.5 over the real numbers: it is
`a * (1.3 / a) ^ 0.999999924`, which is 1.3 only when `a = 1.3`. -/
theorem hu_garcia_h_half (q : ℝ) (hq : 0 < q) :
    hu_garcia_h Extern.real q 0.5 =
      283.9 * q ^ (0.5137 : ℝ) * (1.3 / (283.9 * q ^ (0.5137 : ℝ))) ^ (0.999999924 : ℝ) ∧
    (283.9 * q ^ (0.5137 : ℝ) ≠ 1.3 → hu_garcia_h Extern.real q 0.5 ≠ 1.3) := by
  have hapos := (hu_garcia_a_pos q hq).1
  have hx := (hu_garcia_a_pos q hq).2.1
  have h1 : hu_garcia_h Extern.real q 0.5 =
      283.9 * q ^ (0.5137 : ℝ) * (1.3 / (283.9 * q ^ (0.5137 : ℝ))) ^ (0.999999924 : ℝ) := by
    rw [hu_garcia_h_real, sub_self, mul_zero, Real.exp_zero, mul_one, sub_sub_cancel,
      ← Real.rpow_mul (le_of_lt hx), hu_garcia_exponents.2.1]
  refine ⟨h1, fun ha => ?_⟩
  rw [h1]
  have hx1 : 1.3 / (283.9 * q ^ (0.5137 : ℝ)) ≠ 1 := by
    intro h
    rw [div_eq_one_iff_eq (ne_of_gt hapos)] at h
    exact ha h.symm
  have hp := rpow_ne_self _ 0.999999924 hx hx1 (by norm_num)
  intro h
  apply hp
  rw [eq_div_iff (ne_of_gt hapos), mul_comm]
  exact h

/-- C31, counterexample: over the real numbers, for `q = 1` and the breast-height
age `b = 0.5` the forward height is not 1.3 (it is above 1.3) and the inverse
applied to it is not 0.5: the exponents 1.71556 and 0.5829 are not reciprocal. -/
theorem hu_garcia_round_trip_fails :
    (0 : ℝ) < 1 ∧ (0.5 : ℝ) ≤ 0.5 ∧
    hu_garcia_h Extern.real 1 0.5 ≠ 1.3 ∧
    hu_garcia_bha Extern.real 1 (hu_garcia_h Extern.real 1 0.5) ≠ 0.5 := by
  have ha : (283.9 : ℝ) * (1 : ℝ) ^ (0.5137 : ℝ) ≠ 1.3 := by
    rw [Real.one_rpow]
    norm_num
  exact ⟨by norm_num, le_refl _, (hu_garcia_h_half 1 (by norm_num)).2 ha,
    hu_garcia_round_trip_ne 1 0.5 (by norm_num) (le_refl _) ha⟩

/-- C31, amended: over the real numbers, for every `q > 0` and breast-height age
`b ≥ 0.5` with `a = 283.9 q ^ 0.5137` different from 1.3, the inverse
`hu_garcia_bha` applied to the forward height `hu_garcia_h q b` is
`0.5 - (1 / q) log ((1 - u ^ 0.999999924) / (1 - y))`, where `y = (1.3 / a) ^ 0.5829`
and `u = 1 - (1 - y) exp (-q (b - 0.5)) > 0`, whereas `b` itself is
`0.5 - (1 / q) log ((1 - u) / (1 - y))`: the inverse undoes the forward function
only up to the product `1.71556 * 0.5829 = 0.999999924` of the exponents, and the
round trip never returns `b` exactly; likewise `hu_garcia_h q 0.5` is
`a (1.3 / a) ^ 0.999999924` and not 1.3. -/
theorem hu_garcia_round_trip (q b : ℝ) (hq : 0 < q) (hb : 0.5 ≤ b)
    (ha : 283.9 * q ^ (0.5137 : ℝ) ≠ 1.3) :
    0 < 1 - (1 - (1.3 / (283.9 * q ^ (0.5137 : ℝ))) ^ (0.5829 : ℝ)) *
        Real.exp (-q * (b - 0.5)) ∧
    hu_garcia_bha Extern.real q (hu_garcia_h Extern.real q b) =
      0.5 - 1 / q * Real.log
        ((1 - (1 - (1 - (1.3 / (283.9 * q ^ (0.5137 : ℝ))) ^ (0.5829 : ℝ)) *
            Real.exp (-q * (b - 0.5))) ^ (0.999999924 : ℝ)) /
          (1 - (1.3 / (283.9 * q ^ (0.5137 : ℝ))) ^ (0.5829 : ℝ))) ∧
    b = 0.5 - 1 / q * Real.log
        ((1 - (1 - (1 - (1.3 / (283.9 * q ^ (0.5137 : ℝ))) ^ (0.5829 : ℝ)) *
            Real.exp (-q * (b - 0.5)))) /
          (1 - (1.3 / (283.9 * q ^ (0.5137 : ℝ))) ^ (0.5829 : ℝ))) ∧
    (1.71556 : ℝ) * 0.5829 = 0.999999924 ∧
    hu_garcia_bha Extern.real q (hu_garcia_h Extern.real q b) ≠ b ∧
    hu_garcia_h Extern.real q 0.5 =
      283.9 * q ^ (0.5137 : ℝ) * (1.3 / (283.9 * q ^ (0.5137 : ℝ))) ^ (0.999999924 : ℝ) ∧
    hu_garcia_h Extern.real q 0.5 ≠ 1.3 :=
  ⟨(hu_garcia_round_trip_formula q b hq hb).1, (hu_garcia_round_trip_formula q b hq hb).2,
    (hu_garcia_age_formula q b hq ha).2.2, hu_garcia_exponents.1,
    hu_garcia_round_trip_ne q b hq hb ha, (hu_garcia_h_half q hq).1,
    (hu_garcia_h_half q hq).2 ha⟩

/-- Witness of C31 (amended), at `q = 1` and the breast-height age 50. -/
theorem hu_garcia_round_trip_witness :
    (0 : ℝ) < 1 ∧ (0.5 : ℝ) ≤ 50 ∧ (283.9 : ℝ) * (1 : ℝ) ^ (0.5137 : ℝ) ≠ 1.3 ∧
    hu_garcia_bha Extern.real 1 (hu_garcia_h Extern.real 1 50) ≠ 50 :=
  have ha : (283.9 : ℝ) * (1 : ℝ) ^ (0.5137 : ℝ) ≠ 1.3 := by
    rw [Real.one_rpow]
    norm_num
  ⟨by norm_num, by norm_num, ha,
    (hu_garcia_round_trip 1 50 (by norm_num) (by norm_num) ha).2.2.2.2.1⟩

end HuGarciaReal

section GoudieBreast

/-- The closed-form inverse of the `GOUDIE` arm of `index_to_age` for a
breast-height age, at a height of at least 1.3: for each of its five curves the
coefficients are those of the `GOUDIE` arm of `index_to_height`, and no `y2bh` is
added. -/
theorem goudie_closed_form_breast {α : Type} [LinearOrderedField α] (M : Extern α)
    (cu : ℤ) (hcu : cu ∈ goudie_closed_form) :
    ∃ c1 c2 c3 : α, c3 < 0 ∧
      (∀ tage bhage site_index y2bh : α, 0 < bhage →
        si2ht_GOUDIE M cu tage bhage site_index y2bh =
          1.3 + (site_index - 1.3) *
            ((1 + M.exp (c2 + c1 * LLOG M (site_index - 1.3) + c3 * M.log 50)) /
             (1 + M.exp (c2 + c1 * LLOG M (site_index - 1.3) + c3 * M.log bhage)))) ∧
      (∀ site_height site_index y2bh : α, 1.3 ≤ site_height →
        si2age_GOUDIE M cu site_height SI_AT_BREAST site_index y2bh =
          if M.exp ((LLOG M ((site_index - 1.3) *
                (1 + M.exp (c2 + c1 * LLOG M (site_index - 1.3) + c3 * M.log 50))
                / (site_height - 1.3) - 1)
              - (c2 + c1 * LLOG M (site_index - 1.3))) / c3) < 0 then 0
          else if M.exp ((LLOG M ((site_index - 1.3) *
                (1 + M.exp (c2 + c1 * LLOG M (site_index - 1.3) + c3 * M.log 50))
                / (site_height - 1.3) - 1)
              - (c2 + c1 * LLOG M (site_index - 1.3))) / c3) > MAX_AGE
            then SI_ERR_NO_ANS
          else M.exp ((LLOG M ((site_index - 1.3) *
                (1 + M.exp (c2 + c1 * LLOG M (site_index - 1.3) + c3 * M.log 50))
                / (site_height - 1.3) - 1)
              - (c2 + c1 * LLOG M (site_index - 1.3))) / c3)) := by
  have h50 : (50.0 : α) = 50 := by norm_num
  have h1 : (1.0 : α) = 1 := by norm_num
  simp only [goudie_closed_form, List.mem_cons, List.not_mem_nil, or_false] at hcu
  rcases hcu with h | h | h | h | h <;> subst h
  · refine ⟨-1.00726, 7.81498, -1.28517, by norm_num, fun tage bhage s y hb => ?_,
      fun h s y hh => ?_⟩
    · have hb2 : bhage > 0.0 := by rw [zero_literal]; exact hb
      simp [si2ht_GOUDIE, hb2, h50, h1]
    · simp [si2age_GOUDIE, not_lt.mpr hh, h50]
  · refine ⟨-0.935, 7.81498, -1.28517, by norm_num, fun tage bhage s y hb => ?_,
      fun h s y hh => ?_⟩
    · have hb2 : bhage > 0.0 := by rw [zero_literal]; exact hb
      simp [si2ht_GOUDIE, hb2, h50, h1]
    · simp [si2age_GOUDIE, not_lt.mpr hh, h50]
  · refine ⟨-1.5282, 11.0605, -1.5108, by norm_num, fun tage bhage s y hb => ?_,
      fun h s y hh => ?_⟩
    · have hb2 : bhage > 0.0 := by rw [zero_literal]; exact hb
      simp [si2ht_GOUDIE, hb2, h50, h1]
    · simp [si2age_GOUDIE, not_lt.mpr hh, h50]
  · refine ⟨-1.2866, 9.7936, -1.4661, by norm_num, fun tage bhage s y hb => ?_,
      fun h s y hh => ?_⟩
    · have hb2 : bhage > 0.0 := by rw [zero_literal]; exact hb
      simp [si2ht_GOUDIE, hb2, h50, h1]
    · simp [si2age_GOUDIE, not_lt.mpr hh, h50]
  · refine ⟨-1.2866, 9.7936, -1.4661, by norm_num, fun tage bhage s y hb => ?_,
      fun h s y hh => ?_⟩
    · have hb2 : bhage > 0.0 := by rw [zero_literal]; exact hb
      simp [si2ht_GOUDIE, hb2, h50, h1]
    · simp [si2age_GOUDIE, not_lt.mpr hh, h50]

/-- The Goudie family for a positive breast-height age: the height is the value of
the `GOUDIE` arm at that age (the total age is the age plus the normalised
`y2bh`). -/
theorem index_to_height_goudie_breast {α : Type} [LinearOrderedField α] [FloorRing α]
    (M : Extern α) (fuel : ℕ) (cu : ℤ)
    (b site_index y2bh pi : α) (hcu : cu ∈ goudie_family) (hsi : 1.3 ≤ site_index)
    (hy : 0 ≤ y2bh) (hb : 0 < b) :
    index_to_height M fuel cu b SI_AT_BREAST site_index y2bh pi
      = some (si2ht_GOUDIE M cu (b + ((⌊y2bh⌋ : α) + 0.5)) b site_index
          ((⌊y2bh⌋ : α) + 0.5)) := by
  have hY := half_le_c_int_add_half y2bh hy
  rw [c_int_of_nonneg y2bh hy] at hY
  have h05 : (0 : α) < 0.5 := by norm_num
  have h5 : (0.00001 : α) < 0.5 := by norm_num
  have hoff : age_offset_ref cu ((⌊y2bh⌋ : α) + 0.5) = (⌊y2bh⌋ : α) + 0.5 := by
    unfold age_offset_ref
    rw [if_neg (goudie_not_half_year cu hcu)]
  rw [index_to_height_of_ge M fuel cu b SI_AT_BREAST site_index y2bh pi hsi,
    index_to_height_ages_breast, c_int_of_nonneg y2bh hy, age_to_age_breast_total, hoff,
    max_eq_right (by linarith), if_neg (not_lt.mpr (by linarith)),
    if_neg (not_lt.mpr (by linarith)),
    index_to_height_switch_goudie M _ fuel cu _ _ _ _ _ pi hcu]

/-- C38, amended: round trip with a breast-height age for the Goudie curves
inverted in closed form, in exact real arithmetic (the functions of real analysis
as math library): for each of `SI_PLI_GOUDIE_DRY`,
`SI_PLI_GOUDIE_WET`, `SI_SS_GOUDIE`, `SI_SW_GOUDIE_PLA`, `SI_SW_GOUDIE_NAT`, every
`site_index > 1.3`, `y2bh ≥ 0` and breast-height age `0 < b ≤ 999` (and every growth
proportion, 0 included), `index_to_height` returns a height `h` and `index_to_age`
applied to `h` returns `b`. -/
theorem index_to_age_goudie_breast_round_trip (fuel fuel2 : ℕ) (cu : ℤ)
    (site_index y2bh b pi : ℝ) (hcu : cu ∈ goudie_closed_form) (hsi : 1.3 < site_index)
    (hy : 0 ≤ y2bh) (hb : 0 < b) (hmax : b ≤ 999) :
    ∃ h : ℝ,
      index_to_height Extern.real fuel cu b SI_AT_BREAST site_index y2bh pi = some h ∧
      index_to_age Extern.real fuel2 cu h SI_AT_BREAST site_index y2bh = some b := by
  obtain ⟨c1, c2, c3, hc3, hf, hi⟩ := goudie_closed_form_breast Extern.real cu hcu
  have hs : 0 < site_index - 1.3 := by linarith
  rw [index_to_height_goudie_breast Extern.real fuel cu b site_index y2bh pi
    (goudie_closed_form_subset cu hcu) (le_of_lt hsi) hy hb, hf _ _ _ _ hb]
  refine ⟨_, rfl, ?_⟩
  simp only [Extern.real_exp, Extern.real_log]
  generalize hK : c2 + c1 * LLOG Extern.real (site_index - 1.3) = K
  have hN : 0 < 1 + Real.exp (K + c3 * Real.log 50) := by positivity
  have hE : 0 < 1 + Real.exp (K + c3 * Real.log b) := by positivity
  have hh : (1.3 : ℝ) ≤ 1.3 + (site_index - 1.3) *
      ((1 + Real.exp (K + c3 * Real.log 50)) / (1 + Real.exp (K + c3 * Real.log b))) := by
    have : 0 < (site_index - 1.3) *
      ((1 + Real.exp (K + c3 * Real.log 50)) / (1 + Real.exp (K + c3 * Real.log b))) := by
      positivity
    linarith
  rw [index_to_age_of_ge Extern.real fuel2 cu _ SI_AT_BREAST site_index y2bh hh
    (le_of_lt hsi), index_to_age_switch_goudie Extern.real fuel2 cu _ SI_AT_BREAST
    site_index y2bh hcu, hi _ _ _ hh]
  simp only [Extern.real_exp, Extern.real_log, hK]
  have hratio := logistic_invert (site_index - 1.3) (1 + Real.exp (K + c3 * Real.log 50))
    (Real.exp (K + c3 * Real.log b)) (ne_of_gt hs) (ne_of_gt hN)
  rw [hratio, LLOG_real_of_pos _ (Real.exp_pos _), Real.log_exp]
  have hdiv : (K + c3 * Real.log b - K) / c3 = Real.log b := by
    rw [add_sub_cancel_left, mul_div_cancel_left₀ _ (ne_of_lt hc3)]
  rw [hdiv, Real.exp_log hb, if_neg (not_lt.mpr (le_of_lt hb)), if_neg]
  unfold MAX_AGE
  have : (999.0 : ℝ) = 999 := by norm_num
  rw [this]
  exact not_lt.mpr hmax

/-- Witness of C38: `SI_SW_GOUDIE_NAT`, site index 20, `y2bh = 7.2`, breast-height
age 30, growth proportion 0. -/
theorem index_to_age_goudie_breast_round_trip_witness :
    SI_SW_GOUDIE_NAT ∈ goudie_closed_form ∧ (1.3 : ℝ) < 20 ∧ (0 : ℝ) ≤ 7.2 ∧
    (0 : ℝ) < 30 ∧ (30 : ℝ) ≤ 999 ∧
    ∃ h : ℝ,
      index_to_height Extern.real 0 SI_SW_GOUDIE_NAT 30 SI_AT_BREAST 20 7.2 0 = some h ∧
      index_to_age Extern.real 0 SI_SW_GOUDIE_NAT h SI_AT_BREAST 20 7.2 = some 30 :=
  ⟨by simp [goudie_closed_form], by norm_num, by norm_num, by norm_num, by norm_num,
    index_to_age_goudie_breast_round_trip 0 0 SI_SW_GOUDIE_NAT 20 7.2 30 0
      (by simp [goudie_closed_form]) (by norm_num) (by norm_num) (by norm_num)
      (by norm_num)⟩

end GoudieBreast

section Binary64

/-- The binary logarithm, rounded down, of a positive rational between two
consecutive powers of 2. -/
theorem int_log_two_eq (x : ℚ) (e : ℤ) (h0 : 0 < x) (h1 : (2 : ℚ) ^ e ≤ x)
    (h2 : x < 2 ^ (e + 1)) : Int.log 2 x = e := by
  apply le_antisymm
  · have := (Int.lt_zpow_iff_log_lt (b := 2) (by norm_num) h0 (x := e + 1)).mp
      (by exact_mod_cast h2)
    omega
  · exact (Int.zpow_le_iff_le_log (b := 2) (by norm_num) h0).mp (by exact_mod_cast h1)

/-- Rounding to the nearest integer, from the integer part. -/
theorem round_even_eval (x : ℚ) (f : ℤ) (h1 : (f : ℚ) ≤ x) (h2 : x < f + 1) :
    round_even x = if x - f < 1 / 2 then f
      else if x - f > 1 / 2 then f + 1
      else if f % 2 = 0 then f else f + 1 := by
  have hf : ⌊x⌋ = f := Int.floor_eq_iff.mpr ⟨h1, h2⟩
  unfold round_even
  rw [hf]

/-- The double of a positive rational `x` with `2^e ≤ x < 2^(e+1)`, from the integer
part `f` of `x / 2^(e-52)`. -/
theorem binary64_eval (x : ℚ) (e f : ℤ) (h1 : (2 : ℚ) ^ e ≤ x) (h2 : x < 2 ^ (e + 1))
    (h3 : (f : ℚ) ≤ x / 2 ^ (e - 52)) (h4 : x / 2 ^ (e - 52) < f + 1) :
    binary64 x = ((if x / 2 ^ (e - 52) - f < 1 / 2 then f
      else if x / 2 ^ (e - 52) - f > 1 / 2 then f + 1
      else if f % 2 = 0 then f else f + 1 : ℤ) : ℚ) * 2 ^ (e - 52) := by
  have hpos : 0 < x := lt_of_lt_of_le (by positivity) h1
  unfold binary64
  rw [if_neg (ne_of_gt hpos), abs_of_pos hpos, int_log_two_eq x e hpos h1 h2,
    round_even_eval _ f h3 h4]

/-- Rounding to the nearest integer does not go below the integer part. -/
theorem floor_le_round_even (x : ℚ) : ⌊x⌋ ≤ round_even x := by
  unfold round_even
  split_ifs <;> omega

/-- The double of a positive number is positive. -/
theorem binary64_pos (x : ℚ) (hx : 0 < x) : 0 < binary64 x := by
  unfold binary64
  rw [if_neg (ne_of_gt hx), abs_of_pos hx]
  have h1 : (2 : ℚ) ^ Int.log 2 x ≤ x := by
    have := Int.zpow_log_le_self (b := 2) (by norm_num) hx
    exact_mod_cast this
  have hu : (0 : ℚ) < 2 ^ (Int.log 2 x - 52) := by positivity
  have h2 : (1 : ℚ) ≤ x / 2 ^ (Int.log 2 x - 52) := by
    rw [le_div_iff₀ hu, one_mul]
    refine le_trans ?_ h1
    exact zpow_le_zpow_right₀ (by norm_num) (by omega)
  have h3 : (1 : ℤ) ≤ ⌊x / 2 ^ (Int.log 2 x - 52)⌋ := Int.le_floor.mpr (by exact_mod_cast h2)
  have h4 := floor_le_round_even (x / 2 ^ (Int.log 2 x - 52))
  have h5 : (0 : ℚ) < (round_even (x / 2 ^ (Int.log 2 x - 52)) : ℚ) := by
    exact_mod_cast (by omega : (0 : ℤ) < round_even (x / 2 ^ (Int.log 2 x - 52)))
  exact mul_pos h5 hu

/-- The double of the literal `1.3`. -/
theorem binary64_1_3 : binary64 (1.3) = 5854679515581645 / 2 ^ 52 := by
  rw [binary64_eval _ (0) 5854679515581644 (by norm_num) (by norm_num) (by norm_num) (by norm_num)]
  norm_num

/-- The double of the literal `3.4`. -/
theorem binary64_3_4 : binary64 (3.4) = 7656119366529843 / 2 ^ 51 := by
  rw [binary64_eval _ (1) 7656119366529843 (by norm_num) (by norm_num) (by norm_num) (by norm_num)]
  norm_num

/-- The double difference `3.4 - 1.3`: a tie, rounded to the even neighbour. -/
theorem binary64_3_4_sub_1_3 :
    binary64 (7656119366529843 / 2 ^ 51 - 5854679515581645 / 2 ^ 52) =
      1182194902184755 / 2 ^ 49 := by
  rw [binary64_eval _ (1) 4728779608739020 (by norm_num) (by norm_num) (by norm_num) (by norm_num)]
  norm_num

/-- The double product `(3.4 - 1.3) * 1.0`. -/
theorem binary64_diff_mul_1 :
    binary64 (1182194902184755 / 2 ^ 49 * 1) =
      1182194902184755 / 2 ^ 49 := by
  rw [binary64_eval _ (1) 4728779608739020 (by norm_num) (by norm_num) (by norm_num) (by norm_num)]
  norm_num

/-- The double sum `1.3 + (3.4 - 1.3) * 1.0`: a tie, rounded to the even neighbour. -/
theorem binary64_1_3_add :
    binary64 (5854679515581645 / 2 ^ 52 + 1182194902184755 / 2 ^ 49) =
      3828059683264921 / 2 ^ 50 := by
  rw [binary64_eval _ (1) 7656119366529842 (by norm_num) (by norm_num) (by norm_num) (by norm_num)]
  norm_num

/-- The double of the literal `6.5`. -/
theorem binary64_6_5 : binary64 (6.5) = 13 / 2 ^ 1 := by
  rw [binary64_eval _ (2) 7318349394477056 (by norm_num) (by norm_num) (by norm_num) (by norm_num)]
  norm_num

/-- The double product `6.5 * 6.5`. -/
theorem binary64_ramp_1 : binary64 (13 / 2 * (13 / 2)) = 169 / 2 ^ 2 := by
  rw [binary64_eval _ (5) 5946158883012608 (by norm_num) (by norm_num) (by norm_num) (by norm_num)]
  norm_num

/-- The double product `6.5 * 6.5 * 1.3`. -/
theorem binary64_ramp_2 :
    binary64 (169 / 2 ^ 2 * (5854679515581645 / 2 ^ 52)) =
      7730006547916391 / 2 ^ 47 := by
  rw [binary64_eval _ (5) 7730006547916390 (by norm_num) (by norm_num) (by norm_num) (by norm_num)]
  norm_num

/-- The double quotient `6.5 * 6.5 * 1.3 / 6.5`. -/
theorem binary64_ramp_3 :
    binary64 (7730006547916391 / 2 ^ 47 / (13 / 2)) =
      4756927106410087 / 2 ^ 49 := by
  rw [binary64_eval _ (3) 4756927106410086 (by norm_num) (by norm_num) (by norm_num) (by norm_num)]
  norm_num

/-- The double quotient `6.5 * 6.5 * 1.3 / 6.5 / 6.5`. -/
theorem binary64_ramp_4 :
    binary64 (4756927106410087 / 2 ^ 49 / (13 / 2)) =
      2927339757790823 / 2 ^ 51 := by
  rw [binary64_eval _ (0) 5854679515581645 (by norm_num) (by norm_num) (by norm_num) (by norm_num)]
  norm_num

/-- The double of 1. -/
theorem binary64_one : binary64 (1) = 1 := by
  rw [binary64_eval _ (0) 4503599627370496 (by norm_num) (by norm_num) (by norm_num) (by norm_num)]
  norm_num

/-- The double of 50. -/
theorem binary64_50 : binary64 (50) = 50 := by
  rw [binary64_eval _ (5) 7036874417766400 (by norm_num) (by norm_num) (by norm_num) (by norm_num)]
  norm_num

/-- With the identity as rounding the rounded `GOUDIE` arm is the arm
`si2ht_GOUDIE` itself. -/
theorem si2ht_GOUDIE_rounded_id {α : Type} [LinearOrderedField α] (M : Extern α) (cu : ℤ)
    (tage bhage site_index y2bh : α) :
    si2ht_GOUDIE_rounded id M cu tage bhage site_index y2bh
      = si2ht_GOUDIE M cu tage bhage site_index y2bh := by
  unfold si2ht_GOUDIE_rounded si2ht_GOUDIE LLOG_rounded LLOG
  simp only [id]

/-- C10, counterexample: in the arithmetic of the C type `double` the ramp of the
`GOUDIE` arm at the total age `t = Y = 6.5` (breast-height age 0, the call
`index_to_height (SI_SW_GOUDIE_NAT, 6.5, SI_AT_TOTAL, 20, 6, pi)`) is
`6.5 * 6.5 * 1.3 / 6.5 / 6.5 = 2927339757790823 / 2^51 = 1.3000000000000003`, the
double next above the double `5854679515581645 / 2^52` of `1.3`. -/
theorem index_to_height_goudie_ramp_rounded :
    binary64 1.3 = 5854679515581645 / 2 ^ 52 ∧
    si2ht_GOUDIE_rounded binary64 Extern.crude SI_SW_GOUDIE_NAT 6.5 0 20 6.5
      = 2927339757790823 / 2 ^ 51 ∧
    (2927339757790823 / 2 ^ 51 : ℚ) ≠ 5854679515581645 / 2 ^ 52 := by
  refine ⟨binary64_1_3, ?_, by norm_num⟩
  have h0 : binary64 0.0 = 0 := by
    unfold binary64
    rw [if_pos (by norm_num)]
  have h65 : (6.5 : ℚ) = 13 / 2 := by norm_num
  unfold si2ht_GOUDIE_rounded
  rw [h0, if_neg (lt_irrefl 0), h65, binary64_1_3, binary64_ramp_1, binary64_ramp_2,
    binary64_ramp_3, binary64_ramp_4]

/-- C12, counterexample: in the arithmetic of the C type `double` the `GOUDIE` arm at
the breast-height age 50 does not return the site index.  For the site index 3.4,
the double `7656119366529843 / 2^51` (the call
`index_to_height (SI_SW_GOUDIE_NAT, 50, SI_AT_BREAST, 3.4, 5, pi)`, which reaches the
arm with the total age 55.5 and `y2bh = 5.5`), numerator and denominator of `x1` are
the same double, `x1 = 1.0`, and `1.3 + (3.4 - 1.3) * 1.0` is
`3828059683264921 / 2^50 = 3.3999999999999995`, the double next below 3.4, for every
`exp` without negative values. -/
theorem index_to_height_logistic_at_50_rounded :
    binary64 3.4 = 7656119366529843 / 2 ^ 51 ∧
    (∀ M : Extern ℚ, (∀ x : ℚ, 0 ≤ M.exp x) →
      si2ht_GOUDIE_rounded binary64 M SI_SW_GOUDIE_NAT 55.5 50 (binary64 3.4) 5.5
        = 3828059683264921 / 2 ^ 50) ∧
    (3828059683264921 / 2 ^ 50 : ℚ) ≠ 7656119366529843 / 2 ^ 51 := by
  refine ⟨binary64_3_4, fun M hM => ?_, by norm_num⟩
  have h0 : binary64 0.0 = 0 := by
    unfold binary64
    rw [if_pos (by norm_num)]
  have h50 : binary64 50.0 = 50 := by
    have : (50.0 : ℚ) = 50 := by norm_num
    rw [this, binary64_50]
  have h1 : binary64 1.0 = 1 := by
    have : (1.0 : ℚ) = 1 := by norm_num
    rw [this, binary64_one]
  unfold si2ht_GOUDIE_rounded
  rw [h0, if_pos (by norm_num), h50, h1]
  dsimp only
  generalize hE0 : M.exp _ = E
  have hE : 0 < binary64 (1 + E) := by
    have h2 : 0 ≤ E := hE0 ▸ hM _
    exact binary64_pos _ (by linarith)
  rw [div_self (ne_of_gt hE), binary64_one, binary64_3_4, binary64_1_3, binary64_3_4_sub_1_3,
    binary64_diff_mul_1, binary64_1_3_add]

/-- A multiple `k * 2^(e-52)` with `2^52 ≤ k < 2^53` is a double: rounding leaves it
as it is. -/
theorem binary64_exact (k e : ℤ) (h1 : 2 ^ 52 ≤ k) (h2 : k < 2 ^ 53) :
    binary64 ((k : ℚ) * 2 ^ (e - 52)) = (k : ℚ) * 2 ^ (e - 52) := by
  have hu : (0 : ℚ) < 2 ^ (e - 52) := by positivity
  have hk1 : ((2 : ℚ) ^ 52) ≤ (k : ℚ) := by exact_mod_cast h1
  have hk2 : (k : ℚ) < 2 ^ 53 := by exact_mod_cast h2
  have he : (2 : ℚ) ^ e = 2 ^ 52 * 2 ^ (e - 52) := by
    rw [← zpow_natCast, ← zpow_add₀ (by norm_num : (2 : ℚ) ≠ 0)]
    congr 1
    omega
  have he1 : (2 : ℚ) ^ (e + 1) = 2 ^ 53 * 2 ^ (e - 52) := by
    rw [← zpow_natCast, ← zpow_add₀ (by norm_num : (2 : ℚ) ≠ 0)]
    congr 1
    omega
  have hq : (k : ℚ) * 2 ^ (e - 52) / 2 ^ (e - 52) = k := by
    rw [mul_div_assoc, div_self (ne_of_gt hu), mul_one]
  rw [binary64_eval _ e k (by rw [he]; exact mul_le_mul_of_nonneg_right hk1 (le_of_lt hu))
    (by rw [he1]; exact mul_lt_mul_of_pos_right hk2 hu) (by rw [hq]) (by rw [hq]; linarith),
    hq, sub_self, if_pos (by norm_num)]

/-- A double `y` with `4 ≤ y < 8` is a multiple of `2^(-50)`. -/
theorem binary64_grid (y : ℚ) (h1 : 4 ≤ y) (h2 : y < 8) :
    binary64 y = (round_even (y / 2 ^ ((2 : ℤ) - 52)) : ℚ) * 2 ^ ((2 : ℤ) - 52) := by
  have hpos : 0 < y := by linarith
  unfold binary64
  rw [if_neg (ne_of_gt hpos), abs_of_pos hpos,
    int_log_two_eq y 2 hpos (by norm_num; linarith) (by norm_num; linarith)]

set_option maxRecDepth 100000 in
/-- C38, counterexample: no math library whose `log` returns doubles makes the round
trip exact.  The height returned by `index_to_height` depends on the breast-height
age `b` through `log (b)` only; there are `2^51` doubles `b` between 512 and 768
(the multiples of `2^(-43)`), but only `2^50 + 1` doubles between 6 and 7 (the
multiples of `2^(-50)`), where their logarithms lie; so two ages share their
logarithm and their height, and `index_to_age` cannot return both.  Stated for
`SI_SW_GOUDIE_NAT`, site index 20, `y2bh = 5`, growth proportion 0, with exact
arithmetic between the calls of the library.  The condition on `log` is that of a
rounded natural logarithm: `ln 512 = 6.238...` and `ln 768 = 6.644...`. -/
theorem index_to_age_goudie_breast_not_exact :
    ¬ ∃ M : Extern ℚ,
      (∀ b : ℚ, binary64 b = b → 512 ≤ b → b ≤ 768 →
        binary64 (M.log b) = M.log b ∧ 6 ≤ M.log b ∧ M.log b ≤ 7) ∧
      ∀ b : ℚ, binary64 b = b → 512 ≤ b → b ≤ 768 →
        ∃ h : ℚ, index_to_height M 0 SI_SW_GOUDIE_NAT b SI_AT_BREAST 20 5 0 = some h ∧
          index_to_age M 0 SI_SW_GOUDIE_NAT h SI_AT_BREAST 20 5 = some b := by
  rintro ⟨M, hlog, hrt⟩
  have hu : (0 : ℚ) < 2 ^ ((9 : ℤ) - 52) := by positivity
  have hb : ∀ k ∈ Finset.Ico (2 ^ 52 : ℕ) (3 * 2 ^ 51),
      512 ≤ ((k : ℤ) : ℚ) * 2 ^ ((9 : ℤ) - 52) ∧ ((k : ℤ) : ℚ) * 2 ^ ((9 : ℤ) - 52) ≤ 768 ∧
      binary64 (((k : ℤ) : ℚ) * 2 ^ ((9 : ℤ) - 52)) = ((k : ℤ) : ℚ) * 2 ^ ((9 : ℤ) - 52) := by
    intro k hk
    rw [Finset.mem_Ico] at hk
    have h1 : ((2 ^ 52 : ℕ) : ℚ) ≤ (k : ℚ) := by exact_mod_cast hk.1
    have h2 : (k : ℚ) < ((3 * 2 ^ 51 : ℕ) : ℚ) := by exact_mod_cast hk.2
    have h3 : (2 : ℚ) ^ ((9 : ℤ) - 52) = 1 / 2 ^ 43 := by norm_num
    refine ⟨?_, ?_, binary64_exact k 9 (by exact_mod_cast hk.1) (by
      have : k < 2 ^ 53 := lt_trans hk.2 (by norm_num)
      exact_mod_cast this)⟩
    · rw [h3, Int.cast_natCast]
      push_cast at h1
      rw [mul_one_div, le_div_iff₀ (by positivity)]
      linarith
    · rw [h3, Int.cast_natCast]
      push_cast at h2
      rw [mul_one_div, div_le_iff₀ (by positivity)]
      linarith
  have hg : ∀ k ∈ Finset.Ico (2 ^ 52 : ℕ) (3 * 2 ^ 51),
      round_even (M.log (((k : ℤ) : ℚ) * 2 ^ ((9 : ℤ) - 52)) / 2 ^ ((2 : ℤ) - 52))
        ∈ Finset.Icc (6 * 2 ^ 50 : ℤ) (7 * 2 ^ 50) := by
    intro k hk
    obtain ⟨b1, b2, b3⟩ := hb k hk
    obtain ⟨l1, l2, l3⟩ := hlog _ b3 b1 b2
    rw [binary64_grid _ (by linarith) (by linarith)] at l1
    generalize round_even (M.log (((k : ℤ) : ℚ) * 2 ^ ((9 : ℤ) - 52)) / 2 ^ ((2 : ℤ) - 52))
      = g at l1 ⊢
    have h3 : (2 : ℚ) ^ ((2 : ℤ) - 52) = 1 / 2 ^ 50 := by norm_num
    rw [← l1, h3, mul_one_div] at l2 l3
    rw [le_div_iff₀ (by positivity)] at l2
    rw [div_le_iff₀ (by positivity)] at l3
    rw [Finset.mem_Icc]
    constructor
    · exact_mod_cast l2
    · exact_mod_cast l3
  have hcard : (Finset.Icc (6 * 2 ^ 50 : ℤ) (7 * 2 ^ 50)).card
      < (Finset.Ico (2 ^ 52 : ℕ) (3 * 2 ^ 51)).card := by
    rw [Int.card_Icc, Nat.card_Ico]
    norm_num
  obtain ⟨k1, hk1, k2, hk2, hne, heq⟩ :=
    Finset.exists_ne_map_eq_of_card_lt_of_maps_to hcard hg
  obtain ⟨b1, b2, b3⟩ := hb k1 hk1
  obtain ⟨c1, c2, c3⟩ := hb k2 hk2
  have hl : M.log (((k1 : ℤ) : ℚ) * 2 ^ ((9 : ℤ) - 52))
      = M.log (((k2 : ℤ) : ℚ) * 2 ^ ((9 : ℤ) - 52)) := by
    obtain ⟨l1, l2, l3⟩ := hlog _ b3 b1 b2
    obtain ⟨m1, m2, m3⟩ := hlog _ c3 c1 c2
    rw [binary64_grid _ (by linarith) (by linarith)] at l1 m1
    rw [← l1, ← m1, heq]
  obtain ⟨h1, e1, a1⟩ := hrt _ b3 b1 b2
  obtain ⟨h2, e2, a2⟩ := hrt _ c3 c1 c2
  obtain ⟨x1, x2, x3, _, hf, _⟩ := goudie_closed_form_breast M SI_SW_GOUDIE_NAT
    (by simp [goudie_closed_form])
  have hfam : SI_SW_GOUDIE_NAT ∈ goudie_family := by simp [goudie_family]
  rw [index_to_height_goudie_breast M 0 SI_SW_GOUDIE_NAT _ 20 5 0 hfam (by norm_num)
    (by norm_num) (by linarith), hf _ _ _ _ (by linarith)] at e1 e2
  rw [hl] at e1
  have hh : h1 = h2 := Option.some.inj (e1.symm.trans e2)
  rw [hh, a2] at a1
  have hbb := Option.some.inj a1
  have hkk : ((k2 : ℤ) : ℚ) = ((k1 : ℤ) : ℚ) := mul_right_cancel₀ (ne_of_gt hu) hbb
  exact hne (by exact_mod_cast hkk.symm)

end Binary64

section Absorb

/-- With the identity as rounding the rounded height of Hu and Garcia is
`hu_garcia_h`. -/
theorem hu_garcia_h_rounded_id {α : Type} [LinearOrderedField α] (M : Extern α) (q bhage : α) :
    hu_garcia_h_rounded id M q bhage = hu_garcia_h M q bhage := rfl

/-- With the identity as rounding the rounded loop of `hu_garcia_q` is
`hu_garcia_q_loop`. -/
theorem hu_garcia_q_loop_rounded_id {α : Type} [LinearOrderedField α] (M : Extern α)
    (site_index bhage : α) :
    ∀ (fuel : ℕ) (q step diff : α),
      hu_garcia_q_loop_rounded id M site_index bhage fuel q step diff
        = hu_garcia_q_loop M site_index bhage fuel q step diff := by
  intro fuel
  induction fuel with
  | zero => intro q step diff; rfl
  | succ n ih =>
    intro q step diff
    rw [hu_garcia_q_loop_rounded, hu_garcia_q_loop]
    simp only [id, hu_garcia_h_rounded_id, ih]

end Absorb

section BruceNighJoin

/-- The curve `SI_FDC_BRUCENIGH` is dispatched to its arm of `index_to_height`. -/
theorem index_to_height_switch_brucenigh {α : Type} [LinearOrderedField α] (M : Extern α)
    (self : ℤ → α → ℤ → α → α → α → Option α) (fuel : ℕ) (tage bhage : α)
    (age_type : ℤ) (site_index y2bh pi : α) :
    index_to_height_switch M self fuel SI_FDC_BRUCENIGH tage bhage age_type site_index y2bh pi
      = some (si2ht_FDC_BRUCENIGH M tage site_index) := by
  unfold index_to_height_switch
  simp

/-- Below the total age 50 the arm of `SI_FDC_BRUCENIGH` is the smoothed Nigh
expression. -/
theorem si2ht_FDC_BRUCENIGH_below {α : Type} [LinearOrderedField α] (M : Extern α)
    (tage site_index : α) (h : tage < 50) :
    si2ht_FDC_BRUCENIGH M tage site_index = brucenigh_below M tage site_index := by
  unfold si2ht_FDC_BRUCENIGH brucenigh_below
  simp only []
  rw [if_pos h]

/-- `index_to_height` for `SI_FDC_BRUCENIGH` and a total age of at least 0.00001:
the value of the arm. -/
theorem index_to_height_brucenigh {α : Type} [LinearOrderedField α] [FloorRing α]
    (M : Extern α) (fuel : ℕ) (t site_index y2bh pi : α) (hsi : 1.3 ≤ site_index)
    (ht : 0.00001 ≤ t) :
    index_to_height M fuel SI_FDC_BRUCENIGH t SI_AT_TOTAL site_index y2bh pi
      = some (si2ht_FDC_BRUCENIGH M t site_index) := by
  have h0 : (0 : α) < 0.00001 := by norm_num
  rw [index_to_height_of_ge M fuel _ t SI_AT_TOTAL site_index y2bh pi hsi,
    index_to_height_ages_total, if_neg (not_lt.mpr (by linarith)),
    if_neg (not_lt.mpr ht), index_to_height_switch_brucenigh]

/-- The smoothing of `SI_FDC_BRUCENIGH` at the age 50, for a positive Nigh
coefficient `c` and a positive Bruce height `H`: the factor `x4` is the 50th root
that makes the expression equal to `H`. -/
theorem brucenigh_smooth_pos (H c : ℝ) (hH : 0 < H) (hc : 0 < c) :
    c * PPOW Extern.real 50 2.037 *
      PPOW Extern.real (PPOW Extern.real (H * PPOW Extern.real 50 (-2.037) / c) (1.0 / 50)) 50
      = H := by
  have h50 : (0 : ℝ) < 50 := by norm_num
  have hP : 0 < (50 : ℝ) ^ (2.037 : ℝ) := Real.rpow_pos_of_pos h50 _
  rw [PPOW_real_of_pos 50 _ h50, PPOW_real_of_pos 50 _ h50, Real.rpow_neg (le_of_lt h50)]
  have harg : 0 < H * ((50 : ℝ) ^ (2.037 : ℝ))⁻¹ / c :=
    div_pos (mul_pos hH (inv_pos.mpr hP)) hc
  rw [PPOW_real_of_pos _ _ harg, PPOW_real_of_pos _ _ (Real.rpow_pos_of_pos harg _),
    ← Real.rpow_mul (le_of_lt harg)]
  have he : (1.0 / 50 * 50 : ℝ) = 1 := by norm_num
  rw [he, Real.rpow_one]
  field_simp
  ring

/-- The smoothing of `SI_FDC_BRUCENIGH` for a Nigh coefficient `c ≤ 0` and a
positive Bruce height `H`: the base of the root is not positive, `PPOW` makes the
factor `x4` zero and the expression is 0 at every age. -/
theorem brucenigh_smooth_nonpos (H c t : ℝ) (hH : 0 < H) (hc : c ≤ 0) :
    c * PPOW Extern.real t 2.037 *
      PPOW Extern.real (PPOW Extern.real (H * PPOW Extern.real 50 (-2.037) / c) (1.0 / 50)) t
      = 0 := by
  have h50 : (0 : ℝ) < 50 := by norm_num
  have hP : 0 < (50 : ℝ) ^ (-2.037 : ℝ) := Real.rpow_pos_of_pos h50 _
  rw [PPOW_real_of_pos 50 (-2.037) h50]
  have harg : H * (50 : ℝ) ^ (-2.037 : ℝ) / c ≤ 0 :=
    div_nonpos_of_nonneg_of_nonpos (le_of_lt (mul_pos hH hP)) hc
  rw [PPOW_of_nonpos Extern.real _ (1.0 / 50) harg,
    PPOW_of_nonpos Extern.real 0 t (le_refl 0), mul_zero]

/-- The Bruce height at the age 50 inside the arm of `SI_FDC_BRUCENIGH` is
positive for a positive site index, and the arm is that height at the age 50. -/
theorem si2ht_FDC_BRUCENIGH_at_50 (site_index : ℝ) (hsi : 0 < site_index) :
    0 < si2ht_FDC_BRUCENIGH Extern.real 50 site_index := by
  unfold si2ht_FDC_BRUCENIGH
  simp only []
  rw [if_neg (lt_irrefl _)]
  exact mul_pos hsi (Real.exp_pos _)

/-- The smoothed expression at the age 50, for a positive Nigh coefficient. -/
theorem brucenigh_below_at_50 (site_index : ℝ) (hc : 0 < -0.0123 + 0.00158 * site_index) :
    brucenigh_below Extern.real 50 site_index = si2ht_FDC_BRUCENIGH Extern.real 50 site_index := by
  have hsi : 0 < site_index := by linarith
  unfold si2ht_FDC_BRUCENIGH brucenigh_below
  simp only []
  rw [if_neg (lt_irrefl _)]
  exact brucenigh_smooth_pos _ _ (mul_pos hsi (Real.exp_pos _)) hc

/-- The smoothed expression for a Nigh coefficient that is not positive: 0 at
every age. -/
theorem brucenigh_below_nonpos (t site_index : ℝ) (hsi : 0 < site_index)
    (hc : -0.0123 + 0.00158 * site_index ≤ 0) :
    brucenigh_below Extern.real t site_index = 0 := by
  unfold brucenigh_below
  simp only []
  exact brucenigh_smooth_nonpos _ _ t (mul_pos hsi (Real.exp_pos _)) hc

/-- C40, the code at the failing input: over the real numbers, for the site index
5 the Nigh coefficient `-0.0123 + 0.00158 * 5` is negative, the base of the 50th
root is negative and `PPOW` makes the factor `x4` zero: the smoothed expression is 0
at the age 50, and `index_to_height` returns 0 at the total age 49, while the Bruce
value that it returns at the total age 50 is positive.  The curve jumps at the join
point. -/
theorem index_to_height_brucenigh_jump :
    (1.3 : ℝ) ≤ 5 ∧ brucenigh_below Extern.real 50 5 = 0 ∧
    index_to_height Extern.real 0 SI_FDC_BRUCENIGH 49 SI_AT_TOTAL 5 0 0 = some 0 ∧
    ∃ h : ℝ, index_to_height Extern.real 0 SI_FDC_BRUCENIGH 50 SI_AT_TOTAL 5 0 0 = some h ∧
      0 < h ∧ brucenigh_below Extern.real 50 5 ≠ h := by
  have hc : (-0.0123 + 0.00158 * 5 : ℝ) ≤ 0 := by norm_num
  have h5 : (0 : ℝ) < 5 := by norm_num
  have hb := brucenigh_below_nonpos 50 5 h5 hc
  have hpos := si2ht_FDC_BRUCENIGH_at_50 5 h5
  refine ⟨by norm_num, hb, ?_, _, index_to_height_brucenigh Extern.real 0 50 5 0 0
    (by norm_num) (by norm_num), hpos, ?_⟩
  · rw [index_to_height_brucenigh Extern.real 0 49 5 0 0 (by norm_num) (by norm_num),
      si2ht_FDC_BRUCENIGH_below Extern.real 49 5 (by norm_num),
      brucenigh_below_nonpos 49 5 h5 hc]
  · rw [hb]
    exact ne_of_lt hpos

/-- Where the join of `SI_FDC_BRUCENIGH` holds: over the real numbers, for every
site index with a positive Nigh coefficient `-0.0123 + 0.00158 * site_index` (site
index above 7.785), `index_to_height` returns the smoothed Nigh expression
`(-0.0123 + 0.00158 * site_index) * tage ^ 2.037 * x4 ^ tage` at every total age from
0.00001 up to 50, and at the total age 50 that expression equals the Bruce value
that the branch `tage ≥ 50` returns. -/
theorem index_to_height_brucenigh_join (fuel : ℕ) (site_index y2bh pi : ℝ)
    (hc : 0 < -0.0123 + 0.00158 * site_index) :
    (∀ t : ℝ, 0.00001 ≤ t → t < 50 →
      index_to_height Extern.real fuel SI_FDC_BRUCENIGH t SI_AT_TOTAL site_index y2bh pi
        = some (brucenigh_below Extern.real t site_index)) ∧
    index_to_height Extern.real fuel SI_FDC_BRUCENIGH 50 SI_AT_TOTAL site_index y2bh pi
      = some (si2ht_FDC_BRUCENIGH Extern.real 50 site_index) ∧
    brucenigh_below Extern.real 50 site_index
      = si2ht_FDC_BRUCENIGH Extern.real 50 site_index := by
  have hsi : (1.3 : ℝ) ≤ site_index := by linarith
  refine ⟨fun t ht0 ht => ?_, ?_, brucenigh_below_at_50 site_index hc⟩
  · rw [index_to_height_brucenigh Extern.real fuel t site_index y2bh pi hsi ht0,
      si2ht_FDC_BRUCENIGH_below Extern.real t site_index ht]
  · exact index_to_height_brucenigh Extern.real fuel 50 site_index y2bh pi hsi (by norm_num)

end BruceNighJoin

section GuardArms

variable {α : Type} [LinearOrderedField α]

/-- A conditional between two options that are values is a value. -/
theorem isSome_ite {β : Type} (c : Prop) [Decidable c] (x y : Option β)
    (hx : x.isSome = true) (hy : y.isSome = true) : (if c then x else y).isSome = true := by
  split_ifs
  · exact hx
  · exact hy

/-- The arm `si2ht_WILEY` outside its guard: the main equation or the ramp, a value
that does not depend on the recursive call. -/
theorem si2ht_WILEY_direct (self : ℤ → α → ℤ → α → α → α → Option α) (cu : ℤ)
    (tage bhage site_index y2bh pi : α)
    (h : ¬ (bhage > 0.0 ∧ site_index > 60 + 1.667 * bhage)) :
    si2ht_WILEY self cu tage bhage site_index y2bh pi
      = si2ht_WILEY (fun _ _ _ _ _ _ => none) cu tage bhage site_index y2bh pi ∧
    (si2ht_WILEY (fun _ _ _ _ _ _ => none) cu tage bhage site_index y2bh pi).isSome = true := by
  unfold si2ht_WILEY
  by_cases hb : bhage > 0.0
  · have hg : ¬ site_index > 60 + 1.667 * bhage := fun hg => h ⟨hb, hg⟩
    simp only [if_pos hb, if_neg hg]
    refine ⟨trivial, ?_⟩
    repeat' first | rfl | apply isSome_ite
  · simp only [if_neg hb]
    refine ⟨trivial, ?_⟩
    rfl

/-- The arm `si2ht_WILEY` inside its guard: the curve is evaluated again at the safe
age and the result is interpolated. -/
theorem si2ht_WILEY_guard (self : ℤ → α → ℤ → α → α → α → Option α) (cu : ℤ)
    (tage bhage site_index y2bh pi : α)
    (h : bhage > 0.0 ∧ site_index > 60 + 1.667 * bhage) :
    si2ht_WILEY self cu tage bhage site_index y2bh pi
      = (self cu ((site_index - 60) / 1.667 + 0.1) SI_AT_BREAST site_index y2bh pi).bind
          fun x2 => some (1.37 + (x2 - 1.37) * bhage / ((site_index - 60) / 1.667 + 0.1)) := by
  unfold si2ht_WILEY
  rw [if_pos h.1, if_pos h.2]

/-- The arm `si2ht_HWC_WILEYAC` outside its guard: the main equation or the ramp, a value
that does not depend on the recursive call. -/
theorem si2ht_HWC_WILEYAC_direct (M : Extern α) (self : ℤ → α → ℤ → α → α → α → Option α) (cu : ℤ)
    (tage bhage site_index y2bh pi : α)
    (h : ¬ (bhage >= pi ∧ site_index > 60 + 1.667 * (bhage - pi))) :
    si2ht_HWC_WILEYAC M self cu tage bhage site_index y2bh pi
      = si2ht_HWC_WILEYAC M (fun _ _ _ _ _ _ => none) cu tage bhage site_index y2bh pi ∧
    (si2ht_HWC_WILEYAC M (fun _ _ _ _ _ _ => none) cu tage bhage site_index y2bh pi).isSome = true := by
  unfold si2ht_HWC_WILEYAC
  by_cases hb : bhage >= pi
  · have hg : ¬ site_index > 60 + 1.667 * (bhage - pi) := fun hg => h ⟨hb, hg⟩
    simp only [if_pos hb, if_neg hg]
    refine ⟨trivial, ?_⟩
    rfl
  · simp only [if_neg hb]
    refine ⟨trivial, ?_⟩
    rfl

/-- The arm `si2ht_CWC_KURUCZ` outside its guard: the main equation or the ramp, a value
that does not depend on the recursive call. -/
theorem si2ht_CWC_KURUCZ_direct (self : ℤ → α → ℤ → α → α → α → Option α) (cu : ℤ)
    (tage bhage site_index y2bh pi : α)
    (h : ¬ (bhage > 0.0 ∧ site_index > 43 + 1.667 * bhage)) :
    si2ht_CWC_KURUCZ self cu tage bhage site_index y2bh pi
      = si2ht_CWC_KURUCZ (fun _ _ _ _ _ _ => none) cu tage bhage site_index y2bh pi ∧
    (si2ht_CWC_KURUCZ (fun _ _ _ _ _ _ => none) cu tage bhage site_index y2bh pi).isSome = true := by
  unfold si2ht_CWC_KURUCZ
  by_cases hb : bhage > 0.0
  · have hg : ¬ site_index > 43 + 1.667 * bhage := fun hg => h ⟨hb, hg⟩
    simp only [if_pos hb, if_neg hg]
    refine ⟨trivial, ?_⟩
    repeat' first | rfl | apply isSome_ite
  · simp only [if_neg hb]
    refine ⟨trivial, ?_⟩
    rfl

/-- The arm `si2ht_CWC_KURUCZAC` outside its guard: the main equation or the ramp, a value
that does not depend on the recursive call. -/
theorem si2ht_CWC_KURUCZAC_direct (self : ℤ → α → ℤ → α → α → α → Option α) (cu : ℤ)
    (tage bhage site_index y2bh pi : α)
    (h : ¬ (bhage >= 0.5 ∧ site_index > 43 + 1.667 * (bhage - 0.5))) :
    si2ht_CWC_KURUCZAC self cu tage bhage site_index y2bh pi
      = si2ht_CWC_KURUCZAC (fun _ _ _ _ _ _ => none) cu tage bhage site_index y2bh pi ∧
    (si2ht_CWC_KURUCZAC (fun _ _ _ _ _ _ => none) cu tage bhage site_index y2bh pi).isSome = true := by
  unfold si2ht_CWC_KURUCZAC
  by_cases hb : bhage >= 0.5
  · have hg : ¬ site_index > 43 + 1.667 * (bhage - 0.5) := fun hg => h ⟨hb, hg⟩
    simp only [if_pos hb, if_neg hg]
    refine ⟨trivial, ?_⟩
    repeat' first | rfl | apply isSome_ite
  · simp only [if_neg hb]
    refine ⟨trivial, ?_⟩
    rfl

/-- The arm `si2ht_BA_KURUCZ82` outside its guard: the main equation or the ramp, a value
that does not depend on the recursive call. -/
theorem si2ht_BA_KURUCZ82_direct (self : ℤ → α → ℤ → α → α → α → Option α) (cu : ℤ)
    (tage bhage site_index y2bh pi : α)
    (h : ¬ (bhage > 0.0 ∧ site_index > 60 + 1.667 * bhage)) :
    si2ht_BA_KURUCZ82 self cu tage bhage site_index y2bh pi
      = si2ht_BA_KURUCZ82 (fun _ _ _ _ _ _ => none) cu tage bhage site_index y2bh pi ∧
    (si2ht_BA_KURUCZ82 (fun _ _ _ _ _ _ => none) cu tage bhage site_index y2bh pi).isSome = true := by
  unfold si2ht_BA_KURUCZ82
  by_cases hb : bhage > 0.0
  · have hg : ¬ site_index > 60 + 1.667 * bhage := fun hg => h ⟨hb, hg⟩
    simp only [if_pos hb, if_neg hg]
    refine ⟨trivial, ?_⟩
    repeat' first | rfl | apply isSome_ite
  · simp only [if_neg hb]
    refine ⟨trivial, ?_⟩
    repeat' first | rfl | apply isSome_ite

/-- The arm `si2ht_BA_KURUCZ82AC` outside its guard: the main equation or the ramp, a value
that does not depend on the recursive call. -/
theorem si2ht_BA_KURUCZ82AC_direct (self : ℤ → α → ℤ → α → α → α → Option α) (cu : ℤ)
    (tage bhage site_index y2bh pi : α)
    (h : ¬ (bhage >= 0.5 ∧ site_index > 60 + 1.667 * (bhage - 0.5))) :
    si2ht_BA_KURUCZ82AC self cu tage bhage site_index y2bh pi
      = si2ht_BA_KURUCZ82AC (fun _ _ _ _ _ _ => none) cu tage bhage site_index y2bh pi ∧
    (si2ht_BA_KURUCZ82AC (fun _ _ _ _ _ _ => none) cu tage bhage site_index y2bh pi).isSome = true := by
  unfold si2ht_BA_KURUCZ82AC
  by_cases hb : bhage >= 0.5
  · have hg : ¬ site_index > 60 + 1.667 * (bhage - 0.5) := fun hg => h ⟨hb, hg⟩
    simp only [if_pos hb, if_neg hg]
    refine ⟨trivial, ?_⟩
    repeat' first | rfl | apply isSome_ite
  · simp only [if_neg hb]
    refine ⟨trivial, ?_⟩
    repeat' first | rfl | apply isSome_ite

/-- The arm `si2ht_DR_HARRING` outside its guard: the main equation, a value that
does not depend on the recursive call. -/
theorem si2ht_DR_HARRING_direct (M : Extern α) (self : ℤ → α → ℤ → α → α → α → Option α)
    (cu : ℤ) (tage site_index y2bh pi : α) (h : ¬ site_index > 45 + 2.5 * tage) :
    si2ht_DR_HARRING M self cu tage site_index y2bh pi
      = si2ht_DR_HARRING M (fun _ _ _ _ _ _ => none) cu tage site_index y2bh pi ∧
    (si2ht_DR_HARRING M (fun _ _ _ _ _ _ => none) cu tage site_index y2bh pi).isSome
      = true := by
  unfold si2ht_DR_HARRING
  simp only [if_neg h]
  exact ⟨trivial, rfl⟩

/-- The safe age of a guard with slope `k` and threshold `c` is beyond the guard:
`c + k * ((s - c) / k + 0.1)` is not below `s`. -/
theorem safe_age_beyond (s c k : α) (hk : 0 < k) : ¬ s > c + k * ((s - c) / k + 0.1) := by
  have h1 : k * ((s - c) / k) = s - c := mul_div_cancel₀ _ (ne_of_gt hk)
  have h2 : (0 : α) < k * 0.1 := mul_pos hk (by norm_num)
  rw [mul_add, h1]
  exact not_lt.mpr (by linarith)

end GuardArms

section GuardSwitch

variable {α : Type} [LinearOrderedField α]

/-- Dispatch of the `switch` of `index_to_height` to the arm `si2ht_WILEY`. -/
theorem index_to_height_switch_WILEY (M : Extern α)
    (self : ℤ → α → ℤ → α → α → α → Option α) (fuel : ℕ) (cu : ℤ) (tage bhage : α)
    (age_type : ℤ) (site_index y2bh pi : α)
    (hcu : cu = SI_HWC_WILEY ∨ cu = SI_HWC_WILEY_BC ∨ cu = SI_HWC_WILEY_MB) :
    index_to_height_switch M self fuel cu tage bhage age_type site_index y2bh pi
      = si2ht_WILEY self cu tage bhage site_index y2bh pi := by
  rcases hcu with h | h | h <;> subst h <;> (unfold index_to_height_switch; simp)

/-- Dispatch of the `switch` of `index_to_height` to the arm `si2ht_HWC_WILEYAC`. -/
theorem index_to_height_switch_HWC_WILEYAC (M : Extern α)
    (self : ℤ → α → ℤ → α → α → α → Option α) (fuel : ℕ) (cu : ℤ) (tage bhage : α)
    (age_type : ℤ) (site_index y2bh pi : α)
    (hcu : cu = SI_HWC_WILEYAC) :
    index_to_height_switch M self fuel cu tage bhage age_type site_index y2bh pi
      = si2ht_HWC_WILEYAC M self cu tage bhage site_index y2bh pi := by
  subst hcu
  unfold index_to_height_switch
  simp

/-- Dispatch of the `switch` of `index_to_height` to the arm `si2ht_CWC_KURUCZ`. -/
theorem index_to_height_switch_CWC_KURUCZ (M : Extern α)
    (self : ℤ → α → ℤ → α → α → α → Option α) (fuel : ℕ) (cu : ℤ) (tage bhage : α)
    (age_type : ℤ) (site_index y2bh pi : α)
    (hcu : cu = SI_CWC_KURUCZ) :
    index_to_height_switch M self fuel cu tage bhage age_type site_index y2bh pi
      = si2ht_CWC_KURUCZ self cu tage bhage site_index y2bh pi := by
  subst hcu
  unfold index_to_height_switch
  simp

/-- Dispatch of the `switch` of `index_to_height` to the arm `si2ht_CWC_KURUCZAC`. -/
theorem index_to_height_switch_CWC_KURUCZAC (M : Extern α)
    (self : ℤ → α → ℤ → α → α → α → Option α) (fuel : ℕ) (cu : ℤ) (tage bhage : α)
    (age_type : ℤ) (site_index y2bh pi : α)
    (hcu : cu = SI_CWC_KURUCZAC) :
    index_to_height_switch M self fuel cu tage bhage age_type site_index y2bh pi
      = si2ht_CWC_KURUCZAC self cu tage bhage site_index y2bh pi := by
  subst hcu
  unfold index_to_height_switch
  simp

/-- Dispatch of the `switch` of `index_to_height` to the arm `si2ht_BA_KURUCZ82`. -/
theorem index_to_height_switch_BA_KURUCZ82 (M : Extern α)
    (self : ℤ → α → ℤ → α → α → α → Option α) (fuel : ℕ) (cu : ℤ) (tage bhage : α)
    (age_type : ℤ) (site_index y2bh pi : α)
    (hcu : cu = SI_BA_KURUCZ82 ∨ cu = SI_BL_KURUCZ82) :
    index_to_height_switch M self fuel cu tage bhage age_type site_index y2bh pi
      = si2ht_BA_KURUCZ82 self cu tage bhage site_index y2bh pi := by
  rcases hcu with h | h <;> subst h <;> (unfold index_to_height_switch; simp)

/-- Dispatch of the `switch` of `index_to_height` to the arm `si2ht_BA_KURUCZ82AC`. -/
theorem index_to_height_switch_BA_KURUCZ82AC (M : Extern α)
    (self : ℤ → α → ℤ → α → α → α → Option α) (fuel : ℕ) (cu : ℤ) (tage bhage : α)
    (age_type : ℤ) (site_index y2bh pi : α)
    (hcu : cu = SI_BA_KURUCZ82AC) :
    index_to_height_switch M self fuel cu tage bhage age_type site_index y2bh pi
      = si2ht_BA_KURUCZ82AC self cu tage bhage site_index y2bh pi := by
  subst hcu
  unfold index_to_height_switch
  simp

/-- Dispatch of the `switch` of `index_to_height` to the arm `si2ht_DR_HARRING`. -/
theorem index_to_height_switch_DR_HARRING (M : Extern α)
    (self : ℤ → α → ℤ → α → α → α → Option α) (fuel : ℕ) (tage bhage : α)
    (age_type : ℤ) (site_index y2bh pi : α) :
    index_to_height_switch M self fuel SI_DR_HARRING tage bhage age_type site_index y2bh pi
      = si2ht_DR_HARRING M self SI_DR_HARRING tage site_index y2bh pi := by
  unfold index_to_height_switch
  simp

/-- Outside the guard condition the `switch` of a guarded curve is a value that
depends neither on the recursive call nor on the fuel. -/
theorem index_to_height_switch_guarded_direct (M : Extern α) (cu : ℤ)
    (hcu : cu ∈ guarded_curves) (tage bhage : α) (age_type : ℤ) (site_index y2bh pi : α)
    (h : ¬ guard_condition cu tage bhage site_index pi) :
    ∃ v, ∀ (self : ℤ → α → ℤ → α → α → α → Option α) (fuel : ℕ),
      index_to_height_switch M self fuel cu tage bhage age_type site_index y2bh pi
        = some v := by
  simp only [guarded_curves, List.mem_cons, List.not_mem_nil, or_false] at hcu
  rcases hcu with h1 | h1 | h1 | h1 | h1 | h1 | h1 | h1 | h1 | h1 <;> subst h1
  · have hgc : guard_condition SI_HWC_WILEY tage bhage site_index pi ↔
        (bhage > 0.0 ∧ site_index > 60 + 1.667 * bhage) := by
      simp [guard_condition]
    have hd := fun self => si2ht_WILEY_direct self SI_HWC_WILEY tage bhage site_index y2bh pi
      (mt hgc.mpr h)
    obtain ⟨v, hv⟩ := Option.isSome_iff_exists.mp (hd (fun _ _ _ _ _ _ => none)).2
    exact ⟨v, fun self fuel => by
      rw [index_to_height_switch_WILEY M self fuel SI_HWC_WILEY _ _ _ _ _ _ (Or.inl rfl),
        (hd self).1, hv]⟩
  · have hgc : guard_condition SI_HWC_WILEY_BC tage bhage site_index pi ↔
        (bhage > 0.0 ∧ site_index > 60 + 1.667 * bhage) := by
      simp [guard_condition]
    have hd := fun self => si2ht_WILEY_direct self SI_HWC_WILEY_BC tage bhage site_index y2bh pi
      (mt hgc.mpr h)
    obtain ⟨v, hv⟩ := Option.isSome_iff_exists.mp (hd (fun _ _ _ _ _ _ => none)).2
    exact ⟨v, fun self fuel => by
      rw [index_to_height_switch_WILEY M self fuel SI_HWC_WILEY_BC _ _ _ _ _ _ (Or.inr (Or.inl rfl)),
        (hd self).1, hv]⟩
  · have hgc : guard_condition SI_HWC_WILEY_MB tage bhage site_index pi ↔
        (bhage > 0.0 ∧ site_index > 60 + 1.667 * bhage) := by
      simp [guard_condition]
    have hd := fun self => si2ht_WILEY_direct self SI_HWC_WILEY_MB tage bhage site_index y2bh pi
      (mt hgc.mpr h)
    obtain ⟨v, hv⟩ := Option.isSome_iff_exists.mp (hd (fun _ _ _ _ _ _ => none)).2
    exact ⟨v, fun self fuel => by
      rw [index_to_height_switch_WILEY M self fuel SI_HWC_WILEY_MB _ _ _ _ _ _ (Or.inr (Or.inr (rfl))),
        (hd self).1, hv]⟩
  · have hgc : guard_condition SI_HWC_WILEYAC tage bhage site_index pi ↔
        (bhage >= pi ∧ site_index > 60 + 1.667 * (bhage - pi)) := by
      simp [guard_condition]
    have hd := fun self => si2ht_HWC_WILEYAC_direct M self SI_HWC_WILEYAC tage bhage site_index y2bh pi
      (mt hgc.mpr h)
    obtain ⟨v, hv⟩ := Option.isSome_iff_exists.mp (hd (fun _ _ _ _ _ _ => none)).2
    exact ⟨v, fun self fuel => by
      rw [index_to_height_switch_HWC_WILEYAC M self fuel SI_HWC_WILEYAC _ _ _ _ _ _ (rfl),
        (hd self).1, hv]⟩
  · have hgc : guard_condition SI_CWC_KURUCZ tage bhage site_index pi ↔
        (bhage > 0.0 ∧ site_index > 43 + 1.667 * bhage) := by
      simp [guard_condition]
    have hd := fun self => si2ht_CWC_KURUCZ_direct self SI_CWC_KURUCZ tage bhage site_index y2bh pi
      (mt hgc.mpr h)
    obtain ⟨v, hv⟩ := Option.isSome_iff_exists.mp (hd (fun _ _ _ _ _ _ => none)).2
    exact ⟨v, fun self fuel => by
      rw [index_to_height_switch_CWC_KURUCZ M self fuel SI_CWC_KURUCZ _ _ _ _ _ _ (rfl),
        (hd self).1, hv]⟩
  · have hgc : guard_condition SI_CWC_KURUCZAC tage bhage site_index pi ↔
        (bhage >= 0.5 ∧ site_index > 43 + 1.667 * (bhage - 0.5)) := by
      simp [guard_condition]
    have hd := fun self => si2ht_CWC_KURUCZAC_direct self SI_CWC_KURUCZAC tage bhage site_index y2bh pi
      (mt hgc.mpr h)
    obtain ⟨v, hv⟩ := Option.isSome_iff_exists.mp (hd (fun _ _ _ _ _ _ => none)).2
    exact ⟨v, fun self fuel => by
      rw [index_to_height_switch_CWC_KURUCZAC M self fuel SI_CWC_KURUCZAC _ _ _ _ _ _ (rfl),
        (hd self).1, hv]⟩
  · have hgc : guard_condition SI_BA_KURUCZ82 tage bhage site_index pi ↔
        (bhage > 0.0 ∧ site_index > 60 + 1.667 * bhage) := by
      simp [guard_condition]
    have hd := fun self => si2ht_BA_KURUCZ82_direct self SI_BA_KURUCZ82 tage bhage site_index y2bh pi
      (mt hgc.mpr h)
    obtain ⟨v, hv⟩ := Option.isSome_iff_exists.mp (hd (fun _ _ _ _ _ _ => none)).2
    exact ⟨v, fun self fuel => by
      rw [index_to_height_switch_BA_KURUCZ82 M self fuel SI_BA_KURUCZ82 _ _ _ _ _ _ (Or.inl rfl),
        (hd self).1, hv]⟩
  · have hgc : guard_condition SI_BL_KURUCZ82 tage bhage site_index pi ↔
        (bhage > 0.0 ∧ site_index > 60 + 1.667 * bhage) := by
      simp [guard_condition]
    have hd := fun self => si2ht_BA_KURUCZ82_direct self SI_BL_KURUCZ82 tage bhage site_index y2bh pi
      (mt hgc.mpr h)
    obtain ⟨v, hv⟩ := Option.isSome_iff_exists.mp (hd (fun _ _ _ _ _ _ => none)).2
    exact ⟨v, fun self fuel => by
      rw [index_to_height_switch_BA_KURUCZ82 M self fuel SI_BL_KURUCZ82 _ _ _ _ _ _ (Or.inr (rfl)),
        (hd self).1, hv]⟩
  · have hgc : guard_condition SI_BA_KURUCZ82AC tage bhage site_index pi ↔
        (bhage >= 0.5 ∧ site_index > 60 + 1.667 * (bhage - 0.5)) := by
      simp [guard_condition]
    have hd := fun self => si2ht_BA_KURUCZ82AC_direct self SI_BA_KURUCZ82AC tage bhage site_index y2bh pi
      (mt hgc.mpr h)
    obtain ⟨v, hv⟩ := Option.isSome_iff_exists.mp (hd (fun _ _ _ _ _ _ => none)).2
    exact ⟨v, fun self fuel => by
      rw [index_to_height_switch_BA_KURUCZ82AC M self fuel SI_BA_KURUCZ82AC _ _ _ _ _ _ (rfl),
        (hd self).1, hv]⟩
  · have hgc : guard_condition SI_DR_HARRING tage bhage site_index pi ↔
        site_index > 45 + 2.5 * tage := by
      simp [guard_condition]
    have hd := fun self => si2ht_DR_HARRING_direct M self SI_DR_HARRING tage site_index y2bh pi
      (mt hgc.mpr h)
    obtain ⟨v, hv⟩ := Option.isSome_iff_exists.mp (hd (fun _ _ _ _ _ _ => none)).2
    exact ⟨v, fun self fuel => by
      rw [index_to_height_switch_DR_HARRING M self fuel, (hd self).1, hv]⟩

/-- At the safe age the guard condition of a guarded curve is false, whatever the
`y2bh`: the recursive call takes the direct branch of the arm. -/
theorem guard_condition_safe (cu : ℤ) (hcu : cu ∈ guarded_curves) (site_index y2bh pi : α) :
    ¬ guard_condition cu
      (index_to_height_tage cu (guard_safe_age cu site_index pi) (guard_safe_age_type cu) y2bh)
      (index_to_height_bhage cu (guard_safe_age cu site_index pi) (guard_safe_age_type cu) y2bh)
      site_index pi := by
  simp only [guarded_curves, List.mem_cons, List.not_mem_nil, or_false] at hcu
  rcases hcu with h1 | h1 | h1 | h1 | h1 | h1 | h1 | h1 | h1 | h1 <;> subst h1
  · intro hh
    have hgc : ∀ tage bhage : α, guard_condition SI_HWC_WILEY tage bhage site_index pi ↔
        (bhage > 0.0 ∧ site_index > 60 + 1.667 * bhage) := by
      intro tage bhage
      simp [guard_condition]
    have hB : index_to_height_bhage SI_HWC_WILEY (guard_safe_age SI_HWC_WILEY site_index pi)
        (guard_safe_age_type SI_HWC_WILEY) y2bh = (site_index - 60) / 1.667 + 0.1 := by
      simp [index_to_height_bhage, guard_safe_age, guard_safe_age_type]
    have hh2 := ((hgc _ _).mp hh).2
    rw [hB] at hh2
    exact safe_age_beyond site_index 60 1.667 (by norm_num) hh2
  · intro hh
    have hgc : ∀ tage bhage : α, guard_condition SI_HWC_WILEY_BC tage bhage site_index pi ↔
        (bhage > 0.0 ∧ site_index > 60 + 1.667 * bhage) := by
      intro tage bhage
      simp [guard_condition]
    have hB : index_to_height_bhage SI_HWC_WILEY_BC (guard_safe_age SI_HWC_WILEY_BC site_index pi)
        (guard_safe_age_type SI_HWC_WILEY_BC) y2bh = (site_index - 60) / 1.667 + 0.1 := by
      simp [index_to_height_bhage, guard_safe_age, guard_safe_age_type]
    have hh2 := ((hgc _ _).mp hh).2
    rw [hB] at hh2
    exact safe_age_beyond site_index 60 1.667 (by norm_num) hh2
  · intro hh
    have hgc : ∀ tage bhage : α, guard_condition SI_HWC_WILEY_MB tage bhage site_index pi ↔
        (bhage > 0.0 ∧ site_index > 60 + 1.667 * bhage) := by
      intro tage bhage
      simp [guard_condition]
    have hB : index_to_height_bhage SI_HWC_WILEY_MB (guard_safe_age SI_HWC_WILEY_MB site_index pi)
        (guard_safe_age_type SI_HWC_WILEY_MB) y2bh = (site_index - 60) / 1.667 + 0.1 := by
      simp [index_to_height_bhage, guard_safe_age, guard_safe_age_type]
    have hh2 := ((hgc _ _).mp hh).2
    rw [hB] at hh2
    exact safe_age_beyond site_index 60 1.667 (by norm_num) hh2
  · intro hh
    have hgc : ∀ tage bhage : α, guard_condition SI_HWC_WILEYAC tage bhage site_index pi ↔
        (bhage >= pi ∧ site_index > 60 + 1.667 * (bhage - pi)) := by
      intro tage bhage
      simp [guard_condition]
    have hB : index_to_height_bhage SI_HWC_WILEYAC (guard_safe_age SI_HWC_WILEYAC site_index pi)
        (guard_safe_age_type SI_HWC_WILEYAC) y2bh = (site_index - 60) / 1.667 + 0.1 + pi := by
      simp [index_to_height_bhage, guard_safe_age, guard_safe_age_type]
    have hh2 := ((hgc _ _).mp hh).2
    rw [hB] at hh2
    have hsub : (site_index - 60) / 1.667 + 0.1 + pi - pi = (site_index - 60) / 1.667 + 0.1 := by ring
    rw [hsub] at hh2
    exact safe_age_beyond site_index 60 1.667 (by norm_num) hh2
  · intro hh
    have hgc : ∀ tage bhage : α, guard_condition SI_CWC_KURUCZ tage bhage site_index pi ↔
        (bhage > 0.0 ∧ site_index > 43 + 1.667 * bhage) := by
      intro tage bhage
      simp [guard_condition]
    have hB : index_to_height_bhage SI_CWC_KURUCZ (guard_safe_age SI_CWC_KURUCZ site_index pi)
        (guard_safe_age_type SI_CWC_KURUCZ) y2bh = (site_index - 43) / 1.667 + 0.1 := by
      simp [index_to_height_bhage, guard_safe_age, guard_safe_age_type]
    have hh2 := ((hgc _ _).mp hh).2
    rw [hB] at hh2
    exact safe_age_beyond site_index 43 1.667 (by norm_num) hh2
  · intro hh
    have hgc : ∀ tage bhage : α, guard_condition SI_CWC_KURUCZAC tage bhage site_index pi ↔
        (bhage >= 0.5 ∧ site_index > 43 + 1.667 * (bhage - 0.5)) := by
      intro tage bhage
      simp [guard_condition]
    have hB : index_to_height_bhage SI_CWC_KURUCZAC (guard_safe_age SI_CWC_KURUCZAC site_index pi)
        (guard_safe_age_type SI_CWC_KURUCZAC) y2bh = (site_index - 43) / 1.667 + 0.1 + 0.5 := by
      simp [index_to_height_bhage, guard_safe_age, guard_safe_age_type]
    have hh2 := ((hgc _ _).mp hh).2
    rw [hB] at hh2
    have hsub : (site_index - 43) / 1.667 + 0.1 + 0.5 - 0.5 = (site_index - 43) / 1.667 + 0.1 := by ring
    rw [hsub] at hh2
    exact safe_age_beyond site_index 43 1.667 (by norm_num) hh2
  · intro hh
    have hgc : ∀ tage bhage : α, guard_condition SI_BA_KURUCZ82 tage bhage site_index pi ↔
        (bhage > 0.0 ∧ site_index > 60 + 1.667 * bhage) := by
      intro tage bhage
      simp [guard_condition]
    have hB : index_to_height_bhage SI_BA_KURUCZ82 (guard_safe_age SI_BA_KURUCZ82 site_index pi)
        (guard_safe_age_type SI_BA_KURUCZ82) y2bh = (site_index - 60) / 1.667 + 0.1 := by
      simp [index_to_height_bhage, guard_safe_age, guard_safe_age_type]
    have hh2 := ((hgc _ _).mp hh).2
    rw [hB] at hh2
    exact safe_age_beyond site_index 60 1.667 (by norm_num) hh2
  · intro hh
    have hgc : ∀ tage bhage : α, guard_condition SI_BL_KURUCZ82 tage bhage site_index pi ↔
        (bhage > 0.0 ∧ site_index > 60 + 1.667 * bhage) := by
      intro tage bhage
      simp [guard_condition]
    have hB : index_to_height_bhage SI_BL_KURUCZ82 (guard_safe_age SI_BL_KURUCZ82 site_index pi)
        (guard_safe_age_type SI_BL_KURUCZ82) y2bh = (site_index - 60) / 1.667 + 0.1 := by
      simp [index_to_height_bhage, guard_safe_age, guard_safe_age_type]
    have hh2 := ((hgc _ _).mp hh).2
    rw [hB] at hh2
    exact safe_age_beyond site_index 60 1.667 (by norm_num) hh2
  · intro hh
    have hgc : ∀ tage bhage : α, guard_condition SI_BA_KURUCZ82AC tage bhage site_index pi ↔
        (bhage >= 0.5 ∧ site_index > 60 + 1.667 * (bhage - 0.5)) := by
      intro tage bhage
      simp [guard_condition]
    have hB : index_to_height_bhage SI_BA_KURUCZ82AC (guard_safe_age SI_BA_KURUCZ82AC site_index pi)
        (guard_safe_age_type SI_BA_KURUCZ82AC) y2bh = (site_index - 60) / 1.667 + 0.1 + 0.5 := by
      simp [index_to_height_bhage, guard_safe_age, guard_safe_age_type]
    have hh2 := ((hgc _ _).mp hh).2
    rw [hB] at hh2
    have hsub : (site_index - 60) / 1.667 + 0.1 + 0.5 - 0.5 = (site_index - 60) / 1.667 + 0.1 := by ring
    rw [hsub] at hh2
    exact safe_age_beyond site_index 60 1.667 (by norm_num) hh2
  · intro hh
    have hgc : ∀ tage bhage : α, guard_condition SI_DR_HARRING tage bhage site_index pi ↔
        site_index > 45 + 2.5 * tage := by
      intro tage bhage
      simp [guard_condition]
    have hT : index_to_height_tage SI_DR_HARRING (guard_safe_age SI_DR_HARRING site_index pi)
        (guard_safe_age_type SI_DR_HARRING) y2bh = (site_index - 45) / 2.5 + 0.1 := by
      simp [index_to_height_tage, guard_safe_age, guard_safe_age_type]
    have hh2 := (hgc _ _).mp hh
    rw [hT] at hh2
    exact safe_age_beyond site_index 45 2.5 (by norm_num) hh2

end GuardSwitch

section GuardTheorems

variable {α : Type} [LinearOrderedField α] [FloorRing α]

/-- The body of `index_to_height` when its `switch` returns the value `v`: the
error code for a site index below 1.3, the two checks of the total age, then
`v`. -/
theorem index_to_height_step_of_switch (M : Extern α)
    (self : ℤ → α → ℤ → α → α → α → Option α) (fuel : ℕ) (cu : ℤ) (iage : α)
    (age_type : ℤ) (site_index y2bh pi v : α)
    (h : index_to_height_switch M self fuel cu
        (index_to_height_tage cu iage age_type ((c_int y2bh : α) + 0.5))
        (index_to_height_bhage cu iage age_type ((c_int y2bh : α) + 0.5))
        age_type site_index ((c_int y2bh : α) + 0.5) pi = some v) :
    index_to_height_step M self fuel cu iage age_type site_index y2bh pi =
      some (if site_index < 1.3 then SI_ERR_LT13
        else if index_to_height_tage cu iage age_type ((c_int y2bh : α) + 0.5) < 0.0
          then SI_ERR_NO_ANS
        else if index_to_height_tage cu iage age_type ((c_int y2bh : α) + 0.5) < 0.00001
          then 0.0
        else v) := by
  unfold index_to_height_step
  by_cases h1 : site_index < 1.3
  · rw [if_pos h1, if_pos h1]
  · rw [if_neg h1, if_neg h1]
    unfold index_to_height_ages
    simp only []
    unfold index_to_height_tage index_to_height_bhage at *
    by_cases h2 : (if age_type = SI_AT_TOTAL then iage
        else age_to_age cu iage SI_AT_BREAST SI_AT_TOTAL ((c_int y2bh : α) + 0.5)) < 0.0
    · rw [if_pos h2, if_pos h2]
    · rw [if_neg h2, if_neg h2]
      by_cases h3 : (if age_type = SI_AT_TOTAL then iage
          else age_to_age cu iage SI_AT_BREAST SI_AT_TOTAL ((c_int y2bh : α) + 0.5)) < 0.00001
      · rw [if_pos h3, if_pos h3]
      · rw [if_neg h3, if_neg h3]
        exact h

/-- If the `switch` returns the same value `v` for a family of recursive calls and
fuels, so does the body of `index_to_height`. -/
theorem index_to_height_some_of_switch (M : Extern α)
    (S : ℕ → ℤ → α → ℤ → α → α → α → Option α) (g : ℕ → ℕ) (cu : ℤ) (iage : α)
    (age_type : ℤ) (site_index y2bh pi v : α)
    (h : ∀ fuel : ℕ, index_to_height_switch M (S fuel) (g fuel) cu
        (index_to_height_tage cu iage age_type ((c_int y2bh : α) + 0.5))
        (index_to_height_bhage cu iage age_type ((c_int y2bh : α) + 0.5))
        age_type site_index ((c_int y2bh : α) + 0.5) pi = some v) :
    ∃ w, ∀ fuel : ℕ,
      index_to_height_step M (S fuel) (g fuel) cu iage age_type site_index y2bh pi = some w :=
  ⟨_, fun fuel =>
    index_to_height_step_of_switch M (S fuel) (g fuel) cu iage age_type site_index y2bh pi v
      (h fuel)⟩

/-- The recursive call of a guarded curve, at the safe age, returns a value with
any fuel, zero included: it does not call `index_to_height` again. -/
theorem index_to_height_guard_inner (M : Extern α) (cu : ℤ) (hcu : cu ∈ guarded_curves)
    (site_index y2bh pi : α) :
    ∃ w, ∀ fuel : ℕ, index_to_height M fuel cu (guard_safe_age cu site_index pi)
      (guard_safe_age_type cu) site_index y2bh pi = some w := by
  obtain ⟨v, hv⟩ := index_to_height_switch_guarded_direct M cu hcu _ _
    (guard_safe_age_type cu) site_index ((c_int y2bh : α) + 0.5) pi
    (guard_condition_safe cu hcu site_index ((c_int y2bh : α) + 0.5) pi)
  obtain ⟨w, hw⟩ := index_to_height_some_of_switch M (index_to_height_rec M) id cu _ _
    site_index y2bh pi v (fun fuel => hv _ _)
  exact ⟨w, fun fuel => by rw [index_to_height_eq_step]; exact hw fuel⟩

end GuardTheorems

section WileyGuard

variable {α : Type} [LinearOrderedField α] [FloorRing α]

/-- The guard of the Wiley curves: the height at the safe breast-height age
`(site_index - 60) / 1.667 + 0.1` is returned with any fuel, and the result is the
interpolation between 1.37 at the breast-height age 0 and that height. -/
theorem index_to_height_wiley_guard_value (M : Extern α) (fuel : ℕ) (cu : ℤ)
    (hcu : cu = SI_HWC_WILEY ∨ cu = SI_HWC_WILEY_BC ∨ cu = SI_HWC_WILEY_MB)
    (iage : α) (age_type : ℤ) (site_index y2bh pi : α)
    (hT : 0.00001 ≤ index_to_height_tage cu iage age_type ((c_int y2bh : α) + 0.5))
    (hB : 0 < index_to_height_bhage cu iage age_type ((c_int y2bh : α) + 0.5))
    (hs : site_index > 60 + 1.667 *
      index_to_height_bhage cu iage age_type ((c_int y2bh : α) + 0.5)) :
    ∃ H : α,
      (∀ fuel2 : ℕ, index_to_height M fuel2 cu ((site_index - 60) / 1.667 + 0.1)
        SI_AT_BREAST site_index ((c_int y2bh : α) + 0.5) pi = some H) ∧
      index_to_height M (fuel + 1) cu iage age_type site_index y2bh pi =
        some (1.37 + (H - 1.37) *
          index_to_height_bhage cu iage age_type ((c_int y2bh : α) + 0.5) /
            ((site_index - 60) / 1.667 + 0.1)) := by
  have hmem : cu ∈ guarded_curves := by
    rcases hcu with h | h | h <;> subst h <;> simp [guarded_curves]
  have ha : guard_safe_age cu site_index pi = (site_index - 60) / 1.667 + 0.1 := by
    rcases hcu with h | h | h <;> subst h <;> simp [guard_safe_age]
  have ht : guard_safe_age_type cu = SI_AT_BREAST := by
    rcases hcu with h | h | h <;> subst h <;> simp [guard_safe_age_type]
  obtain ⟨w, hw⟩ := index_to_height_guard_inner M cu hmem site_index
    ((c_int y2bh : α) + 0.5) pi
  rw [ha, ht] at hw
  have hsi : 1.3 ≤ site_index := by
    have : 0 < 1.667 *
        index_to_height_bhage cu iage age_type ((c_int y2bh : α) + 0.5) :=
      mul_pos (by norm_num) hB
    linarith
  have hB2 : index_to_height_bhage cu iage age_type ((c_int y2bh : α) + 0.5) > 0.0 := by
    rw [zero_literal]
    exact hB
  refine ⟨w, hw, ?_⟩
  rw [index_to_height_eq_switch M (fuel + 1) cu iage age_type site_index y2bh pi hsi hT,
    index_to_height_switch_WILEY M _ (fuel + 1) cu _ _ _ _ _ _ hcu,
    si2ht_WILEY_guard _ cu _ _ _ _ _ ⟨hB2, hs⟩]
  show (index_to_height M fuel cu _ _ _ _ _).bind _ = _
  rw [hw fuel]
  rfl

omit [FloorRing α] in
/-- Under the guard of the Wiley curves the breast-height age is below the safe age,
so the interpolation from 1.37 at age 0 is above the interpolation from 0 at age 0. -/
theorem wiley_interpolation_gap (H B s : α) (hB : 0 < B) (hs : s > 60 + 1.667 * B) :
    B < (s - 60) / 1.667 + 0.1 ∧
    H * B / ((s - 60) / 1.667 + 0.1) <
      1.37 + (H - 1.37) * B / ((s - 60) / 1.667 + 0.1) := by
  have h1 : B < (s - 60) / 1.667 := by
    rw [lt_div_iff₀ (by norm_num)]
    linarith
  have h2 : B < (s - 60) / 1.667 + 0.1 := by
    have : (0 : α) < 0.1 := by norm_num
    linarith
  have ha : 0 < (s - 60) / 1.667 + 0.1 := lt_trans hB h2
  refine ⟨h2, ?_⟩
  have h3 : B / ((s - 60) / 1.667 + 0.1) < 1 := (div_lt_one ha).mpr h2
  have h4 : 1.37 + (H - 1.37) * B / ((s - 60) / 1.667 + 0.1)
      - H * B / ((s - 60) / 1.667 + 0.1)
      = 1.37 * (1 - B / ((s - 60) / 1.667 + 0.1)) := by ring
  have h5 : 0 < (1.37 : α) * (1 - B / ((s - 60) / 1.667 + 0.1)) :=
    mul_pos (by norm_num) (by linarith)
  linarith

/-- The conversion `(int) 5.5` is 5. -/
theorem c_int_five_half : c_int (5.5 : α) = (5 : ℤ) := by
  rw [c_int_of_nonneg (5.5 : α) (by norm_num), Int.floor_eq_iff]
  norm_num

/-- C33, counterexample: `SI_HWC_WILEY` at the breast-height age 1 with site index
76.67 (`76.67 > 60 + 1.667 * 1`), `y2bh = 5` and growth proportion 0.  The safe age
is 10.1 and the height there is `H = 6292450167083163623 / 142538477714467500`
(about 44.146); `index_to_height` returns
`16138954737498859891 / 2879277249832243500` (about 5.605), which is
`1.37 + (H - 1.37) * 1 / 10.1` and not `H * 1 / 10.1` (about 4.371). -/
theorem index_to_height_wiley_guard_not_from_zero :
    (76.67 : ℚ) > 60 + 1.667 * 1 ∧ ((76.67 : ℚ) - 60) / 1.667 + 0.1 = 10.1 ∧
    index_to_height_bhage SI_HWC_WILEY (1 : ℚ) SI_AT_BREAST ((c_int (5 : ℚ) : ℚ) + 0.5) = 1 ∧
    index_to_height Extern.crude 0 SI_HWC_WILEY (10.1 : ℚ) SI_AT_BREAST 76.67 5.5 0
      = some (6292450167083163623 / 142538477714467500) ∧
    index_to_height Extern.crude 1 SI_HWC_WILEY (1 : ℚ) SI_AT_BREAST 76.67 5 0
      = some (16138954737498859891 / 2879277249832243500) ∧
    (16138954737498859891 / 2879277249832243500 : ℚ)
      = 1.37 + (6292450167083163623 / 142538477714467500 - 1.37) * 1 / 10.1 ∧
    (16138954737498859891 / 2879277249832243500 : ℚ)
      ≠ 6292450167083163623 / 142538477714467500 * 1 / 10.1 := by
  have hc : c_int (5 : ℚ) = 5 := c_int_five
  have hc2 : c_int (5.5 : ℚ) = 5 := c_int_five_half
  have hw : SI_HWC_WILEY ∉ half_year_offset_curves := by simp [half_year_offset_curves]
  have hB : index_to_height_bhage SI_HWC_WILEY (1 : ℚ) SI_AT_BREAST
      ((c_int (5 : ℚ) : ℚ) + 0.5) = 1 := by
    simp [index_to_height_bhage]
  have hin : index_to_height Extern.crude 0 SI_HWC_WILEY (10.1 : ℚ) SI_AT_BREAST 76.67 5.5 0
      = some (6292450167083163623 / 142538477714467500) := by
    rw [index_to_height_of_ge Extern.crude 0 SI_HWC_WILEY (10.1 : ℚ) SI_AT_BREAST 76.67 5.5 0
      (by norm_num), hc2, index_to_height_ages_breast, age_to_age_breast_total]
    simp only [age_offset_ref, if_neg hw]
    rw [if_neg (by norm_num), if_neg (by norm_num),
      index_to_height_switch_WILEY Extern.crude _ 0 SI_HWC_WILEY _ _ _ _ _ _ (Or.inl rfl)]
    norm_num [si2ht_WILEY]
  have hg := index_to_height_wiley_guard_value Extern.crude 0 SI_HWC_WILEY (Or.inl rfl)
    (1 : ℚ) SI_AT_BREAST 76.67 5 0
    (by
      rw [hc]
      simp only [index_to_height_tage, age_to_age_breast_total, age_offset_ref, if_neg hw]
      norm_num)
    (by rw [hB]; norm_num) (by rw [hB]; norm_num)
  obtain ⟨H, hH, ho⟩ := hg
  have hs : ((76.67 : ℚ) - 60) / 1.667 + 0.1 = 10.1 := by norm_num
  have h55 : ((c_int (5 : ℚ) : ℚ) + 0.5) = 5.5 := by rw [hc]; norm_num
  have hHv : H = 6292450167083163623 / 142538477714467500 := by
    have h0 := hH 0
    rw [hs, h55, hin] at h0
    exact (Option.some.inj h0).symm
  refine ⟨by norm_num, hs, hB, hin, ?_, by norm_num, by norm_num⟩
  rw [ho, hB, hs, hHv]
  norm_num

/-- C33, amended: high-site, low-age guard of the Wiley curves (`SI_HWC_WILEY`,
`SI_HWC_WILEY_BC`, `SI_HWC_WILEY_MB`).  Whenever the derived total age is at least
0.00001, the derived breast-height age `B` is positive and
`site_index > 60 + 1.667 * B`, the height `H` at the safe breast-height age
`a = (site_index - 60) / 1.667 + 0.1` is returned by the direct formula (with any
fuel), and `index_to_height` returns the interpolation between the height 1.37 at
the breast-height age 0 and `H` at the age `a`, that is
`1.37 + (H - 1.37) * B / a`; this is above `H * B / a`, since `B < a`. -/
theorem index_to_height_wiley_guard (M : Extern α) (fuel : ℕ) (cu : ℤ)
    (hcu : cu = SI_HWC_WILEY ∨ cu = SI_HWC_WILEY_BC ∨ cu = SI_HWC_WILEY_MB)
    (iage : α) (age_type : ℤ) (site_index y2bh pi : α)
    (hT : 0.00001 ≤ index_to_height_tage cu iage age_type ((c_int y2bh : α) + 0.5))
    (hB : 0 < index_to_height_bhage cu iage age_type ((c_int y2bh : α) + 0.5))
    (hs : site_index > 60 + 1.667 *
      index_to_height_bhage cu iage age_type ((c_int y2bh : α) + 0.5)) :
    ∃ H : α,
      (∀ fuel2 : ℕ, index_to_height M fuel2 cu ((site_index - 60) / 1.667 + 0.1)
        SI_AT_BREAST site_index ((c_int y2bh : α) + 0.5) pi = some H) ∧
      index_to_height M (fuel + 1) cu iage age_type site_index y2bh pi =
        some (1.37 + (H - 1.37) *
          index_to_height_bhage cu iage age_type ((c_int y2bh : α) + 0.5) /
            ((site_index - 60) / 1.667 + 0.1)) ∧
      index_to_height_bhage cu iage age_type ((c_int y2bh : α) + 0.5)
        < (site_index - 60) / 1.667 + 0.1 ∧
      H * index_to_height_bhage cu iage age_type ((c_int y2bh : α) + 0.5) /
          ((site_index - 60) / 1.667 + 0.1) <
        1.37 + (H - 1.37) *
          index_to_height_bhage cu iage age_type ((c_int y2bh : α) + 0.5) /
            ((site_index - 60) / 1.667 + 0.1) := by
  obtain ⟨H, hH, ho⟩ := index_to_height_wiley_guard_value M fuel cu hcu iage age_type
    site_index y2bh pi hT hB hs
  exact ⟨H, hH, ho, (wiley_interpolation_gap H _ site_index hB hs).1,
    (wiley_interpolation_gap H _ site_index hB hs).2⟩

/-- Witness of C33 (amended): `SI_HWC_WILEY_BC` at the breast-height age 2 with site
index 70 and `y2bh = 5`. -/
theorem index_to_height_wiley_guard_witness :
    (0.00001 : ℚ) ≤ index_to_height_tage SI_HWC_WILEY_BC (2 : ℚ) SI_AT_BREAST
      ((c_int (5 : ℚ) : ℚ) + 0.5) ∧
    (0 : ℚ) < index_to_height_bhage SI_HWC_WILEY_BC (2 : ℚ) SI_AT_BREAST
      ((c_int (5 : ℚ) : ℚ) + 0.5) ∧
    (70 : ℚ) > 60 + 1.667 * index_to_height_bhage SI_HWC_WILEY_BC (2 : ℚ) SI_AT_BREAST
      ((c_int (5 : ℚ) : ℚ) + 0.5) ∧
    ∃ H : ℚ,
      (∀ fuel2 : ℕ, index_to_height Extern.crude fuel2 SI_HWC_WILEY_BC
        (((70 : ℚ) - 60) / 1.667 + 0.1) SI_AT_BREAST 70 ((c_int (5 : ℚ) : ℚ) + 0.5) 0
          = some H) ∧
      index_to_height Extern.crude (0 + 1) SI_HWC_WILEY_BC (2 : ℚ) SI_AT_BREAST 70 5 0 =
        some (1.37 + (H - 1.37) *
          index_to_height_bhage SI_HWC_WILEY_BC (2 : ℚ) SI_AT_BREAST
            ((c_int (5 : ℚ) : ℚ) + 0.5) / (((70 : ℚ) - 60) / 1.667 + 0.1)) :=
  have hw : SI_HWC_WILEY_BC ∉ half_year_offset_curves := by simp [half_year_offset_curves]
  have hB : index_to_height_bhage SI_HWC_WILEY_BC (2 : ℚ) SI_AT_BREAST
      ((c_int (5 : ℚ) : ℚ) + 0.5) = 2 := by
    simp [index_to_height_bhage]
  have hT : (0.00001 : ℚ) ≤ index_to_height_tage SI_HWC_WILEY_BC (2 : ℚ) SI_AT_BREAST
      ((c_int (5 : ℚ) : ℚ) + 0.5) := by
    rw [c_int_five]
    simp only [index_to_height_tage, age_to_age_breast_total, age_offset_ref, if_neg hw]
    norm_num
  have h1 : (0 : ℚ) < index_to_height_bhage SI_HWC_WILEY_BC (2 : ℚ) SI_AT_BREAST
      ((c_int (5 : ℚ) : ℚ) + 0.5) := by rw [hB]; norm_num
  have h2 : (70 : ℚ) > 60 + 1.667 * index_to_height_bhage SI_HWC_WILEY_BC (2 : ℚ)
      SI_AT_BREAST ((c_int (5 : ℚ) : ℚ) + 0.5) := by rw [hB]; norm_num
  ⟨hT, h1, h2,
    (index_to_height_wiley_guard Extern.crude 0 SI_HWC_WILEY_BC (Or.inr (Or.inl rfl))
      (2 : ℚ) SI_AT_BREAST 70 5 0 hT h1 h2).imp fun _ h => ⟨h.1, h.2.1⟩⟩

end WileyGuard

section GoudieNighSplice

variable {α : Type} [LinearOrderedField α] [FloorRing α]

omit [FloorRing α] in
/-- The curve `SI_SW_GOUDNIGH` is dispatched to its arm of `index_to_height`. -/
theorem index_to_height_switch_sw_goudnigh (M : Extern α)
    (self : ℤ → α → ℤ → α → α → α → Option α) (fuel : ℕ) (tage bhage : α)
    (age_type : ℤ) (site_index y2bh pi : α) :
    index_to_height_switch M self fuel SI_SW_GOUDNIGH tage bhage age_type site_index y2bh pi
      = some (si2ht_SW_GOUDNIGH M tage bhage site_index y2bh) := by
  unfold index_to_height_switch
  simp

/-- `index_to_height` for `SI_SW_GOUDNIGH` and a total age of at least 0.00001: the
value of the arm at the breast-height age `max 0 (t - (Y - 0.5))`, with `Y` the
normalised `y2bh`. -/
theorem index_to_height_sw_goudnigh (M : Extern α) (fuel : ℕ) (t site_index y2bh pi : α)
    (hsi : 1.3 ≤ site_index) (ht : 0.00001 ≤ t) :
    index_to_height M fuel SI_SW_GOUDNIGH t SI_AT_TOTAL site_index y2bh pi
      = some (si2ht_SW_GOUDNIGH M t (max 0 (t - (((c_int y2bh : α) + 0.5) - 0.5))) site_index
          ((c_int y2bh : α) + 0.5)) := by
  have h0 : (0 : α) < 0.00001 := by norm_num
  have hh : SI_SW_GOUDNIGH ∈ half_year_offset_curves := by simp [half_year_offset_curves]
  rw [index_to_height_of_ge M fuel _ t SI_AT_TOTAL site_index y2bh pi hsi,
    index_to_height_ages_total, if_neg (not_lt.mpr (by linarith)),
    if_neg (not_lt.mpr ht), index_to_height_switch_sw_goudnigh, age_to_age_total_breast]
  unfold age_offset_ref
  rw [if_pos hh]

omit [FloorRing α] in
/-- The three branches of the arm of `SI_SW_GOUDNIGH` for a site index of at least
19.5. -/
theorem si2ht_SW_GOUDNIGH_branches (M : Extern α) (t b site_index Y : α)
    (hsi : 19.5 ≤ site_index) :
    (t < Y - 0.5 → si2ht_SW_GOUDNIGH M t b site_index Y = sw_goudnigh_nigh M t site_index) ∧
    (Y + 1.5 < t → si2ht_SW_GOUDNIGH M t b site_index Y = sw_goudnigh_goudie M b site_index) ∧
    (Y - 0.5 ≤ t → t ≤ Y + 1.5 → si2ht_SW_GOUDNIGH M t b site_index Y =
      sw_goudnigh_nigh M (Y - 0.5) site_index +
        (sw_goudnigh_goudie M 2 site_index - sw_goudnigh_nigh M (Y - 0.5) site_index) * b / 2) := by
  have h2 : Y + 2 - 0.5 = Y + 1.5 := by norm_num [add_sub_assoc]
  have h20 : (2.0 : α) = 2 := by norm_num
  refine ⟨fun h => ?_, fun h => ?_, fun h1 h3 => ?_⟩
  · unfold si2ht_SW_GOUDNIGH sw_goudnigh_nigh
    rw [if_neg (not_lt.mpr hsi), if_pos h]
  · have hn : ¬ t < Y - 0.5 := by
      have : (0 : α) < 0.5 := by norm_num
      exact not_lt.mpr (by linarith)
    unfold si2ht_SW_GOUDNIGH sw_goudnigh_goudie
    rw [if_neg (not_lt.mpr hsi), if_neg hn, h2, if_pos h]
  · unfold si2ht_SW_GOUDNIGH sw_goudnigh_goudie sw_goudnigh_nigh
    rw [if_neg (not_lt.mpr hsi), if_neg (not_lt.mpr h1), h2, if_neg (not_lt.mpr h3), h20]

/-- C32: the splice of `SI_SW_GOUDNIGH` for a site index of at least 19.5, a
normalised `y2bh` `Y = (int) y2bh + 0.5` of at least 1.5 and total age.  Below
`Y - 0.5` the height is Nigh's total-age curve, above `Y + 1.5` it is Goudie's curve
at the breast-height age `tage - Y + 0.5`, and for `Y - 0.5 ≤ tage ≤ Y + 1.5` it is
the linear interpolation `x4 + (x5 - x4) * bhage / 2` with
`bhage = tage - Y + 0.5`, `x4` Nigh's curve at `Y - 0.5` and `x5` Goudie's curve at
the breast-height age 2; the interpolant is `x4` at the lower threshold and `x5`,
the value of the Goudie branch at the breast-height age 2, at the upper
threshold. -/
theorem index_to_height_sw_goudnigh_splice (M : Extern α) (fuel : ℕ)
    (site_index y2bh pi : α) (hsi : 19.5 ≤ site_index)
    (hY : 1.5 ≤ (c_int y2bh : α) + 0.5) :
    (∀ t : α, 0.00001 ≤ t → t < (c_int y2bh : α) + 0.5 - 0.5 →
      index_to_height M fuel SI_SW_GOUDNIGH t SI_AT_TOTAL site_index y2bh pi
        = some (sw_goudnigh_nigh M t site_index)) ∧
    (∀ t : α, (c_int y2bh : α) + 0.5 + 1.5 < t →
      index_to_height M fuel SI_SW_GOUDNIGH t SI_AT_TOTAL site_index y2bh pi
        = some (sw_goudnigh_goudie M (t - ((c_int y2bh : α) + 0.5) + 0.5) site_index)) ∧
    (∀ t : α, (c_int y2bh : α) + 0.5 - 0.5 ≤ t → t ≤ (c_int y2bh : α) + 0.5 + 1.5 →
      index_to_height M fuel SI_SW_GOUDNIGH t SI_AT_TOTAL site_index y2bh pi
        = some (sw_goudnigh_nigh M ((c_int y2bh : α) + 0.5 - 0.5) site_index +
            (sw_goudnigh_goudie M 2 site_index
              - sw_goudnigh_nigh M ((c_int y2bh : α) + 0.5 - 0.5) site_index)
              * (t - ((c_int y2bh : α) + 0.5) + 0.5) / 2)) ∧
    index_to_height M fuel SI_SW_GOUDNIGH ((c_int y2bh : α) + 0.5 - 0.5) SI_AT_TOTAL
        site_index y2bh pi
      = some (sw_goudnigh_nigh M ((c_int y2bh : α) + 0.5 - 0.5) site_index) ∧
    index_to_height M fuel SI_SW_GOUDNIGH ((c_int y2bh : α) + 0.5 + 1.5) SI_AT_TOTAL
        site_index y2bh pi
      = some (sw_goudnigh_goudie M 2 site_index) := by
  generalize hYd : (c_int y2bh : α) + 0.5 = Y at *
  have h05 : (0 : α) < 0.5 := by norm_num
  have h15 : (1.5 : α) = 1 + 0.5 := by norm_num
  have h1 : (1.3 : α) ≤ 19.5 := by norm_num
  have h5 : (0.00001 : α) ≤ 1 := by norm_num
  have hsi2 : 1.3 ≤ site_index := le_trans h1 hsi
  have hlow : (1 : α) ≤ Y - 0.5 := by linarith
  have hentry : ∀ t : α, 0.00001 ≤ t →
      index_to_height M fuel SI_SW_GOUDNIGH t SI_AT_TOTAL site_index y2bh pi
        = some (si2ht_SW_GOUDNIGH M t (max 0 (t - (Y - 0.5))) site_index Y) := by
    intro t ht
    rw [index_to_height_sw_goudnigh M fuel t site_index y2bh pi hsi2 ht, hYd]
  have hmid : ∀ t : α, Y - 0.5 ≤ t → t ≤ Y + 1.5 →
      index_to_height M fuel SI_SW_GOUDNIGH t SI_AT_TOTAL site_index y2bh pi
        = some (sw_goudnigh_nigh M (Y - 0.5) site_index +
            (sw_goudnigh_goudie M 2 site_index - sw_goudnigh_nigh M (Y - 0.5) site_index)
              * (t - Y + 0.5) / 2) := by
    intro t ht1 ht2
    have hb : max 0 (t - (Y - 0.5)) = t - Y + 0.5 := by
      rw [max_eq_right (by linarith)]
      ring
    rw [hentry t (by linarith),
      (si2ht_SW_GOUDNIGH_branches M t _ site_index Y hsi).2.2 ht1 ht2, hb]
  refine ⟨fun t ht0 ht => ?_, fun t ht => ?_, hmid, ?_, ?_⟩
  · rw [hentry t ht0, (si2ht_SW_GOUDNIGH_branches M t _ site_index Y hsi).1 ht]
  · have hb : max 0 (t - (Y - 0.5)) = t - Y + 0.5 := by
      rw [max_eq_right (by linarith)]
      ring
    rw [hentry t (by linarith),
      (si2ht_SW_GOUDNIGH_branches M t _ site_index Y hsi).2.1 ht, hb]
  · rw [hmid (Y - 0.5) (le_refl _) (by linarith)]
    have : Y - 0.5 - Y + 0.5 = (0 : α) := by ring
    rw [this, mul_zero, zero_div, add_zero]
  · rw [hmid (Y + 1.5) (by linarith) (le_refl _)]
    have : Y + 1.5 - Y + 0.5 = (2 : α) := by
      rw [h15]
      ring
    rw [this, mul_div_cancel_right₀ _ (two_ne_zero), add_sub_cancel]

/-- Witness of C32: site index 20 and `y2bh = 5` (normalised 5.5), with the crude
rational functions: at the total age 6 the height is the interpolant at the
breast-height age 1. -/
theorem index_to_height_sw_goudnigh_splice_witness :
    (19.5 : ℚ) ≤ 20 ∧ (1.5 : ℚ) ≤ (c_int (5 : ℚ) : ℚ) + 0.5 ∧
    index_to_height Extern.crude 0 SI_SW_GOUDNIGH ((c_int (5 : ℚ) : ℚ) + 0.5 + 1.5)
        SI_AT_TOTAL 20 5 0
      = some (sw_goudnigh_goudie Extern.crude 2 20) :=
  have hY : (1.5 : ℚ) ≤ (c_int (5 : ℚ) : ℚ) + 0.5 := by
    rw [c_int_five]
    norm_num
  ⟨by norm_num, hY,
    (index_to_height_sw_goudnigh_splice Extern.crude 0 20 5 0 (by norm_num) hY).2.2.2.2⟩

end GoudieNighSplice

section IterateTermination

variable {α : Type} [LinearOrderedField α]

end IterateTermination

section IterateLoop

variable {α : Type} [LinearOrderedField α] [FloorRing α]

end IterateLoop

section LoopFree

variable {α : Type} [LinearOrderedField α] [FloorRing α]

end LoopFree

section NestedLoops

variable {α : Type} [LinearOrderedField α]

end NestedLoops

section HuGarciaLoop

variable {α : Type} [LinearOrderedField α]

end HuGarciaLoop

section HuGarciaBounds

end HuGarciaBounds

section Termination

variable {α : Type} [LinearOrderedField α] [FloorRing α]

end Termination

section TerminationReal

end TerminationReal

end SIndex
